import Mathlib

/-!
PSA Crypto examples for LP_EM_CC35X1: embedding and verification

The four examples `psaAeadEncrypt.c`, `psaRawKeyAgreement.c`, `psaKeyDerivation.c`
and `psaSignVerify.c` drive a PSA Crypto provider through a fixed sequence of calls.
The provider itself (mbedTLS / HSM driver) is not part of the sources, so it is a
parameter of every embedded function: a deterministic machine with a hidden state
`σ` that answers each call with a status and the values it stores through the
call's output pointers.  Every call is appended to a log, every `Display_printf`
line to a second log, so that properties about the order of calls and about what
was counted can be stated on the result of a run.

Conventions of the embedding

* bytes (`uint8_t`) are natural numbers; arrays are lists carrying their declared
  size (missing initialisers are zero, as in C);
* an output parameter holds, after the call, the value the provider answered;
* a provider writes its output bytes from the output pointer on, at most
  `output_size` of them; bytes that would fall beyond the end of the local array
  are not represented;
* `passCnt` is an unbounded integer; the range theorems show it stays within
  `-128 .. 127` (in `psaSignVerify.c` for tables of at most six vectors; the shipped
  table has one), so no width of `int_fast8_t` / `uint_fast8_t` can make it wrap;
* `size_t` is 32 bits wide (Cortex-M33).
-/

namespace Psa

/-! ## Values fixed by the PSA Certified Crypto API (`psa/crypto.h`, not among the sources) -/

abbrev psa_status_t := Int
abbrev psa_key_id_t := Nat
abbrev psa_key_lifetime_t := Nat
abbrev psa_algorithm_t := Nat

def PSA_SUCCESS : psa_status_t := 0
def PSA_ERROR_GENERIC_ERROR : psa_status_t := -132
def PSA_ERROR_NOT_SUPPORTED : psa_status_t := -134
def PSA_ERROR_ALREADY_EXISTS : psa_status_t := -139
def PSA_ERROR_DOES_NOT_EXIST : psa_status_t := -140
def PSA_ERROR_INVALID_SIGNATURE : psa_status_t := -149

def PSA_KEY_ID_USER_MIN : psa_key_id_t := 0x00000001
def PSA_KEY_ID_USER_MAX : psa_key_id_t := 0x3fffffff

def PSA_KEY_PERSISTENCE_VOLATILE : Nat := 0x00
def PSA_KEY_PERSISTENCE_DEFAULT : Nat := 0x01
def PSA_KEY_LOCATION_LOCAL_STORAGE : Nat := 0x000000

/-- The macro `((location) << 8 | (persistence))`. -/
def PSA_KEY_LIFETIME_FROM_PERSISTENCE_AND_LOCATION (persistence location : Nat) : psa_key_lifetime_t :=
  (location <<< 8) ||| persistence

/-- The macro `((psa_key_persistence_t)((lifetime) & 0x000000ff))`. -/
def PSA_KEY_LIFETIME_GET_PERSISTENCE (lifetime : psa_key_lifetime_t) : Nat :=
  lifetime &&& 0x000000ff

/-- The macro `((psa_key_location_t)((lifetime) >> 8))`. -/
def PSA_KEY_LIFETIME_GET_LOCATION (lifetime : psa_key_lifetime_t) : Nat :=
  lifetime >>> 8

def PSA_BYTES_TO_BITS (bytes : Nat) : Nat := bytes * 8
def PSA_BITS_TO_BYTES (bits : Nat) : Nat := (bits + 7) / 8

def PSA_KEY_TYPE_AES : Nat := 0x2400
def PSA_ECC_FAMILY_SECP_R1 : Nat := 0x12
def PSA_KEY_TYPE_ECC_KEY_PAIR (curve : Nat) : Nat := 0x7100 ||| curve
def PSA_KEY_TYPE_ECC_PUBLIC_KEY (curve : Nat) : Nat := 0x4100 ||| curve

def PSA_KEY_USAGE_ENCRYPT : Nat := 0x00000100
def PSA_KEY_USAGE_DECRYPT : Nat := 0x00000200
def PSA_KEY_USAGE_SIGN_MESSAGE : Nat := 0x00000400
def PSA_KEY_USAGE_VERIFY_MESSAGE : Nat := 0x00000800
def PSA_KEY_USAGE_SIGN_HASH : Nat := 0x00001000
def PSA_KEY_USAGE_VERIFY_HASH : Nat := 0x00002000
def PSA_KEY_USAGE_DERIVE : Nat := 0x00004000

def PSA_ALG_HASH_MASK : psa_algorithm_t := 0x000000ff
def PSA_ALG_SHA_256 : psa_algorithm_t := 0x02000009
def PSA_ALG_CCM : psa_algorithm_t := 0x05500100
def PSA_ALG_ECB_NO_PADDING : psa_algorithm_t := 0x04404400
def PSA_ALG_ECDH : psa_algorithm_t := 0x09020000
def PSA_ALG_PURE_EDDSA : psa_algorithm_t := 0x06000800
def PSA_ALG_SP800_108_COUNTER_CMAC : psa_algorithm_t := 0x08000800

/-- The macro `PSA_ALG_ECDSA(hash_alg)`. -/
def PSA_ALG_ECDSA (hash_alg : psa_algorithm_t) : psa_algorithm_t :=
  0x06000600 ||| (hash_alg &&& PSA_ALG_HASH_MASK)

/-- The macro `PSA_ALG_AEAD_WITH_SHORTENED_TAG(aead_alg, tag_length)`:
`((aead_alg) & ~(TAG_LENGTH_MASK | AT_LEAST_THIS_LENGTH_FLAG)) | ((tag_length) << 16 & TAG_LENGTH_MASK)`
on 32-bit values. -/
def PSA_ALG_AEAD_WITH_SHORTENED_TAG (aead_alg tag_length : Nat) : psa_algorithm_t :=
  (aead_alg &&& (0xffffffff ^^^ (0x003f0000 ||| 0x00008000)))
    ||| ((tag_length <<< 16) &&& 0x003f0000)

def PSA_KEY_DERIVATION_INPUT_SECRET : Nat := 0x0101
def PSA_KEY_DERIVATION_INPUT_LABEL : Nat := 0x0201
def PSA_KEY_DERIVATION_INPUT_CONTEXT : Nat := 0x0206

/-- The macro `PSA_KEY_EXPORT_ECC_PUBLIC_KEY_MAX_SIZE(key_bits)`. -/
def PSA_KEY_EXPORT_ECC_PUBLIC_KEY_MAX_SIZE (key_bits : Nat) : Nat :=
  2 * PSA_BITS_TO_BYTES key_bits + 1

/-- The macro `PSA_EXPORT_KEY_OUTPUT_SIZE(key_type, key_bits)` on its branches
for ECC key pairs and ECC public keys, the only key types of `psaSignVerify.c`;
the macro's last branch, `0u`, stands for every other type. -/
def PSA_EXPORT_KEY_OUTPUT_SIZE (key_type key_bits : Nat) : Nat :=
  if key_type / 256 * 256 = 0x7100 then PSA_BITS_TO_BYTES key_bits
  else if key_type / 256 * 256 = 0x4100 then PSA_KEY_EXPORT_ECC_PUBLIC_KEY_MAX_SIZE key_bits
  else 0

/-- The macro `PSA_ALG_SIGN_GET_HASH(alg)`: the hash of a hash-and-sign
algorithm (RSA PKCS#1 v1.5, RSA PSS, ECDSA, deterministic ECDSA, hash EdDSA), else 0. -/
def PSA_ALG_SIGN_GET_HASH (alg : psa_algorithm_t) : psa_algorithm_t :=
  if alg / 256 * 256 ∈ [0x06000200, 0x06000300, 0x06001300, 0x06000600, 0x06000700, 0x06000900] then
    if alg &&& PSA_ALG_HASH_MASK = 0 then 0 else (alg &&& PSA_ALG_HASH_MASK) ||| 0x02000000
  else 0

/-- The macro `PSA_HASH_LENGTH(alg)`. -/
def PSA_HASH_LENGTH (alg : psa_algorithm_t) : Nat :=
  if alg = 0x02000003 then 16 else if alg = 0x02000004 then 20 else if alg = 0x02000005 then 20
  else if alg = 0x02000008 then 28 else if alg = 0x02000009 then 32 else if alg = 0x0200000a then 48
  else if alg = 0x0200000b then 64 else if alg = 0x0200000c then 28 else if alg = 0x0200000d then 32
  else if alg = 0x02000010 then 28 else if alg = 0x02000011 then 32 else if alg = 0x02000012 then 48
  else if alg = 0x02000013 then 64 else 0

/-- Vendor values of the TI headers (`HSMXXF3.h` and the TI additions to
`psa/crypto.h`), which are not among the sources: they are parameters. -/
structure HsmValues where
  PSA_KEY_PERSISTENCE_HSM_ASSET_STORE : Nat
  PSA_KEY_LOCATION_HSM_ASSET_STORE : Nat
  PSA_KEY_ID_HSM_HUK : psa_key_id_t
  PSA_KEY_ID_HSM_TKDK : psa_key_id_t
deriving DecidableEq, Repr

/-- The type `psa_key_attributes_t`, with the fields the setters of the examples write. -/
structure psa_key_attributes_t where
  id : psa_key_id_t
  lifetime : psa_key_lifetime_t
  alg : psa_algorithm_t
  key_type : Nat
  bits : Nat
  usage : Nat
deriving DecidableEq, Repr

def PSA_KEY_ATTRIBUTES_INIT : psa_key_attributes_t :=
  { id := 0, lifetime := 0, alg := 0, key_type := 0, bits := 0, usage := 0 }

/-! ## The provider and the observable world -/

/-- Answer of a call with one output buffer: status, the bytes written from the
output pointer on, and the value stored through the length pointer. -/
structure Output where
  status : psa_status_t
  out : List Nat
  length : Nat
deriving DecidableEq, Repr

/-- A PSA Crypto provider: each function maps the arguments of the call and the
provider's hidden state to the answer and the next hidden state.  The key
derivation operation object is part of the hidden state. -/
structure Provider (σ : Type) where
  psa_destroy_key : psa_key_id_t → σ → psa_status_t × σ
  psa_import_key : psa_key_attributes_t → List Nat → σ → (psa_status_t × psa_key_id_t) × σ
  psa_get_key_attributes : psa_key_id_t → σ → (psa_status_t × psa_key_attributes_t) × σ
  psa_aead_encrypt : psa_key_id_t → psa_algorithm_t → List Nat → List Nat → List Nat → Nat → σ → Output × σ
  psa_raw_key_agreement : psa_algorithm_t → psa_key_id_t → List Nat → Nat → σ → Output × σ
  psa_cipher_encrypt : psa_key_id_t → psa_algorithm_t → List Nat → Nat → σ → Output × σ
  psa_cipher_decrypt : psa_key_id_t → psa_algorithm_t → List Nat → Nat → σ → Output × σ
  psa_key_derivation_setup : psa_algorithm_t → σ → psa_status_t × σ
  psa_key_derivation_input_key : Nat → psa_key_id_t → σ → psa_status_t × σ
  psa_key_derivation_input_bytes : Nat → List Nat → σ → psa_status_t × σ
  psa_key_derivation_get_capacity : σ → (psa_status_t × Nat) × σ
  psa_key_derivation_set_capacity : Nat → σ → psa_status_t × σ
  psa_key_derivation_output_key : psa_key_attributes_t → σ → (psa_status_t × psa_key_id_t) × σ
  psa_export_public_key : psa_key_id_t → Nat → σ → Output × σ
  psa_sign_message : psa_key_id_t → psa_algorithm_t → List Nat → Nat → σ → Output × σ
  psa_sign_hash : psa_key_id_t → psa_algorithm_t → List Nat → Nat → σ → Output × σ
  psa_verify_message : psa_key_id_t → psa_algorithm_t → List Nat → List Nat → σ → psa_status_t × σ
  psa_verify_hash : psa_key_id_t → psa_algorithm_t → List Nat → List Nat → σ → psa_status_t × σ

/-- One provider call as it was made: the arguments, then the answer. -/
inductive Call where
  | destroy_key (key : psa_key_id_t) (status : psa_status_t)
  | import_key (attributes : psa_key_attributes_t) (data : List Nat)
      (status : psa_status_t) (key : psa_key_id_t)
  | get_key_attributes (key : psa_key_id_t) (status : psa_status_t)
  | aead_encrypt (key : psa_key_id_t) (alg : psa_algorithm_t) (nonce aad plaintext : List Nat)
      (ciphertext_size : Nat) (answer : Output)
  | raw_key_agreement (alg : psa_algorithm_t) (key : psa_key_id_t) (peer_key : List Nat)
      (output_size : Nat) (answer : Output)
  | cipher_encrypt (key : psa_key_id_t) (alg : psa_algorithm_t) (input : List Nat)
      (output_size : Nat) (answer : Output)
  | cipher_decrypt (key : psa_key_id_t) (alg : psa_algorithm_t) (input : List Nat)
      (output_size : Nat) (answer : Output)
  | key_derivation_setup (alg : psa_algorithm_t) (status : psa_status_t)
  | key_derivation_input_key (step : Nat) (key : psa_key_id_t) (status : psa_status_t)
  | key_derivation_input_bytes (step : Nat) (data : List Nat) (status : psa_status_t)
  | key_derivation_get_capacity (status : psa_status_t) (capacity : Nat)
  | key_derivation_set_capacity (capacity : Nat) (status : psa_status_t)
  | key_derivation_output_key (attributes : psa_key_attributes_t)
      (status : psa_status_t) (key : psa_key_id_t)
  | export_public_key (key : psa_key_id_t) (data_size : Nat) (answer : Output)
  | sign_message (key : psa_key_id_t) (alg : psa_algorithm_t) (input : List Nat)
      (signature_size : Nat) (answer : Output)
  | sign_hash (key : psa_key_id_t) (alg : psa_algorithm_t) (hash : List Nat)
      (signature_size : Nat) (answer : Output)
  | verify_message (key : psa_key_id_t) (alg : psa_algorithm_t) (input signature : List Nat)
      (status : psa_status_t)
  | verify_hash (key : psa_key_id_t) (alg : psa_algorithm_t) (hash signature : List Nat)
      (status : psa_status_t)
deriving DecidableEq, Repr

/-- One `Display_printf` line: the format string and the variadic arguments. -/
structure Line where
  fmt : String
  args : List Int
deriving DecidableEq, Repr

/-- Everything a run of an example can change: the provider's hidden state, the
log of provider calls, the lines sent to the display, LED1, the pass counter
(a local of the worker thread in three examples, a global in `psaSignVerify.c`)
and the global `sign_output` buffer of `psaSignVerify.c`. -/
structure World (σ : Type) where
  prov : σ
  calls : List Call
  display : List Line
  led1 : Bool
  passCnt : Int
  sign_output : List Nat

/-- State in which a worker thread starts: nothing logged, LED1 off, `passCnt = 0`
and the zero-initialised global `sign_output[SIGNATURE_SIZE]`. -/
def World.start {σ : Type} (s : σ) : World σ :=
  { prov := s, calls := [], display := [], led1 := false, passCnt := 0,
    sign_output := List.replicate 133 0 }

/-- `Display_printf(display, 0U, 0U, fmt, args...)`. -/
def Display_printf {σ : Type} (w : World σ) (fmt : String) (args : List Int) : World σ :=
  { w with display := w.display ++ [{ fmt := fmt, args := args }] }

/-- Conversion of an integer to `size_t`, as the usual arithmetic conversions do
before a comparison with a `size_t` operand. -/
def toSizeT (x : Int) : Nat := (x % (2 ^ 32 : Int)).toNat

/-- `memset(buf, 0, n)` on a fresh view of an `n`-byte array. -/
def zeroed (n : Nat) : List Nat := List.replicate n 0

/-- An array of declared size `n` with the given initialisers; the rest is zero. -/
def arrayInit (n : Nat) (init : List Nat) : List Nat :=
  init ++ List.replicate (n - init.length) 0

/-- Bytes `len` long read from `array + offset`. -/
def readBytes (array : List Nat) (offset len : Nat) : List Nat :=
  (List.range len).map (fun k => array.getD (offset + k) 0)

/-- Buffer after a provider wrote `out` from `buf + offset` on. -/
def writeAt (buf : List Nat) (offset : Nat) (out : List Nat) : List Nat :=
  (List.range buf.length).map
    (fun k => if offset ≤ k ∧ k - offset < out.length then out.getD (k - offset) 0 else buf.getD k 0)

/-- First index in `start, start+1, ..., start+n-1` where `mismatch` holds: the
index at which a comparison loop with `break` stops, if it stops early. -/
def firstMismatch (mismatch : Nat → Bool) : Nat → Nat → Option Nat
  | _, 0 => none
  | start, n + 1 => if mismatch start then some start else firstMismatch mismatch (start + 1) n

def hexDigit (d : Nat) : String :=
  String.singleton ("0123456789ABCDEF".toList.getD d '?')

/-- Result of `sprintf(dest, "%02X", b)` for a byte. -/
def hex2 (b : Nat) : String := hexDigit (b / 16 % 16) ++ hexDigit (b % 16)

/-- Content of `msgBuf` when `printByteArray` hands it to `Display_printf`: the
description followed by two hex digits per byte. -/
def hexLine (desc : String) (bytes : List Nat) : String :=
  desc ++ String.join (bytes.map hex2)

/-! ### Provider calls on a world: perform the call, log it -/

def psa_destroy_key {σ : Type} (P : Provider σ) (key : psa_key_id_t) (w : World σ) :
    psa_status_t × World σ :=
  let r := P.psa_destroy_key key w.prov
  (r.1, { w with prov := r.2, calls := w.calls ++ [Call.destroy_key key r.1] })

def psa_import_key {σ : Type} (P : Provider σ) (attributes : psa_key_attributes_t)
    (data : List Nat) (w : World σ) : (psa_status_t × psa_key_id_t) × World σ :=
  let r := P.psa_import_key attributes data w.prov
  (r.1, { w with prov := r.2, calls := w.calls ++ [Call.import_key attributes data r.1.1 r.1.2] })

def psa_get_key_attributes {σ : Type} (P : Provider σ) (key : psa_key_id_t) (w : World σ) :
    (psa_status_t × psa_key_attributes_t) × World σ :=
  let r := P.psa_get_key_attributes key w.prov
  (r.1, { w with prov := r.2, calls := w.calls ++ [Call.get_key_attributes key r.1.1] })

def psa_aead_encrypt {σ : Type} (P : Provider σ) (key : psa_key_id_t) (alg : psa_algorithm_t)
    (nonce aad plaintext : List Nat) (ciphertext_size : Nat) (w : World σ) : Output × World σ :=
  let r := P.psa_aead_encrypt key alg nonce aad plaintext ciphertext_size w.prov
  (r.1, { w with prov := r.2,
                 calls := w.calls ++ [Call.aead_encrypt key alg nonce aad plaintext ciphertext_size r.1] })

def psa_raw_key_agreement {σ : Type} (P : Provider σ) (alg : psa_algorithm_t) (key : psa_key_id_t)
    (peer_key : List Nat) (output_size : Nat) (w : World σ) : Output × World σ :=
  let r := P.psa_raw_key_agreement alg key peer_key output_size w.prov
  (r.1, { w with prov := r.2,
                 calls := w.calls ++ [Call.raw_key_agreement alg key peer_key output_size r.1] })

def psa_cipher_encrypt {σ : Type} (P : Provider σ) (key : psa_key_id_t) (alg : psa_algorithm_t)
    (input : List Nat) (output_size : Nat) (w : World σ) : Output × World σ :=
  let r := P.psa_cipher_encrypt key alg input output_size w.prov
  (r.1, { w with prov := r.2, calls := w.calls ++ [Call.cipher_encrypt key alg input output_size r.1] })

def psa_cipher_decrypt {σ : Type} (P : Provider σ) (key : psa_key_id_t) (alg : psa_algorithm_t)
    (input : List Nat) (output_size : Nat) (w : World σ) : Output × World σ :=
  let r := P.psa_cipher_decrypt key alg input output_size w.prov
  (r.1, { w with prov := r.2, calls := w.calls ++ [Call.cipher_decrypt key alg input output_size r.1] })

def psa_key_derivation_setup {σ : Type} (P : Provider σ) (alg : psa_algorithm_t) (w : World σ) :
    psa_status_t × World σ :=
  let r := P.psa_key_derivation_setup alg w.prov
  (r.1, { w with prov := r.2, calls := w.calls ++ [Call.key_derivation_setup alg r.1] })

def psa_key_derivation_input_key {σ : Type} (P : Provider σ) (step : Nat) (key : psa_key_id_t)
    (w : World σ) : psa_status_t × World σ :=
  let r := P.psa_key_derivation_input_key step key w.prov
  (r.1, { w with prov := r.2, calls := w.calls ++ [Call.key_derivation_input_key step key r.1] })

def psa_key_derivation_input_bytes {σ : Type} (P : Provider σ) (step : Nat) (data : List Nat)
    (w : World σ) : psa_status_t × World σ :=
  let r := P.psa_key_derivation_input_bytes step data w.prov
  (r.1, { w with prov := r.2, calls := w.calls ++ [Call.key_derivation_input_bytes step data r.1] })

def psa_key_derivation_get_capacity {σ : Type} (P : Provider σ) (w : World σ) :
    (psa_status_t × Nat) × World σ :=
  let r := P.psa_key_derivation_get_capacity w.prov
  (r.1, { w with prov := r.2, calls := w.calls ++ [Call.key_derivation_get_capacity r.1.1 r.1.2] })

def psa_key_derivation_set_capacity {σ : Type} (P : Provider σ) (capacity : Nat) (w : World σ) :
    psa_status_t × World σ :=
  let r := P.psa_key_derivation_set_capacity capacity w.prov
  (r.1, { w with prov := r.2, calls := w.calls ++ [Call.key_derivation_set_capacity capacity r.1] })

def psa_key_derivation_output_key {σ : Type} (P : Provider σ) (attributes : psa_key_attributes_t)
    (w : World σ) : (psa_status_t × psa_key_id_t) × World σ :=
  let r := P.psa_key_derivation_output_key attributes w.prov
  (r.1, { w with prov := r.2,
                 calls := w.calls ++ [Call.key_derivation_output_key attributes r.1.1 r.1.2] })

def psa_export_public_key {σ : Type} (P : Provider σ) (key : psa_key_id_t) (data_size : Nat)
    (w : World σ) : Output × World σ :=
  let r := P.psa_export_public_key key data_size w.prov
  (r.1, { w with prov := r.2, calls := w.calls ++ [Call.export_public_key key data_size r.1] })

def psa_sign_message {σ : Type} (P : Provider σ) (key : psa_key_id_t) (alg : psa_algorithm_t)
    (input : List Nat) (signature_size : Nat) (w : World σ) : Output × World σ :=
  let r := P.psa_sign_message key alg input signature_size w.prov
  (r.1, { w with prov := r.2, calls := w.calls ++ [Call.sign_message key alg input signature_size r.1] })

def psa_sign_hash {σ : Type} (P : Provider σ) (key : psa_key_id_t) (alg : psa_algorithm_t)
    (hash : List Nat) (signature_size : Nat) (w : World σ) : Output × World σ :=
  let r := P.psa_sign_hash key alg hash signature_size w.prov
  (r.1, { w with prov := r.2, calls := w.calls ++ [Call.sign_hash key alg hash signature_size r.1] })

def psa_verify_message {σ : Type} (P : Provider σ) (key : psa_key_id_t) (alg : psa_algorithm_t)
    (input signature : List Nat) (w : World σ) : psa_status_t × World σ :=
  let r := P.psa_verify_message key alg input signature w.prov
  (r.1, { w with prov := r.2, calls := w.calls ++ [Call.verify_message key alg input signature r.1] })

def psa_verify_hash {σ : Type} (P : Provider σ) (key : psa_key_id_t) (alg : psa_algorithm_t)
    (hash signature : List Nat) (w : World σ) : psa_status_t × World σ :=
  let r := P.psa_verify_hash key alg hash signature w.prov
  (r.1, { w with prov := r.2, calls := w.calls ++ [Call.verify_hash key alg hash signature r.1] })

/-! ## psaAeadEncrypt.c -/

namespace psaAeadEncrypt

/-- The array `lifetimes[]` on a CC35XX build (the `#if` branch is taken). -/
def lifetimes (c : HsmValues) : List psa_key_lifetime_t :=
  [ PSA_KEY_LIFETIME_FROM_PERSISTENCE_AND_LOCATION PSA_KEY_PERSISTENCE_VOLATILE PSA_KEY_LOCATION_LOCAL_STORAGE,
    PSA_KEY_LIFETIME_FROM_PERSISTENCE_AND_LOCATION PSA_KEY_PERSISTENCE_DEFAULT PSA_KEY_LOCATION_LOCAL_STORAGE,
    PSA_KEY_LIFETIME_FROM_PERSISTENCE_AND_LOCATION PSA_KEY_PERSISTENCE_VOLATILE c.PSA_KEY_LOCATION_HSM_ASSET_STORE,
    PSA_KEY_LIFETIME_FROM_PERSISTENCE_AND_LOCATION PSA_KEY_PERSISTENCE_DEFAULT c.PSA_KEY_LOCATION_HSM_ASSET_STORE,
    PSA_KEY_LIFETIME_FROM_PERSISTENCE_AND_LOCATION c.PSA_KEY_PERSISTENCE_HSM_ASSET_STORE
      c.PSA_KEY_LOCATION_HSM_ASSET_STORE ]

/-- The constant `sizeof(lifetimes) / sizeof(psa_key_lifetime_t)`. -/
def lifetimeCnt : Nat := 5

def MAX_PLAINTEXT_LENGTH : Nat := 32
def MAX_MAC_LENGTH : Nat := 16

structure AEADTestVector where
  key : List Nat
  keyLength : Nat
  aad : List Nat
  aadLength : Nat
  plaintext : List Nat
  plaintextLength : Nat
  nonce : List Nat
  nonceLength : Nat
  expectedMac : List Nat
  macLength : Nat
  expectedCiphertext : List Nat
  alg : psa_algorithm_t

/-- Test vector 180 from NIST CAVP DVPT 128, as initialised in the source. -/
def testVector : AEADTestVector where
  key := arrayInit 32
    [0xf9, 0xfd, 0xca, 0x4a, 0xc6, 0x4f, 0xe7, 0xf0, 0x14, 0xde, 0x0f, 0x43, 0x03, 0x9c, 0x75, 0x71]
  keyLength := 16
  aad := arrayInit 64
    [0x37, 0x96, 0xcf, 0x51, 0xb8, 0x72, 0x66, 0x52, 0xa4, 0x20, 0x47, 0x33, 0xb8, 0xfb, 0xb0, 0x47,
     0xcf, 0x00, 0xfb, 0x91, 0xa9, 0x83, 0x7e, 0x22, 0xec, 0x22, 0xb1, 0xa2, 0x68, 0xf8, 0x8e, 0x2c]
  aadLength := 32
  plaintext := arrayInit MAX_PLAINTEXT_LENGTH
    [0xa2, 0x65, 0x48, 0x0c, 0xa8, 0x8d, 0x5f, 0x53, 0x6d, 0xb0, 0xdc, 0x6a,
     0xbc, 0x40, 0xfa, 0xf0, 0xd0, 0x5b, 0xe7, 0xa9, 0x66, 0x97, 0x77, 0x68]
  plaintextLength := 24
  nonce := arrayInit 16 [0x5a, 0x8a, 0xa4, 0x85, 0xc3, 0x16, 0xe9]
  nonceLength := 7
  expectedMac := arrayInit MAX_MAC_LENGTH [0x38, 0xf1, 0x25, 0xfa]
  macLength := 4
  expectedCiphertext := arrayInit (MAX_PLAINTEXT_LENGTH + 1)
    [0x00, 0x6b, 0xe3, 0x18, 0x60, 0xca, 0x27, 0x1e, 0xf4, 0x48, 0xde, 0x8f, 0x8d,
     0x8b, 0x39, 0x34, 0x6d, 0xaf, 0x4b, 0x81, 0xd7, 0xe9, 0x2d, 0x65, 0xb3]
  alg := PSA_ALG_AEAD_WITH_SHORTENED_TAG PSA_ALG_CCM 4

/-- The function `printByteArray`: `msgBuf` receives the description and two hex
digits for each of the `len` bytes at `array + offset`, and is printed. -/
def printByteArray {σ : Type} (desc : String) (array : List Nat) (offset len : Nat)
    (w : World σ) : World σ :=
  Display_printf w (hexLine desc (readBytes array offset len)) []

/-- The function `printKeyLifetime`. -/
def printKeyLifetime {σ : Type} (c : HsmValues) (lifetime : psa_key_lifetime_t)
    (w : World σ) : World σ :=
  let persistence := PSA_KEY_LIFETIME_GET_PERSISTENCE lifetime
  let location := PSA_KEY_LIFETIME_GET_LOCATION lifetime
  let msg := "Key persistence/location: "
  let msg :=
    if persistence = PSA_KEY_PERSISTENCE_VOLATILE then msg ++ "[Volatile / "
    else if persistence = PSA_KEY_PERSISTENCE_DEFAULT then msg ++ "[Default / "
    else if persistence = c.PSA_KEY_PERSISTENCE_HSM_ASSET_STORE then msg ++ "[HSM Asset Store / "
    else msg
  let msg :=
    if location = PSA_KEY_LOCATION_LOCAL_STORAGE then msg ++ "Local Storage]"
    else if location = c.PSA_KEY_LOCATION_HSM_ASSET_STORE then msg ++ "HSM Asset Store]"
    else msg
  Display_printf w msg []

/-- The constant `sizeof(ciphertext)` for `uint8_t ciphertext[MAX_PLAINTEXT_LENGTH + MAX_MAC_LENGTH + 1]`. -/
def sizeof_ciphertext : Nat := MAX_PLAINTEXT_LENGTH + MAX_MAC_LENGTH + 1

/-- Lines 298-314 of `encryptThread`: index at which the ciphertext loop breaks. -/
def ciphertextMismatch (ciphertext : List Nat) : Option Nat :=
  firstMismatch (fun index => ciphertext.getD index 0 != testVector.expectedCiphertext.getD index 0)
    1 ((testVector.plaintextLength + 1) - 1)

/-- Lines 318-335 of `encryptThread`: index at which the MAC loop breaks. -/
def macMismatch (ciphertext : List Nat) : Option Nat :=
  firstMismatch
    (fun index => ciphertext.getD (testVector.plaintextLength + index + 1) 0
                    != testVector.expectedMac.getD index 0)
    0 (testVector.macLength + 1)

/-- Lines 294-347 of `encryptThread`: what follows the `psa_aead_encrypt` call,
up to and including the `passCnt++`.  `ciphertext` is the local array after the call. -/
def encryptThread_verify {σ : Type} (r : Output) (ciphertext : List Nat) (w : World σ) : World σ :=
  if r.status = PSA_SUCCESS then
    let w := printByteArray "Ciphertext: 0x" ciphertext 0 r.length w
    /- Verify ciphertext output matches expected -/
    let (status, w) :=
      match ciphertextMismatch ciphertext with
      | some index =>
        (PSA_ERROR_GENERIC_ERROR,
         Display_printf w "Error: ciphertext[%d] = 0x%02x does not match expected 0x%02x\n"
           [index, ciphertext.getD index 0, testVector.expectedCiphertext.getD index 0])
      | none => (r.status, w)
    let (status, w) :=
      if status = PSA_SUCCESS then
        /- Verify MAC is correct -/
        match macMismatch ciphertext with
        | some index =>
          (PSA_ERROR_INVALID_SIGNATURE,
           Display_printf w "Error: MAC[%d] = 0x%02x does not match expected 0x%02x\n"
             [index, ciphertext.getD (testVector.plaintextLength + index) 0,
              testVector.expectedMac.getD index 0])
        | none => (status, w)
      else (status, w)
    if status = PSA_SUCCESS then
      Display_printf { w with passCnt := w.passCnt + 1 } "PASSED!\n" []
    else w
  else
    Display_printf w "Error: psa_aead_encrypt() failed. Status = %d\n" [r.status]

/-- Lines 213-249 of `encryptThread`: iteration `i` of the loop up to and
including the `psa_import_key` call; its status, the key ID and the world after it. -/
def encryptThread_import {σ : Type} (c : HsmValues) (P : Provider σ) (i : Nat) (w : World σ) :
    (psa_status_t × psa_key_id_t) × World σ :=
  let lifetime := (lifetimes c).getD i 0
  /- Init key attributes -/
  let attributes : psa_key_attributes_t :=
    { PSA_KEY_ATTRIBUTES_INIT with
      alg := testVector.alg, key_type := PSA_KEY_TYPE_AES,
      bits := PSA_BYTES_TO_BITS testVector.keyLength, usage := PSA_KEY_USAGE_ENCRYPT,
      lifetime := lifetime }
  let nonVolatile : Bool := PSA_KEY_LIFETIME_GET_PERSISTENCE lifetime != PSA_KEY_PERSISTENCE_VOLATILE
  /- Set the key ID for non-volatile keys -/
  let attributes := if nonVolatile then { attributes with id := PSA_KEY_ID_USER_MIN + i } else attributes
  /- Attempt to delete the key -/
  let w :=
    if nonVolatile then
      let d := psa_destroy_key P (PSA_KEY_ID_USER_MIN + i) w
      if d.1 = PSA_SUCCESS then
        Display_printf d.2 "Destroyed previously existing key with same ID. Status = %d\n" [d.1]
      else d.2
    else w
  let w := printKeyLifetime c lifetime w
  /- Import the key -/
  psa_import_key P attributes (readBytes testVector.key 0 testVector.keyLength) w

/-- Lines 266-292 of `encryptThread`: from `psa_get_key_attributes` to the
`psa_aead_encrypt` call; the provider's answer, the array `ciphertext` after the
call and the world after it. -/
def encryptThread_encrypt {σ : Type} (P : Provider σ) (keyID : psa_key_id_t) (w : World σ) :
    (Output × List Nat) × World σ :=
  /- Retrieve the updated key attributes -/
  let g := psa_get_key_attributes P keyID w
  let w :=
    if g.1.1 ≠ PSA_SUCCESS then
      Display_printf g.2 "Error: psa_get_key_attributes() failed. Status = %d\n" [g.1.1]
    else g.2
  let w := Display_printf w "Key ID: 0x%x" [g.1.2.id]
  /- Zero the ciphertext output buffer -/
  let ciphertext := zeroed sizeof_ciphertext
  let w := Display_printf w "Calling psa_aead_encrypt()" []
  /- Encrypt: the output pointer is `ciphertext + 1`, the size `sizeof(ciphertext)` -/
  let e := psa_aead_encrypt P keyID testVector.alg
    (readBytes testVector.nonce 0 testVector.nonceLength)
    (readBytes testVector.aad 0 testVector.aadLength)
    (readBytes testVector.plaintext 0 testVector.plaintextLength)
    sizeof_ciphertext w
  ((e.1, writeAt ciphertext 1 (e.1.out.take sizeof_ciphertext)), e.2)

/-- Body of the `for` loop of `encryptThread` for lifetime index `i`. -/
def encryptThread_loop {σ : Type} (c : HsmValues) (P : Provider σ) (i : Nat) (w : World σ) :
    World σ :=
  let imp := encryptThread_import c P i w
  let status := imp.1.1
  let keyID := imp.1.2
  let w := imp.2
  if status ≠ PSA_SUCCESS then
    let w := Display_printf w "Error: psa_import_key() failed. Status = %d\n" [status]
    if status = PSA_ERROR_ALREADY_EXISTS then
      /- Attempt to delete the existing key. So, next run could be successful. -/
      let d := psa_destroy_key P keyID w
      Display_printf d.2 "Destroy Key: psa_destroy_key() called. Status = %d\n" [d.1]
    else
      /- Skip to next key lifetime if key import fails -/
      w
  else
    let e := encryptThread_encrypt P keyID w
    let w := encryptThread_verify e.1.1 e.1.2 e.2
    /- Destroy the key that was imported -/
    let d := psa_destroy_key P keyID w
    if d.1 ≠ PSA_SUCCESS then
      Display_printf { d.2 with passCnt := d.2.passCnt - 1 }
        "Error: psa_destroy_key() failed. Status = %d\n" [d.1]
    else d.2

/-- The first `n` iterations of the `for` loop of `encryptThread`. -/
def encryptThread_for {σ : Type} (c : HsmValues) (P : Provider σ) : Nat → World σ → World σ
  | 0, w => w
  | n + 1, w => encryptThread_loop c P n (encryptThread_for c P n w)

/-- Lines 193-208 of `encryptThread`: the world in which the loop starts. -/
def encryptThread_begin {σ : Type} (s : σ) : World σ :=
  let w := World.start s
  /- Print the encryption inputs -/
  let w := printByteArray "Nonce: 0x" testVector.nonce 0 testVector.nonceLength w
  let w := printByteArray "AAD: 0x" testVector.aad 0 testVector.aadLength w
  let w := printByteArray "Plaintext: 0x" testVector.plaintext 1 testVector.plaintextLength w
  let w := printByteArray "Key: 0x" testVector.key 0 testVector.keyLength w
  Display_printf w "" []

/-- The function `encryptThread`, started on provider state `s`. -/
def encryptThread {σ : Type} (c : HsmValues) (P : Provider σ) (s : σ) : World σ :=
  let w := encryptThread_begin s
  /- Loop for all valid key lifetimes -/
  let w := encryptThread_for c P lifetimeCnt w
  let w := Display_printf w "DONE!\n" []
  if toSizeT w.passCnt = lifetimeCnt then
    /- Turn on LED1 to indicate encryption with all key lifetimes passed -/
    { w with led1 := true }
  else w

/-! Observations on a run of `encryptThread` from provider state `s`. -/

/-- World in which iteration `i` of the loop starts. -/
def before {σ : Type} (c : HsmValues) (P : Provider σ) (s : σ) (i : Nat) : World σ :=
  encryptThread_for c P i (encryptThread_begin s)

/-- Answer of the `psa_import_key` call of iteration `i`, and the world after it. -/
def imported {σ : Type} (c : HsmValues) (P : Provider σ) (s : σ) (i : Nat) :
    (psa_status_t × psa_key_id_t) × World σ :=
  encryptThread_import c P i (before c P s i)

/-- Answer of the `psa_aead_encrypt` call of iteration `i`, the array `ciphertext`
after it, and the world after it (meaningful when the import succeeded). -/
def encrypted {σ : Type} (c : HsmValues) (P : Provider σ) (s : σ) (i : Nat) :
    (Output × List Nat) × World σ :=
  encryptThread_encrypt P (imported c P s i).1.2 (imported c P s i).2

/-- World of iteration `i` after the comparisons, before the final `psa_destroy_key`. -/
def verified {σ : Type} (c : HsmValues) (P : Provider σ) (s : σ) (i : Nat) : World σ :=
  encryptThread_verify (encrypted c P s i).1.1 (encrypted c P s i).1.2 (encrypted c P s i).2

/-- Iteration `i` executed `passCnt++`. -/
def countedAsPassed {σ : Type} (c : HsmValues) (P : Provider σ) (s : σ) (i : Nat) : Prop :=
  (verified c P s i).passCnt = (encrypted c P s i).2.passCnt + 1

/-- Status of the final `psa_destroy_key` of iteration `i`. -/
def destroyStatus {σ : Type} (c : HsmValues) (P : Provider σ) (s : σ) (i : Nat) : psa_status_t :=
  (psa_destroy_key P (imported c P s i).1.2 (verified c P s i)).1

/-- The three things that must all hold for iteration `i` to add one to `passCnt`. -/
def caseOk {σ : Type} (c : HsmValues) (P : Provider σ) (s : σ) (i : Nat) : Prop :=
  (imported c P s i).1.1 = PSA_SUCCESS ∧
  ((encrypted c P s i).1.1.status = PSA_SUCCESS ∧ ciphertextMismatch (encrypted c P s i).1.2 = none ∧
    macMismatch (encrypted c P s i).1.2 = none) ∧
  destroyStatus c P s i = PSA_SUCCESS

end psaAeadEncrypt

/-! ## psaRawKeyAgreement.c -/

namespace psaRawKeyAgreement

/-- The array `lifetimes[]` on a CC35XX build (the `#if` branch is taken). -/
def lifetimes (c : HsmValues) : List psa_key_lifetime_t :=
  [ PSA_KEY_LIFETIME_FROM_PERSISTENCE_AND_LOCATION PSA_KEY_PERSISTENCE_VOLATILE PSA_KEY_LOCATION_LOCAL_STORAGE,
    PSA_KEY_LIFETIME_FROM_PERSISTENCE_AND_LOCATION PSA_KEY_PERSISTENCE_DEFAULT PSA_KEY_LOCATION_LOCAL_STORAGE,
    PSA_KEY_LIFETIME_FROM_PERSISTENCE_AND_LOCATION PSA_KEY_PERSISTENCE_VOLATILE c.PSA_KEY_LOCATION_HSM_ASSET_STORE,
    PSA_KEY_LIFETIME_FROM_PERSISTENCE_AND_LOCATION PSA_KEY_PERSISTENCE_DEFAULT c.PSA_KEY_LOCATION_HSM_ASSET_STORE,
    PSA_KEY_LIFETIME_FROM_PERSISTENCE_AND_LOCATION c.PSA_KEY_PERSISTENCE_HSM_ASSET_STORE
      c.PSA_KEY_LOCATION_HSM_ASSET_STORE ]

/-- The constant `sizeof(lifetimes) / sizeof(psa_key_lifetime_t)`. -/
def lifetimeCnt : Nat := 5

/-- The macro `BITS_TO_BYTES(bits)`, `(((bits) + 7u) / 8u)` on `unsigned int`. -/
def BITS_TO_BYTES (bits : Nat) : Nat := ((bits + 7) % 2 ^ 32) / 8

def MAX_CURVE_LENGTH_BYTES : Nat := 66
def MAX_PUB_KEY_BYTES : Nat := (MAX_CURVE_LENGTH_BYTES * 2) + 1

structure keyAgreementTestVector where
  privateKey : List Nat
  peerPublicKey : List Nat
  expectedSharedSecret : List Nat
  curveFamily : Nat
  curveBits : Nat

/-- P-256 Count = 0 from CAVS 14.1 ECC CDH Primitive, as initialised in the source. -/
def testVector : keyAgreementTestVector where
  privateKey := arrayInit MAX_CURVE_LENGTH_BYTES
    [0x7D, 0x7D, 0xC5, 0xF7, 0x1E, 0xB2, 0x9D, 0xDA, 0xF8, 0x0D, 0x62, 0x14, 0x63, 0x2E, 0xEA, 0xE0,
     0x3D, 0x90, 0x58, 0xAF, 0x1F, 0xB6, 0xD2, 0x2E, 0xD8, 0x0B, 0xAD, 0xB6, 0x2B, 0xC1, 0xA5, 0x34]
  peerPublicKey := arrayInit MAX_PUB_KEY_BYTES
    [0x04,
     0x70, 0x0C, 0x48, 0xF7, 0x7F, 0x56, 0x58, 0x4C, 0x5C, 0xC6, 0x32, 0xCA, 0x65, 0x64, 0x0D, 0xB9,
     0x1B, 0x6B, 0xAC, 0xCE, 0x3A, 0x4D, 0xF6, 0xB4, 0x2C, 0xE7, 0xCC, 0x83, 0x88, 0x33, 0xD2, 0x87,
     0xDB, 0x71, 0xE5, 0x09, 0xE3, 0xFD, 0x9B, 0x06, 0x0D, 0xDB, 0x20, 0xBA, 0x5C, 0x51, 0xDC, 0xC5,
     0x94, 0x8D, 0x46, 0xFB, 0xF6, 0x40, 0xDF, 0xE0, 0x44, 0x17, 0x82, 0xCA, 0xB8, 0x5F, 0xA4, 0xAC]
  expectedSharedSecret := arrayInit MAX_PUB_KEY_BYTES
    [0x46, 0xFC, 0x62, 0x10, 0x64, 0x20, 0xFF, 0x01, 0x2E, 0x54, 0xA4, 0x34, 0xFB, 0xDD, 0x2D, 0x25,
     0xCC, 0xC5, 0x85, 0x20, 0x60, 0x56, 0x1E, 0x68, 0x04, 0x0D, 0xD7, 0x77, 0x89, 0x97, 0xBD, 0x7B]
  curveFamily := PSA_ECC_FAMILY_SECP_R1
  curveBits := 256

/-- The function `printByteArray`: `msgBuf` receives the description and two hex
digits for each of the `len` bytes at `array + offset`, and is printed. -/
def printByteArray {σ : Type} (desc : String) (array : List Nat) (offset len : Nat)
    (w : World σ) : World σ :=
  Display_printf w (hexLine desc (readBytes array offset len)) []

/-- The function `printKeyLifetime`. -/
def printKeyLifetime {σ : Type} (c : HsmValues) (lifetime : psa_key_lifetime_t)
    (w : World σ) : World σ :=
  let persistence := PSA_KEY_LIFETIME_GET_PERSISTENCE lifetime
  let location := PSA_KEY_LIFETIME_GET_LOCATION lifetime
  let msg := "Key persistence/location: "
  let msg :=
    if persistence = PSA_KEY_PERSISTENCE_VOLATILE then msg ++ "[Volatile / "
    else if persistence = PSA_KEY_PERSISTENCE_DEFAULT then msg ++ "[Default / "
    else if persistence = c.PSA_KEY_PERSISTENCE_HSM_ASSET_STORE then msg ++ "[HSM Asset Store / "
    else msg
  let msg :=
    if location = PSA_KEY_LOCATION_LOCAL_STORAGE then msg ++ "Local Storage]"
    else if location = c.PSA_KEY_LOCATION_HSM_ASSET_STORE then msg ++ "HSM Asset Store]"
    else msg
  Display_printf w msg []

/-- The local `peerKeyLength` of `keyAgreementThread`. -/
def peerKeyLength : Nat := PSA_KEY_EXPORT_ECC_PUBLIC_KEY_MAX_SIZE testVector.curveBits

/-- The local `privateKeyLength` of `keyAgreementThread`. -/
def privateKeyLength : Nat := BITS_TO_BYTES testVector.curveBits

/-- The local `expectedSharedSecretLength` of `keyAgreementThread`. -/
def expectedSharedSecretLength : Nat := BITS_TO_BYTES testVector.curveBits

/-- The constant `sizeof(sharedSecret)` for `uint8_t sharedSecret[MAX_CURVE_LENGTH_BYTES]`. -/
def sizeof_sharedSecret : Nat := MAX_CURVE_LENGTH_BYTES

/-- Lines 308-323 of `keyAgreementThread`: index at which the comparison loop breaks. -/
def sharedSecretMismatch (sharedSecret : List Nat) : Option Nat :=
  firstMismatch
    (fun ssIndex => sharedSecret.getD ssIndex 0 != testVector.expectedSharedSecret.getD ssIndex 0)
    0 expectedSharedSecretLength

/-- Lines 301-340 of `keyAgreementThread`: what follows the `psa_raw_key_agreement`
call, up to and including the `passCnt++`.  `sharedSecret` is the local array after the call. -/
def keyAgreementThread_verify {σ : Type} (r : Output) (sharedSecret : List Nat) (w : World σ) :
    World σ :=
  if r.status = PSA_SUCCESS then
    let w := printByteArray "Shared Secret: 0x" sharedSecret 0 r.length w
    let (status, w) :=
      if r.length = expectedSharedSecretLength then
        /- Verify shared secret output matches expected -/
        match sharedSecretMismatch sharedSecret with
        | some ssIndex =>
          (PSA_ERROR_GENERIC_ERROR,
           Display_printf w "Error: sharedSecret[%d] = 0x%02x does not match expected 0x%02x\n"
             [ssIndex, sharedSecret.getD ssIndex 0, testVector.expectedSharedSecret.getD ssIndex 0])
        | none => (r.status, w)
      else
        /- Returned shared secret output length did not match expected -/
        (PSA_ERROR_GENERIC_ERROR, w)
    if status = PSA_SUCCESS then
      Display_printf { w with passCnt := w.passCnt + 1 } "PASSED!\n" []
    else w
  else
    Display_printf w "Error: psa_raw_key_agreement() failed. Status = %d\n" [r.status]

/-- Lines 224-260 of `keyAgreementThread`: iteration `i` of the loop up to and
including the `psa_import_key` call; its status, the key ID and the world after it. -/
def keyAgreementThread_import {σ : Type} (c : HsmValues) (P : Provider σ) (i : Nat)
    (w : World σ) : (psa_status_t × psa_key_id_t) × World σ :=
  let lifetime := (lifetimes c).getD i 0
  /- Init private key attributes -/
  let attributes : psa_key_attributes_t :=
    { PSA_KEY_ATTRIBUTES_INIT with
      alg := PSA_ALG_ECDH, key_type := PSA_KEY_TYPE_ECC_KEY_PAIR testVector.curveFamily,
      bits := testVector.curveBits, usage := PSA_KEY_USAGE_DERIVE,
      lifetime := lifetime }
  let nonVolatile : Bool := PSA_KEY_LIFETIME_GET_PERSISTENCE lifetime != PSA_KEY_PERSISTENCE_VOLATILE
  /- Set the key ID for non-volatile keys -/
  let attributes := if nonVolatile then { attributes with id := PSA_KEY_ID_USER_MIN + i } else attributes
  /- Attempt to delete the key -/
  let w :=
    if nonVolatile then
      let d := psa_destroy_key P (PSA_KEY_ID_USER_MIN + i) w
      if d.1 = PSA_SUCCESS then
        Display_printf d.2 "Destroyed previously existing key with same ID. Status = %d\n" [d.1]
      else d.2
    else w
  let w := printKeyLifetime c lifetime w
  /- Import the private key -/
  psa_import_key P attributes (readBytes testVector.privateKey 0 privateKeyLength) w

/-- Lines 277-299 of `keyAgreementThread`: from `psa_get_key_attributes` to the
`psa_raw_key_agreement` call; the provider's answer, the array `sharedSecret`
after the call and the world after it. -/
def keyAgreementThread_agree {σ : Type} (P : Provider σ) (privateKeyID : psa_key_id_t)
    (w : World σ) : (Output × List Nat) × World σ :=
  /- Retrieve the updated key attributes -/
  let g := psa_get_key_attributes P privateKeyID w
  let w :=
    if g.1.1 ≠ PSA_SUCCESS then
      Display_printf g.2 "Error: psa_get_key_attributes() failed. Status = %d\n" [g.1.1]
    else g.2
  let w := Display_printf w "Key ID: 0x%x" [g.1.2.id]
  /- Zero the shared secret output buffer -/
  let sharedSecret := zeroed sizeof_sharedSecret
  let w := Display_printf w "Calling psa_raw_key_agreement()" []
  /- Compute the shared secret using ECDH -/
  let e := psa_raw_key_agreement P PSA_ALG_ECDH privateKeyID
    (readBytes testVector.peerPublicKey 0 peerKeyLength) sizeof_sharedSecret w
  ((e.1, writeAt sharedSecret 0 (e.1.out.take sizeof_sharedSecret)), e.2)

/-- Body of the `for` loop of `keyAgreementThread` for lifetime index `i`. -/
def keyAgreementThread_loop {σ : Type} (c : HsmValues) (P : Provider σ) (i : Nat) (w : World σ) :
    World σ :=
  let imp := keyAgreementThread_import c P i w
  let status := imp.1.1
  let privateKeyID := imp.1.2
  let w := imp.2
  if status ≠ PSA_SUCCESS then
    let w := Display_printf w "Error: psa_import_key() failed. Status = %d\n" [status]
    if status = PSA_ERROR_ALREADY_EXISTS then
      /- Attempt to delete the existing key. So, next run could be successful. -/
      let d := psa_destroy_key P privateKeyID w
      Display_printf d.2 "Destroy Key: psa_destroy_key() called. Status = %d\n" [d.1]
    else
      /- Skip to next key lifetime if key import fails -/
      w
  else
    let e := keyAgreementThread_agree P privateKeyID w
    let w := keyAgreementThread_verify e.1.1 e.1.2 e.2
    /- Destroy the key that was imported -/
    let d := psa_destroy_key P privateKeyID w
    if d.1 ≠ PSA_SUCCESS then
      Display_printf d.2 "Error: psa_destroy_key() failed. Status = %d\n" [d.1]
    else d.2

/-- The first `n` iterations of the `for` loop of `keyAgreementThread`. -/
def keyAgreementThread_for {σ : Type} (c : HsmValues) (P : Provider σ) : Nat → World σ → World σ
  | 0, w => w
  | n + 1, w => keyAgreementThread_loop c P n (keyAgreementThread_for c P n w)

/-- Lines 209-219 of `keyAgreementThread`: the world in which the loop starts. -/
def keyAgreementThread_begin {σ : Type} (s : σ) : World σ :=
  let w := World.start s
  /- Print the key agreement inputs -/
  let w := printByteArray "Private Key: 0x" testVector.privateKey 0 privateKeyLength w
  let w := printByteArray "Peer Public Key: 0x" testVector.peerPublicKey 0 peerKeyLength w
  Display_printf w "" []

/-- The function `keyAgreementThread`, started on provider state `s`. -/
def keyAgreementThread {σ : Type} (c : HsmValues) (P : Provider σ) (s : σ) : World σ :=
  let w := keyAgreementThread_begin s
  /- Loop for all valid key lifetimes -/
  let w := keyAgreementThread_for c P lifetimeCnt w
  let w := Display_printf w "DONE!\n" []
  if toSizeT w.passCnt = lifetimeCnt then
    /- Turn on LED1 to indicate key agreement with all key lifetimes passed -/
    { w with led1 := true }
  else w

/-! Observations on a run of `keyAgreementThread` from provider state `s`. -/

/-- World in which iteration `i` of the loop starts. -/
def before {σ : Type} (c : HsmValues) (P : Provider σ) (s : σ) (i : Nat) : World σ :=
  keyAgreementThread_for c P i (keyAgreementThread_begin s)

/-- Answer of the `psa_import_key` call of iteration `i`, and the world after it. -/
def imported {σ : Type} (c : HsmValues) (P : Provider σ) (s : σ) (i : Nat) :
    (psa_status_t × psa_key_id_t) × World σ :=
  keyAgreementThread_import c P i (before c P s i)

/-- Answer of the `psa_raw_key_agreement` call of iteration `i`, the array
`sharedSecret` after it, and the world after it (meaningful when the import succeeded). -/
def agreed {σ : Type} (c : HsmValues) (P : Provider σ) (s : σ) (i : Nat) :
    (Output × List Nat) × World σ :=
  keyAgreementThread_agree P (imported c P s i).1.2 (imported c P s i).2

/-- World of iteration `i` after the comparison, before the final `psa_destroy_key`. -/
def verified {σ : Type} (c : HsmValues) (P : Provider σ) (s : σ) (i : Nat) : World σ :=
  keyAgreementThread_verify (agreed c P s i).1.1 (agreed c P s i).1.2 (agreed c P s i).2

/-- Iteration `i` executed `passCnt++`. -/
def countedAsPassed {σ : Type} (c : HsmValues) (P : Provider σ) (s : σ) (i : Nat) : Prop :=
  (verified c P s i).passCnt = (agreed c P s i).2.passCnt + 1

/-- The two things that must both hold for iteration `i` to add one to `passCnt`. -/
def caseOk {σ : Type} (c : HsmValues) (P : Provider σ) (s : σ) (i : Nat) : Prop :=
  (imported c P s i).1.1 = PSA_SUCCESS ∧
  ((agreed c P s i).1.1.status = PSA_SUCCESS ∧
    (agreed c P s i).1.1.length = expectedSharedSecretLength ∧
    sharedSecretMismatch (agreed c P s i).1.2 = none)

end psaRawKeyAgreement

/-! ## psaKeyDerivation.c -/

namespace psaKeyDerivation

/-- The array `lifetimes[]` on a CC35XX build (the `#if` branch is taken). -/
def lifetimes (c : HsmValues) : List psa_key_lifetime_t :=
  [ PSA_KEY_LIFETIME_FROM_PERSISTENCE_AND_LOCATION PSA_KEY_PERSISTENCE_VOLATILE PSA_KEY_LOCATION_LOCAL_STORAGE,
    PSA_KEY_LIFETIME_FROM_PERSISTENCE_AND_LOCATION PSA_KEY_PERSISTENCE_DEFAULT PSA_KEY_LOCATION_LOCAL_STORAGE,
    PSA_KEY_LIFETIME_FROM_PERSISTENCE_AND_LOCATION PSA_KEY_PERSISTENCE_VOLATILE c.PSA_KEY_LOCATION_HSM_ASSET_STORE,
    PSA_KEY_LIFETIME_FROM_PERSISTENCE_AND_LOCATION PSA_KEY_PERSISTENCE_DEFAULT c.PSA_KEY_LOCATION_HSM_ASSET_STORE,
    PSA_KEY_LIFETIME_FROM_PERSISTENCE_AND_LOCATION c.PSA_KEY_PERSISTENCE_HSM_ASSET_STORE
      c.PSA_KEY_LOCATION_HSM_ASSET_STORE ]

/-- The constant `sizeof(lifetimes) / sizeof(psa_key_lifetime_t)`. -/
def lifetimeCnt : Nat := 5

def KEY_DERIVATION_LOOP_CNT : Nat := 3

/-- The array `context[]`: the characters of the literal and its terminating NUL. -/
def context : List Nat := "ThisIsAContextOfSufficientLength".toList.map Char.toNat ++ [0]

/-- The array `label[]`: the characters of the literal and its terminating NUL. -/
def label : List Nat :=
  "ThisIsALabelOfSufficientLengthToSatisfyTheHSMRequirement".toList.map Char.toNat ++ [0]

def BASE_KEY_SIZE : Nat := 16
def DERIVED_KEY_SIZE : Nat := 32
def PLAINTEXT_LENGTH : Nat := 16

def baseKey : List Nat := arrayInit BASE_KEY_SIZE
  [0xf9, 0xfd, 0xca, 0x4a, 0xc6, 0x4f, 0xe7, 0xf0, 0x14, 0xde, 0x0f, 0x43, 0x03, 0x9c, 0x75, 0x71]

def plaintext : List Nat := arrayInit PLAINTEXT_LENGTH
  [0xa2, 0x65, 0x48, 0x0c, 0xa8, 0x8d, 0x5f, 0x53, 0x6d, 0xb0, 0xdc, 0x6a, 0xbc, 0x40, 0xfa, 0xf0]

/-- The function `printByteArray`: `msgBuf` receives the description and two hex
digits for each of the `len` bytes at `array + offset`, and is printed. -/
def printByteArray {σ : Type} (desc : String) (array : List Nat) (offset len : Nat)
    (w : World σ) : World σ :=
  Display_printf w (hexLine desc (readBytes array offset len)) []

/-- The function `printKeyLifetime`. -/
def printKeyLifetime {σ : Type} (c : HsmValues) (lifetime : psa_key_lifetime_t)
    (w : World σ) : World σ :=
  let persistence := PSA_KEY_LIFETIME_GET_PERSISTENCE lifetime
  let location := PSA_KEY_LIFETIME_GET_LOCATION lifetime
  let msg := "Base Key persistence/location: "
  let msg :=
    if persistence = PSA_KEY_PERSISTENCE_VOLATILE then msg ++ "[Volatile / "
    else if persistence = PSA_KEY_PERSISTENCE_DEFAULT then msg ++ "[Default / "
    else if persistence = c.PSA_KEY_PERSISTENCE_HSM_ASSET_STORE then msg ++ "[HSM Asset Store / "
    else msg
  let msg :=
    if location = PSA_KEY_LOCATION_LOCAL_STORAGE then msg ++ "Local Storage]"
    else if location = c.PSA_KEY_LOCATION_HSM_ASSET_STORE then msg ++ "HSM Asset Store]"
    else msg
  Display_printf w msg []

/-- The function `setupKeyDerivation`: the returned status and the world after it. -/
def setupKeyDerivation {σ : Type} (c : HsmValues) (P : Provider σ) (alg : psa_algorithm_t)
    (baseKeyID : psa_key_id_t) (w : World σ) : psa_status_t × World σ :=
  /- Set up the key derivation operation -/
  let r := psa_key_derivation_setup P alg w
  if r.1 ≠ PSA_SUCCESS then
    (r.1, Display_printf r.2 "Error: psa_key_derivation_setup() failed. Status = %d\n" [r.1])
  else
  /- Provide the input key for derivation -/
  let r := psa_key_derivation_input_key P PSA_KEY_DERIVATION_INPUT_SECRET baseKeyID r.2
  if r.1 ≠ PSA_SUCCESS then
    (r.1, Display_printf r.2 "Error: psa_key_derivation_input_key() failed. Status = %d\n" [r.1])
  else
  /- Set input label -/
  let r := psa_key_derivation_input_bytes P PSA_KEY_DERIVATION_INPUT_LABEL label r.2
  if r.1 ≠ PSA_SUCCESS then
    (r.1, Display_printf r.2 "Error: psa_key_derivation_input_bytes() failed. Status = %d\n" [r.1])
  else
  /- Set input context, unless deriving from the HUK or from the TKDK -/
  let r :=
    if baseKeyID ≠ c.PSA_KEY_ID_HSM_HUK ∧ baseKeyID ≠ c.PSA_KEY_ID_HSM_TKDK then
      psa_key_derivation_input_bytes P PSA_KEY_DERIVATION_INPUT_CONTEXT context r.2
    else r
  if r.1 ≠ PSA_SUCCESS then
    (r.1, Display_printf r.2 "Error: psa_key_derivation_input_bytes() failed. Status = %d\n" [r.1])
  else
  let g := psa_key_derivation_get_capacity P r.2
  if g.1.1 ≠ PSA_SUCCESS then
    (g.1.1, Display_printf g.2 "Error: psa_key_derivation_get_capacity() failed. Status = %d\n" [g.1.1])
  else
    (g.1.1, Display_printf g.2 "Initial capacity is 0x%x bytes" [g.1.2])

/-- Control state of `derivationThread`: the world, the locals that live across
iterations of the inner loop, and whether a `return (NULL)` was executed. -/
structure State (σ : Type) where
  w : World σ
  derivedKeyAttributes : psa_key_attributes_t
  expectedCapacity : Nat
  returned : Bool

/-- Lines 424-444 of `derivationThread`: the comparison loop from index `idx` on,
with `n` iterations left; the pass is counted inside the loop, at the last index. -/
def derivationThread_compare {σ : Type} (decryptedPlaintext : List Nat) :
    Nat → Nat → World σ → World σ
  | _, 0, w => w
  | idx, n + 1, w =>
    if decryptedPlaintext.getD idx 0 ≠ plaintext.getD idx 0 then
      Display_printf w "Error: decryptedPlaintext[%d] = 0x%02x does not match expected 0x%02x\n"
        [idx, decryptedPlaintext.getD idx 0, plaintext.getD idx 0]
    else
      let w :=
        if idx = PLAINTEXT_LENGTH - 1 then
          { Display_printf w "PASSED!\n" [] with passCnt := w.passCnt + 1 }
        else w
      derivationThread_compare decryptedPlaintext (idx + 1) n w

/-- Lines 339-344 of `derivationThread`: answer of the `psa_key_derivation_output_key`
call of inner iteration `j` of outer iteration `i` started in state `st`, and the
world after it. -/
def derived {σ : Type} (P : Provider σ) (i j : Nat) (st : State σ) :
    (psa_status_t × psa_key_id_t) × World σ :=
  /- Set Key ID for derived key; perform the key derivation to output HSM asset -/
  psa_key_derivation_output_key P
    { st.derivedKeyAttributes with id := PSA_KEY_ID_USER_MIN + (10 * (i + 1)) + j } st.w

/-- Line 354 of `derivationThread`: answer of the `psa_get_key_attributes` call on
the derived key in that iteration, and the world after it (meaningful when the
key was output). -/
def derivedAttributes {σ : Type} (P : Provider σ) (i j : Nat) (st : State σ) :
    (psa_status_t × psa_key_attributes_t) × World σ :=
  psa_get_key_attributes P (derived P i j st).1.2 (derived P i j st).2

/-- Lines 362-365 of `derivationThread`: answer of the `psa_key_derivation_get_capacity`
call that follows in that iteration, and the world after it. -/
def remainingCapacity {σ : Type} (P : Provider σ) (i j : Nat) (st : State σ) :
    (psa_status_t × Nat) × World σ :=
  psa_key_derivation_get_capacity P
    (Display_printf (derivedAttributes P i j st).2 "Derived Key ID: %d"
      [(derivedAttributes P i j st).1.2.id])

/-- Lines 376-449 of `derivationThread`: the encrypt-then-decrypt round trip with
the derived key; the world after it and whether it ended with `return (NULL)`. -/
def derivationThread_roundTrip {σ : Type} (P : Provider σ) (derivedKeyID : psa_key_id_t)
    (w : World σ) : World σ × Bool :=
  /- Zero the ciphertext output buffer -/
  let ciphertext := zeroed PLAINTEXT_LENGTH
  let w := Display_printf w "Calling psa_cipher_encrypt()" []
  /- Encrypt plaintext using derived key -/
  let e := psa_cipher_encrypt P derivedKeyID PSA_ALG_ECB_NO_PADDING
    (readBytes plaintext 0 PLAINTEXT_LENGTH) PLAINTEXT_LENGTH w
  let ciphertext := writeAt ciphertext 0 (e.1.out.take PLAINTEXT_LENGTH)
  let encryptOutputLength := e.1.length
  let w :=
    if e.1.status = PSA_SUCCESS then
      printByteArray "Ciphertext: 0x" ciphertext 0 encryptOutputLength e.2
    else
      Display_printf e.2 "Error: psa_cipher_encrypt() failed. Status = %d\n" [e.1.status]
  if encryptOutputLength ≠ PLAINTEXT_LENGTH then
    (Display_printf w "Error: Output length does not match expected ciphertext length!\n" [], true)
  else
  /- Zero the output buffer -/
  let decryptedPlaintext := zeroed PLAINTEXT_LENGTH
  let w := Display_printf w "Calling psa_cipher_decrypt()" []
  /- Decrypt ciphertext using derived key -/
  let d := psa_cipher_decrypt P derivedKeyID PSA_ALG_ECB_NO_PADDING
    (readBytes ciphertext 0 encryptOutputLength) PLAINTEXT_LENGTH w
  let decryptedPlaintext := writeAt decryptedPlaintext 0 (d.1.out.take PLAINTEXT_LENGTH)
  if d.1.status = PSA_SUCCESS then
    let w := printByteArray "Decrypted Plaintext: 0x" decryptedPlaintext 0 d.1.length d.2
    /- Verify the decrypted plaintext matches the original plaintext -/
    (derivationThread_compare decryptedPlaintext 0 PLAINTEXT_LENGTH w, false)
  else
    (Display_printf d.2 "Error: psa_cipher_decrypt() failed. Status = %d\n" [d.1.status], false)

/-- Body of the inner `for` loop of `derivationThread` for lifetime index `i` and
derived key index `j`. -/
def derivationThread_inner {σ : Type} (P : Provider σ) (i j : Nat) (st : State σ) : State σ :=
  /- Set Key ID for derived key; perform the key derivation to output HSM asset -/
  let o := derived P i j st
  let derivedKeyID := o.1.2
  if o.1.1 ≠ PSA_SUCCESS then
    { st with
      w := Display_printf o.2 "Error: psa_key_derivation_output_key() failed. Status = %d\n" [o.1.1],
      derivedKeyAttributes :=
        { st.derivedKeyAttributes with id := PSA_KEY_ID_USER_MIN + (10 * (i + 1)) + j },
      returned := true }
  else
  let expectedCapacity := (st.expectedCapacity + 2 ^ 32 - DERIVED_KEY_SIZE) % 2 ^ 32
  /- Retrieve the updated key attributes -/
  let g := derivedAttributes P i j st
  let derivedKeyAttributes := g.1.2
  if g.1.1 ≠ PSA_SUCCESS then
    { w := Display_printf g.2 "Error: psa_get_key_attributes() failed. Status = %d\n" [g.1.1],
      derivedKeyAttributes := derivedKeyAttributes, expectedCapacity := expectedCapacity,
      returned := true }
  else
  /- Verify the capacity was reduced by the correct amount -/
  let cap := remainingCapacity P i j st
  let w :=
    if cap.1.1 = PSA_SUCCESS then Display_printf cap.2 "Remaining capacity: %d bytes" [cap.1.2]
    else cap.2
  if cap.1.1 = PSA_SUCCESS ∧ cap.1.2 ≠ expectedCapacity then
    { w := Display_printf w "Error: Remaining capacity is not set to expected value!\n" [],
      derivedKeyAttributes := derivedKeyAttributes, expectedCapacity := expectedCapacity,
      returned := true }
  else
  let rt := derivationThread_roundTrip P derivedKeyID w
  if rt.2 then
    { w := rt.1, derivedKeyAttributes := derivedKeyAttributes,
      expectedCapacity := expectedCapacity, returned := true }
  else
  /- Destroy the derived key as there are only a limited number of HSM Assets available -/
  let x := psa_destroy_key P derivedKeyID rt.1
  { w := x.2, derivedKeyAttributes := derivedKeyAttributes, expectedCapacity := expectedCapacity,
    returned := false }

/-- The first `n` iterations of the inner `for` loop of `derivationThread`; a
`return (NULL)` ends it. -/
def derivationThread_inner_for {σ : Type} (P : Provider σ) (i : Nat) : Nat → State σ → State σ
  | 0, st => st
  | n + 1, st =>
    let st := derivationThread_inner_for P i n st
    if st.returned then st else derivationThread_inner P i n st

/-- How the part of an outer iteration that precedes the inner loop ends: with
`continue`, with `return (NULL)`, or at the inner loop with the base key imported. -/
inductive Prepared (σ : Type) where
  | skipped (st : State σ)
  | returned (st : State σ)
  | ready (baseKeyID : psa_key_id_t) (st : State σ)

/-- The state a `Prepared` outcome carries. -/
def Prepared.state {σ : Type} : Prepared σ → State σ
  | Prepared.skipped st => st
  | Prepared.returned st => st
  | Prepared.ready _ st => st

/-- Lines 250-276 of `derivationThread`: iteration `i` of the outer loop up to and
including the `psa_import_key` call; its status, the key ID and the world after it. -/
def derivationThread_import {σ : Type} (c : HsmValues) (P : Provider σ) (i : Nat) (w : World σ) :
    (psa_status_t × psa_key_id_t) × World σ :=
  let lifetime := (lifetimes c).getD i 0
  /- Init key attributes -/
  let attributes : psa_key_attributes_t :=
    { PSA_KEY_ATTRIBUTES_INIT with
      alg := PSA_ALG_SP800_108_COUNTER_CMAC, key_type := PSA_KEY_TYPE_AES,
      bits := PSA_BYTES_TO_BITS BASE_KEY_SIZE, usage := PSA_KEY_USAGE_DERIVE,
      lifetime := lifetime }
  let nonVolatile : Bool := PSA_KEY_LIFETIME_GET_PERSISTENCE lifetime != PSA_KEY_PERSISTENCE_VOLATILE
  /- Set the base key ID for non-volatile keys -/
  let attributes := if nonVolatile then { attributes with id := PSA_KEY_ID_USER_MIN + i } else attributes
  /- Attempt to delete the key; the return value is ignored -/
  let w := if nonVolatile then (psa_destroy_key P (PSA_KEY_ID_USER_MIN + i) w).2 else w
  let w := printKeyLifetime c lifetime w
  /- Import the base key to be used for derivation -/
  psa_import_key P attributes (readBytes baseKey 0 BASE_KEY_SIZE) w

/-- Lines 286-298 of `derivationThread`: from `psa_get_key_attributes` on the base
key to the call of `setupKeyDerivation`; its status and the world after it. -/
def derivationThread_setup {σ : Type} (c : HsmValues) (P : Provider σ) (baseKeyID : psa_key_id_t)
    (w : World σ) : psa_status_t × World σ :=
  /- Retrieve the updated key attributes -/
  let g := psa_get_key_attributes P baseKeyID w
  let w :=
    if g.1.1 ≠ PSA_SUCCESS then
      Display_printf g.2 "Error: psa_get_key_attributes() failed. Status = %d\n" [g.1.1]
    else g.2
  let w := Display_printf w "Base Key ID: 0x%x" [g.1.2.id]
  let w := Display_printf w "\nStarting key derivation...\n" []
  setupKeyDerivation c P PSA_ALG_SP800_108_COUNTER_CMAC baseKeyID w

/-- Lines 305-314 of `derivationThread`: the capacity is set to
`KEY_DERIVATION_LOOP_CNT * DERIVED_KEY_SIZE` and read back; the answer of
`psa_key_derivation_get_capacity` and the world after it. -/
def derivationThread_capacity {σ : Type} (P : Provider σ) (w : World σ) :
    (psa_status_t × Nat) × World σ :=
  let expectedCapacity := KEY_DERIVATION_LOOP_CNT * DERIVED_KEY_SIZE
  let w := Display_printf w "Setting capacity to %d bytes\n" [expectedCapacity]
  let sc := psa_key_derivation_set_capacity P expectedCapacity w
  /- Read capacity to verify it was set -/
  psa_key_derivation_get_capacity P sc.2

/-- Lines 250-336 of `derivationThread`: iteration `i` of the outer loop up to the
inner loop. -/
def derivationThread_prepare {σ : Type} (c : HsmValues) (P : Provider σ) (i : Nat) (st : State σ) :
    Prepared σ :=
  let imp := derivationThread_import c P i st.w
  let baseKeyID := imp.1.2
  if imp.1.1 ≠ PSA_SUCCESS then
    /- Skip to next key lifetime if key import fails -/
    Prepared.skipped
      { st with w := Display_printf imp.2 "Error: psa_import_key() failed. Status = %d\n" [imp.1.1] }
  else
  let su := derivationThread_setup c P baseKeyID imp.2
  if su.1 ≠ PSA_SUCCESS then
    Prepared.returned { st with w := su.2, returned := true }
  else
  let expectedCapacity := KEY_DERIVATION_LOOP_CNT * DERIVED_KEY_SIZE
  let gc := derivationThread_capacity P su.2
  if gc.1.1 ≠ PSA_SUCCESS then
    Prepared.returned { st with
      w := Display_printf gc.2 "Error: psa_key_derivation_get_capacity() failed. Status = %d\n" [gc.1.1],
      expectedCapacity := expectedCapacity, returned := true }
  else
  if gc.1.2 ≠ expectedCapacity then
    Prepared.returned { st with
      w := Display_printf gc.2 "Error: Capacity is not set to expected value!\n" [],
      expectedCapacity := expectedCapacity, returned := true }
  else
  /- Setup new key attributes -/
  let derivedKeyAttributes : psa_key_attributes_t :=
    { PSA_KEY_ATTRIBUTES_INIT with
      alg := PSA_ALG_ECB_NO_PADDING, bits := PSA_BYTES_TO_BITS DERIVED_KEY_SIZE,
      key_type := PSA_KEY_TYPE_AES, usage := PSA_KEY_USAGE_ENCRYPT ||| PSA_KEY_USAGE_DECRYPT,
      lifetime := PSA_KEY_LIFETIME_FROM_PERSISTENCE_AND_LOCATION
        c.PSA_KEY_PERSISTENCE_HSM_ASSET_STORE c.PSA_KEY_LOCATION_HSM_ASSET_STORE }
  Prepared.ready baseKeyID
    { w := gc.2, derivedKeyAttributes := derivedKeyAttributes,
      expectedCapacity := expectedCapacity, returned := false }

/-- Body of the outer `for` loop of `derivationThread` for lifetime index `i`. -/
def derivationThread_loop {σ : Type} (c : HsmValues) (P : Provider σ) (i : Nat) (st : State σ) :
    State σ :=
  match derivationThread_prepare c P i st with
  | Prepared.skipped st => st
  | Prepared.returned st => st
  | Prepared.ready baseKeyID st =>
    let st := derivationThread_inner_for P i KEY_DERIVATION_LOOP_CNT st
    if st.returned then st else
    /- Destroy the base key -/
    let x := psa_destroy_key P baseKeyID st.w
    if x.1 ≠ PSA_SUCCESS then
      { st with w := Display_printf x.2 "Error: psa_destroy_key() failed. Status = %d\n" [x.1] }
    else { st with w := x.2 }

/-- The first `n` iterations of the outer `for` loop of `derivationThread`; a
`return (NULL)` ends it. -/
def derivationThread_for {σ : Type} (c : HsmValues) (P : Provider σ) : Nat → State σ → State σ
  | 0, st => st
  | n + 1, st =>
    let st := derivationThread_for c P n st
    if st.returned then st else derivationThread_loop c P n st

/-- Lines 239-245 of `derivationThread`: the state in which the outer loop starts. -/
def derivationThread_begin {σ : Type} (s : σ) : State σ :=
  let w := World.start s
  /- Print the encryption inputs -/
  let w := printByteArray "Plaintext: 0x" plaintext 0 PLAINTEXT_LENGTH w
  let w := Display_printf w "" []
  { w := w, derivedKeyAttributes := PSA_KEY_ATTRIBUTES_INIT, expectedCapacity := 0,
    returned := false }

/-- The function `derivationThread`, started on provider state `s`. -/
def derivationThread {σ : Type} (c : HsmValues) (P : Provider σ) (s : σ) : World σ :=
  /- Loop for all valid key lifetimes -/
  let st := derivationThread_for c P lifetimeCnt (derivationThread_begin s)
  if st.returned then st.w
  else if toSizeT st.w.passCnt = lifetimeCnt * KEY_DERIVATION_LOOP_CNT then
    { Display_printf st.w "DONE!\n" [] with led1 := true }
  else st.w

/-! Observations on a run of `derivationThread` from provider state `s`. -/

/-- State in which iteration `i` of the outer loop starts (its flag `returned`
tells whether the thread has returned before). -/
def before {σ : Type} (c : HsmValues) (P : Provider σ) (s : σ) (i : Nat) : State σ :=
  derivationThread_for c P i (derivationThread_begin s)

/-- State in which iteration `j` of the inner loop of outer iteration `i` starts,
if the run gets there. -/
def beforeInner {σ : Type} (c : HsmValues) (P : Provider σ) (s : σ) (i j : Nat) :
    Option (State σ) :=
  if (before c P s i).returned then none
  else
    match derivationThread_prepare c P i (before c P s i) with
    | Prepared.ready _ st =>
      if (derivationThread_inner_for P i j st).returned then none
      else some (derivationThread_inner_for P i j st)
    | _ => none

end psaKeyDerivation

/-! ## psaSignVerify.c -/

namespace psaSignVerify

def PRIVATE_KEY_SIZE : Nat := 32
def PUBLIC_KEY_SIZE : Nat := 65
def MAX_MESSAGE_SIZE : Nat := 256
def SIGNATURE_SIZE : Nat := 133
def HASH_SIZE : Nat := 32

/-- The array `lifetimes[]` on a CC35XX build (the `#if` branch is taken). -/
def lifetimes (c : HsmValues) : List psa_key_lifetime_t :=
  [ PSA_KEY_LIFETIME_FROM_PERSISTENCE_AND_LOCATION PSA_KEY_PERSISTENCE_VOLATILE PSA_KEY_LOCATION_LOCAL_STORAGE,
    PSA_KEY_LIFETIME_FROM_PERSISTENCE_AND_LOCATION PSA_KEY_PERSISTENCE_DEFAULT PSA_KEY_LOCATION_LOCAL_STORAGE,
    PSA_KEY_LIFETIME_FROM_PERSISTENCE_AND_LOCATION PSA_KEY_PERSISTENCE_VOLATILE c.PSA_KEY_LOCATION_HSM_ASSET_STORE,
    PSA_KEY_LIFETIME_FROM_PERSISTENCE_AND_LOCATION PSA_KEY_PERSISTENCE_DEFAULT c.PSA_KEY_LOCATION_HSM_ASSET_STORE,
    PSA_KEY_LIFETIME_FROM_PERSISTENCE_AND_LOCATION c.PSA_KEY_PERSISTENCE_HSM_ASSET_STORE
      c.PSA_KEY_LOCATION_HSM_ASSET_STORE ]

/-- The constant `sizeof(lifetimes) / sizeof(psa_key_lifetime_t)`. -/
def lifetimeCnt : Nat := 5

structure ecdsaTestCase where
  privateKey : List Nat
  publicKey : List Nat
  privateKeyLength : Nat
  publicKeyLength : Nat
  message : List Nat
  messageLength : Nat
  hash : List Nat
  signature : List Nat
  curveFamily : Nat
  keyBits : Nat
  alg : psa_algorithm_t

/-- What an index beyond the end of the vector table reads in the embedding. -/
instance : Inhabited ecdsaTestCase :=
  ⟨{ privateKey := [], publicKey := [], privateKeyLength := 0, publicKeyLength := 0, message := [],
     messageLength := 0, hash := [], signature := [], curveFamily := 0, keyBits := 0, alg := 0 }⟩

/-- The array `signTestVectors[]` as initialised in the source (one vector). -/
def signTestVectors : List ecdsaTestCase :=
  [ { privateKey := arrayInit PRIVATE_KEY_SIZE
        [0xC4, 0x77, 0xF9, 0xF6, 0x5C, 0x22, 0xCC, 0xE2, 0x06, 0x57, 0xFA, 0xA5, 0xB2, 0xD1, 0xD8, 0x12,
         0x23, 0x36, 0xF8, 0x51, 0xA5, 0x08, 0xA1, 0xED, 0x04, 0xE4, 0x79, 0xC3, 0x49, 0x85, 0xBF, 0x96]
      privateKeyLength := 32
      publicKey := arrayInit PUBLIC_KEY_SIZE
        [0x04,
         0xB7, 0xE0, 0x8A, 0xFD, 0xFE, 0x94, 0xBA, 0xD3, 0xF1, 0xDC, 0x8C, 0x73, 0x47, 0x98, 0xBA, 0x1C,
         0x62, 0xB3, 0xA0, 0xAD, 0x1E, 0x9E, 0xA2, 0xA3, 0x82, 0x01, 0xCD, 0x08, 0x89, 0xBC, 0x7A, 0x19,
         0x36, 0x03, 0xF7, 0x47, 0x95, 0x9D, 0xBF, 0x7A, 0x4B, 0xB2, 0x26, 0xE4, 0x19, 0x28, 0x72, 0x90,
         0x63, 0xAD, 0xC7, 0xAE, 0x43, 0x52, 0x9E, 0x61, 0xB5, 0x63, 0xBB, 0xC6, 0x06, 0xCC, 0x5E, 0x09]
      publicKeyLength := 65
      message := arrayInit MAX_MESSAGE_SIZE
        [0xe1, 0x13, 0x0a, 0xf6, 0xa3, 0x8c, 0xcb, 0x41, 0x2a, 0x9c, 0x8d, 0x13, 0xe1, 0x5d, 0xbf, 0xc9,
         0xe6, 0x9a, 0x16, 0x38, 0x5a, 0xf3, 0xc3, 0xf1, 0xe5, 0xda, 0x95, 0x4f, 0xd5, 0xe7, 0xc4, 0x5f,
         0xd7, 0x5e, 0x2b, 0x8c, 0x36, 0x69, 0x92, 0x28, 0xe9, 0x28, 0x40, 0xc0, 0x56, 0x2f, 0xbf, 0x37,
         0x72, 0xf0, 0x7e, 0x17, 0xf1, 0xad, 0xd5, 0x65, 0x88, 0xdd, 0x45, 0xf7, 0x45, 0x0e, 0x12, 0x17,
         0xad, 0x23, 0x99, 0x22, 0xdd, 0x9c, 0x32, 0x69, 0x5d, 0xc7, 0x1f, 0xf2, 0x42, 0x4c, 0xa0, 0xde,
         0xc1, 0x32, 0x1a, 0xa4, 0x70, 0x64, 0xa0, 0x44, 0xb7, 0xfe, 0x3c, 0x2b, 0x97, 0xd0, 0x3c, 0xe4,
         0x70, 0xa5, 0x92, 0x30, 0x4c, 0x5e, 0xf2, 0x1e, 0xed, 0x9f, 0x93, 0xda, 0x56, 0xbb, 0x23, 0x2d,
         0x1e, 0xeb, 0x00, 0x35, 0xf9, 0xbf, 0x0d, 0xfa, 0xfd, 0xcc, 0x46, 0x06, 0x27, 0x2b, 0x20, 0xa3]
      messageLength := 128
      hash := arrayInit HASH_SIZE
        [0xA4, 0x1A, 0x41, 0xA1, 0x2A, 0x79, 0x95, 0x48, 0x21, 0x1C, 0x41, 0x0C, 0x65, 0xD8, 0x13, 0x3A,
         0xFD, 0xE3, 0x4D, 0x28, 0xBD, 0xD5, 0x42, 0xE4, 0xB6, 0x80, 0xCF, 0x28, 0x99, 0xC8, 0xA8, 0xC4]
      signature := arrayInit SIGNATURE_SIZE [0]
      curveFamily := PSA_ECC_FAMILY_SECP_R1
      keyBits := 256
      alg := PSA_ALG_ECDSA PSA_ALG_SHA_256 } ]

/-- The enumeration `enum keyType`. -/
inductive keyType where
  | KEYPAIR
  | PUBLIC
deriving DecidableEq, Repr

/-- The global `signTestVectorCount` (a `uint8_t`) for a vector table. -/
def signTestVectorCount (vecs : List ecdsaTestCase) : Nat := vecs.length % 256

/-- The macro `EXPECTED_PASS_CNT`, a `size_t` expression. -/
def EXPECTED_PASS_CNT (vecs : List ecdsaTestCase) : Nat :=
  ((lifetimeCnt * signTestVectorCount vecs) * 2) % 2 ^ 32

/-- The function `printByteArray`: `msgBuf` receives the description and two hex
digits for each of the `len` bytes at `array + offset`, and is printed. -/
def printByteArray {σ : Type} (desc : String) (array : List Nat) (offset len : Nat)
    (w : World σ) : World σ :=
  Display_printf w (hexLine desc (readBytes array offset len)) []

/-- The function `printKeyLifetime`. -/
def printKeyLifetime {σ : Type} (c : HsmValues) (lifetime : psa_key_lifetime_t)
    (w : World σ) : World σ :=
  let persistence := PSA_KEY_LIFETIME_GET_PERSISTENCE lifetime
  let location := PSA_KEY_LIFETIME_GET_LOCATION lifetime
  let msg := "Key persistence/location: "
  let msg :=
    if persistence = PSA_KEY_PERSISTENCE_VOLATILE then msg ++ "[Volatile / "
    else if persistence = PSA_KEY_PERSISTENCE_DEFAULT then msg ++ "[Default / "
    else if persistence = c.PSA_KEY_PERSISTENCE_HSM_ASSET_STORE then msg ++ "[HSM Asset Store / "
    else msg
  let msg :=
    if location = PSA_KEY_LOCATION_LOCAL_STORAGE then msg ++ "Local Storage]"
    else if location = c.PSA_KEY_LOCATION_HSM_ASSET_STORE then msg ++ "HSM Asset Store]"
    else msg
  Display_printf w msg []

/-- The function `setupKeyID`: the attributes and the world after it.  The key ID
it stores in `*keyID` is overwritten by the `psa_import_key` that follows. -/
def setupKeyID {σ : Type} (P : Provider σ) (attributes : psa_key_attributes_t) (persistence : Nat)
    (w : World σ) : psa_key_attributes_t × World σ :=
  if persistence ≠ PSA_KEY_PERSISTENCE_VOLATILE then
    let keyID := PSA_KEY_ID_USER_MIN
    /- Precaution to destroy any previous key with same Key IDs, only for testing -/
    ({ attributes with id := keyID }, (psa_destroy_key P keyID w).2)
  else (attributes, w)

/-- The function `setKeyAttributes`. -/
def setKeyAttributes (i : Nat) (testVectors : List ecdsaTestCase) (usage : Nat) (type : keyType)
    (lifetime : psa_key_lifetime_t) (attributes : psa_key_attributes_t) : psa_key_attributes_t :=
  let alg := (testVectors.getD i default).alg
  let keyBits := (testVectors.getD i default).keyBits
  let keyType :=
    if type = keyType.KEYPAIR then PSA_KEY_TYPE_ECC_KEY_PAIR (testVectors.getD i default).curveFamily
    else PSA_KEY_TYPE_ECC_PUBLIC_KEY (testVectors.getD i default).curveFamily
  /- Allow any hash type for all except EDDSA -/
  let alg := if (testVectors.getD i default).alg ≠ PSA_ALG_PURE_EDDSA then alg ||| PSA_ALG_HASH_MASK else alg
  { attributes with alg := alg, bits := keyBits, key_type := keyType, usage := usage,
                    lifetime := lifetime }

/-- Lines 280-289 of `verifyMessage`: up to and including the `psa_import_key` of
the public key; its status, the key ID and the world after it. -/
def verifyMessage_import {σ : Type} (P : Provider σ) (i : Nat) (testVectors : List ecdsaTestCase)
    (lifetime : psa_key_lifetime_t) (w : World σ) : (psa_status_t × psa_key_id_t) × World σ :=
  let publicKeyAttributes :=
    setKeyAttributes i testVectors PSA_KEY_USAGE_VERIFY_MESSAGE keyType.PUBLIC lifetime
      PSA_KEY_ATTRIBUTES_INIT
  let k := setupKeyID P publicKeyAttributes (PSA_KEY_LIFETIME_GET_PERSISTENCE lifetime) w
  let publicKeyAttributes := k.1
  /- Import the public key -/
  let publicKeyBytes :=
    PSA_EXPORT_KEY_OUTPUT_SIZE publicKeyAttributes.key_type (testVectors.getD i default).keyBits
  psa_import_key P publicKeyAttributes
    (readBytes (testVectors.getD i default).publicKey 0 publicKeyBytes) k.2

/-- The function `verifyMessage`; `signature` is the array the pointer refers to
(the parameter `expectedStatus` is not used by the source and is left out). -/
def verifyMessage {σ : Type} (P : Provider σ) (i : Nat) (testVectors : List ecdsaTestCase)
    (signature : List Nat) (signature_length : Nat) (lifetime : psa_key_lifetime_t)
    (w : World σ) : World σ :=
  let imp := verifyMessage_import P i testVectors lifetime w
  let status := imp.1.1
  let publicKeyID := imp.1.2
  if status ≠ PSA_SUCCESS then
    Display_printf imp.2 "verifyMessage: psa_import_key failed! Status = %d\n" [status]
  else
  let w := Display_printf imp.2 "Calling psa_verify_message()" []
  let v := psa_verify_message P publicKeyID (testVectors.getD i default).alg
    (readBytes (testVectors.getD i default).message 0 (testVectors.getD i default).messageLength)
    (readBytes signature 0 signature_length) w
  let verifyStatus := v.1
  let w :=
    if verifyStatus ≠ PSA_SUCCESS then
      let w := Display_printf v.2 "verifyMessage: psa_verify_message failed! Status = %d\n" [status]
      { w with passCnt := w.passCnt - 1 }
    else v.2
  let d := psa_destroy_key P publicKeyID w
  if d.1 ≠ PSA_SUCCESS then
    let w := Display_printf d.2 "verifyMessage: psa_destroy_key failed. Status = %d\n" [d.1]
    { w with passCnt := w.passCnt - 1 }
  else
    /- Print passed if both verify message and destroy key are successful -/
    if verifyStatus = PSA_SUCCESS then Display_printf d.2 "PASSED!\n" [] else d.2

/-- Lines 342-355 of `verifyHash`: up to and including the `psa_import_key` of the
public key; its status, the key ID and the world after it. -/
def verifyHash_import {σ : Type} (P : Provider σ) (i : Nat) (testVectors : List ecdsaTestCase)
    (lifetime : psa_key_lifetime_t) (w : World σ) : (psa_status_t × psa_key_id_t) × World σ :=
  let publicKeyAttributes :=
    setKeyAttributes i testVectors PSA_KEY_USAGE_VERIFY_HASH keyType.PUBLIC lifetime
      PSA_KEY_ATTRIBUTES_INIT
  let k := setupKeyID P publicKeyAttributes (PSA_KEY_LIFETIME_GET_PERSISTENCE lifetime) w
  let publicKeyAttributes := k.1
  /- Import the public key -/
  let publicKeyBytes :=
    PSA_EXPORT_KEY_OUTPUT_SIZE publicKeyAttributes.key_type (testVectors.getD i default).keyBits
  psa_import_key P publicKeyAttributes
    (readBytes (testVectors.getD i default).publicKey 0 publicKeyBytes) k.2

/-- The function `verifyHash`; `signature` is the array the pointer refers to
(the parameter `expectedStatus` is not used by the source and is left out). -/
def verifyHash {σ : Type} (P : Provider σ) (i : Nat) (testVectors : List ecdsaTestCase)
    (signature : List Nat) (signature_length : Nat) (lifetime : psa_key_lifetime_t)
    (w : World σ) : World σ :=
  let alg := (testVectors.getD i default).alg
  let imp := verifyHash_import P i testVectors lifetime w
  let status := imp.1.1
  let publicKeyID := imp.1.2
  if status ≠ PSA_SUCCESS then
    Display_printf imp.2 "verifyHash: psa_import_key failed! Status = %d\n" [status]
  else
  let w := Display_printf imp.2 "Calling psa_verify_hash()" []
  let v := psa_verify_hash P publicKeyID alg
    (readBytes (testVectors.getD i default).hash 0 (PSA_HASH_LENGTH (PSA_ALG_SIGN_GET_HASH alg)))
    (readBytes signature 0 signature_length) w
  let verifyStatus := v.1
  let w :=
    if verifyStatus ≠ PSA_SUCCESS then
      let w := Display_printf v.2 "verifyHash: psa_verify_hash failed! Status = %d\n" [status]
      { w with passCnt := w.passCnt - 1 }
    else v.2
  let d := psa_destroy_key P publicKeyID w
  if d.1 ≠ PSA_SUCCESS then
    let w := Display_printf d.2 "verifyHash: psa_destroy_key failed! Status = %d\n" [d.1]
    { w with passCnt := w.passCnt - 1 }
  else
    /- Print passed if both verify hash and destroy key are successful -/
    if verifyStatus = PSA_SUCCESS then Display_printf d.2 "PASSED!\n" [] else d.2

/-- Lines 405-432 of `signMessage`: up to and including the `psa_import_key` of
the private key; its status, the key ID and the world after it. -/
def signMessage_import {σ : Type} (P : Provider σ) (vecs : List ecdsaTestCase)
    (in_persistence in_location vectorIndex : Nat) (w : World σ) :
    (psa_status_t × psa_key_id_t) × World σ :=
  let lifetime := PSA_KEY_LIFETIME_FROM_PERSISTENCE_AND_LOCATION in_persistence in_location
  let keyUsage := PSA_KEY_USAGE_SIGN_MESSAGE
  /- Init key attributes -/
  let alg := (vecs.getD vectorIndex default).alg
  let keyBits := (vecs.getD vectorIndex default).keyBits
  let keyUsage := if alg = PSA_ALG_PURE_EDDSA then keyUsage ||| PSA_KEY_USAGE_DERIVE else keyUsage
  let privateKeyAttributes :=
    setKeyAttributes vectorIndex vecs keyUsage keyType.KEYPAIR lifetime PSA_KEY_ATTRIBUTES_INIT
  let k := setupKeyID P privateKeyAttributes (PSA_KEY_LIFETIME_GET_PERSISTENCE lifetime) w
  /- Import the private key -/
  psa_import_key P k.1
    (readBytes (vecs.getD vectorIndex default).privateKey 0 (PSA_BITS_TO_BYTES keyBits)) k.2

/-- The function `signMessage`; the global table `signTestVectors` is the parameter `vecs`. -/
def signMessage {σ : Type} (P : Provider σ) (vecs : List ecdsaTestCase)
    (in_persistence in_location vectorIndex : Nat) (w : World σ) : World σ :=
  let lifetime := PSA_KEY_LIFETIME_FROM_PERSISTENCE_AND_LOCATION in_persistence in_location
  let alg := (vecs.getD vectorIndex default).alg
  let imp := signMessage_import P vecs in_persistence in_location vectorIndex w
  let privateKeyID := imp.1.2
  if imp.1.1 ≠ PSA_SUCCESS then
    Display_printf imp.2 "signMessage: Failed to import key. Status = %d\n" [imp.1.1]
  else
  /- Use the psa_export_public_key() API to generate and return public key material -/
  let localPublicKeyLength := SIGNATURE_SIZE
  let x := psa_export_public_key P privateKeyID localPublicKeyLength imp.2
  let status := x.1.status
  if status ≠ PSA_SUCCESS then
    Display_printf x.2 "signMessage: psa_export_public_key failed. Status = %d\n" [status]
  else
  let w := Display_printf x.2 "Calling psa_sign_message()" []
  let sg := psa_sign_message P privateKeyID alg
    (readBytes (vecs.getD vectorIndex default).message 0 (vecs.getD vectorIndex default).messageLength)
    SIGNATURE_SIZE w
  let signStatus := sg.1.status
  let outputLength := sg.1.length
  let w := { sg.2 with sign_output := writeAt sg.2.sign_output 0 (sg.1.out.take SIGNATURE_SIZE) }
  let w :=
    if signStatus ≠ PSA_SUCCESS then
      Display_printf w "signMessage: psa_sign_message failed. Status = %d\n" [status]
    else
      let w := printByteArray "Message: 0x" (vecs.getD vectorIndex default).message 0
        (vecs.getD vectorIndex default).messageLength w
      let w := printByteArray "Signed Output: 0x" w.sign_output 0 outputLength w
      { w with passCnt := w.passCnt + 1 }
  let d := psa_destroy_key P privateKeyID w
  let w :=
    if d.1 ≠ PSA_SUCCESS then
      let w := Display_printf d.2 "signMessage: psa_destroy_key failed. Status = %d\n" [d.1]
      { w with passCnt := w.passCnt - 1 }
    else d.2
  if signStatus = PSA_SUCCESS then
    verifyMessage P vectorIndex vecs w.sign_output outputLength lifetime w
  else w

/-- Lines 509-522 of `signHash`: up to and including the `psa_import_key` of the
private key; its status, the key ID and the world after it. -/
def signHash_import {σ : Type} (P : Provider σ) (vecs : List ecdsaTestCase)
    (in_persistence in_location vectorIndex : Nat) (w : World σ) :
    (psa_status_t × psa_key_id_t) × World σ :=
  let lifetime := PSA_KEY_LIFETIME_FROM_PERSISTENCE_AND_LOCATION in_persistence in_location
  /- Init key attributes -/
  let keyBits := (vecs.getD vectorIndex default).keyBits
  let privateKeyAttributes :=
    setKeyAttributes vectorIndex vecs PSA_KEY_USAGE_SIGN_HASH keyType.KEYPAIR lifetime
      PSA_KEY_ATTRIBUTES_INIT
  let k := setupKeyID P privateKeyAttributes (PSA_KEY_LIFETIME_GET_PERSISTENCE lifetime) w
  /- Import the private key -/
  psa_import_key P k.1
    (readBytes (vecs.getD vectorIndex default).privateKey 0 (PSA_BITS_TO_BYTES keyBits)) k.2

/-- The function `signHash`; the global table `signTestVectors` is the parameter `vecs`. -/
def signHash {σ : Type} (P : Provider σ) (vecs : List ecdsaTestCase)
    (in_persistence in_location vectorIndex : Nat) (w : World σ) : World σ :=
  let lifetime := PSA_KEY_LIFETIME_FROM_PERSISTENCE_AND_LOCATION in_persistence in_location
  /- psa_sign_hash and psa_verify_hash do not support EdDSA -/
  if (vecs.getD vectorIndex default).alg = PSA_ALG_PURE_EDDSA then w
  else
  let alg := (vecs.getD vectorIndex default).alg
  let imp := signHash_import P vecs in_persistence in_location vectorIndex w
  let status := imp.1.1
  let privateKeyID := imp.1.2
  if status ≠ PSA_SUCCESS then
    Display_printf imp.2 "signHash: Failed to import key. Status = %d\n" [status]
  else
  let hashLength := PSA_HASH_LENGTH (PSA_ALG_SIGN_GET_HASH alg)
  let w := Display_printf imp.2 "Calling psa_sign_hash()" []
  let sg := psa_sign_hash P privateKeyID alg
    (readBytes (vecs.getD vectorIndex default).hash 0 hashLength) SIGNATURE_SIZE w
  let signStatus := sg.1.status
  let outputLength := sg.1.length
  let w := { sg.2 with sign_output := writeAt sg.2.sign_output 0 (sg.1.out.take SIGNATURE_SIZE) }
  let w :=
    if signStatus ≠ PSA_SUCCESS then
      Display_printf w "signHash: psa_sign_hash failed Status = %d\n" [status]
    else
      let w := printByteArray "Hash: 0x" (vecs.getD vectorIndex default).hash 0 hashLength w
      let w := printByteArray "Signed Output: 0x" w.sign_output 0 outputLength w
      { w with passCnt := w.passCnt + 1 }
  let d := psa_destroy_key P privateKeyID w
  let w :=
    if d.1 ≠ PSA_SUCCESS then
      let w := Display_printf d.2 "signHash: psa_destroy_key failed. Status = %d\n" [d.1]
      { w with passCnt := w.passCnt - 1 }
    else d.2
  if signStatus = PSA_SUCCESS then
    verifyHash P vectorIndex vecs w.sign_output outputLength lifetime w
  else w

/-- Body of the inner `for` loop of `signVerifyThread`, vector `j` and lifetime index `i`. -/
def signVerifyThread_inner {σ : Type} (c : HsmValues) (P : Provider σ) (vecs : List ecdsaTestCase)
    (j i : Nat) (w : World σ) : World σ :=
  let lifetime := (lifetimes c).getD i 0
  let w := printKeyLifetime c lifetime w
  let w := signMessage P vecs (PSA_KEY_LIFETIME_GET_PERSISTENCE lifetime)
    (PSA_KEY_LIFETIME_GET_LOCATION lifetime) j w
  signHash P vecs (PSA_KEY_LIFETIME_GET_PERSISTENCE lifetime)
    (PSA_KEY_LIFETIME_GET_LOCATION lifetime) j w

/-- The first `n` iterations of the inner `for` loop of `signVerifyThread`. -/
def signVerifyThread_inner_for {σ : Type} (c : HsmValues) (P : Provider σ)
    (vecs : List ecdsaTestCase) (j : Nat) : Nat → World σ → World σ
  | 0, w => w
  | n + 1, w => signVerifyThread_inner c P vecs j n (signVerifyThread_inner_for c P vecs j n w)

/-- Body of the outer `for` loop of `signVerifyThread` for vector `j`. -/
def signVerifyThread_loop {σ : Type} (c : HsmValues) (P : Provider σ) (vecs : List ecdsaTestCase)
    (j : Nat) (w : World σ) : World σ :=
  /- Print the encryption inputs -/
  let w := printByteArray "Private Key: 0x" (vecs.getD j default).privateKey 0
    (vecs.getD j default).privateKeyLength w
  let w := printByteArray "Public Key: 0x" (vecs.getD j default).publicKey 0
    (vecs.getD j default).publicKeyLength w
  let w := Display_printf w "" []
  signVerifyThread_inner_for c P vecs j lifetimeCnt w

/-- The first `n` iterations of the outer `for` loop of `signVerifyThread`. -/
def signVerifyThread_for {σ : Type} (c : HsmValues) (P : Provider σ) (vecs : List ecdsaTestCase) :
    Nat → World σ → World σ
  | 0, w => w
  | n + 1, w => signVerifyThread_loop c P vecs n (signVerifyThread_for c P vecs n w)

/-- The function `signVerifyThread` on the vector table `vecs`, started on provider state `s`. -/
def signVerifyThread {σ : Type} (c : HsmValues) (P : Provider σ) (vecs : List ecdsaTestCase)
    (s : σ) : World σ :=
  let w := signVerifyThread_for c P vecs (signTestVectorCount vecs) (World.start s)
  if toSizeT w.passCnt = EXPECTED_PASS_CNT vecs then
    { Display_printf w "DONE!\n" [] with led1 := true }
  else w

end psaSignVerify

/-! ## Reading a log of provider calls -/

/-- Key IDs a log shows as created: those answered by a successful
`psa_import_key` or `psa_key_derivation_output_key`, in order. -/
def createdKeys (log : List Call) : List psa_key_id_t :=
  log.filterMap fun
    | Call.import_key _ _ status key => if status = PSA_SUCCESS then some key else none
    | Call.key_derivation_output_key _ status key => if status = PSA_SUCCESS then some key else none
    | _ => none

/-- Key IDs on which a log shows a `psa_destroy_key` call, in order. -/
def destroyedKeys (log : List Call) : List psa_key_id_t :=
  log.filterMap fun
    | Call.destroy_key key _ => some key
    | _ => none

/-- Statuses of the `psa_cipher_encrypt` calls of a log, in order. -/
def cipherEncryptStatuses (log : List Call) : List psa_status_t :=
  log.filterMap fun
    | Call.cipher_encrypt _ _ _ _ answer => some answer.status
    | _ => none

/-- The `psa_verify_message` and `psa_verify_hash` calls of a log, in order. -/
def verifyCalls (log : List Call) : List Call :=
  log.filter fun
    | Call.verify_message _ _ _ _ _ => true
    | Call.verify_hash _ _ _ _ _ => true
    | _ => false

/-- Bytes answered by the `psa_export_public_key` calls of a log, in order. -/
def exportedPublicKeys (log : List Call) : List (List Nat) :=
  log.filterMap fun
    | Call.export_public_key _ _ answer => some answer.out
    | _ => none

/-- Bytes handed to the `psa_import_key` calls of a log whose usage flags are
those of a verification key, in order. -/
def importedPublicKeys (log : List Call) : List (List Nat) :=
  log.filterMap fun
    | Call.import_key attributes data _ _ =>
      if attributes.usage = PSA_KEY_USAGE_VERIFY_MESSAGE ∨ attributes.usage = PSA_KEY_USAGE_VERIFY_HASH
      then some data else none
    | _ => none

/-! ## Concrete providers, used as inputs on which the examples are evaluated -/

/-- Sample vendor values for the evaluations; no theorem depends on this choice
except the evaluations themselves. -/
def sampleHsm : HsmValues :=
  { PSA_KEY_PERSISTENCE_HSM_ASSET_STORE := 0x80, PSA_KEY_LOCATION_HSM_ASSET_STORE := 0x000001,
    PSA_KEY_ID_HSM_HUK := 0x7fff0001, PSA_KEY_ID_HSM_TKDK := 0x7fff0002 }

/-- Hidden state of the concrete providers: the remaining capacity of the key
derivation operation and the keys in the store with their attributes. -/
structure KeyStore where
  capacity : Nat
  keys : List (psa_key_id_t × psa_key_attributes_t)
deriving DecidableEq, Repr

/-- The store with no key in it. -/
def KeyStore.empty : KeyStore := { capacity := 0, keys := [] }

/-- Status `PSA_ERROR_INVALID_HANDLE` of the PSA Crypto API. -/
def PSA_ERROR_INVALID_HANDLE : psa_status_t := -136

/-- Key creation in the concrete providers: a key with attribute ID 0 (volatile)
gets an ID of the vendor range, any other key the requested ID, which must be free. -/
def KeyStore.create (a : psa_key_attributes_t) (s : KeyStore) :
    (psa_status_t × psa_key_id_t) × KeyStore :=
  let key := if a.id = 0 then 0x7fff0100 + s.keys.length else a.id
  if s.keys.any (fun k => k.1 == key) then ((PSA_ERROR_ALREADY_EXISTS, 0), s)
  else ((PSA_SUCCESS, key), { s with keys := s.keys ++ [(key, { a with id := key })] })

/-- A provider that does what the examples expect of a correct one: a key store
in which persistent keys get the requested ID and volatile keys an ID of the
vendor range, AEAD and key agreement answer the known answers of the test
vectors, the cipher is an involution (so decrypting an encryption gives the
input back), every signature verifies. -/
def referenceProvider : Provider KeyStore where
  psa_destroy_key := fun key s =>
    if s.keys.any (fun k => k.1 == key) then
      (PSA_SUCCESS, { s with keys := s.keys.filter (fun k => k.1 != key) })
    else (PSA_ERROR_INVALID_HANDLE, s)
  psa_import_key := fun a _ s => KeyStore.create a s
  psa_get_key_attributes := fun key s =>
    match s.keys.find? (fun k => k.1 == key) with
    | some k => ((PSA_SUCCESS, k.2), s)
    | none => ((PSA_ERROR_INVALID_HANDLE, PSA_KEY_ATTRIBUTES_INIT), s)
  psa_aead_encrypt := fun _ _ _ _ _ _ s =>
    ({ status := PSA_SUCCESS,
       out := readBytes psaAeadEncrypt.testVector.expectedCiphertext 1 24
                ++ readBytes psaAeadEncrypt.testVector.expectedMac 0 4,
       length := 28 }, s)
  psa_raw_key_agreement := fun _ _ _ _ s =>
    ({ status := PSA_SUCCESS,
       out := readBytes psaRawKeyAgreement.testVector.expectedSharedSecret 0 32,
       length := 32 }, s)
  psa_cipher_encrypt := fun _ _ input _ s =>
    ({ status := PSA_SUCCESS, out := input.map (fun b => 255 - b), length := input.length }, s)
  psa_cipher_decrypt := fun _ _ input _ s =>
    ({ status := PSA_SUCCESS, out := input.map (fun b => 255 - b), length := input.length }, s)
  psa_key_derivation_setup := fun _ s => (PSA_SUCCESS, { s with capacity := 0xffffffff })
  psa_key_derivation_input_key := fun _ _ s => (PSA_SUCCESS, s)
  psa_key_derivation_input_bytes := fun _ _ s => (PSA_SUCCESS, s)
  psa_key_derivation_get_capacity := fun s => ((PSA_SUCCESS, s.capacity), s)
  psa_key_derivation_set_capacity := fun capacity s => (PSA_SUCCESS, { s with capacity := capacity })
  psa_key_derivation_output_key := fun a s =>
    KeyStore.create a { s with capacity := s.capacity - PSA_BITS_TO_BYTES a.bits }
  psa_export_public_key := fun _ _ s =>
    ({ status := PSA_SUCCESS,
       out := readBytes (psaSignVerify.signTestVectors.getD 0 default).publicKey 0 65,
       length := 65 }, s)
  psa_sign_message := fun _ _ input _ s =>
    ({ status := PSA_SUCCESS, out := List.replicate 64 (input.getD 0 0), length := 64 }, s)
  psa_sign_hash := fun _ _ hash _ s =>
    ({ status := PSA_SUCCESS, out := List.replicate 64 (hash.getD 0 0), length := 64 }, s)
  psa_verify_message := fun _ _ _ _ s => (PSA_SUCCESS, s)
  psa_verify_hash := fun _ _ _ _ s => (PSA_SUCCESS, s)

/-- Provider that answers `psa_aead_encrypt` with the 24 expected ciphertext
bytes and the 4 expected MAC bytes, reports 28 bytes, and has left a further
byte `0xAB` behind them in the output buffer (whose announced size is 49). -/
def trailingByteProvider : Provider KeyStore :=
  { referenceProvider with
    psa_aead_encrypt := fun _ _ _ _ _ _ s =>
      ({ status := PSA_SUCCESS,
         out := readBytes psaAeadEncrypt.testVector.expectedCiphertext 1 24
                  ++ readBytes psaAeadEncrypt.testVector.expectedMac 0 4 ++ [0xAB],
         length := 28 }, s) }

/-- Provider whose `psa_cipher_encrypt` writes the ciphertext and its length and
then reports an error status. -/
def encryptErrorProvider : Provider KeyStore :=
  { referenceProvider with
    psa_cipher_encrypt := fun _ _ input _ s =>
      ({ status := PSA_ERROR_GENERIC_ERROR, out := input.map (fun b => 255 - b),
         length := input.length }, s) }

/-- Provider that rejects the import of every key whose usage is verification
(the public keys of `psaSignVerify.c`) as not supported. -/
def noPublicKeyProvider : Provider KeyStore :=
  { referenceProvider with
    psa_import_key := fun a _ s =>
      if a.usage = PSA_KEY_USAGE_VERIFY_MESSAGE ∨ a.usage = PSA_KEY_USAGE_VERIFY_HASH then
        ((PSA_ERROR_NOT_SUPPORTED, 0), s)
      else KeyStore.create a s }

/-- Provider whose `psa_export_public_key` answers 65 bytes that are not the
public key of the test vector. -/
def otherPublicKeyProvider : Provider KeyStore :=
  { referenceProvider with
    psa_export_public_key := fun _ _ s =>
      ({ status := PSA_SUCCESS, out := 0x04 :: List.replicate 64 0x11, length := 65 }, s) }

/-- Provider that rejects, as not supported, the import of a key whose
persistence and location are both the HSM asset store of `sampleHsm`. -/
def noAssetStoreProvider : Provider KeyStore :=
  { referenceProvider with
    psa_import_key := fun a _ s =>
      if a.lifetime = PSA_KEY_LIFETIME_FROM_PERSISTENCE_AND_LOCATION
          sampleHsm.PSA_KEY_PERSISTENCE_HSM_ASSET_STORE sampleHsm.PSA_KEY_LOCATION_HSM_ASSET_STORE then
        ((PSA_ERROR_NOT_SUPPORTED, 0), s)
      else KeyStore.create a s }

/-- Provider whose key derivation operation does not lower its capacity when a
key is output. -/
def fixedCapacityProvider : Provider KeyStore :=
  { referenceProvider with
    psa_key_derivation_output_key := fun a s => KeyStore.create a s }

/-! ## mainThread

The four examples have the same `mainThread` up to the banner it prints and the
worker thread it creates. -/

/-- What `mainThread` gets from outside the sources: the value of
`HSMXXF3_STATUS_SUCCESS` (`HSMXXF3.h`), whether `Display_open` returned a handle,
the answers of `psa_crypto_init` and `HSMXXF3_provisionHUK` on the provider's
hidden state, and the return codes of the pthread calls. -/
structure Platform (σ : Type) where
  HSMXXF3_STATUS_SUCCESS : Int
  Display_open : Bool
  psa_crypto_init : σ → psa_status_t × σ
  HSMXXF3_provisionHUK : σ → Int × σ
  pthread_attr_init : Int
  pthread_attr_setschedparam : Int
  pthread_attr_setdetachstate : Int
  pthread_attr_setstacksize : Int
  pthread_create : Int

/-- Outcome of `mainThread`: the lines it printed itself, LED0, the provider's
hidden state it left, whether it ended in one of its `while (1) {}` loops instead
of returning, and the run of the worker thread if `pthread_create` started one. -/
structure Main (σ : Type) where
  display : List Line
  led0 : Bool
  prov : σ
  spins : Bool
  worker : Option (World σ)

/-- Bit pattern of an `int` (32 bits, two's complement), on which `|=` works. -/
def intBits (x : Int) : Nat := (x % (2 ^ 32 : Int)).toNat

/-- The function `mainThread`, with the banner and the worker thread of the example. -/
def mainThread_run {σ : Type} (banner : String) (thread : σ → World σ) (pf : Platform σ) (s : σ) :
    Main σ :=
  let m : Main σ := { display := [], led0 := false, prov := s, spins := false, worker := none }
  /- Open the display for output -/
  if pf.Display_open = false then
    /- Failed to open display driver -/
    { m with spins := true }
  else
  let m := { m with display := m.display ++ [Line.mk banner []] }
  /- Initialize PSA Crypto -/
  let r := pf.psa_crypto_init m.prov
  let m := { m with prov := r.2 }
  if r.1 ≠ PSA_SUCCESS then
    { m with
      display := m.display ++ [Line.mk "Error: psa_crypto_init() failed. Status = %d\n" [r.1]],
      spins := true }
  else
  let m := { m with
    display := m.display ++ [Line.mk "Provisioning Hardware Unique Key (HUK)...\n" []] }
  /- Provision the HW Unique Key needed to store key blobs -/
  let h := pf.HSMXXF3_provisionHUK m.prov
  let m := { m with prov := h.2 }
  if h.1 ≠ pf.HSMXXF3_STATUS_SUCCESS then
    { m with
      display := m.display ++
        [Line.mk "Error: HSMXXF3_provisionHUK() failed. Status = %d\n" [h.1]],
      spins := true }
  else
  /- Turn on LED0 to indicate successful initialization -/
  let m := { m with led0 := true }
  /- Set priority and stack size attributes -/
  let retc := intBits pf.pthread_attr_init
  let retc := retc ||| intBits pf.pthread_attr_setschedparam
  let retc := retc ||| intBits pf.pthread_attr_setdetachstate
  let retc := retc ||| intBits pf.pthread_attr_setstacksize
  if retc ≠ 0 then
    /- Failed to set thread attributes -/
    { m with spins := true }
  else
  /- Create the worker thread -/
  if pf.pthread_create ≠ 0 then
    /- pthread_create() failed -/
    { m with spins := true }
  else { m with worker := some (thread m.prov) }

/-- The function `mainThread` of `psaAeadEncrypt.c`. -/
def psaAeadEncrypt.mainThread {σ : Type} (c : HsmValues) (P : Provider σ) (pf : Platform σ) (s : σ) :
    Main σ :=
  mainThread_run "\nStarting the PSA Crypto AEAD Encrypt example.\n"
    (psaAeadEncrypt.encryptThread c P) pf s

/-- The function `mainThread` of `psaRawKeyAgreement.c`. -/
def psaRawKeyAgreement.mainThread {σ : Type} (c : HsmValues) (P : Provider σ) (pf : Platform σ)
    (s : σ) : Main σ :=
  mainThread_run "\nStarting the PSA Crypto Raw Key Agreement example.\n"
    (psaRawKeyAgreement.keyAgreementThread c P) pf s

/-- The function `mainThread` of `psaKeyDerivation.c`. -/
def psaKeyDerivation.mainThread {σ : Type} (c : HsmValues) (P : Provider σ) (pf : Platform σ)
    (s : σ) : Main σ :=
  mainThread_run "\nStarting the PSA Crypto Key Derivation example.\n"
    (psaKeyDerivation.derivationThread c P) pf s

/-- The function `mainThread` of `psaSignVerify.c`. -/
def psaSignVerify.mainThread {σ : Type} (c : HsmValues) (P : Provider σ) (pf : Platform σ)
    (s : σ) : Main σ :=
  mainThread_run "\nStarting the PSA Crypto Sign & Verify example.\n"
    (psaSignVerify.signVerifyThread c P psaSignVerify.signTestVectors) pf s

/-- Provider calls of the worker thread a `mainThread` created, if it created one. -/
def Main.calls {σ : Type} (m : Main σ) : List Call :=
  match m.worker with
  | some w => w.calls
  | none => []

/-- LED1 after the run: only the worker thread writes it. -/
def Main.led1 {σ : Type} (m : Main σ) : Bool :=
  match m.worker with
  | some w => w.led1
  | none => false

/-! ## Observations on a run of `signVerifyThread` -/

namespace psaSignVerify

/-- World in which the inner loop of outer iteration `j` starts. -/
def beforeVector {σ : Type} (c : HsmValues) (P : Provider σ) (vecs : List ecdsaTestCase) (s : σ)
    (j : Nat) : World σ :=
  let w := signVerifyThread_for c P vecs j (World.start s)
  let w := printByteArray "Private Key: 0x" (vecs.getD j default).privateKey 0
    (vecs.getD j default).privateKeyLength w
  let w := printByteArray "Public Key: 0x" (vecs.getD j default).publicKey 0
    (vecs.getD j default).publicKeyLength w
  Display_printf w "" []

/-- World in which `signMessage` is called for vector `j` and lifetime index `i`. -/
def before {σ : Type} (c : HsmValues) (P : Provider σ) (vecs : List ecdsaTestCase) (s : σ)
    (j i : Nat) : World σ :=
  printKeyLifetime c ((lifetimes c).getD i 0)
    (signVerifyThread_inner_for c P vecs j i (beforeVector c P vecs s j))

/-- World in which `signHash` is called for vector `j` and lifetime index `i`. -/
def beforeHash {σ : Type} (c : HsmValues) (P : Provider σ) (vecs : List ecdsaTestCase) (s : σ)
    (j i : Nat) : World σ :=
  signMessage P vecs (PSA_KEY_LIFETIME_GET_PERSISTENCE ((lifetimes c).getD i 0))
    (PSA_KEY_LIFETIME_GET_LOCATION ((lifetimes c).getD i 0)) j (before c P vecs s j i)

end psaSignVerify

/-! ## More readers of a log of provider calls -/

/-- Status a logged call was answered with. -/
def Call.status : Call → psa_status_t
  | Call.destroy_key _ status => status
  | Call.import_key _ _ status _ => status
  | Call.get_key_attributes _ status => status
  | Call.aead_encrypt _ _ _ _ _ _ answer => answer.status
  | Call.raw_key_agreement _ _ _ _ answer => answer.status
  | Call.cipher_encrypt _ _ _ _ answer => answer.status
  | Call.cipher_decrypt _ _ _ _ answer => answer.status
  | Call.key_derivation_setup _ status => status
  | Call.key_derivation_input_key _ _ status => status
  | Call.key_derivation_input_bytes _ _ status => status
  | Call.key_derivation_get_capacity status _ => status
  | Call.key_derivation_set_capacity _ status => status
  | Call.key_derivation_output_key _ status _ => status
  | Call.export_public_key _ _ answer => answer.status
  | Call.sign_message _ _ _ _ answer => answer.status
  | Call.sign_hash _ _ _ _ answer => answer.status
  | Call.verify_message _ _ _ _ status => status
  | Call.verify_hash _ _ _ _ status => status

/-- Log `b` continues log `a`: it is `a` followed by further calls. -/
def Continues (a b : List Call) : Prop := ∃ l, b = a ++ l

/-- Statuses of the `psa_destroy_key` calls of a log, in order. -/
def destroyStatuses (log : List Call) : List psa_status_t :=
  log.filterMap fun
    | Call.destroy_key _ status => some status
    | _ => none

/-- Lifetimes in the attributes of the `psa_import_key` calls of a log, in order. -/
def importedLifetimes (log : List Call) : List psa_key_lifetime_t :=
  log.filterMap fun
    | Call.import_key attributes _ _ _ => some attributes.lifetime
    | _ => none

/-- Whether a logged call is one of the cryptographic operations of the examples
(everything but key import, key destruction and reading of key attributes). -/
def Call.isOperation : Call → Bool
  | Call.destroy_key _ _ => false
  | Call.import_key _ _ _ _ => false
  | Call.get_key_attributes _ _ => false
  | _ => true

/-! ## More concrete inputs -/

/-- Provider whose `psa_export_public_key` fails. -/
def noExportProvider : Provider KeyStore :=
  { referenceProvider with
    psa_export_public_key := fun _ _ s =>
      ({ status := PSA_ERROR_GENERIC_ERROR, out := [], length := 0 }, s) }

/-- Provider whose `psa_destroy_key` always reports an error and frees nothing. -/
def destroyErrorProvider : Provider KeyStore :=
  { referenceProvider with psa_destroy_key := fun _ s => (PSA_ERROR_GENERIC_ERROR, s) }

/-- A store in which the persistent ID `PSA_KEY_ID_USER_MIN + 1` is occupied. -/
def occupiedStore : KeyStore :=
  (KeyStore.create { PSA_KEY_ATTRIBUTES_INIT with id := PSA_KEY_ID_USER_MIN + 1 } KeyStore.empty).2

/-- Provider that answers `psa_aead_encrypt` with the 24 expected ciphertext
bytes and a MAC whose first byte is `0x39` instead of `0x38`. -/
def wrongMacProvider : Provider KeyStore :=
  { referenceProvider with
    psa_aead_encrypt := fun _ _ _ _ _ _ s =>
      ({ status := PSA_SUCCESS,
         out := readBytes psaAeadEncrypt.testVector.expectedCiphertext 1 24 ++ [0x39, 0xf1, 0x25, 0xfa],
         length := 28 }, s) }

/-- Provider whose operations with an output buffer report `PSA_SUCCESS` and the
expected output length but write no byte. -/
def silentProvider : Provider KeyStore :=
  { referenceProvider with
    psa_aead_encrypt := fun _ _ _ _ _ _ s => ({ status := PSA_SUCCESS, out := [], length := 28 }, s)
    psa_raw_key_agreement := fun _ _ _ _ s => ({ status := PSA_SUCCESS, out := [], length := 32 }, s)
    psa_cipher_encrypt := fun _ _ input _ s =>
      ({ status := PSA_SUCCESS, out := [], length := input.length }, s)
    psa_cipher_decrypt := fun _ _ input _ s =>
      ({ status := PSA_SUCCESS, out := [], length := input.length }, s) }

/-- The store of the reference provider at the moment the first derived key of the
first lifetime has just been output in a run of `derivationThread` from the empty
store: what a run cut short at that moment leaves behind. -/
def interruptedStore : KeyStore :=
  match psaKeyDerivation.beforeInner sampleHsm referenceProvider KeyStore.empty 0 0 with
  | some st => (psaKeyDerivation.derived referenceProvider 0 0 st).2.prov
  | none => KeyStore.empty

/-- A platform on which every call of `mainThread` succeeds. -/
def workingPlatform : Platform KeyStore :=
  { HSMXXF3_STATUS_SUCCESS := 0, Display_open := true,
    psa_crypto_init := fun s => (PSA_SUCCESS, s), HSMXXF3_provisionHUK := fun s => (0, s),
    pthread_attr_init := 0, pthread_attr_setschedparam := 0, pthread_attr_setdetachstate := 0,
    pthread_attr_setstacksize := 0, pthread_create := 0 }

/-- A platform on which `psa_crypto_init` fails. -/
def initErrorPlatform : Platform KeyStore :=
  { workingPlatform with psa_crypto_init := fun s => (PSA_ERROR_GENERIC_ERROR, s) }

/-- A platform on which `HSMXXF3_provisionHUK` fails. -/
def provisionErrorPlatform : Platform KeyStore :=
  { workingPlatform with HSMXXF3_provisionHUK := fun s => (-1, s) }

/-! ## Message buffer, further readers and further concrete inputs -/

/-- The constant `MSG_BUFFER_SIZE` of `psaAeadEncrypt.c`. -/
def psaAeadEncrypt.MSG_BUFFER_SIZE : Nat := 128
/-- The constant `MSG_BUFFER_SIZE` of `psaKeyDerivation.c`. -/
def psaKeyDerivation.MSG_BUFFER_SIZE : Nat := 128
/-- The constant `MSG_BUFFER_SIZE` of `psaRawKeyAgreement.c`. -/
def psaRawKeyAgreement.MSG_BUFFER_SIZE : Nat := 256
/-- The constant `MSG_BUFFER_SIZE` of `psaSignVerify.c`. -/
def psaSignVerify.MSG_BUFFER_SIZE : Nat := 272

/-- Number of bytes of `msgBuf`, counted from its start, that `printByteArray`
stores into: `strcpy` stores the description and its NUL, and iteration `i` of
the loop stores two hex digits and a NUL from `dest + 2 * i` on. -/
def printByteArray_written (desc : String) (len : Nat) : Nat :=
  (List.range len).foldl (fun extent i => max extent (desc.length + i * 2 + 3)) (desc.length + 1)

/-- Provider whose signing calls fill the whole signature buffer they are given
and report its size as the signature length. -/
def longSignatureProvider : Provider KeyStore :=
  { referenceProvider with
    psa_sign_message := fun _ _ _ signature_size s =>
      ({ status := PSA_SUCCESS, out := List.replicate signature_size 0xAB,
         length := signature_size }, s)
    psa_sign_hash := fun _ _ _ signature_size s =>
      ({ status := PSA_SUCCESS, out := List.replicate signature_size 0xAB,
         length := signature_size }, s) }

/-- Provider whose `psa_aead_encrypt` fills the whole output buffer it is given
and reports its size as the output length. -/
def fillingProvider : Provider KeyStore :=
  { referenceProvider with
    psa_aead_encrypt := fun _ _ _ _ _ ciphertext_size s =>
      ({ status := PSA_SUCCESS, out := List.replicate ciphertext_size 0xAA,
         length := ciphertext_size }, s) }

/-- Lifetimes in the attributes of the `psa_import_key` calls of a log whose usage
flags include `PSA_KEY_USAGE_SIGN_MESSAGE` (the private keys that `signMessage`
imports), in order. -/
def signMessageLifetimes (log : List Call) : List psa_key_lifetime_t :=
  log.filterMap fun
    | Call.import_key attributes _ _ _ =>
      if attributes.usage &&& PSA_KEY_USAGE_SIGN_MESSAGE ≠ 0 then some attributes.lifetime else none
    | _ => none

/-! ## Shapes of the log of one sign sub-case of `psaSignVerify.c` -/

namespace psaSignVerify

/-- Calls a `setupKeyID` logs: none, or one `psa_destroy_key` on `PSA_KEY_ID_USER_MIN`. -/
def PreDestroy (pre : List Call) : Prop :=
  pre = [] ∨ ∃ st, pre = [Call.destroy_key PSA_KEY_ID_USER_MIN st]

/-- Log `finish` is log `start` followed by the calls of a `signMessage` for vector
`j` in which the private key was imported, `psa_export_public_key` and
`psa_sign_message` returned `PSA_SUCCESS`, the private key was destroyed with
`PSA_SUCCESS`, and the `verifyMessage` that followed either failed to import the
public key or had `psa_verify_message` and `psa_destroy_key` both return `PSA_SUCCESS`. -/
def CleanSignMessage (vecs : List ecdsaTestCase) (j : Nat) (start finish : List Call) : Prop :=
  ∃ (pre : List Call) (a : psa_key_attributes_t) (d : List Nat) (key : psa_key_id_t)
    (x sg : Output) (pre2 : List Call) (a2 : psa_key_attributes_t) (d2 : List Nat)
    (st2 : psa_status_t) (key2 : psa_key_id_t) (sig : List Nat),
    PreDestroy pre ∧ PreDestroy pre2 ∧ x.status = PSA_SUCCESS ∧ sg.status = PSA_SUCCESS ∧
    finish = start ++ pre ++
      [Call.import_key a d PSA_SUCCESS key,
       Call.export_public_key key SIGNATURE_SIZE x,
       Call.sign_message key (vecs.getD j default).alg
         (readBytes (vecs.getD j default).message 0 (vecs.getD j default).messageLength)
         SIGNATURE_SIZE sg,
       Call.destroy_key key PSA_SUCCESS] ++ pre2 ++
      [Call.import_key a2 d2 st2 key2] ++
      (if st2 = PSA_SUCCESS then
        [Call.verify_message key2 (vecs.getD j default).alg
           (readBytes (vecs.getD j default).message 0 (vecs.getD j default).messageLength)
           sig PSA_SUCCESS,
         Call.destroy_key key2 PSA_SUCCESS]
       else [])

/-- Log `finish` is log `start` followed by the calls of a `signHash` for vector
`j` in which the private key was imported, `psa_sign_hash` returned `PSA_SUCCESS`,
the private key was destroyed with `PSA_SUCCESS`, and the `verifyHash` that
followed either failed to import the public key or had `psa_verify_hash` and
`psa_destroy_key` both return `PSA_SUCCESS`. -/
def CleanSignHash (vecs : List ecdsaTestCase) (j : Nat) (start finish : List Call) : Prop :=
  ∃ (pre : List Call) (a : psa_key_attributes_t) (d : List Nat) (key : psa_key_id_t)
    (sg : Output) (pre2 : List Call) (a2 : psa_key_attributes_t) (d2 : List Nat)
    (st2 : psa_status_t) (key2 : psa_key_id_t) (sig : List Nat),
    PreDestroy pre ∧ PreDestroy pre2 ∧ sg.status = PSA_SUCCESS ∧
    finish = start ++ pre ++
      [Call.import_key a d PSA_SUCCESS key,
       Call.sign_hash key (vecs.getD j default).alg
         (readBytes (vecs.getD j default).hash 0
           (PSA_HASH_LENGTH (PSA_ALG_SIGN_GET_HASH (vecs.getD j default).alg)))
         SIGNATURE_SIZE sg,
       Call.destroy_key key PSA_SUCCESS] ++ pre2 ++
      [Call.import_key a2 d2 st2 key2] ++
      (if st2 = PSA_SUCCESS then
        [Call.verify_hash key2 (vecs.getD j default).alg
           (readBytes (vecs.getD j default).hash 0
             (PSA_HASH_LENGTH (PSA_ALG_SIGN_GET_HASH (vecs.getD j default).alg)))
           sig PSA_SUCCESS,
         Call.destroy_key key2 PSA_SUCCESS]
       else [])

end psaSignVerify

/-! ## Further concrete inputs and log readers -/

/-- Provider that gives every volatile key (attribute ID 0) the key ID
`PSA_KEY_ID_USER_MIN + 1`, the ID the examples use for the persistent key of the
second lifetime. -/
def collidingProvider : Provider KeyStore :=
  { referenceProvider with
    psa_import_key := fun a _ s =>
      KeyStore.create (if a.id = 0 then { a with id := PSA_KEY_ID_USER_MIN + 1 } else a) s }

/-- Provider that rejects the import of a key with the first lifetime (volatile,
local storage) as not supported and whose key derivation operation does not lower
its capacity when a key is output. -/
def firstLifetimeRejectedProvider : Provider KeyStore :=
  { fixedCapacityProvider with
    psa_import_key := fun a _ s =>
      if a.lifetime = PSA_KEY_LIFETIME_FROM_PERSISTENCE_AND_LOCATION PSA_KEY_PERSISTENCE_VOLATILE
          PSA_KEY_LOCATION_LOCAL_STORAGE then
        ((PSA_ERROR_NOT_SUPPORTED, 0), s)
      else KeyStore.create a s }

/-- Provider whose `psa_cipher_encrypt` reports `PSA_SUCCESS` and the expected
length but writes no byte, and whose `psa_cipher_decrypt` answers the plaintext of
`psaKeyDerivation.c` whatever ciphertext it is given. -/
def silentEncryptProvider : Provider KeyStore :=
  { referenceProvider with
    psa_cipher_encrypt := fun _ _ input _ s =>
      ({ status := PSA_SUCCESS, out := [], length := input.length }, s)
    psa_cipher_decrypt := fun _ _ _ _ s =>
      ({ status := PSA_SUCCESS,
         out := readBytes psaKeyDerivation.plaintext 0 psaKeyDerivation.PLAINTEXT_LENGTH,
         length := psaKeyDerivation.PLAINTEXT_LENGTH }, s) }

/-- Provider `P` with the bytes and the length that `psa_export_public_key` answers
replaced by `bytes` and `length`; the status, the next hidden state and every
other function are those of `P`. -/
def withExportedBytes {σ : Type} (P : Provider σ) (bytes : List Nat) (length : Nat) : Provider σ :=
  { P with
    psa_export_public_key := fun key data_size s =>
      ({ status := (P.psa_export_public_key key data_size s).1.status, out := bytes,
         length := length },
       (P.psa_export_public_key key data_size s).2) }

/-- A logged call with the bytes and the length of a `psa_export_public_key`
answer blanked; every other call is left as it is. -/
def Call.exportBlanked : Call → Call
  | Call.export_public_key key data_size answer =>
    Call.export_public_key key data_size { status := answer.status, out := [], length := 0 }
  | x => x

/-- A world with the exported bytes blanked in its log. -/
def World.exportBlanked {σ : Type} (w : World σ) : World σ :=
  { w with calls := w.calls.map Call.exportBlanked }

/-- Answers of the `psa_cipher_encrypt` calls of a log, in order. -/
def cipherEncryptAnswers (log : List Call) : List Output :=
  log.filterMap fun
    | Call.cipher_encrypt _ _ _ _ answer => some answer
    | _ => none

end Psa

namespace Psa

/-! ## Theorems -/

section Frame
variable {σ : Type}

@[simp]
theorem Display_printf_passCnt (w : World σ) (f : String) (a : List Int) :
    (Display_printf w f a).passCnt = w.passCnt := rfl
@[simp]
theorem Display_printf_calls (w : World σ) (f : String) (a : List Int) :
    (Display_printf w f a).calls = w.calls := rfl
@[simp]
theorem Display_printf_prov (w : World σ) (f : String) (a : List Int) :
    (Display_printf w f a).prov = w.prov := rfl
@[simp]
theorem Display_printf_led1 (w : World σ) (f : String) (a : List Int) :
    (Display_printf w f a).led1 = w.led1 := rfl
@[simp]
theorem Display_printf_sign_output (w : World σ) (f : String) (a : List Int) :
    (Display_printf w f a).sign_output = w.sign_output := rfl

end Frame

theorem firstMismatch_eq_none_iff (m : Nat → Bool) (n : Nat) :
    ∀ start, firstMismatch m start n = none ↔ ∀ k, k < n → m (start + k) = false := by
  induction n with
  | zero => intro start; simp [firstMismatch]
  | succ n ih =>
    intro start
    simp only [firstMismatch]
    by_cases h : m start = true
    · simp only [h, if_true]
      constructor
      · intro h'; cases h'
      · intro h'; have := h' 0 (Nat.succ_pos n); simp [h] at this
    · simp only [h, if_false, Bool.false_eq_true]
      rw [ih (start + 1)]
      constructor
      · intro h' k hk
        cases k with
        | zero => simpa using h
        | succ k =>
          have := h' k (Nat.lt_of_succ_lt_succ hk)
          rwa [Nat.add_assoc, Nat.add_comm 1 k] at this
      · intro h' k hk
        have := h' (k + 1) (Nat.succ_lt_succ hk)
        rwa [Nat.add_assoc, Nat.add_comm 1 k]

namespace psaRawKeyAgreement
variable {σ : Type}

theorem keyAgreementThread_verify_passCnt (r : Output) (ss : List Nat) (w : World σ) :
    (keyAgreementThread_verify r ss w).passCnt =
      if r.status = PSA_SUCCESS ∧ r.length = expectedSharedSecretLength ∧
         sharedSecretMismatch ss = none then w.passCnt + 1 else w.passCnt := by
  unfold keyAgreementThread_verify
  by_cases h1 : r.status = PSA_SUCCESS
  · by_cases h2 : r.length = expectedSharedSecretLength
    · cases h3 : sharedSecretMismatch ss with
      | none => simp [h1, h2, h3, printByteArray]
      | some k => simp [h1, h2, h3, printByteArray, PSA_ERROR_GENERIC_ERROR, PSA_SUCCESS]
    · simp [h1, h2, printByteArray, PSA_ERROR_GENERIC_ERROR, PSA_SUCCESS]
  · simp [h1]

end psaRawKeyAgreement
end Psa

namespace Psa
namespace psaAeadEncrypt
variable {σ : Type}

theorem encryptThread_verify_passCnt (r : Output) (ct : List Nat) (w : World σ) :
    (encryptThread_verify r ct w).passCnt =
      if r.status = PSA_SUCCESS ∧ ciphertextMismatch ct = none ∧ macMismatch ct = none
      then w.passCnt + 1 else w.passCnt := by
  unfold encryptThread_verify
  by_cases h1 : r.status = PSA_SUCCESS
  · cases h2 : ciphertextMismatch ct with
    | none =>
      cases h3 : macMismatch ct with
      | none => simp [h1, h2, h3, printByteArray]
      | some k => simp [h1, h2, h3, printByteArray, PSA_ERROR_INVALID_SIGNATURE, PSA_SUCCESS]
    | some k => simp [h1, h2, printByteArray, PSA_ERROR_GENERIC_ERROR, PSA_SUCCESS]
  · simp [h1]

theorem encryptThread_import_passCnt (c : HsmValues) (P : Provider σ) (i : Nat) (w : World σ) :
    (encryptThread_import c P i w).2.passCnt = w.passCnt := by
  unfold encryptThread_import
  simp only [psa_import_key, psa_destroy_key, printKeyLifetime]
  split_ifs <;> simp

theorem encryptThread_encrypt_passCnt (P : Provider σ) (k : Nat) (w : World σ) :
    (encryptThread_encrypt P k w).2.passCnt = w.passCnt := by
  unfold encryptThread_encrypt
  simp only [psa_aead_encrypt, psa_get_key_attributes]
  split_ifs <;> simp

theorem aead_before_succ_passCnt (c : HsmValues) (P : Provider σ) (s : σ) (i : Nat) :
    ((before c P s (i + 1)).passCnt = (before c P s i).passCnt + 1 ∧ caseOk c P s i) ∨
    (((before c P s (i + 1)).passCnt = (before c P s i).passCnt ∨
      (before c P s (i + 1)).passCnt = (before c P s i).passCnt - 1) ∧ ¬ caseOk c P s i) := by
  have h1 : before c P s (i + 1) = encryptThread_loop c P i (before c P s i) := rfl
  rw [h1]
  unfold caseOk destroyStatus verified encrypted imported
  generalize before c P s i = w
  unfold encryptThread_loop
  by_cases hi : (encryptThread_import c P i w).1.1 = PSA_SUCCESS
  · simp only [hi, ne_eq, not_true_eq_false, if_false, true_and]
    by_cases hd : (psa_destroy_key P (encryptThread_import c P i w).1.2
        (encryptThread_verify (encryptThread_encrypt P (encryptThread_import c P i w).1.2
            (encryptThread_import c P i w).2).1.1
          (encryptThread_encrypt P (encryptThread_import c P i w).1.2
            (encryptThread_import c P i w).2).1.2
          (encryptThread_encrypt P (encryptThread_import c P i w).1.2
            (encryptThread_import c P i w).2).2)).1 = PSA_SUCCESS
    · simp only [hd, not_true_eq_false, if_false, and_true]
      simp only [psa_destroy_key, encryptThread_verify_passCnt, encryptThread_encrypt_passCnt,
        encryptThread_import_passCnt]
      split_ifs with hc
      · left; exact ⟨rfl, hc⟩
      · right; exact ⟨Or.inl rfl, hc⟩
    · simp only [hd, not_false_eq_true, if_true, and_false]
      simp only [psa_destroy_key, Display_printf_passCnt, encryptThread_verify_passCnt,
        encryptThread_encrypt_passCnt, encryptThread_import_passCnt]
      right
      refine ⟨?_, trivial⟩
      split_ifs
      · left; omega
      · right; rfl
  · simp only [hi, ne_eq, not_false_eq_true, if_true, false_and, not_false_eq_true, and_true]
    right
    left
    split_ifs <;> simp [psa_destroy_key, encryptThread_import_passCnt]

end psaAeadEncrypt
end Psa

namespace Psa

theorem toSizeT_eq_iff (x : Int) (n : Nat) (hlo : -128 ≤ x) (hhi : x ≤ 127) (hn : n ≤ 127) :
    toSizeT x = n ↔ x = n := by
  unfold toSizeT
  omega

namespace psaAeadEncrypt
variable {σ : Type}

theorem encryptThread_import_led1 (c : HsmValues) (P : Provider σ) (i : Nat) (w : World σ) :
    (encryptThread_import c P i w).2.led1 = w.led1 := by
  unfold encryptThread_import
  simp only [psa_import_key, psa_destroy_key, printKeyLifetime]
  split_ifs <;> simp

theorem encryptThread_encrypt_led1 (P : Provider σ) (k : Nat) (w : World σ) :
    (encryptThread_encrypt P k w).2.led1 = w.led1 := by
  unfold encryptThread_encrypt
  simp only [psa_aead_encrypt, psa_get_key_attributes]
  split_ifs <;> simp

theorem encryptThread_verify_led1 (r : Output) (ct : List Nat) (w : World σ) :
    (encryptThread_verify r ct w).led1 = w.led1 := by
  unfold encryptThread_verify
  by_cases h1 : r.status = PSA_SUCCESS
  · cases h2 : ciphertextMismatch ct with
    | none =>
      cases h3 : macMismatch ct with
      | none => simp [h1, h2, h3, printByteArray]
      | some k => simp [h1, h2, h3, printByteArray, PSA_ERROR_INVALID_SIGNATURE, PSA_SUCCESS]
    | some k => simp [h1, h2, printByteArray, PSA_ERROR_GENERIC_ERROR, PSA_SUCCESS]
  · simp [h1]

theorem encryptThread_loop_led1 (c : HsmValues) (P : Provider σ) (i : Nat) (w : World σ) :
    (encryptThread_loop c P i w).led1 = w.led1 := by
  unfold encryptThread_loop
  simp only []
  split_ifs <;>
    simp [psa_destroy_key, encryptThread_verify_led1, encryptThread_encrypt_led1,
      encryptThread_import_led1]

theorem aead_before_led1 (c : HsmValues) (P : Provider σ) (s : σ) (n : Nat) :
    (before c P s n).led1 = false := by
  induction n with
  | zero => rfl
  | succ n ih =>
    have h1 : before c P s (n + 1) = encryptThread_loop c P n (before c P s n) := rfl
    rw [h1, encryptThread_loop_led1, ih]

theorem aead_before_passCnt (c : HsmValues) (P : Provider σ) (s : σ) (n : Nat) :
    (-(n : Int) ≤ (before c P s n).passCnt ∧ (before c P s n).passCnt ≤ n) ∧
    ((before c P s n).passCnt = n ↔ ∀ i, i < n → caseOk c P s i) := by
  induction n with
  | zero =>
    have h0 : (before c P s 0).passCnt = 0 := rfl
    simp [h0]
  | succ n ih =>
    obtain ⟨⟨hlo, hhi⟩, hiff⟩ := ih
    rcases aead_before_succ_passCnt c P s n with ⟨h1, hok⟩ | ⟨h1, hno⟩
    · refine ⟨⟨by push_cast; omega, by push_cast; omega⟩, ?_⟩
      constructor
      · intro h i hi
        have hn : (before c P s n).passCnt = n := by push_cast at h; omega
        rcases Nat.lt_succ_iff_lt_or_eq.mp hi with hlt | heq
        · exact hiff.mp hn i hlt
        · rw [heq]; exact hok
      · intro h
        have hn : (before c P s n).passCnt = n :=
          hiff.mpr (fun i hi => h i (Nat.lt_succ_of_lt hi))
        push_cast; omega
    · refine ⟨⟨by push_cast; omega, by push_cast; omega⟩, ?_⟩
      constructor
      · intro h
        push_cast at h
        omega
      · intro h
        exact absurd (h n (Nat.lt_succ_self n)) hno

end psaAeadEncrypt
end Psa

namespace Psa
namespace psaRawKeyAgreement
variable {σ : Type}

theorem keyAgreementThread_loop_passCnt (c : HsmValues) (P : Provider σ) (i : Nat) (w : World σ) :
    (keyAgreementThread_loop c P i w).passCnt =
      if (keyAgreementThread_import c P i w).1.1 = PSA_SUCCESS then
        (keyAgreementThread_verify
          (keyAgreementThread_agree P (keyAgreementThread_import c P i w).1.2
            (keyAgreementThread_import c P i w).2).1.1
          (keyAgreementThread_agree P (keyAgreementThread_import c P i w).1.2
            (keyAgreementThread_import c P i w).2).1.2
          (keyAgreementThread_agree P (keyAgreementThread_import c P i w).1.2
            (keyAgreementThread_import c P i w).2).2).passCnt
      else (keyAgreementThread_import c P i w).2.passCnt := by
  unfold keyAgreementThread_loop
  by_cases h : (keyAgreementThread_import c P i w).1.1 = PSA_SUCCESS
  · simp only [h, ne_eq, not_true_eq_false, if_false, if_true]
    split_ifs <;> simp [psa_destroy_key]
  · simp only [h, ne_eq, not_false_eq_true, if_true, if_false]
    split_ifs <;> simp [psa_destroy_key]

theorem keyAgreementThread_import_passCnt (c : HsmValues) (P : Provider σ) (i : Nat) (w : World σ) :
    (keyAgreementThread_import c P i w).2.passCnt = w.passCnt := by
  unfold keyAgreementThread_import
  simp only [psa_import_key, psa_destroy_key, printKeyLifetime]
  split_ifs <;> simp

theorem keyAgreementThread_agree_passCnt (P : Provider σ) (k : Nat) (w : World σ) :
    (keyAgreementThread_agree P k w).2.passCnt = w.passCnt := by
  unfold keyAgreementThread_agree
  simp only [psa_raw_key_agreement, psa_get_key_attributes]
  split_ifs <;> simp

/-- In `keyAgreementThread`, after a successful import, the iteration raises
`passCnt` by one exactly when the status the thread received is `PSA_SUCCESS`,
the length it received is 32 and the first 32 bytes of `sharedSecret` are those
of `expectedSharedSecret`; otherwise `passCnt` is left as it was. -/
theorem keyAgreement_counted_of_agreed (c : HsmValues) (P : Provider σ) (s : σ) (i : Nat)
    (himp : (imported c P s i).1.1 = PSA_SUCCESS) :
    (agreed c P s i).1.2 =
      writeAt (zeroed sizeof_sharedSecret) 0 ((agreed c P s i).1.1.out.take sizeof_sharedSecret) ∧
    ((before c P s (i + 1)).passCnt = (before c P s i).passCnt + 1 ↔
      ((agreed c P s i).1.1.status = PSA_SUCCESS ∧ (agreed c P s i).1.1.length = 32 ∧
        ∀ k, k < 32 → (agreed c P s i).1.2.getD k 0 = testVector.expectedSharedSecret.getD k 0)) ∧
    ((before c P s (i + 1)).passCnt = (before c P s i).passCnt + 1 ∨
      (before c P s (i + 1)).passCnt = (before c P s i).passCnt) := by
  refine ⟨rfl, ?_⟩
  have hstep : (before c P s (i + 1)).passCnt =
      if (agreed c P s i).1.1.status = PSA_SUCCESS ∧
         (agreed c P s i).1.1.length = expectedSharedSecretLength ∧
         sharedSecretMismatch (agreed c P s i).1.2 = none
      then (before c P s i).passCnt + 1 else (before c P s i).passCnt := by
    have h1 : before c P s (i + 1) = keyAgreementThread_loop c P i (before c P s i) := rfl
    unfold imported at himp
    rw [h1, keyAgreementThread_loop_passCnt, if_pos himp, keyAgreementThread_verify_passCnt,
      keyAgreementThread_agree_passCnt, keyAgreementThread_import_passCnt]
    rfl
  have hlen : expectedSharedSecretLength = 32 := by decide
  have hmis : sharedSecretMismatch (agreed c P s i).1.2 = none ↔
      ∀ k, k < 32 → (agreed c P s i).1.2.getD k 0 = testVector.expectedSharedSecret.getD k 0 := by
    unfold sharedSecretMismatch
    rw [firstMismatch_eq_none_iff, hlen]
    simp
  rw [hstep]
  by_cases hc : (agreed c P s i).1.1.status = PSA_SUCCESS ∧
      (agreed c P s i).1.1.length = expectedSharedSecretLength ∧
      sharedSecretMismatch (agreed c P s i).1.2 = none
  · rw [if_pos hc]
    exact ⟨⟨fun _ => ⟨hc.1, hlen ▸ hc.2.1, hmis.1 hc.2.2⟩, fun _ => rfl⟩, Or.inl rfl⟩
  · rw [if_neg hc]
    refine ⟨⟨fun h => absurd h (by omega), fun h => absurd ⟨h.1, hlen ▸ h.2.1, hmis.2 h.2.2⟩ hc⟩,
      Or.inr rfl⟩

end psaRawKeyAgreement
end Psa

namespace Psa
namespace psaAeadEncrypt
variable {σ : Type}

theorem encryptThread_passCnt (c : HsmValues) (P : Provider σ) (s : σ) :
    (encryptThread c P s).passCnt = (before c P s lifetimeCnt).passCnt := by
  unfold encryptThread before
  simp only []
  split_ifs <;> simp

theorem encryptThread_led1 (c : HsmValues) (P : Provider σ) (s : σ) :
    (encryptThread c P s).led1 = true ↔ (before c P s lifetimeCnt).passCnt = lifetimeCnt := by
  have hb := (aead_before_passCnt c P s lifetimeCnt).1
  have hl := aead_before_led1 c P s lifetimeCnt
  have ht := toSizeT_eq_iff (before c P s lifetimeCnt).passCnt lifetimeCnt
    (by have : lifetimeCnt = 5 := rfl; omega) (by have : lifetimeCnt = 5 := rfl; omega) (by decide)
  unfold encryptThread
  unfold before at hl ht ⊢
  simp only [Display_printf_passCnt]
  split_ifs with h
  · simp only [true_iff]
    exact ht.mp h
  · simp only [Display_printf_led1, hl, Bool.false_eq_true, false_iff]
    exact fun h' => h (ht.mpr h')

theorem aead_before_succ_of_import_failed (c : HsmValues) (P : Provider σ) (s : σ) (i : Nat)
    (h : (imported c P s i).1.1 ≠ PSA_SUCCESS) :
    (before c P s (i + 1)).passCnt = (before c P s i).passCnt := by
  have h1 : before c P s (i + 1) = encryptThread_loop c P i (before c P s i) := rfl
  rw [h1]
  unfold imported at h
  unfold encryptThread_loop
  simp only [h, ne_eq, not_false_eq_true, if_true]
  split_ifs <;> simp [psa_destroy_key, encryptThread_import_passCnt]

/-- C8: `encryptThread` turns LED1 on exactly when, for every one of the
`lifetimeCnt` lifetimes, the import succeeded, the ciphertext and MAC
comparison passed and the closing `psa_destroy_key` returned `PSA_SUCCESS`.
The signed `passCnt` stays between `-lifetimeCnt` and `lifetimeCnt`, so its
conversion to `size_t` equals `lifetimeCnt` only when `passCnt` itself does:
a decrement can neither be compensated nor wrap to the expected total. -/
theorem encryptThread_led1_iff_every_case (c : HsmValues) (P : Provider σ) (s : σ) :
    ((encryptThread c P s).led1 = true ↔
      ∀ i, i < lifetimeCnt →
        (imported c P s i).1.1 = PSA_SUCCESS ∧
        ((encrypted c P s i).1.1.status = PSA_SUCCESS ∧
          ciphertextMismatch (encrypted c P s i).1.2 = none ∧
          macMismatch (encrypted c P s i).1.2 = none) ∧
        destroyStatus c P s i = PSA_SUCCESS) ∧
    (-(lifetimeCnt : Int) ≤ (encryptThread c P s).passCnt ∧
      (encryptThread c P s).passCnt ≤ lifetimeCnt) ∧
    (toSizeT (encryptThread c P s).passCnt = lifetimeCnt ↔
      (encryptThread c P s).passCnt = lifetimeCnt) := by
  have hb := aead_before_passCnt c P s lifetimeCnt
  refine ⟨?_, ?_, ?_⟩
  · rw [encryptThread_led1, hb.2]
    rfl
  · rw [encryptThread_passCnt]
    exact hb.1
  · rw [encryptThread_passCnt]
    exact toSizeT_eq_iff _ _ (by have : lifetimeCnt = 5 := rfl; omega)
      (by have : lifetimeCnt = 5 := rfl; omega) (by decide)

end psaAeadEncrypt

namespace psaRawKeyAgreement
variable {σ : Type}

theorem keyAgreementThread_import_led1 (c : HsmValues) (P : Provider σ) (i : Nat) (w : World σ) :
    (keyAgreementThread_import c P i w).2.led1 = w.led1 := by
  unfold keyAgreementThread_import
  simp only [psa_import_key, psa_destroy_key, printKeyLifetime]
  split_ifs <;> simp

theorem keyAgreementThread_agree_led1 (P : Provider σ) (k : Nat) (w : World σ) :
    (keyAgreementThread_agree P k w).2.led1 = w.led1 := by
  unfold keyAgreementThread_agree
  simp only [psa_raw_key_agreement, psa_get_key_attributes]
  split_ifs <;> simp

theorem keyAgreementThread_verify_led1 (r : Output) (ss : List Nat) (w : World σ) :
    (keyAgreementThread_verify r ss w).led1 = w.led1 := by
  unfold keyAgreementThread_verify
  by_cases h1 : r.status = PSA_SUCCESS
  · by_cases h2 : r.length = expectedSharedSecretLength
    · cases h3 : sharedSecretMismatch ss with
      | none => simp [h1, h2, h3, printByteArray]
      | some k => simp [h1, h2, h3, printByteArray, PSA_ERROR_GENERIC_ERROR, PSA_SUCCESS]
    · simp [h1, h2, printByteArray, PSA_ERROR_GENERIC_ERROR, PSA_SUCCESS]
  · simp [h1]

theorem keyAgreementThread_loop_led1 (c : HsmValues) (P : Provider σ) (i : Nat) (w : World σ) :
    (keyAgreementThread_loop c P i w).led1 = w.led1 := by
  unfold keyAgreementThread_loop
  simp only []
  split_ifs <;>
    simp [psa_destroy_key, keyAgreementThread_verify_led1, keyAgreementThread_agree_led1,
      keyAgreementThread_import_led1]

theorem ka_before_led1 (c : HsmValues) (P : Provider σ) (s : σ) (n : Nat) :
    (before c P s n).led1 = false := by
  induction n with
  | zero => rfl
  | succ n ih =>
    have h1 : before c P s (n + 1) = keyAgreementThread_loop c P n (before c P s n) := rfl
    rw [h1, keyAgreementThread_loop_led1, ih]

theorem ka_before_succ_passCnt (c : HsmValues) (P : Provider σ) (s : σ) (i : Nat) :
    (caseOk c P s i → (before c P s (i + 1)).passCnt = (before c P s i).passCnt + 1) ∧
    (¬ caseOk c P s i → (before c P s (i + 1)).passCnt = (before c P s i).passCnt) := by
  have h1 : before c P s (i + 1) = keyAgreementThread_loop c P i (before c P s i) := rfl
  rw [h1, keyAgreementThread_loop_passCnt]
  unfold caseOk agreed imported
  by_cases hi : (keyAgreementThread_import c P i (before c P s i)).1.1 = PSA_SUCCESS
  · rw [if_pos hi, keyAgreementThread_verify_passCnt, keyAgreementThread_agree_passCnt,
      keyAgreementThread_import_passCnt]
    constructor
    · intro h; rw [if_pos h.2]
    · intro h; rw [if_neg (fun h' => h ⟨hi, h'⟩)]
  · rw [if_neg hi, keyAgreementThread_import_passCnt]
    exact ⟨fun h => absurd h.1 hi, fun _ => rfl⟩

theorem ka_before_passCnt (c : HsmValues) (P : Provider σ) (s : σ) (n : Nat) :
    (0 ≤ (before c P s n).passCnt ∧ (before c P s n).passCnt ≤ n) ∧
    ((before c P s n).passCnt = n ↔ ∀ i, i < n → caseOk c P s i) := by
  induction n with
  | zero =>
    have h0 : (before c P s 0).passCnt = 0 := rfl
    simp [h0]
  | succ n ih =>
    obtain ⟨⟨hlo, hhi⟩, hiff⟩ := ih
    by_cases hok : caseOk c P s n
    · have hs := (ka_before_succ_passCnt c P s n).1 hok
      refine ⟨⟨by omega, by push_cast; omega⟩, ?_⟩
      constructor
      · intro h i hi
        have hn : (before c P s n).passCnt = n := by push_cast at h; omega
        rcases Nat.lt_succ_iff_lt_or_eq.mp hi with hlt | heq
        · exact hiff.mp hn i hlt
        · rw [heq]; exact hok
      · intro h
        have hn : (before c P s n).passCnt = n :=
          hiff.mpr (fun i hi => h i (Nat.lt_succ_of_lt hi))
        push_cast; omega
    · have hs := (ka_before_succ_passCnt c P s n).2 hok
      refine ⟨⟨by omega, by push_cast; omega⟩, ?_⟩
      constructor
      · intro h
        push_cast at h
        omega
      · intro h
        exact absurd (h n (Nat.lt_succ_self n)) hok

theorem keyAgreementThread_passCnt (c : HsmValues) (P : Provider σ) (s : σ) :
    (keyAgreementThread c P s).passCnt = (before c P s lifetimeCnt).passCnt := by
  unfold keyAgreementThread before
  simp only []
  split_ifs <;> simp

theorem keyAgreementThread_led1 (c : HsmValues) (P : Provider σ) (s : σ) :
    (keyAgreementThread c P s).led1 = true ↔ (before c P s lifetimeCnt).passCnt = lifetimeCnt := by
  have hb := (ka_before_passCnt c P s lifetimeCnt).1
  have hl := ka_before_led1 c P s lifetimeCnt
  have ht := toSizeT_eq_iff (before c P s lifetimeCnt).passCnt lifetimeCnt
    (by omega) (by have : lifetimeCnt = 5 := rfl; omega) (by decide)
  unfold keyAgreementThread
  unfold before at hl ht ⊢
  simp only [Display_printf_passCnt]
  split_ifs with h
  · simp only [true_iff]
    exact ht.mp h
  · simp only [Display_printf_led1, hl, Bool.false_eq_true, false_iff]
    exact fun h' => h (ht.mpr h')

end psaRawKeyAgreement

/-- C7 (amended): in `encryptThread` and `keyAgreementThread` LED1 is turned on
exactly when `passCnt` equals the fixed `lifetimeCnt`. A lifetime whose
`psa_import_key` is rejected is skipped without touching `passCnt`, and it
still counts in the expected total: one rejected import leaves LED1 off.
For `keyAgreementThread` LED1 is on exactly when every lifetime was imported
and counted as passed. -/
theorem led1_iff_passCnt_eq_lifetimeCnt {σ : Type} (c : HsmValues) (P : Provider σ) (s : σ) :
    (((psaAeadEncrypt.encryptThread c P s).led1 = true ↔
        (psaAeadEncrypt.encryptThread c P s).passCnt = psaAeadEncrypt.lifetimeCnt) ∧
      ∀ i, i < psaAeadEncrypt.lifetimeCnt →
        (psaAeadEncrypt.imported c P s i).1.1 ≠ PSA_SUCCESS →
          (psaAeadEncrypt.before c P s (i + 1)).passCnt = (psaAeadEncrypt.before c P s i).passCnt ∧
          (psaAeadEncrypt.encryptThread c P s).led1 = false) ∧
    (((psaRawKeyAgreement.keyAgreementThread c P s).led1 = true ↔
        (psaRawKeyAgreement.keyAgreementThread c P s).passCnt = psaRawKeyAgreement.lifetimeCnt) ∧
      (∀ i, i < psaRawKeyAgreement.lifetimeCnt →
        (psaRawKeyAgreement.imported c P s i).1.1 ≠ PSA_SUCCESS →
          (psaRawKeyAgreement.before c P s (i + 1)).passCnt =
            (psaRawKeyAgreement.before c P s i).passCnt ∧
          (psaRawKeyAgreement.keyAgreementThread c P s).led1 = false) ∧
      ((psaRawKeyAgreement.keyAgreementThread c P s).led1 = true ↔
        ∀ i, i < psaRawKeyAgreement.lifetimeCnt →
          (psaRawKeyAgreement.imported c P s i).1.1 = PSA_SUCCESS ∧
          (psaRawKeyAgreement.before c P s (i + 1)).passCnt =
            (psaRawKeyAgreement.before c P s i).passCnt + 1)) := by
  refine ⟨⟨?_, ?_⟩, ?_, ?_, ?_⟩
  · rw [psaAeadEncrypt.encryptThread_led1, psaAeadEncrypt.encryptThread_passCnt]
  · intro i hi hfail
    refine ⟨psaAeadEncrypt.aead_before_succ_of_import_failed c P s i hfail, ?_⟩
    cases hled : (psaAeadEncrypt.encryptThread c P s).led1 with
    | false => rfl
    | true =>
      have h := (psaAeadEncrypt.encryptThread_led1 c P s).mp hled
      have h2 := ((psaAeadEncrypt.aead_before_passCnt c P s _).2.mp h) i hi
      exact absurd h2.1 hfail
  · rw [psaRawKeyAgreement.keyAgreementThread_led1, psaRawKeyAgreement.keyAgreementThread_passCnt]
  · intro i hi hfail
    have hno : ¬ psaRawKeyAgreement.caseOk c P s i := fun h => hfail h.1
    refine ⟨(psaRawKeyAgreement.ka_before_succ_passCnt c P s i).2 hno, ?_⟩
    cases hled : (psaRawKeyAgreement.keyAgreementThread c P s).led1 with
    | false => rfl
    | true =>
      have h := (psaRawKeyAgreement.keyAgreementThread_led1 c P s).mp hled
      have h2 := ((psaRawKeyAgreement.ka_before_passCnt c P s _).2.mp h) i hi
      exact absurd h2 hno
  · rw [psaRawKeyAgreement.keyAgreementThread_led1, (psaRawKeyAgreement.ka_before_passCnt c P s _).2]
    constructor
    · intro h i hi
      exact ⟨(h i hi).1, (psaRawKeyAgreement.ka_before_succ_passCnt c P s i).1 (h i hi)⟩
    · intro h i hi
      by_contra hno
      have h1 := (h i hi).2
      have h2 := (psaRawKeyAgreement.ka_before_succ_passCnt c P s i).2 hno
      omega

end Psa

namespace Psa
namespace psaAeadEncrypt
variable {σ : Type}

theorem encryptThread_verify_calls (r : Output) (ct : List Nat) (w : World σ) :
    (encryptThread_verify r ct w).calls = w.calls := by
  unfold encryptThread_verify
  by_cases h1 : r.status = PSA_SUCCESS
  · cases h2 : ciphertextMismatch ct with
    | none =>
      cases h3 : macMismatch ct with
      | none => simp [h1, h2, h3, printByteArray]
      | some k => simp [h1, h2, h3, printByteArray, PSA_ERROR_INVALID_SIGNATURE, PSA_SUCCESS]
    | some k => simp [h1, h2, printByteArray, PSA_ERROR_GENERIC_ERROR, PSA_SUCCESS]
  · simp [h1]

@[simp]
theorem aead_printKeyLifetime_calls (c : HsmValues) (l : Nat) (w : World σ) :
    (printKeyLifetime c l w).calls = w.calls := rfl

@[simp]
theorem aead_printKeyLifetime_prov (c : HsmValues) (l : Nat) (w : World σ) :
    (printKeyLifetime c l w).prov = w.prov := rfl

theorem encryptThread_import_calls (c : HsmValues) (P : Provider σ) (i : Nat) (w : World σ) :
    ∃ pre attributes data,
      (encryptThread_import c P i w).2.calls =
        w.calls ++ pre ++ [Call.import_key attributes data (encryptThread_import c P i w).1.1
          (encryptThread_import c P i w).1.2] ∧
      (pre = [] ∨ ∃ st, pre = [Call.destroy_key (PSA_KEY_ID_USER_MIN + i) st]) := by
  unfold encryptThread_import
  by_cases hv : (PSA_KEY_LIFETIME_GET_PERSISTENCE ((lifetimes c).getD i 0)
      != PSA_KEY_PERSISTENCE_VOLATILE) = true
  · by_cases hd : (psa_destroy_key P (PSA_KEY_ID_USER_MIN + i) w).1 = PSA_SUCCESS
    · simp only [hv, hd, if_true]
      exact ⟨[Call.destroy_key (PSA_KEY_ID_USER_MIN + i) _], _, _, rfl, Or.inr ⟨_, rfl⟩⟩
    · simp only [hv, hd, if_true, if_false]
      exact ⟨[Call.destroy_key (PSA_KEY_ID_USER_MIN + i) _], _, _, rfl, Or.inr ⟨_, rfl⟩⟩
  · simp only [hv, if_false, Bool.false_eq_true]
    exact ⟨[], _, _, by rw [List.append_nil]; rfl, Or.inl rfl⟩

theorem encryptThread_encrypt_calls (P : Provider σ) (k : Nat) (w : World σ) :
    ∃ gs, (encryptThread_encrypt P k w).2.calls =
      w.calls ++ [Call.get_key_attributes k gs,
        Call.aead_encrypt k testVector.alg (readBytes testVector.nonce 0 testVector.nonceLength)
          (readBytes testVector.aad 0 testVector.aadLength)
          (readBytes testVector.plaintext 0 testVector.plaintextLength) sizeof_ciphertext
          (encryptThread_encrypt P k w).1.1] := by
  refine ⟨(psa_get_key_attributes P k w).1.1, ?_⟩
  unfold encryptThread_encrypt
  simp only [psa_aead_encrypt, psa_get_key_attributes]
  split_ifs <;> simp

theorem encryptThread_loop_calls_ok (c : HsmValues) (P : Provider σ) (i : Nat) (w : World σ)
    (h : (encryptThread_import c P i w).1.1 = PSA_SUCCESS) :
    ∃ gs ds, (encryptThread_loop c P i w).calls =
      (encryptThread_import c P i w).2.calls ++
        [Call.get_key_attributes (encryptThread_import c P i w).1.2 gs,
         Call.aead_encrypt (encryptThread_import c P i w).1.2 testVector.alg
           (readBytes testVector.nonce 0 testVector.nonceLength)
           (readBytes testVector.aad 0 testVector.aadLength)
           (readBytes testVector.plaintext 0 testVector.plaintextLength) sizeof_ciphertext
           (encryptThread_encrypt P (encryptThread_import c P i w).1.2
             (encryptThread_import c P i w).2).1.1,
         Call.destroy_key (encryptThread_import c P i w).1.2 ds] := by
  obtain ⟨gs, hgs⟩ := encryptThread_encrypt_calls P (encryptThread_import c P i w).1.2
    (encryptThread_import c P i w).2
  refine ⟨gs, (psa_destroy_key P (encryptThread_import c P i w).1.2
    (encryptThread_verify (encryptThread_encrypt P (encryptThread_import c P i w).1.2
        (encryptThread_import c P i w).2).1.1
      (encryptThread_encrypt P (encryptThread_import c P i w).1.2
        (encryptThread_import c P i w).2).1.2
      (encryptThread_encrypt P (encryptThread_import c P i w).1.2
        (encryptThread_import c P i w).2).2)).1, ?_⟩
  unfold encryptThread_loop
  simp only [h, ne_eq, not_true_eq_false, if_false]
  split_ifs <;> simp [psa_destroy_key, encryptThread_verify_calls, hgs]

theorem encryptThread_loop_calls_extends (c : HsmValues) (P : Provider σ) (i : Nat) (w : World σ) :
    ∃ l, (encryptThread_loop c P i w).calls = w.calls ++ l := by
  obtain ⟨pre, a, d, himp, -⟩ := encryptThread_import_calls c P i w
  by_cases h : (encryptThread_import c P i w).1.1 = PSA_SUCCESS
  · obtain ⟨gs, ds, hl⟩ := encryptThread_loop_calls_ok c P i w h
    exact ⟨_, by rw [hl, himp, List.append_assoc, List.append_assoc]⟩
  · unfold encryptThread_loop
    simp only [h, ne_eq, not_false_eq_true, if_true]
    split_ifs
    · exact ⟨_, by simp only [psa_destroy_key, Display_printf_calls, Display_printf_prov, himp,
        List.append_assoc]; rfl⟩
    · exact ⟨_, by simp only [Display_printf_calls, himp, List.append_assoc]; rfl⟩

theorem aead_before_calls_extends (c : HsmValues) (P : Provider σ) (s : σ) (i n : Nat) :
    ∃ l, (before c P s (i + n)).calls = (before c P s i).calls ++ l := by
  induction n with
  | zero => exact ⟨[], by simp⟩
  | succ n ih =>
    obtain ⟨l, hl⟩ := ih
    have h1 : before c P s (i + (n + 1)) = encryptThread_loop c P (i + n) (before c P s (i + n)) := rfl
    obtain ⟨l', hl'⟩ := encryptThread_loop_calls_extends c P (i + n) (before c P s (i + n))
    exact ⟨l ++ l', by rw [h1, hl', hl, List.append_assoc]⟩

theorem encryptThread_calls (c : HsmValues) (P : Provider σ) (s : σ) :
    (encryptThread c P s).calls = (before c P s lifetimeCnt).calls := by
  unfold encryptThread before
  simp only []
  split_ifs <;> simp

end psaAeadEncrypt
end Psa

namespace Psa
namespace psaRawKeyAgreement
variable {σ : Type}

theorem keyAgreementThread_verify_calls (r : Output) (ss : List Nat) (w : World σ) :
    (keyAgreementThread_verify r ss w).calls = w.calls := by
  unfold keyAgreementThread_verify
  by_cases h1 : r.status = PSA_SUCCESS
  · by_cases h2 : r.length = expectedSharedSecretLength
    · cases h3 : sharedSecretMismatch ss with
      | none => simp [h1, h2, h3, printByteArray]
      | some k => simp [h1, h2, h3, printByteArray, PSA_ERROR_GENERIC_ERROR, PSA_SUCCESS]
    · simp [h1, h2, printByteArray, PSA_ERROR_GENERIC_ERROR, PSA_SUCCESS]
  · simp [h1]

theorem keyAgreementThread_import_calls (c : HsmValues) (P : Provider σ) (i : Nat) (w : World σ) :
    ∃ pre attributes data,
      (keyAgreementThread_import c P i w).2.calls =
        w.calls ++ pre ++ [Call.import_key attributes data (keyAgreementThread_import c P i w).1.1
          (keyAgreementThread_import c P i w).1.2] ∧
      (pre = [] ∨ ∃ st, pre = [Call.destroy_key (PSA_KEY_ID_USER_MIN + i) st]) := by
  unfold keyAgreementThread_import
  by_cases hv : (PSA_KEY_LIFETIME_GET_PERSISTENCE ((lifetimes c).getD i 0)
      != PSA_KEY_PERSISTENCE_VOLATILE) = true
  · by_cases hd : (psa_destroy_key P (PSA_KEY_ID_USER_MIN + i) w).1 = PSA_SUCCESS
    · simp only [hv, hd, if_true]
      exact ⟨[Call.destroy_key (PSA_KEY_ID_USER_MIN + i) _], _, _, rfl, Or.inr ⟨_, rfl⟩⟩
    · simp only [hv, hd, if_true, if_false]
      exact ⟨[Call.destroy_key (PSA_KEY_ID_USER_MIN + i) _], _, _, rfl, Or.inr ⟨_, rfl⟩⟩
  · simp only [hv, if_false, Bool.false_eq_true]
    exact ⟨[], _, _, by rw [List.append_nil]; rfl, Or.inl rfl⟩

theorem keyAgreementThread_agree_calls (P : Provider σ) (k : Nat) (w : World σ) :
    ∃ gs, (keyAgreementThread_agree P k w).2.calls =
      w.calls ++ [Call.get_key_attributes k gs,
        Call.raw_key_agreement PSA_ALG_ECDH k (readBytes testVector.peerPublicKey 0 peerKeyLength)
          sizeof_sharedSecret (keyAgreementThread_agree P k w).1.1] := by
  refine ⟨(psa_get_key_attributes P k w).1.1, ?_⟩
  unfold keyAgreementThread_agree
  simp only [psa_raw_key_agreement, psa_get_key_attributes]
  split_ifs <;> simp

theorem keyAgreementThread_loop_calls_ok (c : HsmValues) (P : Provider σ) (i : Nat) (w : World σ)
    (h : (keyAgreementThread_import c P i w).1.1 = PSA_SUCCESS) :
    ∃ gs ds, (keyAgreementThread_loop c P i w).calls =
      (keyAgreementThread_import c P i w).2.calls ++
        [Call.get_key_attributes (keyAgreementThread_import c P i w).1.2 gs,
         Call.raw_key_agreement PSA_ALG_ECDH (keyAgreementThread_import c P i w).1.2
           (readBytes testVector.peerPublicKey 0 peerKeyLength) sizeof_sharedSecret
           (keyAgreementThread_agree P (keyAgreementThread_import c P i w).1.2
             (keyAgreementThread_import c P i w).2).1.1,
         Call.destroy_key (keyAgreementThread_import c P i w).1.2 ds] := by
  obtain ⟨gs, hgs⟩ := keyAgreementThread_agree_calls P (keyAgreementThread_import c P i w).1.2
    (keyAgreementThread_import c P i w).2
  refine ⟨gs, (psa_destroy_key P (keyAgreementThread_import c P i w).1.2
    (keyAgreementThread_verify (keyAgreementThread_agree P (keyAgreementThread_import c P i w).1.2
        (keyAgreementThread_import c P i w).2).1.1
      (keyAgreementThread_agree P (keyAgreementThread_import c P i w).1.2
        (keyAgreementThread_import c P i w).2).1.2
      (keyAgreementThread_agree P (keyAgreementThread_import c P i w).1.2
        (keyAgreementThread_import c P i w).2).2)).1, ?_⟩
  unfold keyAgreementThread_loop
  simp only [h, ne_eq, not_true_eq_false, if_false]
  split_ifs <;> simp [psa_destroy_key, keyAgreementThread_verify_calls, hgs]

theorem keyAgreementThread_loop_calls_extends (c : HsmValues) (P : Provider σ) (i : Nat)
    (w : World σ) : ∃ l, (keyAgreementThread_loop c P i w).calls = w.calls ++ l := by
  obtain ⟨pre, a, d, himp, -⟩ := keyAgreementThread_import_calls c P i w
  by_cases h : (keyAgreementThread_import c P i w).1.1 = PSA_SUCCESS
  · obtain ⟨gs, ds, hl⟩ := keyAgreementThread_loop_calls_ok c P i w h
    exact ⟨_, by rw [hl, himp, List.append_assoc, List.append_assoc]⟩
  · unfold keyAgreementThread_loop
    simp only [h, ne_eq, not_false_eq_true, if_true]
    split_ifs
    · exact ⟨_, by simp only [psa_destroy_key, Display_printf_calls, Display_printf_prov, himp,
        List.append_assoc]; rfl⟩
    · exact ⟨_, by simp only [Display_printf_calls, himp, List.append_assoc]; rfl⟩

theorem ka_before_calls_extends (c : HsmValues) (P : Provider σ) (s : σ) (i n : Nat) :
    ∃ l, (before c P s (i + n)).calls = (before c P s i).calls ++ l := by
  induction n with
  | zero => exact ⟨[], by simp⟩
  | succ n ih =>
    obtain ⟨l, hl⟩ := ih
    have h1 : before c P s (i + (n + 1)) =
        keyAgreementThread_loop c P (i + n) (before c P s (i + n)) := rfl
    obtain ⟨l', hl'⟩ := keyAgreementThread_loop_calls_extends c P (i + n) (before c P s (i + n))
    exact ⟨l ++ l', by rw [h1, hl', hl, List.append_assoc]⟩

theorem keyAgreementThread_calls (c : HsmValues) (P : Provider σ) (s : σ) :
    (keyAgreementThread c P s).calls = (before c P s lifetimeCnt).calls := by
  unfold keyAgreementThread before
  simp only []
  split_ifs <;> simp

end psaRawKeyAgreement

end Psa

namespace Psa
namespace psaKeyDerivation
variable {σ : Type}

@[simp]
theorem kd_printByteArray_passCnt (d : String) (a : List Nat) (o l : Nat) (w : World σ) :
    (printByteArray d a o l w).passCnt = w.passCnt := rfl

@[simp]
theorem kd_printByteArray_calls (d : String) (a : List Nat) (o l : Nat) (w : World σ) :
    (printByteArray d a o l w).calls = w.calls := rfl

@[simp]
theorem kd_printByteArray_led1 (d : String) (a : List Nat) (o l : Nat) (w : World σ) :
    (printByteArray d a o l w).led1 = w.led1 := rfl

@[simp]
theorem kd_printByteArray_prov (d : String) (a : List Nat) (o l : Nat) (w : World σ) :
    (printByteArray d a o l w).prov = w.prov := rfl

@[simp]
theorem kd_printKeyLifetime_passCnt (c : HsmValues) (l : Nat) (w : World σ) :
    (printKeyLifetime c l w).passCnt = w.passCnt := rfl

@[simp]
theorem kd_printKeyLifetime_calls (c : HsmValues) (l : Nat) (w : World σ) :
    (printKeyLifetime c l w).calls = w.calls := rfl

@[simp]
theorem kd_printKeyLifetime_led1 (c : HsmValues) (l : Nat) (w : World σ) :
    (printKeyLifetime c l w).led1 = w.led1 := rfl

@[simp]
theorem kd_printKeyLifetime_prov (c : HsmValues) (l : Nat) (w : World σ) :
    (printKeyLifetime c l w).prov = w.prov := rfl

theorem derivationThread_compare_led1 (dp : List Nat) (n : Nat) :
    ∀ (idx : Nat) (w : World σ), (derivationThread_compare dp idx n w).led1 = w.led1 := by
  induction n with
  | zero => intro idx w; rfl
  | succ n ih =>
    intro idx w
    simp only [derivationThread_compare]
    split_ifs
    · simp
    · rw [ih]; simp
    · rw [ih]

theorem derivationThread_compare_calls (dp : List Nat) (n : Nat) :
    ∀ (idx : Nat) (w : World σ), (derivationThread_compare dp idx n w).calls = w.calls := by
  induction n with
  | zero => intro idx w; rfl
  | succ n ih =>
    intro idx w
    simp only [derivationThread_compare]
    split_ifs
    · simp
    · rw [ih]; simp
    · rw [ih]

theorem derivationThread_roundTrip_led1 (P : Provider σ) (k : Nat) (w : World σ) :
    (derivationThread_roundTrip P k w).1.led1 = w.led1 := by
  unfold derivationThread_roundTrip
  simp only [psa_cipher_encrypt, psa_cipher_decrypt]
  split_ifs <;> simp [derivationThread_compare_led1]

theorem derived_led1 (P : Provider σ) (i j : Nat) (st : State σ) :
    (derived P i j st).2.led1 = st.w.led1 := rfl

theorem derivedAttributes_led1 (P : Provider σ) (i j : Nat) (st : State σ) :
    (derivedAttributes P i j st).2.led1 = st.w.led1 := rfl

theorem remainingCapacity_led1 (P : Provider σ) (i j : Nat) (st : State σ) :
    (remainingCapacity P i j st).2.led1 = st.w.led1 := rfl

theorem derivationThread_inner_led1 (P : Provider σ) (i j : Nat) (st : State σ) :
    (derivationThread_inner P i j st).w.led1 = st.w.led1 := by
  unfold derivationThread_inner
  simp only []
  split_ifs <;>
    simp [derivationThread_roundTrip_led1, psa_destroy_key, derived_led1, derivedAttributes_led1,
      remainingCapacity_led1]

theorem derivationThread_inner_for_led1 (P : Provider σ) (i : Nat) (n : Nat) (st : State σ) :
    (derivationThread_inner_for P i n st).w.led1 = st.w.led1 := by
  induction n with
  | zero => rfl
  | succ n ih =>
    simp only [derivationThread_inner_for]
    split_ifs
    · exact ih
    · rw [derivationThread_inner_led1, ih]

theorem setupKeyDerivation_led1 (c : HsmValues) (P : Provider σ) (alg k : Nat) (w : World σ) :
    (setupKeyDerivation c P alg k w).2.led1 = w.led1 := by
  unfold setupKeyDerivation
  simp only [psa_key_derivation_setup, psa_key_derivation_input_key,
    psa_key_derivation_input_bytes, psa_key_derivation_get_capacity]
  split_ifs <;> simp

end psaKeyDerivation
end Psa

namespace Psa
namespace psaKeyDerivation
variable {σ : Type}

theorem derivationThread_import_led1 (c : HsmValues) (P : Provider σ) (i : Nat) (w : World σ) :
    (derivationThread_import c P i w).2.led1 = w.led1 := by
  unfold derivationThread_import
  simp only [psa_import_key, psa_destroy_key]
  split_ifs <;> simp

theorem derivationThread_setup_led1 (c : HsmValues) (P : Provider σ) (k : Nat) (w : World σ) :
    (derivationThread_setup c P k w).2.led1 = w.led1 := by
  unfold derivationThread_setup
  simp only [setupKeyDerivation_led1, psa_get_key_attributes]
  split_ifs <;> simp

theorem derivationThread_capacity_led1 (P : Provider σ) (w : World σ) :
    (derivationThread_capacity P w).2.led1 = w.led1 := rfl

theorem derivationThread_capacity_calls (P : Provider σ) (w : World σ) :
    ∃ s1, (derivationThread_capacity P w).2.calls = w.calls ++
      [Call.key_derivation_set_capacity (KEY_DERIVATION_LOOP_CNT * DERIVED_KEY_SIZE) s1,
       Call.key_derivation_get_capacity (derivationThread_capacity P w).1.1
         (derivationThread_capacity P w).1.2] :=
  ⟨(P.psa_key_derivation_set_capacity (KEY_DERIVATION_LOOP_CNT * DERIVED_KEY_SIZE) w.prov).1,
    by simp [derivationThread_capacity, psa_key_derivation_get_capacity,
      psa_key_derivation_set_capacity]⟩

theorem setupKeyDerivation_passCnt (c : HsmValues) (P : Provider σ) (alg k : Nat) (w : World σ) :
    (setupKeyDerivation c P alg k w).2.passCnt = w.passCnt := by
  unfold setupKeyDerivation
  simp only [psa_key_derivation_setup, psa_key_derivation_input_key,
    psa_key_derivation_input_bytes, psa_key_derivation_get_capacity]
  split_ifs <;> simp

theorem derivationThread_import_passCnt (c : HsmValues) (P : Provider σ) (i : Nat) (w : World σ) :
    (derivationThread_import c P i w).2.passCnt = w.passCnt := by
  unfold derivationThread_import
  simp only [psa_import_key, psa_destroy_key]
  split_ifs <;> simp

theorem derivationThread_setup_passCnt (c : HsmValues) (P : Provider σ) (k : Nat) (w : World σ) :
    (derivationThread_setup c P k w).2.passCnt = w.passCnt := by
  unfold derivationThread_setup
  simp only [setupKeyDerivation_passCnt, psa_get_key_attributes]
  split_ifs <;> simp

theorem derivationThread_capacity_passCnt (P : Provider σ) (w : World σ) :
    (derivationThread_capacity P w).2.passCnt = w.passCnt := rfl

theorem derivationThread_prepare_led1 (c : HsmValues) (P : Provider σ) (i : Nat) (st : State σ) :
    (derivationThread_prepare c P i st).state.w.led1 = st.w.led1 := by
  unfold derivationThread_prepare
  simp only []
  split_ifs <;>
    simp [Prepared.state, derivationThread_import_led1, derivationThread_setup_led1,
      derivationThread_capacity_led1]

theorem derivationThread_prepare_ready (c : HsmValues) (P : Provider σ) (i : Nat) (st st0 : State σ)
    (k : psa_key_id_t) (h : derivationThread_prepare c P i st = Prepared.ready k st0) :
    st0.expectedCapacity = KEY_DERIVATION_LOOP_CNT * DERIVED_KEY_SIZE ∧ st0.returned = false ∧
    st0.w.passCnt = st.w.passCnt ∧
    ∃ old s1, st0.w.calls = old ++
      [Call.key_derivation_set_capacity (KEY_DERIVATION_LOOP_CNT * DERIVED_KEY_SIZE) s1,
       Call.key_derivation_get_capacity PSA_SUCCESS (KEY_DERIVATION_LOOP_CNT * DERIVED_KEY_SIZE)] := by
  unfold derivationThread_prepare at h
  simp only [] at h
  split_ifs at h with h1 h2 h3 h4
  simp only [Prepared.ready.injEq] at h
  obtain ⟨-, rfl⟩ := h
  simp only [ne_eq, not_not] at h3 h4
  obtain ⟨s1, hs1⟩ := derivationThread_capacity_calls P
    (derivationThread_setup c P (derivationThread_import c P i st.w).1.2
      (derivationThread_import c P i st.w).2).2
  rw [h3, h4] at hs1
  refine ⟨rfl, rfl, ?_, _, s1, hs1⟩
  simp only [derivationThread_capacity_passCnt, derivationThread_setup_passCnt,
    derivationThread_import_passCnt]

end psaKeyDerivation
end Psa

namespace Psa
namespace psaKeyDerivation
variable {σ : Type}

theorem derivationThread_loop_led1 (c : HsmValues) (P : Provider σ) (i : Nat) (st : State σ) :
    (derivationThread_loop c P i st).w.led1 = st.w.led1 := by
  have hp := derivationThread_prepare_led1 c P i st
  unfold derivationThread_loop
  cases hprep : derivationThread_prepare c P i st with
  | skipped st' => rw [hprep] at hp; exact hp
  | returned st' => rw [hprep] at hp; exact hp
  | ready k st' =>
    rw [hprep] at hp
    simp only [Prepared.state] at hp
    simp only []
    split_ifs <;> simp [derivationThread_inner_for_led1, hp, psa_destroy_key]

theorem derivationThread_for_led1 (c : HsmValues) (P : Provider σ) (n : Nat) (st : State σ) :
    (derivationThread_for c P n st).w.led1 = st.w.led1 := by
  induction n with
  | zero => rfl
  | succ n ih =>
    simp only [derivationThread_for]
    split_ifs
    · exact ih
    · rw [derivationThread_loop_led1, ih]

theorem derivationThread_inner_for_absorb (P : Provider σ) (i n m : Nat) (st : State σ)
    (h : (derivationThread_inner_for P i n st).returned = true) :
    derivationThread_inner_for P i (n + m) st = derivationThread_inner_for P i n st := by
  induction m with
  | zero => rfl
  | succ m ih =>
    have h1 : derivationThread_inner_for P i (n + (m + 1)) st =
        if (derivationThread_inner_for P i (n + m) st).returned
        then derivationThread_inner_for P i (n + m) st
        else derivationThread_inner P i (n + m) (derivationThread_inner_for P i (n + m) st) := rfl
    rw [h1, ih, if_pos h]

theorem derivationThread_for_absorb (c : HsmValues) (P : Provider σ) (n m : Nat) (st : State σ)
    (h : (derivationThread_for c P n st).returned = true) :
    derivationThread_for c P (n + m) st = derivationThread_for c P n st := by
  induction m with
  | zero => rfl
  | succ m ih =>
    have h1 : derivationThread_for c P (n + (m + 1)) st =
        if (derivationThread_for c P (n + m) st).returned
        then derivationThread_for c P (n + m) st
        else derivationThread_loop c P (n + m) (derivationThread_for c P (n + m) st) := rfl
    rw [h1, ih, if_pos h]

theorem derivationThread_inner_expected (P : Provider σ) (i j : Nat) (st : State σ)
    (ho : (derived P i j st).1.1 = PSA_SUCCESS) :
    (derivationThread_inner P i j st).expectedCapacity =
      (st.expectedCapacity + 2 ^ 32 - DERIVED_KEY_SIZE) % 2 ^ 32 := by
  unfold derivationThread_inner
  simp only [ho, ne_eq, not_true_eq_false, if_false]
  split_ifs <;> rfl

theorem derivationThread_inner_running (P : Provider σ) (i j : Nat) (st : State σ)
    (h : (derivationThread_inner P i j st).returned = false) :
    (derived P i j st).1.1 = PSA_SUCCESS := by
  by_contra ho
  unfold derivationThread_inner at h
  simp only [ho, ne_eq, not_false_eq_true, if_true] at h
  cases h

theorem derivationThread_inner_mismatch (P : Provider σ) (i j : Nat) (st : State σ)
    (ho : (derived P i j st).1.1 = PSA_SUCCESS)
    (hg : (derivedAttributes P i j st).1.1 = PSA_SUCCESS)
    (hc : (remainingCapacity P i j st).1.1 = PSA_SUCCESS)
    (hne : (remainingCapacity P i j st).1.2 ≠
      (st.expectedCapacity + 2 ^ 32 - DERIVED_KEY_SIZE) % 2 ^ 32) :
    (derivationThread_inner P i j st).returned = true ∧
    (derivationThread_inner P i j st).w.passCnt = st.w.passCnt ∧
    (derivationThread_inner P i j st).w.calls = (remainingCapacity P i j st).2.calls := by
  unfold derivationThread_inner
  simp only [ho, hg, hc, hne, ne_eq, not_true_eq_false, not_false_eq_true, if_false, if_true,
    and_self, Display_printf_passCnt, Display_printf_calls, true_and, and_true]
  rfl

end psaKeyDerivation
end Psa

namespace Psa
namespace psaKeyDerivation
variable {σ : Type}

theorem derivationThread_inner_for_expected (P : Provider σ) (i : Nat) (st0 : State σ)
    (h0 : st0.expectedCapacity = KEY_DERIVATION_LOOP_CNT * DERIVED_KEY_SIZE) (j : Nat)
    (hj : j ≤ KEY_DERIVATION_LOOP_CNT)
    (hrun : (derivationThread_inner_for P i j st0).returned = false) :
    (derivationThread_inner_for P i j st0).expectedCapacity =
      (KEY_DERIVATION_LOOP_CNT - j) * DERIVED_KEY_SIZE := by
  induction j with
  | zero => simpa using h0
  | succ j ih =>
    have h1 : derivationThread_inner_for P i (j + 1) st0 =
        if (derivationThread_inner_for P i j st0).returned
        then derivationThread_inner_for P i j st0
        else derivationThread_inner P i j (derivationThread_inner_for P i j st0) := rfl
    rw [h1] at hrun ⊢
    by_cases hr : (derivationThread_inner_for P i j st0).returned = true
    · rw [if_pos hr] at hrun
      rw [hr] at hrun
      cases hrun
    · rw [if_neg hr] at hrun ⊢
      have hr' : (derivationThread_inner_for P i j st0).returned = false := by
        simpa using hr
      rw [derivationThread_inner_expected P i j _ (derivationThread_inner_running P i j _ hrun),
        ih (by omega) hr']
      have h3 : KEY_DERIVATION_LOOP_CNT = 3 := rfl
      have h32 : DERIVED_KEY_SIZE = 32 := rfl
      rw [h3] at hj
      rw [h3, h32]
      have hj' : j < 3 := by omega
      interval_cases j <;> rfl

theorem derivationThread_returned (c : HsmValues) (P : Provider σ) (s : σ) (n : Nat)
    (hn : n ≤ lifetimeCnt) (h : (before c P s n).returned = true) :
    derivationThread c P s = (before c P s n).w := by
  have habs := derivationThread_for_absorb c P n (lifetimeCnt - n) (derivationThread_begin s) h
  have hsum : n + (lifetimeCnt - n) = lifetimeCnt := by omega
  rw [hsum] at habs
  unfold derivationThread
  unfold before at h ⊢
  simp only [habs, h, if_true]

end psaKeyDerivation
end Psa

namespace Psa
namespace psaKeyDerivation
variable {σ : Type}

theorem beforeInner_some (c : HsmValues) (P : Provider σ) (s : σ) (i j : Nat) (st : State σ)
    (hst : beforeInner c P s i j = some st) :
    (before c P s i).returned = false ∧
    ∃ k st0, derivationThread_prepare c P i (before c P s i) = Prepared.ready k st0 ∧
      st = derivationThread_inner_for P i j st0 ∧ st.returned = false := by
  unfold beforeInner at hst
  by_cases hb : (before c P s i).returned = true
  · rw [if_pos hb] at hst; cases hst
  · rw [if_neg hb] at hst
    refine ⟨by simpa using hb, ?_⟩
    cases hprep : derivationThread_prepare c P i (before c P s i) with
    | skipped st' => rw [hprep] at hst; cases hst
    | returned st' => rw [hprep] at hst; cases hst
    | ready k st0 =>
      rw [hprep] at hst
      simp only [] at hst
      by_cases hr : (derivationThread_inner_for P i j st0).returned = true
      · rw [if_pos hr] at hst; cases hst
      · rw [if_neg hr] at hst
        simp only [Option.some.injEq] at hst
        exact ⟨k, st0, rfl, hst.symm, by rw [← hst]; simpa using hr⟩

/-- C4: in `derivationThread` the capacity is set to
`KEY_DERIVATION_LOOP_CNT * DERIVED_KEY_SIZE = 96`, and the value expected from
`psa_key_derivation_get_capacity` after the k-th `psa_key_derivation_output_key`
is `(3 - k) * 32`, that is 64, 32, 0. When the capacity query succeeds with any
other value the thread returns at once: the derived key of that step and all
later ones are not counted and LED1 stays off. -/
theorem capacity_expected_after_each_output (c : HsmValues) (P : Provider σ) (s : σ) (i j : Nat)
    (st : State σ) (hi : i < lifetimeCnt) (hj : j < KEY_DERIVATION_LOOP_CNT)
    (hst : beforeInner c P s i j = some st) :
    (KEY_DERIVATION_LOOP_CNT * DERIVED_KEY_SIZE = 96 ∧
      [1, 2, 3].map (fun k => (KEY_DERIVATION_LOOP_CNT - k) * DERIVED_KEY_SIZE) = [64, 32, 0]) ∧
    (∃ st0 old s1, beforeInner c P s i 0 = some st0 ∧
      st0.expectedCapacity = KEY_DERIVATION_LOOP_CNT * DERIVED_KEY_SIZE ∧
      st0.w.calls = old ++
        [Call.key_derivation_set_capacity (KEY_DERIVATION_LOOP_CNT * DERIVED_KEY_SIZE) s1,
         Call.key_derivation_get_capacity PSA_SUCCESS (KEY_DERIVATION_LOOP_CNT * DERIVED_KEY_SIZE)]) ∧
    st.expectedCapacity = (KEY_DERIVATION_LOOP_CNT - j) * DERIVED_KEY_SIZE ∧
    ((derived P i j st).1.1 = PSA_SUCCESS →
      (derivationThread_inner P i j st).expectedCapacity =
        (KEY_DERIVATION_LOOP_CNT - (j + 1)) * DERIVED_KEY_SIZE ∧
      ((derivedAttributes P i j st).1.1 = PSA_SUCCESS →
        (remainingCapacity P i j st).1.1 = PSA_SUCCESS →
        (remainingCapacity P i j st).1.2 ≠ (KEY_DERIVATION_LOOP_CNT - (j + 1)) * DERIVED_KEY_SIZE →
          (derivationThread c P s).led1 = false ∧
          (derivationThread c P s).passCnt = st.w.passCnt ∧
          (derivationThread c P s).calls = (remainingCapacity P i j st).2.calls)) := by
  obtain ⟨hb, k, st0, hprep, hstj, hrun⟩ := beforeInner_some c P s i j st hst
  obtain ⟨h0, hr0, -, old, s1, hcalls⟩ := derivationThread_prepare_ready c P i _ st0 k hprep
  have hexp : st.expectedCapacity = (KEY_DERIVATION_LOOP_CNT - j) * DERIVED_KEY_SIZE := by
    rw [hstj] at hrun ⊢
    exact derivationThread_inner_for_expected P i st0 h0 j (Nat.le_of_lt hj) hrun
  have hstep : (st.expectedCapacity + 2 ^ 32 - DERIVED_KEY_SIZE) % 2 ^ 32 =
      (KEY_DERIVATION_LOOP_CNT - (j + 1)) * DERIVED_KEY_SIZE := by
    rw [hexp]
    have h3 : KEY_DERIVATION_LOOP_CNT = 3 := rfl
    have h32 : DERIVED_KEY_SIZE = 32 := rfl
    rw [h3] at hj
    rw [h3, h32]
    interval_cases j <;> rfl
  refine ⟨⟨by decide, by decide⟩, ⟨st0, old, s1, ?_, h0, hcalls⟩, hexp, ?_⟩
  · unfold beforeInner
    have hb' : ¬ (before c P s i).returned = true := by simp [hb]
    rw [if_neg hb', hprep]
    have h00 : derivationThread_inner_for P i 0 st0 = st0 := rfl
    simp only [h00, hr0, Bool.false_eq_true, if_false]
  · intro ho
    refine ⟨by rw [derivationThread_inner_expected P i j st ho, hstep], ?_⟩
    intro hg hc hne
    rw [← hstep] at hne
    obtain ⟨hret, hpass, hcl⟩ := derivationThread_inner_mismatch P i j st ho hg hc hne
    -- the inner loop ends with this state
    have hin1 : derivationThread_inner_for P i (j + 1) st0 = derivationThread_inner P i j st := by
      have h1 : derivationThread_inner_for P i (j + 1) st0 =
          if (derivationThread_inner_for P i j st0).returned
          then derivationThread_inner_for P i j st0
          else derivationThread_inner P i j (derivationThread_inner_for P i j st0) := rfl
      rw [h1, ← hstj, hrun]
      simp
    have hin3 : derivationThread_inner_for P i KEY_DERIVATION_LOOP_CNT st0 =
        derivationThread_inner P i j st := by
      have habs := derivationThread_inner_for_absorb P i (j + 1)
        (KEY_DERIVATION_LOOP_CNT - (j + 1)) st0 (by rw [hin1]; exact hret)
      have hsum : j + 1 + (KEY_DERIVATION_LOOP_CNT - (j + 1)) = KEY_DERIVATION_LOOP_CNT := by omega
      rw [hsum, hin1] at habs
      exact habs
    have hloop : derivationThread_loop c P i (before c P s i) = derivationThread_inner P i j st := by
      unfold derivationThread_loop
      rw [hprep]
      simp only [hin3, hret, if_true]
    have hnext : before c P s (i + 1) = derivationThread_inner P i j st := by
      have h1 : before c P s (i + 1) =
          if (before c P s i).returned then before c P s i
          else derivationThread_loop c P i (before c P s i) := rfl
      rw [h1, hb, hloop]
      simp
    have hfinal := derivationThread_returned c P s (i + 1) (by omega) (by rw [hnext]; exact hret)
    rw [hfinal, hnext]
    refine ⟨?_, hpass, hcl⟩
    rw [derivationThread_inner_led1, hstj, derivationThread_inner_for_led1]
    have hp := derivationThread_prepare_led1 c P i (before c P s i)
    rw [hprep] at hp
    simp only [Prepared.state] at hp
    rw [hp]
    unfold before
    rw [derivationThread_for_led1]
    rfl

end psaKeyDerivation
end Psa

namespace Psa

set_option maxRecDepth 100000 in
/-- C3: with a provider whose `psa_cipher_encrypt` always answers
`PSA_ERROR_GENERIC_ERROR` while reporting a 16-byte output, and whose decrypt
returns the plaintext, `derivationThread` makes 15 failed encrypt calls, counts
all 15 derived keys as passed and turns LED1 on. -/
theorem derivationThread_passes_after_failed_encrypt :
    cipherEncryptStatuses
        (psaKeyDerivation.derivationThread sampleHsm encryptErrorProvider KeyStore.empty).calls
      = List.replicate 15 PSA_ERROR_GENERIC_ERROR ∧
    (psaKeyDerivation.derivationThread sampleHsm encryptErrorProvider KeyStore.empty).passCnt = 15 ∧
    (psaKeyDerivation.derivationThread sampleHsm encryptErrorProvider KeyStore.empty).led1 = true := by
  decide

set_option maxRecDepth 100000 in
/-- C10: with a provider whose capacity query always reports 96,
`derivationThread` imports the base key, outputs one derived key, and returns
on the capacity mismatch without any `psa_destroy_key` call; both keys remain
in the key store. -/
theorem derivationThread_returns_without_destroy :
    createdKeys
        (psaKeyDerivation.derivationThread sampleHsm fixedCapacityProvider KeyStore.empty).calls
      = [0x7fff0100, 11] ∧
    destroyedKeys
        (psaKeyDerivation.derivationThread sampleHsm fixedCapacityProvider KeyStore.empty).calls
      = [] ∧
    (psaKeyDerivation.derivationThread sampleHsm fixedCapacityProvider KeyStore.empty).prov.keys.map
        Prod.fst
      = [0x7fff0100, 11] := by
  decide

set_option maxRecDepth 100000 in
/-- C5: with a provider that rejects the import of public keys, `signMessage`
and `signHash` each leave `passCnt` one higher than they found it although no
`psa_verify_message` or `psa_verify_hash` call is made, and `signVerifyThread`
turns LED1 on without a single verify call. -/
theorem sign_counted_without_verify :
    (psaSignVerify.signMessage noPublicKeyProvider psaSignVerify.signTestVectors 0 0 0
        (World.start KeyStore.empty)).passCnt = (World.start KeyStore.empty).passCnt + 1 ∧
    verifyCalls (psaSignVerify.signMessage noPublicKeyProvider psaSignVerify.signTestVectors 0 0 0
        (World.start KeyStore.empty)).calls = [] ∧
    (psaSignVerify.signHash noPublicKeyProvider psaSignVerify.signTestVectors 0 0 0
        (World.start KeyStore.empty)).passCnt = (World.start KeyStore.empty).passCnt + 1 ∧
    verifyCalls (psaSignVerify.signHash noPublicKeyProvider psaSignVerify.signTestVectors 0 0 0
        (World.start KeyStore.empty)).calls = [] ∧
    verifyCalls (psaSignVerify.signVerifyThread sampleHsm noPublicKeyProvider
        psaSignVerify.signTestVectors KeyStore.empty).calls = [] ∧
    (psaSignVerify.signVerifyThread sampleHsm noPublicKeyProvider
        psaSignVerify.signTestVectors KeyStore.empty).led1 = true := by
  decide

set_option maxRecDepth 100000 in
/-- C6: with a provider whose `psa_export_public_key` answers bytes that differ
from the test vector, `signMessage` still makes `verifyMessage` import the test
vector's `publicKey` bytes, not the exported ones; `signHash` makes no export
call at all and its verify imports the test vector's bytes as well. -/
theorem verify_imports_vector_key_not_exported_key :
    exportedPublicKeys (psaSignVerify.signMessage otherPublicKeyProvider
        psaSignVerify.signTestVectors 0 0 0 (World.start KeyStore.empty)).calls
      = [0x04 :: List.replicate 64 0x11] ∧
    (importedPublicKeys (psaSignVerify.signMessage otherPublicKeyProvider
        psaSignVerify.signTestVectors 0 0 0 (World.start KeyStore.empty)).calls)
      = [readBytes (psaSignVerify.signTestVectors.getD 0 default).publicKey 0 65] ∧
    readBytes (psaSignVerify.signTestVectors.getD 0 default).publicKey 0 65
      ≠ 0x04 :: List.replicate 64 0x11 ∧
    exportedPublicKeys (psaSignVerify.signHash referenceProvider
        psaSignVerify.signTestVectors 0 0 0 (World.start KeyStore.empty)).calls = [] ∧
    (importedPublicKeys (psaSignVerify.signHash referenceProvider
        psaSignVerify.signTestVectors 0 0 0 (World.start KeyStore.empty)).calls)
      = [readBytes (psaSignVerify.signTestVectors.getD 0 default).publicKey 0 65] := by
  decide

set_option maxRecDepth 100000 in
/-- C7: with a provider that rejects the HSM asset store lifetime, every lifetime
whose import succeeded is counted as passed in `encryptThread` and in
`keyAgreementThread`, the fifth import is answered `PSA_ERROR_NOT_SUPPORTED`,
and LED1 stays off in both threads. -/
theorem skipped_lifetime_keeps_led1_off :
    (∀ i, i < psaAeadEncrypt.lifetimeCnt →
      (psaAeadEncrypt.imported sampleHsm noAssetStoreProvider KeyStore.empty i).1.1 = PSA_SUCCESS →
      (psaAeadEncrypt.before sampleHsm noAssetStoreProvider KeyStore.empty (i + 1)).passCnt =
        (psaAeadEncrypt.before sampleHsm noAssetStoreProvider KeyStore.empty i).passCnt + 1) ∧
    (psaAeadEncrypt.imported sampleHsm noAssetStoreProvider KeyStore.empty 4).1.1
      = PSA_ERROR_NOT_SUPPORTED ∧
    (psaAeadEncrypt.encryptThread sampleHsm noAssetStoreProvider KeyStore.empty).led1 = false ∧
    (∀ i, i < psaRawKeyAgreement.lifetimeCnt →
      (psaRawKeyAgreement.imported sampleHsm noAssetStoreProvider KeyStore.empty i).1.1
        = PSA_SUCCESS →
      (psaRawKeyAgreement.before sampleHsm noAssetStoreProvider KeyStore.empty (i + 1)).passCnt =
        (psaRawKeyAgreement.before sampleHsm noAssetStoreProvider KeyStore.empty i).passCnt + 1) ∧
    (psaRawKeyAgreement.imported sampleHsm noAssetStoreProvider KeyStore.empty 4).1.1
      = PSA_ERROR_NOT_SUPPORTED ∧
    (psaRawKeyAgreement.keyAgreementThread sampleHsm noAssetStoreProvider KeyStore.empty).led1
      = false := by
  unfold psaAeadEncrypt.lifetimeCnt psaRawKeyAgreement.lifetimeCnt
  decide

end Psa

namespace Psa
namespace psaSignVerify
variable {σ : Type}

theorem setupKeyID_calls (P : Provider σ) (a : psa_key_attributes_t) (p : Nat) (w : World σ) :
    ∃ pre, (setupKeyID P a p w).2.calls = w.calls ++ pre ∧
      (pre = [] ∨ ∃ d, pre = [Call.destroy_key PSA_KEY_ID_USER_MIN d]) := by
  unfold setupKeyID
  split_ifs
  · exact ⟨[Call.destroy_key PSA_KEY_ID_USER_MIN _], rfl, Or.inr ⟨_, rfl⟩⟩
  · exact ⟨[], by simp, Or.inl rfl⟩

theorem setupKeyID_usage (P : Provider σ) (a : psa_key_attributes_t) (p : Nat) (w : World σ) :
    (setupKeyID P a p w).1.usage = a.usage ∧ (setupKeyID P a p w).1.key_type = a.key_type := by
  unfold setupKeyID
  split_ifs <;> exact ⟨rfl, rfl⟩

theorem verifyMessage_import_calls (P : Provider σ) (i : Nat) (vecs : List ecdsaTestCase)
    (lt : psa_key_lifetime_t) (w : World σ) :
    ∃ pre attributes,
      (verifyMessage_import P i vecs lt w).2.calls =
        w.calls ++ pre ++
          [Call.import_key attributes
            (readBytes (vecs.getD i default).publicKey 0
              (PSA_EXPORT_KEY_OUTPUT_SIZE
                (PSA_KEY_TYPE_ECC_PUBLIC_KEY (vecs.getD i default).curveFamily)
                (vecs.getD i default).keyBits))
            (verifyMessage_import P i vecs lt w).1.1 (verifyMessage_import P i vecs lt w).1.2] ∧
      attributes.usage = PSA_KEY_USAGE_VERIFY_MESSAGE ∧
      (pre = [] ∨ ∃ d, pre = [Call.destroy_key PSA_KEY_ID_USER_MIN d]) := by
  obtain ⟨pre, hpre, hshape⟩ := setupKeyID_calls P
    (setKeyAttributes i vecs PSA_KEY_USAGE_VERIFY_MESSAGE keyType.PUBLIC lt PSA_KEY_ATTRIBUTES_INIT)
    (PSA_KEY_LIFETIME_GET_PERSISTENCE lt) w
  obtain ⟨hu, ht⟩ := setupKeyID_usage P
    (setKeyAttributes i vecs PSA_KEY_USAGE_VERIFY_MESSAGE keyType.PUBLIC lt PSA_KEY_ATTRIBUTES_INIT)
    (PSA_KEY_LIFETIME_GET_PERSISTENCE lt) w
  have ht' : (setKeyAttributes i vecs PSA_KEY_USAGE_VERIFY_MESSAGE keyType.PUBLIC lt
      PSA_KEY_ATTRIBUTES_INIT).key_type =
      PSA_KEY_TYPE_ECC_PUBLIC_KEY (vecs.getD i default).curveFamily := rfl
  rw [ht'] at ht
  refine ⟨pre, (setupKeyID P
    (setKeyAttributes i vecs PSA_KEY_USAGE_VERIFY_MESSAGE keyType.PUBLIC lt PSA_KEY_ATTRIBUTES_INIT)
    (PSA_KEY_LIFETIME_GET_PERSISTENCE lt) w).1, ?_, hu, hshape⟩
  unfold verifyMessage_import
  simp only [psa_import_key]
  rw [hpre, ht]

theorem verifyHash_import_calls (P : Provider σ) (i : Nat) (vecs : List ecdsaTestCase)
    (lt : psa_key_lifetime_t) (w : World σ) :
    ∃ pre attributes,
      (verifyHash_import P i vecs lt w).2.calls =
        w.calls ++ pre ++
          [Call.import_key attributes
            (readBytes (vecs.getD i default).publicKey 0
              (PSA_EXPORT_KEY_OUTPUT_SIZE
                (PSA_KEY_TYPE_ECC_PUBLIC_KEY (vecs.getD i default).curveFamily)
                (vecs.getD i default).keyBits))
            (verifyHash_import P i vecs lt w).1.1 (verifyHash_import P i vecs lt w).1.2] ∧
      attributes.usage = PSA_KEY_USAGE_VERIFY_HASH ∧
      (pre = [] ∨ ∃ d, pre = [Call.destroy_key PSA_KEY_ID_USER_MIN d]) := by
  obtain ⟨pre, hpre, hshape⟩ := setupKeyID_calls P
    (setKeyAttributes i vecs PSA_KEY_USAGE_VERIFY_HASH keyType.PUBLIC lt PSA_KEY_ATTRIBUTES_INIT)
    (PSA_KEY_LIFETIME_GET_PERSISTENCE lt) w
  obtain ⟨hu, ht⟩ := setupKeyID_usage P
    (setKeyAttributes i vecs PSA_KEY_USAGE_VERIFY_HASH keyType.PUBLIC lt PSA_KEY_ATTRIBUTES_INIT)
    (PSA_KEY_LIFETIME_GET_PERSISTENCE lt) w
  have ht' : (setKeyAttributes i vecs PSA_KEY_USAGE_VERIFY_HASH keyType.PUBLIC lt
      PSA_KEY_ATTRIBUTES_INIT).key_type =
      PSA_KEY_TYPE_ECC_PUBLIC_KEY (vecs.getD i default).curveFamily := rfl
  rw [ht'] at ht
  refine ⟨pre, (setupKeyID P
    (setKeyAttributes i vecs PSA_KEY_USAGE_VERIFY_HASH keyType.PUBLIC lt PSA_KEY_ATTRIBUTES_INIT)
    (PSA_KEY_LIFETIME_GET_PERSISTENCE lt) w).1, ?_, hu, hshape⟩
  unfold verifyHash_import
  simp only [psa_import_key]
  rw [hpre, ht]

theorem verifyMessage_calls (P : Provider σ) (i : Nat) (vecs : List ecdsaTestCase)
    (sig : List Nat) (len : Nat) (lt : psa_key_lifetime_t) (w : World σ) :
    ∃ rest, (verifyMessage P i vecs sig len lt w).calls =
        (verifyMessage_import P i vecs lt w).2.calls ++ rest ∧
      (rest = [] ∨ ((verifyMessage_import P i vecs lt w).1.1 = PSA_SUCCESS ∧ ∃ vs ds, rest =
        [Call.verify_message (verifyMessage_import P i vecs lt w).1.2 (vecs.getD i default).alg
           (readBytes (vecs.getD i default).message 0 (vecs.getD i default).messageLength)
           (readBytes sig 0 len) vs,
         Call.destroy_key (verifyMessage_import P i vecs lt w).1.2 ds])) := by
  unfold verifyMessage
  by_cases hi : (verifyMessage_import P i vecs lt w).1.1 = PSA_SUCCESS
  · simp only [hi, ne_eq, not_true_eq_false, if_false]
    refine ⟨_, ?_, Or.inr ⟨trivial,
      (P.psa_verify_message (verifyMessage_import P i vecs lt w).1.2 (vecs.getD i default).alg
        (readBytes (vecs.getD i default).message 0 (vecs.getD i default).messageLength)
        (readBytes sig 0 len) (verifyMessage_import P i vecs lt w).2.prov).1,
      (P.psa_destroy_key (verifyMessage_import P i vecs lt w).1.2
        (P.psa_verify_message (verifyMessage_import P i vecs lt w).1.2 (vecs.getD i default).alg
          (readBytes (vecs.getD i default).message 0 (vecs.getD i default).messageLength)
          (readBytes sig 0 len) (verifyMessage_import P i vecs lt w).2.prov).2).1, rfl⟩⟩
    simp only [psa_destroy_key, psa_verify_message]
    split_ifs <;> simp
  · simp only [hi, ne_eq, not_false_eq_true, if_true]
    exact ⟨[], by simp, Or.inl rfl⟩

theorem verifyHash_calls (P : Provider σ) (i : Nat) (vecs : List ecdsaTestCase)
    (sig : List Nat) (len : Nat) (lt : psa_key_lifetime_t) (w : World σ) :
    ∃ rest, (verifyHash P i vecs sig len lt w).calls =
        (verifyHash_import P i vecs lt w).2.calls ++ rest ∧
      (rest = [] ∨ ((verifyHash_import P i vecs lt w).1.1 = PSA_SUCCESS ∧ ∃ vs ds, rest =
        [Call.verify_hash (verifyHash_import P i vecs lt w).1.2 (vecs.getD i default).alg
           (readBytes (vecs.getD i default).hash 0
             (PSA_HASH_LENGTH (PSA_ALG_SIGN_GET_HASH (vecs.getD i default).alg)))
           (readBytes sig 0 len) vs,
         Call.destroy_key (verifyHash_import P i vecs lt w).1.2 ds])) := by
  unfold verifyHash
  by_cases hi : (verifyHash_import P i vecs lt w).1.1 = PSA_SUCCESS
  · simp only [hi, ne_eq, not_true_eq_false, if_false]
    refine ⟨_, ?_, Or.inr ⟨trivial,
      (P.psa_verify_hash (verifyHash_import P i vecs lt w).1.2 (vecs.getD i default).alg
        (readBytes (vecs.getD i default).hash 0
          (PSA_HASH_LENGTH (PSA_ALG_SIGN_GET_HASH (vecs.getD i default).alg)))
        (readBytes sig 0 len) (verifyHash_import P i vecs lt w).2.prov).1,
      (P.psa_destroy_key (verifyHash_import P i vecs lt w).1.2
        (P.psa_verify_hash (verifyHash_import P i vecs lt w).1.2 (vecs.getD i default).alg
          (readBytes (vecs.getD i default).hash 0
            (PSA_HASH_LENGTH (PSA_ALG_SIGN_GET_HASH (vecs.getD i default).alg)))
          (readBytes sig 0 len) (verifyHash_import P i vecs lt w).2.prov).2).1, rfl⟩⟩
    simp only [psa_destroy_key, psa_verify_hash]
    split_ifs <;> simp
  · simp only [hi, ne_eq, not_false_eq_true, if_true]
    exact ⟨[], by simp, Or.inl rfl⟩

end psaSignVerify
end Psa

namespace Psa

theorem exportedPublicKeys_append (a b : List Call) :
    exportedPublicKeys (a ++ b) = exportedPublicKeys a ++ exportedPublicKeys b := by
  simp [exportedPublicKeys, List.filterMap_append]

namespace psaSignVerify
variable {σ : Type}

theorem verifyHash_no_export (P : Provider σ) (i : Nat) (vecs : List ecdsaTestCase)
    (sig : List Nat) (len : Nat) (lt : psa_key_lifetime_t) (w : World σ) :
    exportedPublicKeys (verifyHash P i vecs sig len lt w).calls = exportedPublicKeys w.calls := by
  obtain ⟨rest, hc, hrest⟩ := verifyHash_calls P i vecs sig len lt w
  obtain ⟨pre, a, hi, -, hpre⟩ := verifyHash_import_calls P i vecs lt w
  rw [hc, hi]
  simp only [exportedPublicKeys_append]
  have h1 : exportedPublicKeys pre = [] := by
    rcases hpre with rfl | ⟨d, rfl⟩ <;> rfl
  have h2 : exportedPublicKeys rest = [] := by
    rcases hrest with rfl | ⟨-, vs, ds, rfl⟩ <;> rfl
  rw [h1, h2]
  simp [exportedPublicKeys]

theorem signHash_import_calls (P : Provider σ) (vecs : List ecdsaTestCase) (p l j : Nat)
    (w : World σ) :
    ∃ pre attributes data,
      (signHash_import P vecs p l j w).2.calls =
        w.calls ++ pre ++ [Call.import_key attributes data (signHash_import P vecs p l j w).1.1
          (signHash_import P vecs p l j w).1.2] ∧
      (pre = [] ∨ ∃ d, pre = [Call.destroy_key PSA_KEY_ID_USER_MIN d]) := by
  obtain ⟨pre, hpre, hshape⟩ := setupKeyID_calls P
    (setKeyAttributes j vecs PSA_KEY_USAGE_SIGN_HASH keyType.KEYPAIR
      (PSA_KEY_LIFETIME_FROM_PERSISTENCE_AND_LOCATION p l) PSA_KEY_ATTRIBUTES_INIT)
    (PSA_KEY_LIFETIME_GET_PERSISTENCE (PSA_KEY_LIFETIME_FROM_PERSISTENCE_AND_LOCATION p l)) w
  refine ⟨pre, ?a, ?d, ?h, hshape⟩
  case h =>
    unfold signHash_import
    simp only [psa_import_key]
    rw [hpre]
    exact rfl

theorem signHash_no_export (P : Provider σ) (vecs : List ecdsaTestCase) (p l j : Nat)
    (w : World σ) :
    exportedPublicKeys (signHash P vecs p l j w).calls = exportedPublicKeys w.calls := by
  obtain ⟨pre, a, d, hi, hpre⟩ := signHash_import_calls P vecs p l j w
  have h1 : exportedPublicKeys pre = [] := by
    rcases hpre with rfl | ⟨d, rfl⟩ <;> rfl
  have himp : exportedPublicKeys (signHash_import P vecs p l j w).2.calls =
      exportedPublicKeys w.calls := by
    rw [hi]
    simp only [exportedPublicKeys_append, h1]
    simp [exportedPublicKeys]
  unfold signHash
  by_cases he : (vecs.getD j default).alg = PSA_ALG_PURE_EDDSA
  · simp only [he, if_true]
  · simp only [he, if_false]
    by_cases hs : (signHash_import P vecs p l j w).1.1 = PSA_SUCCESS
    · simp only [hs, ne_eq, not_true_eq_false, if_false]
      split_ifs <;>
        simp [verifyHash_no_export, psa_destroy_key, psa_sign_hash, printByteArray,
          exportedPublicKeys_append, himp] <;>
        simp [exportedPublicKeys]
    · simp only [hs, ne_eq, not_false_eq_true, if_true, Display_printf_calls]
      exact himp

end psaSignVerify
end Psa

namespace Psa

namespace psaAeadEncrypt
variable {σ : Type}

/-- What the comparison loops of `encryptThread` require, on the array
`ciphertext` after the call: indices 1..24 against `expectedCiphertext`, and
the five indices 25..29 against `expectedMac[0..4]`. -/
theorem encryptThread_counted_iff (c : HsmValues) (P : Provider σ) (s : σ) (i : Nat) :
    countedAsPassed c P s i ↔
      ((encrypted c P s i).1.1.status = PSA_SUCCESS ∧
        (∀ k, k < 24 → (encrypted c P s i).1.2.getD (1 + k) 0 =
          testVector.expectedCiphertext.getD (1 + k) 0) ∧
        (∀ k, k < 5 → (encrypted c P s i).1.2.getD (24 + k + 1) 0 =
          testVector.expectedMac.getD k 0)) := by
  unfold countedAsPassed verified
  rw [encryptThread_verify_passCnt]
  have h1 : ciphertextMismatch (encrypted c P s i).1.2 = none ↔
      ∀ k, k < 24 → (encrypted c P s i).1.2.getD (1 + k) 0 =
        testVector.expectedCiphertext.getD (1 + k) 0 := by
    unfold ciphertextMismatch
    rw [firstMismatch_eq_none_iff]
    have : testVector.plaintextLength + 1 - 1 = 24 := by decide
    rw [this]
    simp
  have h2 : macMismatch (encrypted c P s i).1.2 = none ↔
      ∀ k, k < 5 → (encrypted c P s i).1.2.getD (24 + k + 1) 0 =
        testVector.expectedMac.getD k 0 := by
    unfold macMismatch
    rw [firstMismatch_eq_none_iff]
    have h5 : testVector.macLength + 1 = 5 := by decide
    have h24 : testVector.plaintextLength = 24 := by decide
    rw [h5, h24]
    simp
  by_cases hc : (encrypted c P s i).1.1.status = PSA_SUCCESS ∧
      ciphertextMismatch (encrypted c P s i).1.2 = none ∧ macMismatch (encrypted c P s i).1.2 = none
  · rw [if_pos hc]
    exact ⟨fun _ => ⟨hc.1, h1.1 hc.2.1, h2.1 hc.2.2⟩, fun _ => rfl⟩
  · rw [if_neg hc]
    exact ⟨fun h => absurd h (by omega), fun h => absurd ⟨h.1, h1.2 h.2.1, h2.2 h.2.2⟩ hc⟩

end psaAeadEncrypt

set_option maxRecDepth 100000 in
/-- C4: for the provider that always reports capacity 96, at the first lifetime
and first derived key of `derivationThread`: 96 is
expected before the output, 64 after it, 96 is reported, and the thread ends
with LED1 off and `passCnt` unchanged. -/
theorem capacity_expected_after_each_output_witness :
    ∃ st, psaKeyDerivation.beforeInner sampleHsm fixedCapacityProvider KeyStore.empty 0 0 = some st ∧
      st.expectedCapacity = 96 ∧
      (psaKeyDerivation.derivationThread_inner fixedCapacityProvider 0 0 st).expectedCapacity = 64 ∧
      (psaKeyDerivation.remainingCapacity fixedCapacityProvider 0 0 st).1 = (PSA_SUCCESS, 96) ∧
      (psaKeyDerivation.derivationThread sampleHsm fixedCapacityProvider KeyStore.empty).led1
        = false ∧
      (psaKeyDerivation.derivationThread sampleHsm fixedCapacityProvider KeyStore.empty).passCnt
        = st.w.passCnt := by
  refine ⟨_, rfl, ?_⟩
  have h := psaKeyDerivation.capacity_expected_after_each_output sampleHsm fixedCapacityProvider
    KeyStore.empty 0 0 _ (by decide) (by decide) rfl
  exact ⟨h.2.2.1, (h.2.2.2 (by decide)).1, by decide,
    ((h.2.2.2 (by decide)).2 (by decide) (by decide) (by decide)).1,
    ((h.2.2.2 (by decide)).2 (by decide) (by decide) (by decide)).2.1⟩

set_option maxRecDepth 100000 in
/-- C1: with a provider whose `psa_aead_encrypt` returns `PSA_SUCCESS` and writes
the 24 expected ciphertext bytes, the 4 expected MAC bytes and one further
non-zero byte, `encryptThread` does not count the first lifetime as passed and
never turns LED1 on, while the same 28 bytes without the trailing byte are
counted as passed. -/
theorem encryptThread_trailing_byte_not_counted :
    (psaAeadEncrypt.imported sampleHsm trailingByteProvider KeyStore.empty 0).1.1 = PSA_SUCCESS ∧
    (psaAeadEncrypt.encrypted sampleHsm trailingByteProvider KeyStore.empty 0).1.1.status
      = PSA_SUCCESS ∧
    (psaAeadEncrypt.encrypted sampleHsm trailingByteProvider KeyStore.empty 0).1.1.out.take 24
      = [0x6b, 0xe3, 0x18, 0x60, 0xca, 0x27, 0x1e, 0xf4, 0x48, 0xde, 0x8f, 0x8d,
         0x8b, 0x39, 0x34, 0x6d, 0xaf, 0x4b, 0x81, 0xd7, 0xe9, 0x2d, 0x65, 0xb3] ∧
    ((psaAeadEncrypt.encrypted sampleHsm trailingByteProvider KeyStore.empty 0).1.1.out.drop
        24).take 4 = [0x38, 0xf1, 0x25, 0xfa] ∧
    ¬ psaAeadEncrypt.countedAsPassed sampleHsm trailingByteProvider KeyStore.empty 0 ∧
    (psaAeadEncrypt.encryptThread sampleHsm trailingByteProvider KeyStore.empty).passCnt = 0 ∧
    (psaAeadEncrypt.encryptThread sampleHsm trailingByteProvider KeyStore.empty).led1 = false ∧
    psaAeadEncrypt.countedAsPassed sampleHsm referenceProvider KeyStore.empty 0 := by
  unfold psaAeadEncrypt.countedAsPassed
  decide

end Psa

namespace Psa
namespace psaAeadEncrypt
variable {σ : Type}

theorem encryptThread_import_shape (c : HsmValues) (P : Provider σ) (i : Nat) (w : World σ) :
    ∃ attributes data,
      (encryptThread_import c P i w).2.calls = w.calls ++
        (if PSA_KEY_LIFETIME_GET_PERSISTENCE ((lifetimes c).getD i 0) ≠ PSA_KEY_PERSISTENCE_VOLATILE
         then [Call.destroy_key (PSA_KEY_ID_USER_MIN + i)
                (P.psa_destroy_key (PSA_KEY_ID_USER_MIN + i) w.prov).1]
         else []) ++
        [Call.import_key attributes data (encryptThread_import c P i w).1.1
          (encryptThread_import c P i w).1.2] ∧
      attributes.lifetime = (lifetimes c).getD i 0 ∧
      attributes.id =
        (if PSA_KEY_LIFETIME_GET_PERSISTENCE ((lifetimes c).getD i 0) ≠ PSA_KEY_PERSISTENCE_VOLATILE
         then PSA_KEY_ID_USER_MIN + i else 0) := by
  unfold encryptThread_import
  by_cases hv : PSA_KEY_LIFETIME_GET_PERSISTENCE ((lifetimes c).getD i 0)
      = PSA_KEY_PERSISTENCE_VOLATILE
  · have hb : (PSA_KEY_LIFETIME_GET_PERSISTENCE ((lifetimes c).getD i 0)
        != PSA_KEY_PERSISTENCE_VOLATILE) = false := by rw [hv]; exact bne_self_eq_false _
    simp only [hb, hv, ne_eq, not_true_eq_false, if_false, Bool.false_eq_true]
    exact ⟨_, _, by rw [List.append_nil]; rfl, rfl, rfl⟩
  · have hb : (PSA_KEY_LIFETIME_GET_PERSISTENCE ((lifetimes c).getD i 0)
        != PSA_KEY_PERSISTENCE_VOLATILE) = true := bne_iff_ne.mpr hv
    simp only [hb, hv, ne_eq, not_false_eq_true, if_true]
    by_cases hd : (psa_destroy_key P (PSA_KEY_ID_USER_MIN + i) w).1 = PSA_SUCCESS
    · simp only [hd, if_true]
      exact ⟨_, _, rfl, rfl, rfl⟩
    · simp only [hd, if_false]
      exact ⟨_, _, rfl, rfl, rfl⟩

end psaAeadEncrypt

namespace psaRawKeyAgreement
variable {σ : Type}

theorem keyAgreementThread_import_shape (c : HsmValues) (P : Provider σ) (i : Nat) (w : World σ) :
    ∃ attributes data,
      (keyAgreementThread_import c P i w).2.calls = w.calls ++
        (if PSA_KEY_LIFETIME_GET_PERSISTENCE ((lifetimes c).getD i 0) ≠ PSA_KEY_PERSISTENCE_VOLATILE
         then [Call.destroy_key (PSA_KEY_ID_USER_MIN + i)
                (P.psa_destroy_key (PSA_KEY_ID_USER_MIN + i) w.prov).1]
         else []) ++
        [Call.import_key attributes data (keyAgreementThread_import c P i w).1.1
          (keyAgreementThread_import c P i w).1.2] ∧
      attributes.lifetime = (lifetimes c).getD i 0 ∧
      attributes.id =
        (if PSA_KEY_LIFETIME_GET_PERSISTENCE ((lifetimes c).getD i 0) ≠ PSA_KEY_PERSISTENCE_VOLATILE
         then PSA_KEY_ID_USER_MIN + i else 0) := by
  unfold keyAgreementThread_import
  by_cases hv : PSA_KEY_LIFETIME_GET_PERSISTENCE ((lifetimes c).getD i 0)
      = PSA_KEY_PERSISTENCE_VOLATILE
  · have hb : (PSA_KEY_LIFETIME_GET_PERSISTENCE ((lifetimes c).getD i 0)
        != PSA_KEY_PERSISTENCE_VOLATILE) = false := by rw [hv]; exact bne_self_eq_false _
    simp only [hb, hv, ne_eq, not_true_eq_false, if_false, Bool.false_eq_true]
    exact ⟨_, _, by rw [List.append_nil]; rfl, rfl, rfl⟩
  · have hb : (PSA_KEY_LIFETIME_GET_PERSISTENCE ((lifetimes c).getD i 0)
        != PSA_KEY_PERSISTENCE_VOLATILE) = true := bne_iff_ne.mpr hv
    simp only [hb, hv, ne_eq, not_false_eq_true, if_true]
    by_cases hd : (psa_destroy_key P (PSA_KEY_ID_USER_MIN + i) w).1 = PSA_SUCCESS
    · simp only [hd, if_true]
      exact ⟨_, _, rfl, rfl, rfl⟩
    · simp only [hd, if_false]
      exact ⟨_, _, rfl, rfl, rfl⟩

end psaRawKeyAgreement

namespace psaKeyDerivation
variable {σ : Type}

theorem derivationThread_import_shape (c : HsmValues) (P : Provider σ) (i : Nat) (w : World σ) :
    ∃ attributes data,
      (derivationThread_import c P i w).2.calls = w.calls ++
        (if PSA_KEY_LIFETIME_GET_PERSISTENCE ((lifetimes c).getD i 0) ≠ PSA_KEY_PERSISTENCE_VOLATILE
         then [Call.destroy_key (PSA_KEY_ID_USER_MIN + i)
                (P.psa_destroy_key (PSA_KEY_ID_USER_MIN + i) w.prov).1]
         else []) ++
        [Call.import_key attributes data (derivationThread_import c P i w).1.1
          (derivationThread_import c P i w).1.2] ∧
      attributes.lifetime = (lifetimes c).getD i 0 ∧
      attributes.id =
        (if PSA_KEY_LIFETIME_GET_PERSISTENCE ((lifetimes c).getD i 0) ≠ PSA_KEY_PERSISTENCE_VOLATILE
         then PSA_KEY_ID_USER_MIN + i else 0) := by
  unfold derivationThread_import
  by_cases hv : PSA_KEY_LIFETIME_GET_PERSISTENCE ((lifetimes c).getD i 0)
      = PSA_KEY_PERSISTENCE_VOLATILE
  · have hb : (PSA_KEY_LIFETIME_GET_PERSISTENCE ((lifetimes c).getD i 0)
        != PSA_KEY_PERSISTENCE_VOLATILE) = false := by rw [hv]; exact bne_self_eq_false _
    simp only [hb, hv, ne_eq, not_true_eq_false, if_false, Bool.false_eq_true]
    exact ⟨_, _, by rw [List.append_nil]; rfl, rfl, rfl⟩
  · have hb : (PSA_KEY_LIFETIME_GET_PERSISTENCE ((lifetimes c).getD i 0)
        != PSA_KEY_PERSISTENCE_VOLATILE) = true := bne_iff_ne.mpr hv
    simp only [hb, hv, ne_eq, not_false_eq_true, if_true]
    exact ⟨_, _, rfl, rfl, rfl⟩

end psaKeyDerivation

namespace psaSignVerify
variable {σ : Type}

theorem setupKeyID_shape (P : Provider σ) (a : psa_key_attributes_t) (p : Nat) (w : World σ) :
    (setupKeyID P a p w).2.calls = w.calls ++
      (if p ≠ PSA_KEY_PERSISTENCE_VOLATILE
       then [Call.destroy_key PSA_KEY_ID_USER_MIN (P.psa_destroy_key PSA_KEY_ID_USER_MIN w.prov).1]
       else []) ∧
    (setupKeyID P a p w).2.passCnt = w.passCnt ∧
    (setupKeyID P a p w).1.id = (if p ≠ PSA_KEY_PERSISTENCE_VOLATILE then PSA_KEY_ID_USER_MIN else a.id) ∧
    (setupKeyID P a p w).1.lifetime = a.lifetime := by
  unfold setupKeyID
  by_cases hv : p = PSA_KEY_PERSISTENCE_VOLATILE
  · simp only [hv, ne_eq, not_true_eq_false, if_false, List.append_nil, and_self]
  · simp only [hv, ne_eq, not_false_eq_true, if_true]
    refine ⟨?_, ?_, ?_, ?_⟩ <;> first | rfl | trivial

theorem setKeyAttributes_lifetime (i : Nat) (vecs : List ecdsaTestCase) (u : Nat) (t : keyType)
    (lt : psa_key_lifetime_t) (a : psa_key_attributes_t) :
    (setKeyAttributes i vecs u t lt a).lifetime = lt ∧ (setKeyAttributes i vecs u t lt a).id = a.id :=
  ⟨rfl, rfl⟩

theorem signMessage_import_shape (P : Provider σ) (vecs : List ecdsaTestCase) (p l j : Nat)
    (w : World σ) :
    ∃ attributes data,
      (signMessage_import P vecs p l j w).2.calls = w.calls ++
        (if PSA_KEY_LIFETIME_GET_PERSISTENCE (PSA_KEY_LIFETIME_FROM_PERSISTENCE_AND_LOCATION p l)
            ≠ PSA_KEY_PERSISTENCE_VOLATILE
         then [Call.destroy_key PSA_KEY_ID_USER_MIN (P.psa_destroy_key PSA_KEY_ID_USER_MIN w.prov).1]
         else []) ++
        [Call.import_key attributes data (signMessage_import P vecs p l j w).1.1
          (signMessage_import P vecs p l j w).1.2] ∧
      attributes.lifetime = PSA_KEY_LIFETIME_FROM_PERSISTENCE_AND_LOCATION p l ∧
      attributes.id =
        (if PSA_KEY_LIFETIME_GET_PERSISTENCE (PSA_KEY_LIFETIME_FROM_PERSISTENCE_AND_LOCATION p l)
            ≠ PSA_KEY_PERSISTENCE_VOLATILE
         then PSA_KEY_ID_USER_MIN else 0) := by
  refine ⟨?a, ?d, ?h, ?l, ?i⟩
  case h =>
    unfold signMessage_import
    simp only [psa_import_key]
    rw [(setupKeyID_shape P _ _ w).1]
    exact rfl
  case l => rw [(setupKeyID_shape P _ _ w).2.2.2]; rfl
  case i => rw [(setupKeyID_shape P _ _ w).2.2.1]; rfl

theorem signHash_import_shape (P : Provider σ) (vecs : List ecdsaTestCase) (p l j : Nat)
    (w : World σ) :
    ∃ attributes data,
      (signHash_import P vecs p l j w).2.calls = w.calls ++
        (if PSA_KEY_LIFETIME_GET_PERSISTENCE (PSA_KEY_LIFETIME_FROM_PERSISTENCE_AND_LOCATION p l)
            ≠ PSA_KEY_PERSISTENCE_VOLATILE
         then [Call.destroy_key PSA_KEY_ID_USER_MIN (P.psa_destroy_key PSA_KEY_ID_USER_MIN w.prov).1]
         else []) ++
        [Call.import_key attributes data (signHash_import P vecs p l j w).1.1
          (signHash_import P vecs p l j w).1.2] ∧
      attributes.lifetime = PSA_KEY_LIFETIME_FROM_PERSISTENCE_AND_LOCATION p l ∧
      attributes.id =
        (if PSA_KEY_LIFETIME_GET_PERSISTENCE (PSA_KEY_LIFETIME_FROM_PERSISTENCE_AND_LOCATION p l)
            ≠ PSA_KEY_PERSISTENCE_VOLATILE
         then PSA_KEY_ID_USER_MIN else 0) := by
  refine ⟨?a, ?d, ?h, ?l, ?i⟩
  case h =>
    unfold signHash_import
    simp only [psa_import_key]
    rw [(setupKeyID_shape P _ _ w).1]
    exact rfl
  case l => rw [(setupKeyID_shape P _ _ w).2.2.2]; rfl
  case i => rw [(setupKeyID_shape P _ _ w).2.2.1]; rfl

theorem verifyMessage_import_shape (P : Provider σ) (j : Nat) (vecs : List ecdsaTestCase)
    (lt : psa_key_lifetime_t) (w : World σ) :
    ∃ attributes data,
      (verifyMessage_import P j vecs lt w).2.calls = w.calls ++
        (if PSA_KEY_LIFETIME_GET_PERSISTENCE lt
            ≠ PSA_KEY_PERSISTENCE_VOLATILE
         then [Call.destroy_key PSA_KEY_ID_USER_MIN (P.psa_destroy_key PSA_KEY_ID_USER_MIN w.prov).1]
         else []) ++
        [Call.import_key attributes data (verifyMessage_import P j vecs lt w).1.1
          (verifyMessage_import P j vecs lt w).1.2] ∧
      attributes.lifetime = lt ∧
      attributes.id =
        (if PSA_KEY_LIFETIME_GET_PERSISTENCE lt
            ≠ PSA_KEY_PERSISTENCE_VOLATILE
         then PSA_KEY_ID_USER_MIN else 0) := by
  refine ⟨?a, ?d, ?h, ?l, ?i⟩
  case h =>
    unfold verifyMessage_import
    simp only [psa_import_key]
    rw [(setupKeyID_shape P _ _ w).1]
    exact rfl
  case l => rw [(setupKeyID_shape P _ _ w).2.2.2]; rfl
  case i => rw [(setupKeyID_shape P _ _ w).2.2.1]; rfl

theorem verifyHash_import_shape (P : Provider σ) (j : Nat) (vecs : List ecdsaTestCase)
    (lt : psa_key_lifetime_t) (w : World σ) :
    ∃ attributes data,
      (verifyHash_import P j vecs lt w).2.calls = w.calls ++
        (if PSA_KEY_LIFETIME_GET_PERSISTENCE lt
            ≠ PSA_KEY_PERSISTENCE_VOLATILE
         then [Call.destroy_key PSA_KEY_ID_USER_MIN (P.psa_destroy_key PSA_KEY_ID_USER_MIN w.prov).1]
         else []) ++
        [Call.import_key attributes data (verifyHash_import P j vecs lt w).1.1
          (verifyHash_import P j vecs lt w).1.2] ∧
      attributes.lifetime = lt ∧
      attributes.id =
        (if PSA_KEY_LIFETIME_GET_PERSISTENCE lt
            ≠ PSA_KEY_PERSISTENCE_VOLATILE
         then PSA_KEY_ID_USER_MIN else 0) := by
  refine ⟨?a, ?d, ?h, ?l, ?i⟩
  case h =>
    unfold verifyHash_import
    simp only [psa_import_key]
    rw [(setupKeyID_shape P _ _ w).1]
    exact rfl
  case l => rw [(setupKeyID_shape P _ _ w).2.2.2]; rfl
  case i => rw [(setupKeyID_shape P _ _ w).2.2.1]; rfl

theorem signMessage_import_passCnt (P : Provider σ) (vecs : List ecdsaTestCase) (p l j : Nat)
    (w : World σ) : (signMessage_import P vecs p l j w).2.passCnt = w.passCnt := by
  unfold signMessage_import
  simp only [psa_import_key]
  exact (setupKeyID_shape P _ _ w).2.1

theorem signHash_import_passCnt (P : Provider σ) (vecs : List ecdsaTestCase) (p l j : Nat)
    (w : World σ) : (signHash_import P vecs p l j w).2.passCnt = w.passCnt := by
  unfold signHash_import
  simp only [psa_import_key]
  exact (setupKeyID_shape P _ _ w).2.1

theorem verifyMessage_import_passCnt (P : Provider σ) (j : Nat) (vecs : List ecdsaTestCase)
    (lt : psa_key_lifetime_t) (w : World σ) :
    (verifyMessage_import P j vecs lt w).2.passCnt = w.passCnt := by
  unfold verifyMessage_import
  simp only [psa_import_key]
  exact (setupKeyID_shape P _ _ w).2.1

theorem verifyHash_import_passCnt (P : Provider σ) (j : Nat) (vecs : List ecdsaTestCase)
    (lt : psa_key_lifetime_t) (w : World σ) :
    (verifyHash_import P j vecs lt w).2.passCnt = w.passCnt := by
  unfold verifyHash_import
  simp only [psa_import_key]
  exact (setupKeyID_shape P _ _ w).2.1

end psaSignVerify

/-- C17: in every worker thread the step that imports a case's key calls
`psa_destroy_key` on the deterministic key ID right before `psa_import_key`
exactly when the persistence of the lifetime is not `PSA_KEY_PERSISTENCE_VOLATILE`,
and then calls `psa_import_key` whatever the destroy answered, without touching
`passCnt`. The ID is `PSA_KEY_ID_USER_MIN + i` in `encryptThread`,
`keyAgreementThread` and `derivationThread`, and `PSA_KEY_ID_USER_MIN` in the
four functions of `psaSignVerify.c`; it is also the ID set in the attributes
of the import. -/
theorem pre_destroy_iff_not_volatile {σ : Type} (c : HsmValues) (P : Provider σ) (i : Nat)
    (w : World σ) :
    ((∃ attributes data,
        (psaAeadEncrypt.encryptThread_import c P i w).2.calls = w.calls ++
          (if PSA_KEY_LIFETIME_GET_PERSISTENCE ((psaAeadEncrypt.lifetimes c).getD i 0)
              ≠ PSA_KEY_PERSISTENCE_VOLATILE
           then [Call.destroy_key (PSA_KEY_ID_USER_MIN + i)
                  (P.psa_destroy_key (PSA_KEY_ID_USER_MIN + i) w.prov).1]
           else []) ++
          [Call.import_key attributes data (psaAeadEncrypt.encryptThread_import c P i w).1.1
            (psaAeadEncrypt.encryptThread_import c P i w).1.2] ∧
        attributes.lifetime = (psaAeadEncrypt.lifetimes c).getD i 0 ∧
        attributes.id =
          (if PSA_KEY_LIFETIME_GET_PERSISTENCE ((psaAeadEncrypt.lifetimes c).getD i 0)
              ≠ PSA_KEY_PERSISTENCE_VOLATILE
           then PSA_KEY_ID_USER_MIN + i else 0)) ∧
      (psaAeadEncrypt.encryptThread_import c P i w).2.passCnt = w.passCnt) ∧
    ((∃ attributes data,
        (psaRawKeyAgreement.keyAgreementThread_import c P i w).2.calls = w.calls ++
          (if PSA_KEY_LIFETIME_GET_PERSISTENCE ((psaRawKeyAgreement.lifetimes c).getD i 0)
              ≠ PSA_KEY_PERSISTENCE_VOLATILE
           then [Call.destroy_key (PSA_KEY_ID_USER_MIN + i)
                  (P.psa_destroy_key (PSA_KEY_ID_USER_MIN + i) w.prov).1]
           else []) ++
          [Call.import_key attributes data (psaRawKeyAgreement.keyAgreementThread_import c P i w).1.1
            (psaRawKeyAgreement.keyAgreementThread_import c P i w).1.2] ∧
        attributes.lifetime = (psaRawKeyAgreement.lifetimes c).getD i 0 ∧
        attributes.id =
          (if PSA_KEY_LIFETIME_GET_PERSISTENCE ((psaRawKeyAgreement.lifetimes c).getD i 0)
              ≠ PSA_KEY_PERSISTENCE_VOLATILE
           then PSA_KEY_ID_USER_MIN + i else 0)) ∧
      (psaRawKeyAgreement.keyAgreementThread_import c P i w).2.passCnt = w.passCnt) ∧
    ((∃ attributes data,
        (psaKeyDerivation.derivationThread_import c P i w).2.calls = w.calls ++
          (if PSA_KEY_LIFETIME_GET_PERSISTENCE ((psaKeyDerivation.lifetimes c).getD i 0)
              ≠ PSA_KEY_PERSISTENCE_VOLATILE
           then [Call.destroy_key (PSA_KEY_ID_USER_MIN + i)
                  (P.psa_destroy_key (PSA_KEY_ID_USER_MIN + i) w.prov).1]
           else []) ++
          [Call.import_key attributes data (psaKeyDerivation.derivationThread_import c P i w).1.1
            (psaKeyDerivation.derivationThread_import c P i w).1.2] ∧
        attributes.lifetime = (psaKeyDerivation.lifetimes c).getD i 0 ∧
        attributes.id =
          (if PSA_KEY_LIFETIME_GET_PERSISTENCE ((psaKeyDerivation.lifetimes c).getD i 0)
              ≠ PSA_KEY_PERSISTENCE_VOLATILE
           then PSA_KEY_ID_USER_MIN + i else 0)) ∧
      (psaKeyDerivation.derivationThread_import c P i w).2.passCnt = w.passCnt) ∧
    (∀ (vecs : List psaSignVerify.ecdsaTestCase) (p l j : Nat),
      ((∃ attributes data,
          (psaSignVerify.signMessage_import P vecs p l j w).2.calls = w.calls ++
            (if PSA_KEY_LIFETIME_GET_PERSISTENCE (PSA_KEY_LIFETIME_FROM_PERSISTENCE_AND_LOCATION p l)
                ≠ PSA_KEY_PERSISTENCE_VOLATILE
             then [Call.destroy_key PSA_KEY_ID_USER_MIN
                    (P.psa_destroy_key PSA_KEY_ID_USER_MIN w.prov).1]
             else []) ++
            [Call.import_key attributes data (psaSignVerify.signMessage_import P vecs p l j w).1.1
              (psaSignVerify.signMessage_import P vecs p l j w).1.2] ∧
          attributes.lifetime = PSA_KEY_LIFETIME_FROM_PERSISTENCE_AND_LOCATION p l ∧
          attributes.id =
            (if PSA_KEY_LIFETIME_GET_PERSISTENCE (PSA_KEY_LIFETIME_FROM_PERSISTENCE_AND_LOCATION p l)
                ≠ PSA_KEY_PERSISTENCE_VOLATILE
             then PSA_KEY_ID_USER_MIN else 0)) ∧
        (psaSignVerify.signMessage_import P vecs p l j w).2.passCnt = w.passCnt) ∧
      ((∃ attributes data,
          (psaSignVerify.signHash_import P vecs p l j w).2.calls = w.calls ++
            (if PSA_KEY_LIFETIME_GET_PERSISTENCE (PSA_KEY_LIFETIME_FROM_PERSISTENCE_AND_LOCATION p l)
                ≠ PSA_KEY_PERSISTENCE_VOLATILE
             then [Call.destroy_key PSA_KEY_ID_USER_MIN
                    (P.psa_destroy_key PSA_KEY_ID_USER_MIN w.prov).1]
             else []) ++
            [Call.import_key attributes data (psaSignVerify.signHash_import P vecs p l j w).1.1
              (psaSignVerify.signHash_import P vecs p l j w).1.2] ∧
          attributes.lifetime = PSA_KEY_LIFETIME_FROM_PERSISTENCE_AND_LOCATION p l ∧
          attributes.id =
            (if PSA_KEY_LIFETIME_GET_PERSISTENCE (PSA_KEY_LIFETIME_FROM_PERSISTENCE_AND_LOCATION p l)
                ≠ PSA_KEY_PERSISTENCE_VOLATILE
             then PSA_KEY_ID_USER_MIN else 0)) ∧
        (psaSignVerify.signHash_import P vecs p l j w).2.passCnt = w.passCnt)) ∧
    (∀ (vecs : List psaSignVerify.ecdsaTestCase) (lt : psa_key_lifetime_t) (j : Nat),
      ((∃ attributes data,
          (psaSignVerify.verifyMessage_import P j vecs lt w).2.calls = w.calls ++
            (if PSA_KEY_LIFETIME_GET_PERSISTENCE lt ≠ PSA_KEY_PERSISTENCE_VOLATILE
             then [Call.destroy_key PSA_KEY_ID_USER_MIN
                    (P.psa_destroy_key PSA_KEY_ID_USER_MIN w.prov).1]
             else []) ++
            [Call.import_key attributes data (psaSignVerify.verifyMessage_import P j vecs lt w).1.1
              (psaSignVerify.verifyMessage_import P j vecs lt w).1.2] ∧
          attributes.lifetime = lt ∧
          attributes.id =
            (if PSA_KEY_LIFETIME_GET_PERSISTENCE lt ≠ PSA_KEY_PERSISTENCE_VOLATILE
             then PSA_KEY_ID_USER_MIN else 0)) ∧
        (psaSignVerify.verifyMessage_import P j vecs lt w).2.passCnt = w.passCnt) ∧
      ((∃ attributes data,
          (psaSignVerify.verifyHash_import P j vecs lt w).2.calls = w.calls ++
            (if PSA_KEY_LIFETIME_GET_PERSISTENCE lt ≠ PSA_KEY_PERSISTENCE_VOLATILE
             then [Call.destroy_key PSA_KEY_ID_USER_MIN
                    (P.psa_destroy_key PSA_KEY_ID_USER_MIN w.prov).1]
             else []) ++
            [Call.import_key attributes data (psaSignVerify.verifyHash_import P j vecs lt w).1.1
              (psaSignVerify.verifyHash_import P j vecs lt w).1.2] ∧
          attributes.lifetime = lt ∧
          attributes.id =
            (if PSA_KEY_LIFETIME_GET_PERSISTENCE lt ≠ PSA_KEY_PERSISTENCE_VOLATILE
             then PSA_KEY_ID_USER_MIN else 0)) ∧
        (psaSignVerify.verifyHash_import P j vecs lt w).2.passCnt = w.passCnt)) :=
  ⟨⟨psaAeadEncrypt.encryptThread_import_shape c P i w,
      psaAeadEncrypt.encryptThread_import_passCnt c P i w⟩,
   ⟨psaRawKeyAgreement.keyAgreementThread_import_shape c P i w,
      psaRawKeyAgreement.keyAgreementThread_import_passCnt c P i w⟩,
   ⟨psaKeyDerivation.derivationThread_import_shape c P i w,
      psaKeyDerivation.derivationThread_import_passCnt c P i w⟩,
   fun vecs p l j =>
     ⟨⟨psaSignVerify.signMessage_import_shape P vecs p l j w,
        psaSignVerify.signMessage_import_passCnt P vecs p l j w⟩,
      ⟨psaSignVerify.signHash_import_shape P vecs p l j w,
        psaSignVerify.signHash_import_passCnt P vecs p l j w⟩⟩,
   fun vecs lt j =>
     ⟨⟨psaSignVerify.verifyMessage_import_shape P j vecs lt w,
        psaSignVerify.verifyMessage_import_passCnt P j vecs lt w⟩,
      ⟨psaSignVerify.verifyHash_import_shape P j vecs lt w,
        psaSignVerify.verifyHash_import_passCnt P j vecs lt w⟩⟩⟩

end Psa

namespace Psa

theorem Continues.refl (a : List Call) : Continues a a := ⟨[], (List.append_nil a).symm⟩

theorem Continues.trans {a b c : List Call} (h1 : Continues a b) (h2 : Continues b c) :
    Continues a c := by
  obtain ⟨l, rfl⟩ := h1
  obtain ⟨m, rfl⟩ := h2
  exact ⟨l ++ m, List.append_assoc a l m⟩

theorem Continues.append (a l : List Call) : Continues a (a ++ l) := ⟨l, rfl⟩

theorem Continues.of_eq {a b : List Call} (h : b = a) : Continues a b := h ▸ Continues.refl a

namespace psaKeyDerivation
variable {σ : Type}

theorem setupKeyDerivation_continues (c : HsmValues) (P : Provider σ) (alg k : Nat) (w : World σ) :
    Continues w.calls (setupKeyDerivation c P alg k w).2.calls := by
  unfold setupKeyDerivation
  simp only [psa_key_derivation_setup, psa_key_derivation_input_key,
    psa_key_derivation_input_bytes, psa_key_derivation_get_capacity]
  split_ifs <;> simp only [Display_printf_calls, List.append_assoc] <;> exact ⟨_, rfl⟩

theorem derivationThread_import_continues (c : HsmValues) (P : Provider σ) (i : Nat) (w : World σ) :
    Continues w.calls (derivationThread_import c P i w).2.calls := by
  obtain ⟨a, d, h, -⟩ := derivationThread_import_shape c P i w
  rw [h, List.append_assoc]
  exact ⟨_, rfl⟩

theorem derivationThread_setup_continues (c : HsmValues) (P : Provider σ) (k : Nat) (w : World σ) :
    Continues w.calls (derivationThread_setup c P k w).2.calls := by
  unfold derivationThread_setup
  refine Continues.trans ?_ (setupKeyDerivation_continues c P _ k _)
  simp only [psa_get_key_attributes]
  split_ifs <;> simp only [Display_printf_calls] <;> exact ⟨_, rfl⟩

theorem derivationThread_capacity_continues (P : Provider σ) (w : World σ) :
    Continues w.calls (derivationThread_capacity P w).2.calls := by
  obtain ⟨s1, h⟩ := derivationThread_capacity_calls P w
  exact ⟨_, h⟩

theorem derivationThread_roundTrip_continues (P : Provider σ) (k : Nat) (w : World σ) :
    Continues w.calls (derivationThread_roundTrip P k w).1.calls := by
  unfold derivationThread_roundTrip
  simp only [psa_cipher_encrypt, psa_cipher_decrypt]
  split_ifs <;>
    simp only [Display_printf_calls, kd_printByteArray_calls, derivationThread_compare_calls,
      List.append_assoc] <;> exact ⟨_, rfl⟩

theorem derived_continues (P : Provider σ) (i j : Nat) (st : State σ) :
    Continues st.w.calls (derived P i j st).2.calls := ⟨_, rfl⟩

theorem derivedAttributes_continues (P : Provider σ) (i j : Nat) (st : State σ) :
    Continues st.w.calls (derivedAttributes P i j st).2.calls :=
  (derived_continues P i j st).trans ⟨_, rfl⟩

theorem remainingCapacity_continues (P : Provider σ) (i j : Nat) (st : State σ) :
    Continues st.w.calls (remainingCapacity P i j st).2.calls :=
  (derivedAttributes_continues P i j st).trans ⟨_, rfl⟩

theorem psa_destroy_key_continues (P : Provider σ) (k : Nat) (w : World σ) :
    Continues w.calls (psa_destroy_key P k w).2.calls := ⟨_, rfl⟩

theorem derivationThread_inner_continues (P : Provider σ) (i j : Nat) (st : State σ) :
    Continues st.w.calls (derivationThread_inner P i j st).w.calls := by
  unfold derivationThread_inner
  simp only []
  split_ifs <;>
    first
    | exact derived_continues P i j st
    | exact derivedAttributes_continues P i j st
    | exact remainingCapacity_continues P i j st
    | exact (remainingCapacity_continues P i j st).trans
        (derivationThread_roundTrip_continues P _ _)
    | exact (remainingCapacity_continues P i j st).trans
        ((derivationThread_roundTrip_continues P (derived P i j st).1.2
            (Display_printf (remainingCapacity P i j st).2 "Remaining capacity: %d bytes"
              [((remainingCapacity P i j st).1.2 : Int)])).trans
          (psa_destroy_key_continues P _ _))
    | exact (remainingCapacity_continues P i j st).trans
        ((derivationThread_roundTrip_continues P (derived P i j st).1.2
            (remainingCapacity P i j st).2).trans
          (psa_destroy_key_continues P _ _))

theorem derivationThread_inner_for_continues (P : Provider σ) (i n : Nat) (st : State σ) :
    Continues st.w.calls (derivationThread_inner_for P i n st).w.calls := by
  induction n with
  | zero => exact Continues.refl _
  | succ n ih =>
    simp only [derivationThread_inner_for]
    split_ifs
    · exact ih
    · exact ih.trans (derivationThread_inner_continues P i n _)

theorem derivationThread_prepare_continues (c : HsmValues) (P : Provider σ) (i : Nat)
    (st : State σ) :
    Continues (derivationThread_import c P i st.w).2.calls
      (derivationThread_prepare c P i st).state.w.calls := by
  unfold derivationThread_prepare
  simp only []
  split_ifs <;> simp only [Prepared.state] <;>
    first
    | exact Continues.refl _
    | exact derivationThread_setup_continues c P _ _
    | exact (derivationThread_setup_continues c P _ _).trans
        (derivationThread_capacity_continues P _)

theorem derivationThread_loop_continues (c : HsmValues) (P : Provider σ) (i : Nat) (st : State σ) :
    Continues (derivationThread_import c P i st.w).2.calls (derivationThread_loop c P i st).w.calls := by
  have hp := derivationThread_prepare_continues c P i st
  unfold derivationThread_loop
  cases hprep : derivationThread_prepare c P i st with
  | skipped st' => rw [hprep] at hp; exact hp
  | returned st' => rw [hprep] at hp; exact hp
  | ready k st' =>
    rw [hprep] at hp
    simp only [Prepared.state] at hp
    simp only []
    have hi := derivationThread_inner_for_continues P i KEY_DERIVATION_LOOP_CNT st'
    split_ifs <;>
      first
      | exact hp.trans hi
      | exact hp.trans (hi.trans (psa_destroy_key_continues P _ _))

theorem derivationThread_for_continues (c : HsmValues) (P : Provider σ) (n m : Nat) (st : State σ) :
    Continues (derivationThread_for c P n st).w.calls (derivationThread_for c P (n + m) st).w.calls := by
  induction m with
  | zero => exact Continues.refl _
  | succ m ih =>
    have h1 : derivationThread_for c P (n + (m + 1)) st =
        if (derivationThread_for c P (n + m) st).returned
        then derivationThread_for c P (n + m) st
        else derivationThread_loop c P (n + m) (derivationThread_for c P (n + m) st) := rfl
    rw [h1]
    split_ifs
    · exact ih
    · exact ih.trans ((derivationThread_import_continues c P _ _).trans
        (derivationThread_loop_continues c P _ _))

theorem derivationThread_calls (c : HsmValues) (P : Provider σ) (s : σ) :
    (derivationThread c P s).calls = (before c P s lifetimeCnt).w.calls := by
  unfold derivationThread before
  simp only []
  split_ifs <;> rfl

/-- In a run of `derivationThread` that reaches outer iteration `k`, the log at the
`psa_import_key` of that iteration is continued by the final log. -/
theorem derivationThread_reaches_import (c : HsmValues) (P : Provider σ) (s : σ) (k : Nat)
    (hk : k < lifetimeCnt) (hrun : (before c P s k).returned = false) :
    Continues (derivationThread_import c P k (before c P s k).w).2.calls
      (derivationThread c P s).calls := by
  rw [derivationThread_calls]
  have h1 : before c P s (k + 1) = derivationThread_loop c P k (before c P s k) := by
    unfold before at hrun ⊢
    simp only [derivationThread_for, hrun, Bool.false_eq_true, if_false]
  have h2 := derivationThread_for_continues c P (k + 1) (lifetimeCnt - (k + 1))
    (derivationThread_begin s)
  have hsum : k + 1 + (lifetimeCnt - (k + 1)) = lifetimeCnt := by omega
  rw [hsum] at h2
  unfold before at h1 ⊢
  rw [h1] at h2
  exact (derivationThread_loop_continues c P k _).trans h2

theorem derivationThread_loop_import_failed (c : HsmValues) (P : Provider σ) (i : Nat)
    (st : State σ) (h : (derivationThread_import c P i st.w).1.1 ≠ PSA_SUCCESS) :
    (derivationThread_loop c P i st).w.calls = (derivationThread_import c P i st.w).2.calls ∧
    (derivationThread_loop c P i st).w.passCnt = st.w.passCnt ∧
    (derivationThread_loop c P i st).returned = st.returned := by
  unfold derivationThread_loop derivationThread_prepare
  simp only [h, ne_eq, not_false_eq_true, if_true, Display_printf_calls, Display_printf_passCnt,
    derivationThread_import_passCnt, and_self]

end psaKeyDerivation
end Psa

namespace Psa
namespace psaSignVerify
variable {σ : Type}

theorem sv_printByteArray_calls (d : String) (a : List Nat) (o l : Nat) (w : World σ) :
    (printByteArray d a o l w).calls = w.calls := rfl

theorem sv_printKeyLifetime_calls (c : HsmValues) (l : Nat) (w : World σ) :
    (printKeyLifetime c l w).calls = w.calls := rfl

theorem verifyMessage_import_continues (P : Provider σ) (j : Nat) (vecs : List ecdsaTestCase)
    (lt : psa_key_lifetime_t) (w : World σ) :
    Continues w.calls (verifyMessage_import P j vecs lt w).2.calls := by
  obtain ⟨a, d, h, -⟩ := verifyMessage_import_shape P j vecs lt w
  rw [h, List.append_assoc]
  exact ⟨_, rfl⟩

theorem verifyHash_import_continues (P : Provider σ) (j : Nat) (vecs : List ecdsaTestCase)
    (lt : psa_key_lifetime_t) (w : World σ) :
    Continues w.calls (verifyHash_import P j vecs lt w).2.calls := by
  obtain ⟨a, d, h, -⟩ := verifyHash_import_shape P j vecs lt w
  rw [h, List.append_assoc]
  exact ⟨_, rfl⟩

theorem signMessage_import_continues (P : Provider σ) (vecs : List ecdsaTestCase) (p l j : Nat)
    (w : World σ) : Continues w.calls (signMessage_import P vecs p l j w).2.calls := by
  obtain ⟨a, d, h, -⟩ := signMessage_import_shape P vecs p l j w
  rw [h, List.append_assoc]
  exact ⟨_, rfl⟩

theorem signHash_import_continues (P : Provider σ) (vecs : List ecdsaTestCase) (p l j : Nat)
    (w : World σ) : Continues w.calls (signHash_import P vecs p l j w).2.calls := by
  obtain ⟨a, d, h, -⟩ := signHash_import_shape P vecs p l j w
  rw [h, List.append_assoc]
  exact ⟨_, rfl⟩

theorem verifyMessage_continues (P : Provider σ) (j : Nat) (vecs : List ecdsaTestCase)
    (sig : List Nat) (len : Nat) (lt : psa_key_lifetime_t) (w : World σ) :
    Continues w.calls (verifyMessage P j vecs sig len lt w).calls := by
  obtain ⟨rest, h, -⟩ := verifyMessage_calls P j vecs sig len lt w
  exact (verifyMessage_import_continues P j vecs lt w).trans ⟨rest, h⟩

theorem verifyHash_continues (P : Provider σ) (j : Nat) (vecs : List ecdsaTestCase)
    (sig : List Nat) (len : Nat) (lt : psa_key_lifetime_t) (w : World σ) :
    Continues w.calls (verifyHash P j vecs sig len lt w).calls := by
  obtain ⟨rest, h, -⟩ := verifyHash_calls P j vecs sig len lt w
  exact (verifyHash_import_continues P j vecs lt w).trans ⟨rest, h⟩

theorem signMessage_continues_import (P : Provider σ) (vecs : List ecdsaTestCase) (p l j : Nat)
    (w : World σ) :
    Continues (signMessage_import P vecs p l j w).2.calls (signMessage P vecs p l j w).calls := by
  unfold signMessage
  simp only []
  split_ifs <;>
    first
    | exact Continues.refl _
    | (refine Continues.trans ?_ (verifyMessage_continues P _ _ _ _ _ _)
       simp only [psa_destroy_key, psa_sign_message, psa_export_public_key, Display_printf_calls,
         sv_printByteArray_calls, List.append_assoc]
       exact ⟨_, rfl⟩)
    | (simp only [psa_destroy_key, psa_sign_message, psa_export_public_key, Display_printf_calls,
         sv_printByteArray_calls, List.append_assoc]
       exact ⟨_, rfl⟩)

theorem signMessage_continues (P : Provider σ) (vecs : List ecdsaTestCase) (p l j : Nat)
    (w : World σ) : Continues w.calls (signMessage P vecs p l j w).calls :=
  (signMessage_import_continues P vecs p l j w).trans (signMessage_continues_import P vecs p l j w)

theorem signHash_continues_import (P : Provider σ) (vecs : List ecdsaTestCase) (p l j : Nat)
    (w : World σ) (halg : (vecs.getD j default).alg ≠ PSA_ALG_PURE_EDDSA) :
    Continues (signHash_import P vecs p l j w).2.calls (signHash P vecs p l j w).calls := by
  unfold signHash
  simp only [halg, if_false]
  split_ifs <;>
    first
    | exact Continues.refl _
    | (refine Continues.trans ?_ (verifyHash_continues P _ _ _ _ _ _)
       simp only [psa_destroy_key, psa_sign_hash, Display_printf_calls,
         sv_printByteArray_calls, List.append_assoc]
       exact ⟨_, rfl⟩)
    | (simp only [psa_destroy_key, psa_sign_hash, Display_printf_calls,
         sv_printByteArray_calls, List.append_assoc]
       exact ⟨_, rfl⟩)

theorem signHash_continues (P : Provider σ) (vecs : List ecdsaTestCase) (p l j : Nat)
    (w : World σ) : Continues w.calls (signHash P vecs p l j w).calls := by
  by_cases halg : (vecs.getD j default).alg = PSA_ALG_PURE_EDDSA
  · unfold signHash
    simp only [halg, if_true]
    exact Continues.refl _
  · exact (signHash_import_continues P vecs p l j w).trans
      (signHash_continues_import P vecs p l j w halg)

theorem signVerifyThread_inner_continues (c : HsmValues) (P : Provider σ)
    (vecs : List ecdsaTestCase) (j i : Nat) (w : World σ) :
    Continues w.calls (signVerifyThread_inner c P vecs j i w).calls := by
  unfold signVerifyThread_inner
  exact Continues.trans (signMessage_continues P vecs _ _ j (printKeyLifetime c _ w))
    (signHash_continues P vecs _ _ j _)

theorem signVerifyThread_inner_for_continues (c : HsmValues) (P : Provider σ)
    (vecs : List ecdsaTestCase) (j n m : Nat) (w : World σ) :
    Continues (signVerifyThread_inner_for c P vecs j n w).calls
      (signVerifyThread_inner_for c P vecs j (n + m) w).calls := by
  induction m with
  | zero => exact Continues.refl _
  | succ m ih => exact ih.trans (signVerifyThread_inner_continues c P vecs j (n + m) _)

theorem signVerifyThread_loop_continues (c : HsmValues) (P : Provider σ)
    (vecs : List ecdsaTestCase) (j : Nat) (w : World σ) :
    Continues w.calls (signVerifyThread_loop c P vecs j w).calls := by
  unfold signVerifyThread_loop
  have h := signVerifyThread_inner_for_continues c P vecs j 0 lifetimeCnt
    (Display_printf (printByteArray "Public Key: 0x" (vecs.getD j default).publicKey 0
      (vecs.getD j default).publicKeyLength (printByteArray "Private Key: 0x"
        (vecs.getD j default).privateKey 0 (vecs.getD j default).privateKeyLength w)) "" [])
  rw [Nat.zero_add] at h
  exact h

theorem signVerifyThread_for_continues (c : HsmValues) (P : Provider σ)
    (vecs : List ecdsaTestCase) (n m : Nat) (w : World σ) :
    Continues (signVerifyThread_for c P vecs n w).calls
      (signVerifyThread_for c P vecs (n + m) w).calls := by
  induction m with
  | zero => exact Continues.refl _
  | succ m ih => exact ih.trans (signVerifyThread_loop_continues c P vecs (n + m) _)

theorem signVerifyThread_calls (c : HsmValues) (P : Provider σ) (vecs : List ecdsaTestCase)
    (s : σ) :
    (signVerifyThread c P vecs s).calls =
      (signVerifyThread_for c P vecs (signTestVectorCount vecs) (World.start s)).calls := by
  unfold signVerifyThread
  simp only []
  split_ifs <;> rfl

/-- The log at the start of `signHash` for vector `j` and lifetime index `i` is
continued by the final log of `signVerifyThread`. -/
theorem signVerifyThread_reaches (c : HsmValues) (P : Provider σ) (vecs : List ecdsaTestCase)
    (s : σ) (j i : Nat) (hj : j < signTestVectorCount vecs) (hi : i < lifetimeCnt) :
    Continues (before c P vecs s j i).calls (beforeHash c P vecs s j i).calls ∧
    Continues (beforeHash c P vecs s j i).calls (signVerifyThread c P vecs s).calls ∧
    Continues (before c P vecs s j (i + 1)).calls (signVerifyThread c P vecs s).calls := by
  refine ⟨signMessage_continues P vecs _ _ j _, ?_⟩
  rw [signVerifyThread_calls]
  have h1 : Continues (beforeHash c P vecs s j i).calls
      (signVerifyThread_inner_for c P vecs j (i + 1) (beforeVector c P vecs s j)).calls :=
    signHash_continues P vecs _ _ j _
  have h2 := signVerifyThread_inner_for_continues c P vecs j (i + 1) (lifetimeCnt - (i + 1))
    (beforeVector c P vecs s j)
  have hsum : i + 1 + (lifetimeCnt - (i + 1)) = lifetimeCnt := by omega
  rw [hsum] at h2
  have h3 : signVerifyThread_inner_for c P vecs j lifetimeCnt (beforeVector c P vecs s j) =
      signVerifyThread_for c P vecs (j + 1) (World.start s) := rfl
  rw [h3] at h2
  have h4 := signVerifyThread_for_continues c P vecs (j + 1) (signTestVectorCount vecs - (j + 1))
    (World.start s)
  have hsum2 : j + 1 + (signTestVectorCount vecs - (j + 1)) = signTestVectorCount vecs := by omega
  rw [hsum2] at h4
  exact ⟨h1.trans (h2.trans h4), h2.trans h4⟩

theorem signMessage_import_failed (P : Provider σ) (vecs : List ecdsaTestCase) (p l j : Nat)
    (w : World σ) (h : (signMessage_import P vecs p l j w).1.1 ≠ PSA_SUCCESS) :
    (signMessage P vecs p l j w).calls = (signMessage_import P vecs p l j w).2.calls ∧
    (signMessage P vecs p l j w).passCnt = w.passCnt := by
  unfold signMessage
  simp only [h, ne_eq, not_false_eq_true, if_true, Display_printf_calls, Display_printf_passCnt,
    signMessage_import_passCnt, and_self]

theorem signHash_import_failed (P : Provider σ) (vecs : List ecdsaTestCase) (p l j : Nat)
    (w : World σ) (halg : (vecs.getD j default).alg ≠ PSA_ALG_PURE_EDDSA)
    (h : (signHash_import P vecs p l j w).1.1 ≠ PSA_SUCCESS) :
    (signHash P vecs p l j w).calls = (signHash_import P vecs p l j w).2.calls ∧
    (signHash P vecs p l j w).passCnt = w.passCnt := by
  unfold signHash
  simp only [halg, if_false, h, ne_eq, not_false_eq_true, if_true, Display_printf_calls,
    Display_printf_passCnt, signHash_import_passCnt, and_self]

end psaSignVerify
end Psa

namespace Psa

theorem import_step_no_operation (b : Prop) [Decidable b] (k : psa_key_id_t) (st : psa_status_t)
    (a : psa_key_attributes_t) (d : List Nat) (s2 : psa_status_t) (key : psa_key_id_t)
    (post : List Call) (hpost : ∀ x ∈ post, x.isOperation = false) :
    ∀ x ∈ (if b then [Call.destroy_key k st] else []) ++ [Call.import_key a d s2 key] ++ post,
      x.isOperation = false := by
  intro x hx
  simp only [List.mem_append, List.mem_singleton] at hx
  rcases hx with (hx | hx) | hx
  · split_ifs at hx
    · rw [List.mem_singleton] at hx
      rw [hx]; rfl
    · exact absurd hx (List.not_mem_nil x)
  · rw [hx]; rfl
  · exact hpost x hx

theorem destroy_step_no_operation (b : Prop) [Decidable b] (k : psa_key_id_t) (st : psa_status_t) :
    ∀ x ∈ (if b then [Call.destroy_key k st] else []), x.isOperation = false := by
  intro x hx
  split_ifs at hx
  · rw [List.mem_singleton] at hx
    rw [hx]; rfl
  · exact absurd hx (List.not_mem_nil x)

namespace psaAeadEncrypt
variable {σ : Type}

theorem encryptThread_loop_import_failed (c : HsmValues) (P : Provider σ) (i : Nat) (w : World σ)
    (h : (encryptThread_import c P i w).1.1 ≠ PSA_SUCCESS) :
    (encryptThread_loop c P i w).calls = (encryptThread_import c P i w).2.calls ++
      (if (encryptThread_import c P i w).1.1 = PSA_ERROR_ALREADY_EXISTS then
        [Call.destroy_key (encryptThread_import c P i w).1.2
          (P.psa_destroy_key (encryptThread_import c P i w).1.2
            (encryptThread_import c P i w).2.prov).1]
       else []) ∧
    (encryptThread_loop c P i w).passCnt = w.passCnt := by
  unfold encryptThread_loop
  simp only [h, ne_eq, not_false_eq_true, if_true]
  split_ifs with hae
  · exact ⟨rfl, encryptThread_import_passCnt c P i w⟩
  · exact ⟨(List.append_nil _).symm, encryptThread_import_passCnt c P i w⟩

theorem encryptThread_loop_continues_import (c : HsmValues) (P : Provider σ) (i : Nat)
    (w : World σ) :
    Continues (encryptThread_import c P i w).2.calls (encryptThread_loop c P i w).calls := by
  by_cases h : (encryptThread_import c P i w).1.1 = PSA_SUCCESS
  · obtain ⟨gs, ds, hl⟩ := encryptThread_loop_calls_ok c P i w h
    exact ⟨_, hl⟩
  · exact ⟨_, (encryptThread_loop_import_failed c P i w h).1⟩

theorem encryptThread_reaches_import (c : HsmValues) (P : Provider σ) (s : σ) (k : Nat)
    (hk : k < lifetimeCnt) :
    Continues (imported c P s k).2.calls (encryptThread c P s).calls := by
  rw [encryptThread_calls]
  obtain ⟨l, hl⟩ := aead_before_calls_extends c P s (k + 1) (lifetimeCnt - (k + 1))
  have hsum : k + 1 + (lifetimeCnt - (k + 1)) = lifetimeCnt := by omega
  rw [hsum] at hl
  exact (encryptThread_loop_continues_import c P k (before c P s k)).trans ⟨l, hl⟩

end psaAeadEncrypt

namespace psaRawKeyAgreement
variable {σ : Type}

theorem keyAgreementThread_loop_import_failed (c : HsmValues) (P : Provider σ) (i : Nat)
    (w : World σ) (h : (keyAgreementThread_import c P i w).1.1 ≠ PSA_SUCCESS) :
    (keyAgreementThread_loop c P i w).calls = (keyAgreementThread_import c P i w).2.calls ++
      (if (keyAgreementThread_import c P i w).1.1 = PSA_ERROR_ALREADY_EXISTS then
        [Call.destroy_key (keyAgreementThread_import c P i w).1.2
          (P.psa_destroy_key (keyAgreementThread_import c P i w).1.2
            (keyAgreementThread_import c P i w).2.prov).1]
       else []) ∧
    (keyAgreementThread_loop c P i w).passCnt = w.passCnt := by
  unfold keyAgreementThread_loop
  simp only [h, ne_eq, not_false_eq_true, if_true]
  split_ifs with hae
  · exact ⟨rfl, keyAgreementThread_import_passCnt c P i w⟩
  · exact ⟨(List.append_nil _).symm, keyAgreementThread_import_passCnt c P i w⟩

theorem keyAgreementThread_loop_continues_import (c : HsmValues) (P : Provider σ) (i : Nat)
    (w : World σ) :
    Continues (keyAgreementThread_import c P i w).2.calls (keyAgreementThread_loop c P i w).calls := by
  by_cases h : (keyAgreementThread_import c P i w).1.1 = PSA_SUCCESS
  · obtain ⟨gs, ds, hl⟩ := keyAgreementThread_loop_calls_ok c P i w h
    exact ⟨_, hl⟩
  · exact ⟨_, (keyAgreementThread_loop_import_failed c P i w h).1⟩

theorem keyAgreementThread_reaches_import (c : HsmValues) (P : Provider σ) (s : σ) (k : Nat)
    (hk : k < lifetimeCnt) :
    Continues (imported c P s k).2.calls (keyAgreementThread c P s).calls := by
  rw [keyAgreementThread_calls]
  obtain ⟨l, hl⟩ := ka_before_calls_extends c P s (k + 1) (lifetimeCnt - (k + 1))
  have hsum : k + 1 + (lifetimeCnt - (k + 1)) = lifetimeCnt := by omega
  rw [hsum] at hl
  exact (keyAgreementThread_loop_continues_import c P k (before c P s k)).trans ⟨l, hl⟩

end psaRawKeyAgreement

/-- C16 (amended): in `encryptThread` and `keyAgreementThread`, an iteration whose
`psa_import_key` is answered `PSA_ERROR_ALREADY_EXISTS` makes exactly one more
provider call, a `psa_destroy_key` on the key ID the import left in its output
variable, and ends without changing `passCnt`: the import is not attempted a
second time for that lifetime. With any other failure status the iteration ends
right after the import. -/
theorem already_exists_destroys_and_skips {σ : Type} (c : HsmValues) (P : Provider σ) (s : σ)
    (i : Nat) :
    ((psaAeadEncrypt.imported c P s i).1.1 ≠ PSA_SUCCESS →
      (psaAeadEncrypt.before c P s (i + 1)).calls =
        (psaAeadEncrypt.imported c P s i).2.calls ++
          (if (psaAeadEncrypt.imported c P s i).1.1 = PSA_ERROR_ALREADY_EXISTS then
            [Call.destroy_key (psaAeadEncrypt.imported c P s i).1.2
              (P.psa_destroy_key (psaAeadEncrypt.imported c P s i).1.2
                (psaAeadEncrypt.imported c P s i).2.prov).1]
           else []) ∧
      (psaAeadEncrypt.before c P s (i + 1)).passCnt = (psaAeadEncrypt.before c P s i).passCnt) ∧
    ((psaRawKeyAgreement.imported c P s i).1.1 ≠ PSA_SUCCESS →
      (psaRawKeyAgreement.before c P s (i + 1)).calls =
        (psaRawKeyAgreement.imported c P s i).2.calls ++
          (if (psaRawKeyAgreement.imported c P s i).1.1 = PSA_ERROR_ALREADY_EXISTS then
            [Call.destroy_key (psaRawKeyAgreement.imported c P s i).1.2
              (P.psa_destroy_key (psaRawKeyAgreement.imported c P s i).1.2
                (psaRawKeyAgreement.imported c P s i).2.prov).1]
           else []) ∧
      (psaRawKeyAgreement.before c P s (i + 1)).passCnt =
        (psaRawKeyAgreement.before c P s i).passCnt) ∧
    (∃ pre attributes data,
      (psaAeadEncrypt.imported c P s i).2.calls = (psaAeadEncrypt.before c P s i).calls ++ pre ++
        [Call.import_key attributes data (psaAeadEncrypt.imported c P s i).1.1
          (psaAeadEncrypt.imported c P s i).1.2] ∧
      (pre = [] ∨ ∃ st, pre = [Call.destroy_key (PSA_KEY_ID_USER_MIN + i) st])) ∧
    (∃ pre attributes data,
      (psaRawKeyAgreement.imported c P s i).2.calls =
        (psaRawKeyAgreement.before c P s i).calls ++ pre ++
        [Call.import_key attributes data (psaRawKeyAgreement.imported c P s i).1.1
          (psaRawKeyAgreement.imported c P s i).1.2] ∧
      (pre = [] ∨ ∃ st, pre = [Call.destroy_key (PSA_KEY_ID_USER_MIN + i) st])) :=
  ⟨fun h => psaAeadEncrypt.encryptThread_loop_import_failed c P i _ h,
   fun h => psaRawKeyAgreement.keyAgreementThread_loop_import_failed c P i _ h,
   psaAeadEncrypt.encryptThread_import_calls c P i _,
   psaRawKeyAgreement.keyAgreementThread_import_calls c P i _⟩

end Psa

namespace Psa

theorem no_operation_of_import_shape {before after : List Call} (b : Prop) [Decidable b]
    (k : psa_key_id_t) (st : psa_status_t) (a : psa_key_attributes_t) (d : List Nat)
    (s2 : psa_status_t) (key : psa_key_id_t) (post : List Call)
    (hpost : ∀ x ∈ post, x.isOperation = false)
    (h : after = before ++ (if b then [Call.destroy_key k st] else []) ++
      [Call.import_key a d s2 key] ++ post) :
    ∃ l, after = before ++ l ∧ ∀ x ∈ l, x.isOperation = false :=
  ⟨(if b then [Call.destroy_key k st] else []) ++ [Call.import_key a d s2 key] ++ post,
    by rw [h]; simp only [List.append_assoc],
    import_step_no_operation b k st a d s2 key post hpost⟩

end Psa

namespace Psa

set_option maxRecDepth 100000 in
/-- C11: with a provider whose `psa_export_public_key` fails, `signMessage`
imports the private key (volatile lifetime, key ID `0x7fff0100`), makes the
failed export call and returns: its log holds no `psa_destroy_key` call and
the key is still in the store. At the end of `signVerifyThread` the private
keys that `signMessage` imported for the two volatile lifetimes are still there. -/
theorem signMessage_export_failure_leaves_key :
    (psaSignVerify.signMessage noExportProvider psaSignVerify.signTestVectors 0 0 0
        (World.start KeyStore.empty)).calls.map Call.status
      = [PSA_SUCCESS, PSA_ERROR_GENERIC_ERROR] ∧
    createdKeys (psaSignVerify.signMessage noExportProvider psaSignVerify.signTestVectors 0 0 0
        (World.start KeyStore.empty)).calls = [0x7fff0100] ∧
    destroyedKeys (psaSignVerify.signMessage noExportProvider psaSignVerify.signTestVectors 0 0 0
        (World.start KeyStore.empty)).calls = [] ∧
    (psaSignVerify.signMessage noExportProvider psaSignVerify.signTestVectors 0 0 0
        (World.start KeyStore.empty)).prov.keys.map Prod.fst = [0x7fff0100] ∧
    (psaSignVerify.signVerifyThread sampleHsm noExportProvider psaSignVerify.signTestVectors
        KeyStore.empty).prov.keys.map Prod.fst = [0x7fff0100, 0x7fff0101] := by
  decide

set_option maxRecDepth 100000 in
/-- C12: with a provider whose `psa_destroy_key` always answers
`PSA_ERROR_GENERIC_ERROR`, all 8 destroy calls of `keyAgreementThread` and all
23 destroy calls of `derivationThread` fail, and both threads still turn LED1 on. -/
theorem led1_on_after_failed_destroy :
    destroyStatuses
        (psaRawKeyAgreement.keyAgreementThread sampleHsm destroyErrorProvider KeyStore.empty).calls
      = List.replicate 8 PSA_ERROR_GENERIC_ERROR ∧
    (psaRawKeyAgreement.keyAgreementThread sampleHsm destroyErrorProvider KeyStore.empty).led1
      = true ∧
    destroyStatuses
        (psaKeyDerivation.derivationThread sampleHsm destroyErrorProvider KeyStore.empty).calls
      = List.replicate 23 PSA_ERROR_GENERIC_ERROR ∧
    (psaKeyDerivation.derivationThread sampleHsm destroyErrorProvider KeyStore.empty).passCnt
      = 15 ∧
    (psaKeyDerivation.derivationThread sampleHsm destroyErrorProvider KeyStore.empty).led1
      = true := by
  decide

set_option maxRecDepth 100000 in
/-- C14: with a provider whose capacity query reports 96 after the first derived
key, `derivationThread` imports the base key of the first lifetime only: the
capacity mismatch ends the run, the other four lifetimes are not processed and
LED1 stays off, whereas the reference provider sees all five lifetimes imported. -/
theorem capacity_mismatch_ends_the_run :
    importedLifetimes
        (psaKeyDerivation.derivationThread sampleHsm fixedCapacityProvider KeyStore.empty).calls
      = (psaKeyDerivation.lifetimes sampleHsm).take 1 ∧
    (psaKeyDerivation.derivationThread sampleHsm fixedCapacityProvider KeyStore.empty).led1
      = false ∧
    importedLifetimes
        (psaKeyDerivation.derivationThread sampleHsm referenceProvider KeyStore.empty).calls
      = psaKeyDerivation.lifetimes sampleHsm := by
  decide

set_option maxRecDepth 100000 in
/-- C15: the store that a run of `derivationThread` cut short right after its first
derived key leaves behind holds the keys `0x7fff0100` and 11. Run against it, the
reference provider answers the first `psa_key_derivation_output_key` with
`PSA_ERROR_ALREADY_EXISTS`, the thread returns with `passCnt = 0` and LED1 off;
run against the empty store it counts 15 passes and turns LED1 on. -/
theorem leftover_derived_key_changes_verdict :
    interruptedStore.keys.map Prod.fst = [0x7fff0100, 11] ∧
    (psaKeyDerivation.derivationThread sampleHsm referenceProvider interruptedStore).calls.map
        Call.status
      = List.replicate 9 PSA_SUCCESS ++ [PSA_ERROR_ALREADY_EXISTS] ∧
    (psaKeyDerivation.derivationThread sampleHsm referenceProvider interruptedStore).passCnt = 0 ∧
    (psaKeyDerivation.derivationThread sampleHsm referenceProvider interruptedStore).led1 = false ∧
    (psaKeyDerivation.derivationThread sampleHsm referenceProvider KeyStore.empty).passCnt = 15 ∧
    (psaKeyDerivation.derivationThread sampleHsm referenceProvider KeyStore.empty).led1 = true := by
  decide

set_option maxRecDepth 100000 in
/-- C16: with the persistent ID of the second lifetime occupied and a provider
whose `psa_destroy_key` frees nothing, the second import of `encryptThread` and
of `keyAgreementThread` is answered `PSA_ERROR_ALREADY_EXISTS`; the iteration
then makes one `psa_destroy_key` call and ends, and the whole run imports each
of the five lifetimes once: there is no second import for that lifetime. -/
theorem already_exists_is_not_retried :
    (psaAeadEncrypt.imported sampleHsm destroyErrorProvider occupiedStore 1).1.1
      = PSA_ERROR_ALREADY_EXISTS ∧
    (psaAeadEncrypt.before sampleHsm destroyErrorProvider occupiedStore 2).calls
      = (psaAeadEncrypt.imported sampleHsm destroyErrorProvider occupiedStore 1).2.calls ++
          [Call.destroy_key
            (psaAeadEncrypt.imported sampleHsm destroyErrorProvider occupiedStore 1).1.2
            PSA_ERROR_GENERIC_ERROR] ∧
    importedLifetimes
        (psaAeadEncrypt.encryptThread sampleHsm destroyErrorProvider occupiedStore).calls
      = psaAeadEncrypt.lifetimes sampleHsm ∧
    (psaRawKeyAgreement.imported sampleHsm destroyErrorProvider occupiedStore 1).1.1
      = PSA_ERROR_ALREADY_EXISTS ∧
    (psaRawKeyAgreement.before sampleHsm destroyErrorProvider occupiedStore 2).calls
      = (psaRawKeyAgreement.imported sampleHsm destroyErrorProvider occupiedStore 1).2.calls ++
          [Call.destroy_key
            (psaRawKeyAgreement.imported sampleHsm destroyErrorProvider occupiedStore 1).1.2
            PSA_ERROR_GENERIC_ERROR] ∧
    importedLifetimes
        (psaRawKeyAgreement.keyAgreementThread sampleHsm destroyErrorProvider occupiedStore).calls
      = psaRawKeyAgreement.lifetimes sampleHsm := by
  decide

set_option maxRecDepth 100000 in
/-- C19: with a provider whose MAC differs from the expected one in its first
byte (`0x39` for `0x38`), the MAC loop of `encryptThread` stops at index 0, where
it compared `ciphertext[25] = 0x39` with `expectedMac[0] = 0x38`, but the
diagnostic it prints carries `ciphertext[24] = 0xb3`, the last ciphertext byte,
as the actual byte. -/
theorem mac_diagnostic_prints_other_byte :
    (psaAeadEncrypt.encrypted sampleHsm wrongMacProvider KeyStore.empty 0).1.1.status
      = PSA_SUCCESS ∧
    psaAeadEncrypt.ciphertextMismatch
      (psaAeadEncrypt.encrypted sampleHsm wrongMacProvider KeyStore.empty 0).1.2 = none ∧
    psaAeadEncrypt.macMismatch
      (psaAeadEncrypt.encrypted sampleHsm wrongMacProvider KeyStore.empty 0).1.2 = some 0 ∧
    (psaAeadEncrypt.encrypted sampleHsm wrongMacProvider KeyStore.empty 0).1.2.getD (24 + 0 + 1) 0
      = 0x39 ∧
    psaAeadEncrypt.testVector.expectedMac.getD 0 0 = 0x38 ∧
    (psaAeadEncrypt.verified sampleHsm wrongMacProvider KeyStore.empty 0).display.getLast?
      = some (Line.mk "Error: MAC[%d] = 0x%02x does not match expected 0x%02x\n" [0, 0xb3, 0x38]) := by
  decide

end Psa

namespace Psa
namespace psaKeyDerivation
variable {σ : Type}

theorem setupKeyDerivation_status (c : HsmValues) (P : Provider σ) (alg k : Nat) (w : World σ) :
    ((setupKeyDerivation c P alg k w).2.calls.getLast?).map Call.status
      = some (setupKeyDerivation c P alg k w).1 ∧
    ∀ y ∈ ((setupKeyDerivation c P alg k w).2.calls.drop w.calls.length).dropLast,
      y.status = PSA_SUCCESS := by
  unfold setupKeyDerivation
  simp only [psa_key_derivation_setup, psa_key_derivation_input_key,
    psa_key_derivation_input_bytes, psa_key_derivation_get_capacity]
  split_ifs <;>
    simp_all [Call.status, List.getLast?_append, List.drop_append_eq_append_drop]

theorem derivationThread_roundTrip_returned (P : Provider σ) (k : Nat) (w : World σ) :
    (derivationThread_roundTrip P k w).2 = true ↔
      (P.psa_cipher_encrypt k PSA_ALG_ECB_NO_PADDING (readBytes plaintext 0 PLAINTEXT_LENGTH)
        PLAINTEXT_LENGTH w.prov).1.length ≠ PLAINTEXT_LENGTH := by
  unfold derivationThread_roundTrip
  simp only [psa_cipher_encrypt, Display_printf_prov]
  split_ifs <;> simp_all

theorem derivationThread_inner_returned_iff (P : Provider σ) (i j : Nat) (st : State σ) :
    (derivationThread_inner P i j st).returned = true ↔
      ((derived P i j st).1.1 ≠ PSA_SUCCESS ∨
       (derivedAttributes P i j st).1.1 ≠ PSA_SUCCESS ∨
       ((remainingCapacity P i j st).1.1 = PSA_SUCCESS ∧
         (remainingCapacity P i j st).1.2 ≠
           (st.expectedCapacity + 2 ^ 32 - DERIVED_KEY_SIZE) % 2 ^ 32) ∨
       (P.psa_cipher_encrypt (derived P i j st).1.2 PSA_ALG_ECB_NO_PADDING
         (readBytes plaintext 0 PLAINTEXT_LENGTH) PLAINTEXT_LENGTH
         (remainingCapacity P i j st).2.prov).1.length ≠ PLAINTEXT_LENGTH) := by
  unfold derivationThread_inner
  simp only []
  split_ifs with h1 h2 h3 h4 h5 h6 h7 <;>
    simp_all [derivationThread_roundTrip_returned]

end psaKeyDerivation
end Psa

namespace Psa
namespace psaKeyDerivation
variable {σ : Type}

theorem kd_before_led1 (c : HsmValues) (P : Provider σ) (s : σ) (n : Nat) :
    (before c P s n).w.led1 = false := by
  unfold before
  rw [derivationThread_for_led1]
  rfl

theorem kd_before_succ (c : HsmValues) (P : Provider σ) (s : σ) (i : Nat)
    (hb : (before c P s i).returned = false) :
    before c P s (i + 1) = derivationThread_loop c P i (before c P s i) := by
  unfold before at hb ⊢
  simp only [derivationThread_for, hb, Bool.false_eq_true, if_false]

/-- A `return (NULL)` before the inner loop of iteration `i` ends the run there. -/
theorem derivationThread_prepare_returned (c : HsmValues) (P : Provider σ) (s : σ) (i : Nat)
    (hi : i < lifetimeCnt) (hb : (before c P s i).returned = false) (st : State σ)
    (h : derivationThread_prepare c P i (before c P s i) = Prepared.returned st)
    (hret : st.returned = true) :
    derivationThread c P s = st.w ∧ (derivationThread c P s).led1 = false := by
  have hloop : derivationThread_loop c P i (before c P s i) = st := by
    unfold derivationThread_loop
    rw [h]
  have hnext : before c P s (i + 1) = st := by rw [kd_before_succ c P s i hb, hloop]
  have hfinal := derivationThread_returned c P s (i + 1) (by omega) (by rw [hnext]; exact hret)
  refine ⟨by rw [hfinal, hnext], ?_⟩
  rw [hfinal]
  exact kd_before_led1 c P s (i + 1)

/-- A `return (NULL)` in inner iteration `j` of iteration `i` ends the run there. -/
theorem derivationThread_inner_returned (c : HsmValues) (P : Provider σ) (s : σ) (i j : Nat)
    (st : State σ) (hi : i < lifetimeCnt) (hj : j < KEY_DERIVATION_LOOP_CNT)
    (hst : beforeInner c P s i j = some st)
    (hret : (derivationThread_inner P i j st).returned = true) :
    derivationThread c P s = (derivationThread_inner P i j st).w ∧
    (derivationThread c P s).led1 = false := by
  obtain ⟨hb, k, st0, hprep, hstj, hrun⟩ := beforeInner_some c P s i j st hst
  have hin1 : derivationThread_inner_for P i (j + 1) st0 = derivationThread_inner P i j st := by
    have h1 : derivationThread_inner_for P i (j + 1) st0 =
        if (derivationThread_inner_for P i j st0).returned
        then derivationThread_inner_for P i j st0
        else derivationThread_inner P i j (derivationThread_inner_for P i j st0) := rfl
    rw [h1, ← hstj, hrun]
    simp
  have hin3 : derivationThread_inner_for P i KEY_DERIVATION_LOOP_CNT st0 =
      derivationThread_inner P i j st := by
    have habs := derivationThread_inner_for_absorb P i (j + 1)
      (KEY_DERIVATION_LOOP_CNT - (j + 1)) st0 (by rw [hin1]; exact hret)
    have hsum : j + 1 + (KEY_DERIVATION_LOOP_CNT - (j + 1)) = KEY_DERIVATION_LOOP_CNT := by omega
    rw [hsum, hin1] at habs
    exact habs
  have hloop : derivationThread_loop c P i (before c P s i) = derivationThread_inner P i j st := by
    unfold derivationThread_loop
    rw [hprep]
    simp only [hin3, hret, if_true]
  have hnext : before c P s (i + 1) = derivationThread_inner P i j st := by
    rw [kd_before_succ c P s i hb, hloop]
  have hfinal := derivationThread_returned c P s (i + 1) (by omega) (by rw [hnext]; exact hret)
  refine ⟨by rw [hfinal, hnext], ?_⟩
  rw [hfinal]
  exact kd_before_led1 c P s (i + 1)

theorem beforeInner_expected (c : HsmValues) (P : Provider σ) (s : σ) (i j : Nat) (st : State σ)
    (hj : j < KEY_DERIVATION_LOOP_CNT) (hst : beforeInner c P s i j = some st) :
    (st.expectedCapacity + 2 ^ 32 - DERIVED_KEY_SIZE) % 2 ^ 32 =
      (KEY_DERIVATION_LOOP_CNT - (j + 1)) * DERIVED_KEY_SIZE := by
  obtain ⟨hb, k, st0, hprep, hstj, hrun⟩ := beforeInner_some c P s i j st hst
  obtain ⟨h0, hr0, -, old, s1, hcalls⟩ := derivationThread_prepare_ready c P i _ st0 k hprep
  have hexp : st.expectedCapacity = (KEY_DERIVATION_LOOP_CNT - j) * DERIVED_KEY_SIZE := by
    rw [hstj] at hrun ⊢
    exact derivationThread_inner_for_expected P i st0 h0 j (Nat.le_of_lt hj) hrun
  rw [hexp]
  have h3 : KEY_DERIVATION_LOOP_CNT = 3 := rfl
  have h32 : DERIVED_KEY_SIZE = 32 := rfl
  rw [h3] at hj
  rw [h3, h32]
  interval_cases j <;> rfl

/-- C14 (amended): in `derivationThread`, once the base key of lifetime `i` is
imported, every failure of the derivation steps ends the whole run at once. If
`setupKeyDerivation` (which returns the status of the last call it made, all
earlier ones having succeeded) answers a non-success status, or the capacity
read back fails or is not 96, the thread returns with the log as it stands and
LED1 off. Inner iteration `j` returns exactly when `psa_key_derivation_output_key`
or the `psa_get_key_attributes` after it fails, the remaining capacity is read
and differs from `(3 - (j + 1)) * 32`, or the ciphertext length differs from 16;
the thread's final log is then the log of that iteration and LED1 is off. -/
theorem derivation_failure_ends_the_run (c : HsmValues) (P : Provider σ) (s : σ) (i : Nat)
    (hi : i < lifetimeCnt) (hb : (before c P s i).returned = false)
    (himp : (derivationThread_import c P i (before c P s i).w).1.1 = PSA_SUCCESS) :
    ((derivationThread_setup c P (derivationThread_import c P i (before c P s i).w).1.2
        (derivationThread_import c P i (before c P s i).w).2).1 ≠ PSA_SUCCESS →
      (derivationThread c P s).calls =
        (derivationThread_setup c P (derivationThread_import c P i (before c P s i).w).1.2
          (derivationThread_import c P i (before c P s i).w).2).2.calls ∧
      (derivationThread c P s).led1 = false) ∧
    ((derivationThread_setup c P (derivationThread_import c P i (before c P s i).w).1.2
        (derivationThread_import c P i (before c P s i).w).2).1 = PSA_SUCCESS →
      ((derivationThread_capacity P
          (derivationThread_setup c P (derivationThread_import c P i (before c P s i).w).1.2
            (derivationThread_import c P i (before c P s i).w).2).2).1.1 ≠ PSA_SUCCESS ∨
        (derivationThread_capacity P
          (derivationThread_setup c P (derivationThread_import c P i (before c P s i).w).1.2
            (derivationThread_import c P i (before c P s i).w).2).2).1.2
          ≠ KEY_DERIVATION_LOOP_CNT * DERIVED_KEY_SIZE) →
      (derivationThread c P s).calls =
        (derivationThread_capacity P
          (derivationThread_setup c P (derivationThread_import c P i (before c P s i).w).1.2
            (derivationThread_import c P i (before c P s i).w).2).2).2.calls ∧
      (derivationThread c P s).led1 = false) ∧
    (∀ j st, j < KEY_DERIVATION_LOOP_CNT → beforeInner c P s i j = some st →
      ((derivationThread_inner P i j st).returned = true ↔
        ((derived P i j st).1.1 ≠ PSA_SUCCESS ∨
         (derivedAttributes P i j st).1.1 ≠ PSA_SUCCESS ∨
         ((remainingCapacity P i j st).1.1 = PSA_SUCCESS ∧
           (remainingCapacity P i j st).1.2 ≠
             (KEY_DERIVATION_LOOP_CNT - (j + 1)) * DERIVED_KEY_SIZE) ∨
         (P.psa_cipher_encrypt (derived P i j st).1.2 PSA_ALG_ECB_NO_PADDING
           (readBytes plaintext 0 PLAINTEXT_LENGTH) PLAINTEXT_LENGTH
           (remainingCapacity P i j st).2.prov).1.length ≠ PLAINTEXT_LENGTH)) ∧
      ((derivationThread_inner P i j st).returned = true →
        (derivationThread c P s).calls = (derivationThread_inner P i j st).w.calls ∧
        (derivationThread c P s).led1 = false)) ∧
    (∀ alg k w,
      ((setupKeyDerivation c P alg k w).2.calls.getLast?).map Call.status
        = some (setupKeyDerivation c P alg k w).1 ∧
      ∀ y ∈ ((setupKeyDerivation c P alg k w).2.calls.drop w.calls.length).dropLast,
        y.status = PSA_SUCCESS) := by
  refine ⟨?_, ?_, ?_, fun alg k w => setupKeyDerivation_status c P alg k w⟩
  · intro hsu
    have hprep : derivationThread_prepare c P i (before c P s i) =
        Prepared.returned { before c P s i with
          w := (derivationThread_setup c P (derivationThread_import c P i (before c P s i).w).1.2
            (derivationThread_import c P i (before c P s i).w).2).2,
          returned := true } := by
      unfold derivationThread_prepare
      simp only [himp, hsu, ne_eq, not_true_eq_false, not_false_eq_true, if_false, if_true]
    obtain ⟨h1, h2⟩ := derivationThread_prepare_returned c P s i hi hb _ hprep rfl
    exact ⟨by rw [h1], h2⟩
  · intro hsu hgc
    by_cases hg : (derivationThread_capacity P
          (derivationThread_setup c P (derivationThread_import c P i (before c P s i).w).1.2
            (derivationThread_import c P i (before c P s i).w).2).2).1.1 = PSA_SUCCESS
    · have hne := hgc.resolve_left (not_not.mpr hg)
      have hprep : derivationThread_prepare c P i (before c P s i) =
          Prepared.returned { before c P s i with
            w := Display_printf (derivationThread_capacity P
              (derivationThread_setup c P (derivationThread_import c P i (before c P s i).w).1.2
                (derivationThread_import c P i (before c P s i).w).2).2).2
              "Error: Capacity is not set to expected value!\n" [],
            expectedCapacity := KEY_DERIVATION_LOOP_CNT * DERIVED_KEY_SIZE,
            returned := true } := by
        unfold derivationThread_prepare
        simp only [himp, hsu, hg, hne, ne_eq, not_true_eq_false, not_false_eq_true, if_false,
          if_true]
      obtain ⟨h1, h2⟩ := derivationThread_prepare_returned c P s i hi hb _ hprep rfl
      exact ⟨by rw [h1]; rfl, h2⟩
    · have hprep : derivationThread_prepare c P i (before c P s i) =
          Prepared.returned { before c P s i with
            w := Display_printf (derivationThread_capacity P
              (derivationThread_setup c P (derivationThread_import c P i (before c P s i).w).1.2
                (derivationThread_import c P i (before c P s i).w).2).2).2
              "Error: psa_key_derivation_get_capacity() failed. Status = %d\n"
              [(derivationThread_capacity P
                (derivationThread_setup c P (derivationThread_import c P i (before c P s i).w).1.2
                  (derivationThread_import c P i (before c P s i).w).2).2).1.1],
            expectedCapacity := KEY_DERIVATION_LOOP_CNT * DERIVED_KEY_SIZE,
            returned := true } := by
        unfold derivationThread_prepare
        simp only [himp, hsu, hg, ne_eq, not_true_eq_false, not_false_eq_true, if_false,
          if_true]
      obtain ⟨h1, h2⟩ := derivationThread_prepare_returned c P s i hi hb _ hprep rfl
      exact ⟨by rw [h1]; rfl, h2⟩
  · intro j st hj hst
    refine ⟨?_, ?_⟩
    · rw [derivationThread_inner_returned_iff, beforeInner_expected c P s i j st hj hst]
    · intro hret
      obtain ⟨h1, h2⟩ := derivationThread_inner_returned c P s i j st hi hj hst hret
      exact ⟨by rw [h1], h2⟩

end psaKeyDerivation

set_option maxRecDepth 100000 in
/-- C14: for the provider whose capacity query reports 96 after the first derived
key, at the first lifetime: the base key is imported, the first inner iteration
returns, and the thread's final log is the log of that iteration, with LED1 off. -/
theorem derivation_failure_ends_the_run_witness :
    (0 < psaKeyDerivation.lifetimeCnt ∧
      (psaKeyDerivation.before sampleHsm fixedCapacityProvider KeyStore.empty 0).returned = false ∧
      (psaKeyDerivation.derivationThread_import sampleHsm fixedCapacityProvider 0
        (psaKeyDerivation.before sampleHsm fixedCapacityProvider KeyStore.empty 0).w).1.1
        = PSA_SUCCESS) ∧
    ∃ st, psaKeyDerivation.beforeInner sampleHsm fixedCapacityProvider KeyStore.empty 0 0 = some st ∧
      (psaKeyDerivation.derivationThread_inner fixedCapacityProvider 0 0 st).returned = true ∧
      (psaKeyDerivation.derivationThread sampleHsm fixedCapacityProvider KeyStore.empty).calls =
        (psaKeyDerivation.derivationThread_inner fixedCapacityProvider 0 0 st).w.calls ∧
      (psaKeyDerivation.derivationThread sampleHsm fixedCapacityProvider KeyStore.empty).led1
        = false := by
  refine ⟨⟨by decide, by decide, by decide⟩, _, rfl, ?_⟩
  have h := psaKeyDerivation.derivation_failure_ends_the_run sampleHsm fixedCapacityProvider
    KeyStore.empty 0 (by decide) (by decide) (by decide)
  have hret := (h.2.2.1 0 _ (by decide) rfl).1.mpr (Or.inr (Or.inr (Or.inl (by decide))))
  exact ⟨hret, (h.2.2.1 0 _ (by decide) rfl).2 hret⟩

end Psa

namespace Psa

theorem mainThread_run_init_failure {σ : Type} (banner : String) (thread : σ → World σ)
    (pf : Platform σ) (s : σ)
    (h : (pf.psa_crypto_init s).1 ≠ PSA_SUCCESS ∨
      (pf.HSMXXF3_provisionHUK (pf.psa_crypto_init s).2).1 ≠ pf.HSMXXF3_STATUS_SUCCESS) :
    (mainThread_run banner thread pf s).worker = none ∧
    (mainThread_run banner thread pf s).calls = [] ∧
    (mainThread_run banner thread pf s).led0 = false ∧
    (mainThread_run banner thread pf s).led1 = false ∧
    (mainThread_run banner thread pf s).spins = true := by
  unfold Main.calls Main.led1 mainThread_run
  simp only []
  split_ifs <;> simp_all

theorem mainThread_run_worker {σ : Type} (banner : String) (thread : σ → World σ)
    (pf : Platform σ) (s : σ) (w : World σ)
    (h : (mainThread_run banner thread pf s).worker = some w) :
    (pf.psa_crypto_init s).1 = PSA_SUCCESS ∧
    (pf.HSMXXF3_provisionHUK (pf.psa_crypto_init s).2).1 = pf.HSMXXF3_STATUS_SUCCESS ∧
    (mainThread_run banner thread pf s).led0 = true ∧
    w = thread (pf.HSMXXF3_provisionHUK (pf.psa_crypto_init s).2).2 := by
  unfold mainThread_run at h ⊢
  simp only [] at h ⊢
  split_ifs at h ⊢
  simp_all

/-- C18: in the `mainThread` of each of the four examples, when `psa_crypto_init`
or `HSMXXF3_provisionHUK` answers a non-success status, the function ends in its
`while (1) {}` loop: no worker thread is created, so no provider call of a worker
is ever made, and LED0 and LED1 stay off. -/
theorem init_failure_creates_no_worker {σ : Type} (c : HsmValues) (P : Provider σ)
    (pf : Platform σ) (s : σ)
    (h : (pf.psa_crypto_init s).1 ≠ PSA_SUCCESS ∨
      (pf.HSMXXF3_provisionHUK (pf.psa_crypto_init s).2).1 ≠ pf.HSMXXF3_STATUS_SUCCESS) :
    ((psaAeadEncrypt.mainThread c P pf s).worker = none ∧
      (psaAeadEncrypt.mainThread c P pf s).calls = [] ∧
      (psaAeadEncrypt.mainThread c P pf s).led0 = false ∧
      (psaAeadEncrypt.mainThread c P pf s).led1 = false ∧
      (psaAeadEncrypt.mainThread c P pf s).spins = true) ∧
    ((psaRawKeyAgreement.mainThread c P pf s).worker = none ∧
      (psaRawKeyAgreement.mainThread c P pf s).calls = [] ∧
      (psaRawKeyAgreement.mainThread c P pf s).led0 = false ∧
      (psaRawKeyAgreement.mainThread c P pf s).led1 = false ∧
      (psaRawKeyAgreement.mainThread c P pf s).spins = true) ∧
    ((psaKeyDerivation.mainThread c P pf s).worker = none ∧
      (psaKeyDerivation.mainThread c P pf s).calls = [] ∧
      (psaKeyDerivation.mainThread c P pf s).led0 = false ∧
      (psaKeyDerivation.mainThread c P pf s).led1 = false ∧
      (psaKeyDerivation.mainThread c P pf s).spins = true) ∧
    ((psaSignVerify.mainThread c P pf s).worker = none ∧
      (psaSignVerify.mainThread c P pf s).calls = [] ∧
      (psaSignVerify.mainThread c P pf s).led0 = false ∧
      (psaSignVerify.mainThread c P pf s).led1 = false ∧
      (psaSignVerify.mainThread c P pf s).spins = true) :=
  ⟨mainThread_run_init_failure _ _ pf s h, mainThread_run_init_failure _ _ pf s h,
   mainThread_run_init_failure _ _ pf s h, mainThread_run_init_failure _ _ pf s h⟩

set_option maxRecDepth 100000 in
/-- C18: on a platform whose `psa_crypto_init` fails, the `mainThread` of
`psaAeadEncrypt.c` creates no worker and leaves both LEDs off, whereas on a
platform where every call succeeds it turns LED0 on and the worker it creates
turns LED1 on with the reference provider. -/
theorem init_failure_creates_no_worker_witness :
    ((initErrorPlatform.psa_crypto_init KeyStore.empty).1 ≠ PSA_SUCCESS ∨
      (initErrorPlatform.HSMXXF3_provisionHUK (initErrorPlatform.psa_crypto_init KeyStore.empty).2).1
        ≠ initErrorPlatform.HSMXXF3_STATUS_SUCCESS) ∧
    ((psaAeadEncrypt.mainThread sampleHsm referenceProvider initErrorPlatform KeyStore.empty).worker
        = none ∧
      (psaAeadEncrypt.mainThread sampleHsm referenceProvider initErrorPlatform KeyStore.empty).calls
        = [] ∧
      (psaAeadEncrypt.mainThread sampleHsm referenceProvider initErrorPlatform KeyStore.empty).led0
        = false ∧
      (psaAeadEncrypt.mainThread sampleHsm referenceProvider initErrorPlatform KeyStore.empty).led1
        = false ∧
      (psaAeadEncrypt.mainThread sampleHsm referenceProvider initErrorPlatform KeyStore.empty).spins
        = true) ∧
    (psaAeadEncrypt.mainThread sampleHsm referenceProvider workingPlatform KeyStore.empty).led0
      = true ∧
    (psaAeadEncrypt.mainThread sampleHsm referenceProvider workingPlatform KeyStore.empty).led1
      = true ∧
    (psaAeadEncrypt.mainThread sampleHsm referenceProvider provisionErrorPlatform
      KeyStore.empty).led0 = false :=
  ⟨Or.inl (by decide),
   (init_failure_creates_no_worker sampleHsm referenceProvider initErrorPlatform KeyStore.empty
     (Or.inl (by decide))).1,
   by decide, by decide, by decide⟩

end Psa

namespace Psa

namespace psaAeadEncrypt
variable {σ : Type}

theorem encrypted_silent (c : HsmValues) (P : Provider σ) (s : σ) (i : Nat)
    (h : (encrypted c P s i).1.1.out = []) :
    (encrypted c P s i).1.2 = zeroed sizeof_ciphertext ∧
    ¬ countedAsPassed c P s i ∧
    (before c P s (i + 1)).passCnt ≤ (before c P s i).passCnt := by
  have h1 : (encrypted c P s i).1.2 =
      writeAt (zeroed sizeof_ciphertext) 1 ((encrypted c P s i).1.1.out.take sizeof_ciphertext) :=
    rfl
  have h2 : (encrypted c P s i).1.2 = zeroed sizeof_ciphertext := by
    rw [h1, h]
    decide
  have h3 : ciphertextMismatch (encrypted c P s i).1.2 ≠ none := by
    rw [h2]
    decide
  refine ⟨h2, ?_, ?_⟩
  · unfold countedAsPassed verified
    rw [encryptThread_verify_passCnt]
    have hc : ¬ ((encrypted c P s i).1.1.status = PSA_SUCCESS ∧
        ciphertextMismatch (encrypted c P s i).1.2 = none ∧
        macMismatch (encrypted c P s i).1.2 = none) := fun hc => h3 hc.2.1
    rw [if_neg hc]
    omega
  · rcases aead_before_succ_passCnt c P s i with ⟨-, hok⟩ | ⟨hp, -⟩
    · exact absurd hok.2.1.2.1 h3
    · omega

end psaAeadEncrypt

namespace psaRawKeyAgreement
variable {σ : Type}

theorem agreed_silent (c : HsmValues) (P : Provider σ) (s : σ) (i : Nat)
    (h : (agreed c P s i).1.1.out = []) :
    (agreed c P s i).1.2 = zeroed sizeof_sharedSecret ∧
    (before c P s (i + 1)).passCnt = (before c P s i).passCnt := by
  have h1 : (agreed c P s i).1.2 =
      writeAt (zeroed sizeof_sharedSecret) 0 ((agreed c P s i).1.1.out.take sizeof_sharedSecret) :=
    rfl
  have h2 : (agreed c P s i).1.2 = zeroed sizeof_sharedSecret := by
    rw [h1, h]
    decide
  have h3 : sharedSecretMismatch (agreed c P s i).1.2 ≠ none := by
    rw [h2]
    decide
  exact ⟨h2, (ka_before_succ_passCnt c P s i).2 (fun hok => h3 hok.2.2.2)⟩

end psaRawKeyAgreement

namespace psaKeyDerivation
variable {σ : Type}

theorem derivationThread_roundTrip_silent (P : Provider σ) (key : psa_key_id_t) (w : World σ)
    (h : (P.psa_cipher_decrypt key PSA_ALG_ECB_NO_PADDING
        (readBytes
          (writeAt (zeroed PLAINTEXT_LENGTH) 0
            ((P.psa_cipher_encrypt key PSA_ALG_ECB_NO_PADDING
              (readBytes plaintext 0 PLAINTEXT_LENGTH) PLAINTEXT_LENGTH w.prov).1.out.take
              PLAINTEXT_LENGTH))
          0
          (P.psa_cipher_encrypt key PSA_ALG_ECB_NO_PADDING
            (readBytes plaintext 0 PLAINTEXT_LENGTH) PLAINTEXT_LENGTH w.prov).1.length)
        PLAINTEXT_LENGTH
        (P.psa_cipher_encrypt key PSA_ALG_ECB_NO_PADDING
          (readBytes plaintext 0 PLAINTEXT_LENGTH) PLAINTEXT_LENGTH w.prov).2).1.out = []) :
    (derivationThread_roundTrip P key w).1.passCnt = w.passCnt := by
  unfold derivationThread_roundTrip
  simp only [psa_cipher_encrypt, psa_cipher_decrypt]
  by_cases hs : (P.psa_cipher_encrypt key PSA_ALG_ECB_NO_PADDING
      (readBytes plaintext 0 PLAINTEXT_LENGTH) PLAINTEXT_LENGTH w.prov).1.status = PSA_SUCCESS
  · simp only [hs, if_true, Display_printf_prov, kd_printByteArray_prov, h]
    split_ifs <;> rfl
  · simp only [hs, if_false, Display_printf_prov, kd_printByteArray_prov, h]
    split_ifs <;> rfl

theorem derivationThread_inner_passCnt_of_silent (P : Provider σ)
    (hD : ∀ k a inp sz st, (P.psa_cipher_decrypt k a inp sz st).1.out = []) (i j : Nat)
    (st : State σ) : (derivationThread_inner P i j st).w.passCnt = st.w.passCnt := by
  have hrt : ∀ key (w : World σ), (derivationThread_roundTrip P key w).1.passCnt = w.passCnt :=
    fun key w => derivationThread_roundTrip_silent P key w (hD _ _ _ _ _)
  unfold derivationThread_inner
  simp only []
  split_ifs <;> simp only [Display_printf_passCnt, hrt, psa_destroy_key] <;> rfl

theorem derivationThread_inner_for_passCnt_of_silent (P : Provider σ)
    (hD : ∀ k a inp sz st, (P.psa_cipher_decrypt k a inp sz st).1.out = []) (i n : Nat)
    (st : State σ) : (derivationThread_inner_for P i n st).w.passCnt = st.w.passCnt := by
  induction n with
  | zero => rfl
  | succ n ih =>
    simp only [derivationThread_inner_for]
    split_ifs
    · exact ih
    · rw [derivationThread_inner_passCnt_of_silent P hD, ih]

theorem derivationThread_prepare_passCnt (c : HsmValues) (P : Provider σ) (i : Nat)
    (st : State σ) : (derivationThread_prepare c P i st).state.w.passCnt = st.w.passCnt := by
  unfold derivationThread_prepare
  simp only []
  split_ifs <;>
    simp [Prepared.state, derivationThread_import_passCnt, derivationThread_setup_passCnt,
      derivationThread_capacity_passCnt]

theorem derivationThread_loop_passCnt_of_silent (c : HsmValues) (P : Provider σ)
    (hD : ∀ k a inp sz st, (P.psa_cipher_decrypt k a inp sz st).1.out = []) (i : Nat)
    (st : State σ) : (derivationThread_loop c P i st).w.passCnt = st.w.passCnt := by
  have hp := derivationThread_prepare_passCnt c P i st
  unfold derivationThread_loop
  cases hprep : derivationThread_prepare c P i st with
  | skipped st' => rw [hprep] at hp; exact hp
  | returned st' => rw [hprep] at hp; exact hp
  | ready k st' =>
    rw [hprep] at hp
    simp only [Prepared.state] at hp
    simp only []
    split_ifs <;>
      simp [derivationThread_inner_for_passCnt_of_silent P hD, hp, psa_destroy_key]

theorem derivationThread_for_passCnt_of_silent (c : HsmValues) (P : Provider σ)
    (hD : ∀ k a inp sz st, (P.psa_cipher_decrypt k a inp sz st).1.out = []) (n : Nat)
    (st : State σ) : (derivationThread_for c P n st).w.passCnt = st.w.passCnt := by
  induction n with
  | zero => rfl
  | succ n ih =>
    simp only [derivationThread_for]
    split_ifs
    · exact ih
    · rw [derivationThread_loop_passCnt_of_silent c P hD, ih]

theorem derivationThread_of_silent (c : HsmValues) (P : Provider σ) (s : σ)
    (hD : ∀ k a inp sz st, (P.psa_cipher_decrypt k a inp sz st).1.out = []) :
    (derivationThread c P s).passCnt = 0 ∧ (derivationThread c P s).led1 = false := by
  have hp : (derivationThread_for c P lifetimeCnt (derivationThread_begin s)).w.passCnt = 0 :=
    derivationThread_for_passCnt_of_silent c P hD lifetimeCnt (derivationThread_begin s)
  have hl : (derivationThread_for c P lifetimeCnt (derivationThread_begin s)).w.led1 = false :=
    kd_before_led1 c P s lifetimeCnt
  unfold derivationThread
  simp only [hp]
  have h0 : ¬ toSizeT 0 = lifetimeCnt * KEY_DERIVATION_LOOP_CNT := by decide
  simp only [h0, if_false, ite_self]
  exact ⟨hp, hl⟩

end psaKeyDerivation

end Psa

namespace Psa

theorem printByteArray_written_eq (desc : String) (len : Nat) :
    printByteArray_written desc len = desc.length + 2 * len + 1 := by
  unfold printByteArray_written
  induction len with
  | zero => simp
  | succ n ih =>
    rw [List.range_succ, List.foldl_append, ih]
    simp only [List.foldl_cons, List.foldl_nil]
    omega

theorem signHash_import_sign_output {σ : Type} (P : Provider σ)
    (vecs : List psaSignVerify.ecdsaTestCase) (p l j : Nat) (w : World σ) :
    (psaSignVerify.signHash_import P vecs p l j w).2.sign_output = w.sign_output := by
  unfold psaSignVerify.signHash_import psaSignVerify.setupKeyID
  simp only [psa_import_key, psa_destroy_key]
  split_ifs <;> rfl

theorem signMessage_import_sign_output {σ : Type} (P : Provider σ)
    (vecs : List psaSignVerify.ecdsaTestCase) (p l j : Nat) (w : World σ) :
    (psaSignVerify.signMessage_import P vecs p l j w).2.sign_output = w.sign_output := by
  unfold psaSignVerify.signMessage_import psaSignVerify.setupKeyID
  simp only [psa_import_key, psa_destroy_key]
  split_ifs <;> rfl

set_option maxRecDepth 100000 in
/-- C21: `sign_output` is zero only when the thread starts.  The steps of
`signMessage` and `signHash` that precede the signing call leave the buffer as
they found it, and nothing in `psaSignVerify.c` clears it.  In the run of
`signVerifyThread` with the reference provider, the buffer is all zero at the
first `signMessage`, holds the 64 signature bytes `0xe1` of that call when
`signHash` is entered for the same lifetime (and that `signHash` does call
`psa_sign_hash`), and holds the 64 bytes `0xa4` of the hash signature when
`signMessage` is entered for the second lifetime. -/
theorem sign_output_holds_previous_signature :
    (∀ {σ : Type} (P : Provider σ) (vecs : List psaSignVerify.ecdsaTestCase) (p l j : Nat)
        (w : World σ),
      (psaSignVerify.signMessage_import P vecs p l j w).2.sign_output = w.sign_output ∧
      (psaSignVerify.signHash_import P vecs p l j w).2.sign_output = w.sign_output) ∧
    (psaSignVerify.before sampleHsm referenceProvider psaSignVerify.signTestVectors
        KeyStore.empty 0 0).sign_output = zeroed psaSignVerify.SIGNATURE_SIZE ∧
    (psaSignVerify.beforeHash sampleHsm referenceProvider psaSignVerify.signTestVectors
        KeyStore.empty 0 0).sign_output = List.replicate 64 0xe1 ++ zeroed 69 ∧
    ((psaSignVerify.before sampleHsm referenceProvider psaSignVerify.signTestVectors
        KeyStore.empty 0 1).calls.drop
      (psaSignVerify.beforeHash sampleHsm referenceProvider psaSignVerify.signTestVectors
        KeyStore.empty 0 0).calls.length).any
      (fun x => match x with
        | Call.sign_hash _ _ _ _ answer => answer.status == PSA_SUCCESS
        | _ => false) = true ∧
    (psaSignVerify.before sampleHsm referenceProvider psaSignVerify.signTestVectors
        KeyStore.empty 0 1).sign_output = List.replicate 64 0xa4 ++ zeroed 69 := by
  refine ⟨fun P vecs p l j w =>
    ⟨signMessage_import_sign_output P vecs p l j w, signHash_import_sign_output P vecs p l j w⟩,
    ?_⟩
  decide

end Psa

namespace Psa
namespace psaKeyDerivation
variable {σ : Type}

/-- C22: the log of `setupKeyDerivation` is the log it started from followed by
`psa_key_derivation_setup`, `psa_key_derivation_input_key(SECRET, baseKeyID)`,
`psa_key_derivation_input_bytes(LABEL, label)`, then
`psa_key_derivation_input_bytes(CONTEXT, context)` exactly when `baseKeyID` is
neither `PSA_KEY_ID_HSM_HUK` nor `PSA_KEY_ID_HSM_TKDK`, then
`psa_key_derivation_get_capacity`, cut after the first call that did not
return `PSA_SUCCESS`; the returned status is the status of the last call made. -/
theorem setupKeyDerivation_call_order (c : HsmValues) (P : Provider σ) (alg : psa_algorithm_t)
    (baseKeyID : psa_key_id_t) (w : World σ) :
    let status := (setupKeyDerivation c P alg baseKeyID w).1
    let log := (setupKeyDerivation c P alg baseKeyID w).2.calls
    let setup := Call.key_derivation_setup alg
    let secret := Call.key_derivation_input_key PSA_KEY_DERIVATION_INPUT_SECRET baseKeyID
    let lbl := Call.key_derivation_input_bytes PSA_KEY_DERIVATION_INPUT_LABEL label
    let ctx := Call.key_derivation_input_bytes PSA_KEY_DERIVATION_INPUT_CONTEXT context
    (status ≠ PSA_SUCCESS ∧ log = w.calls ++ [setup status]) ∨
    (status ≠ PSA_SUCCESS ∧ log = w.calls ++ [setup PSA_SUCCESS, secret status]) ∨
    (status ≠ PSA_SUCCESS ∧ log = w.calls ++ [setup PSA_SUCCESS, secret PSA_SUCCESS, lbl status]) ∨
    (status ≠ PSA_SUCCESS ∧
      (baseKeyID ≠ c.PSA_KEY_ID_HSM_HUK ∧ baseKeyID ≠ c.PSA_KEY_ID_HSM_TKDK) ∧
      log = w.calls ++
        [setup PSA_SUCCESS, secret PSA_SUCCESS, lbl PSA_SUCCESS, ctx status]) ∨
    (∃ capacity,
      log = w.calls ++ [setup PSA_SUCCESS, secret PSA_SUCCESS, lbl PSA_SUCCESS] ++
        (if baseKeyID ≠ c.PSA_KEY_ID_HSM_HUK ∧ baseKeyID ≠ c.PSA_KEY_ID_HSM_TKDK
         then [ctx PSA_SUCCESS] else []) ++
        [Call.key_derivation_get_capacity status capacity]) := by
  unfold setupKeyDerivation
  simp only [psa_key_derivation_setup, psa_key_derivation_input_key,
    psa_key_derivation_input_bytes, psa_key_derivation_get_capacity]
  split_ifs <;> simp_all

end psaKeyDerivation

/-- C29: the `psa_key_derivation_output_key` call of inner iteration `j` of outer
iteration `i` asks for the key ID `PSA_KEY_ID_USER_MIN + 10 * (i + 1) + j`, the
`psa_import_key` of the base key for the ID `PSA_KEY_ID_USER_MIN + i` (or none,
for a volatile key).  For `i < lifetimeCnt` and `j < KEY_DERIVATION_LOOP_CNT` the
derived IDs are different for different `(i, j)`, different from every base key
ID, and lie between `PSA_KEY_ID_USER_MIN` and `PSA_KEY_ID_USER_MAX`. -/
theorem derived_key_ids_distinct :
    (∀ {σ : Type} (P : Provider σ) (i j : Nat) (st : psaKeyDerivation.State σ),
      (psaKeyDerivation.derived P i j st).2.calls = st.w.calls ++
        [Call.key_derivation_output_key
          { st.derivedKeyAttributes with id := PSA_KEY_ID_USER_MIN + (10 * (i + 1)) + j }
          (psaKeyDerivation.derived P i j st).1.1 (psaKeyDerivation.derived P i j st).1.2]) ∧
    (∀ {σ : Type} (c : HsmValues) (P : Provider σ) (i : Nat) (w : World σ),
      ∃ pre attributes data,
        (psaKeyDerivation.derivationThread_import c P i w).2.calls = w.calls ++ pre ++
          [Call.import_key attributes data (psaKeyDerivation.derivationThread_import c P i w).1.1
            (psaKeyDerivation.derivationThread_import c P i w).1.2] ∧
        (attributes.id = PSA_KEY_ID_USER_MIN + i ∨ attributes.id = 0)) ∧
    (∀ i j i2 j2 : Nat, i < psaKeyDerivation.lifetimeCnt →
      j < psaKeyDerivation.KEY_DERIVATION_LOOP_CNT → i2 < psaKeyDerivation.lifetimeCnt →
      j2 < psaKeyDerivation.KEY_DERIVATION_LOOP_CNT →
      (PSA_KEY_ID_USER_MIN + (10 * (i + 1)) + j = PSA_KEY_ID_USER_MIN + (10 * (i2 + 1)) + j2 →
        i = i2 ∧ j = j2) ∧
      PSA_KEY_ID_USER_MIN + (10 * (i + 1)) + j ≠ PSA_KEY_ID_USER_MIN + i2 ∧
      PSA_KEY_ID_USER_MIN ≤ PSA_KEY_ID_USER_MIN + (10 * (i + 1)) + j ∧
      PSA_KEY_ID_USER_MIN + (10 * (i + 1)) + j ≤ PSA_KEY_ID_USER_MAX) := by
  refine ⟨fun P i j st => rfl, ?_, ?_⟩
  · intro σ c P i w
    obtain ⟨a, d, hcalls, -, hid⟩ := psaKeyDerivation.derivationThread_import_shape c P i w
    refine ⟨_, a, d, hcalls, ?_⟩
    rw [hid]
    split_ifs
    · exact Or.inl rfl
    · exact Or.inr rfl
  · intro i j i2 j2 hi hj hi2 hj2
    have key : ∀ a b a2 b2 : Nat, a < 5 → b < 3 → a2 < 5 → b2 < 3 →
        ((1 + (10 * (a + 1)) + b : Nat) = 1 + (10 * (a2 + 1)) + b2 → a = a2 ∧ b = b2) ∧
        (1 + (10 * (a + 1)) + b : Nat) ≠ 1 + a2 ∧
        (1 : Nat) ≤ 1 + (10 * (a + 1)) + b ∧
        (1 + (10 * (a + 1)) + b : Nat) ≤ 0x3fffffff := by
      intro a b a2 b2 ha hb ha2 hb2
      omega
    exact key i j i2 j2 hi hj hi2 hj2

/-- C30 (as stated, refuted): `bits + 7` is computed in 32-bit unsigned
arithmetic, so for the bit count `2 ^ 32 - 1` the macro `BITS_TO_BYTES` gives 0,
while the ceiling of `(2 ^ 32 - 1) / 8` is `536870912`. -/
theorem BITS_TO_BYTES_wraps :
    psaRawKeyAgreement.BITS_TO_BYTES (2 ^ 32 - 1) = 0 ∧ (2 ^ 32 - 1 + 7) / 8 = 536870912 := by
  decide

namespace psaRawKeyAgreement

set_option maxRecDepth 100000 in
/-- C30 (amended): for every bit count `bits` with `bits + 7 < 2 ^ 32`,
`BITS_TO_BYTES bits` is the ceiling of `bits / 8` (the least `n` with
`bits ≤ 8 * n`).  For `bits ≤ 521` it is at most `MAX_CURVE_LENGTH_BYTES = 66`, and
the peer key length `PSA_KEY_EXPORT_ECC_PUBLIC_KEY_MAX_SIZE bits` equals
`2 * BITS_TO_BYTES bits + 1` and is at most `MAX_PUB_KEY_BYTES = 133`; these are
the sizes of the arrays `privateKey`, `peerPublicKey`, `expectedSharedSecret` and
`sharedSecret`.  For the shipped vector (`curveBits = 256`) the private key,
shared secret and peer key lengths are 32, 32 and 65. -/
theorem BITS_TO_BYTES_is_ceiling (bits : Nat) (h : bits + 7 < 2 ^ 32) :
    (bits ≤ 8 * BITS_TO_BYTES bits ∧ 8 * BITS_TO_BYTES bits < bits + 8) ∧
    (bits ≤ 521 →
      BITS_TO_BYTES bits ≤ MAX_CURVE_LENGTH_BYTES ∧
      PSA_KEY_EXPORT_ECC_PUBLIC_KEY_MAX_SIZE bits = 2 * BITS_TO_BYTES bits + 1 ∧
      2 * BITS_TO_BYTES bits + 1 ≤ MAX_PUB_KEY_BYTES) ∧
    (MAX_CURVE_LENGTH_BYTES = 66 ∧ MAX_PUB_KEY_BYTES = 133 ∧
      testVector.privateKey.length = MAX_CURVE_LENGTH_BYTES ∧
      testVector.peerPublicKey.length = MAX_PUB_KEY_BYTES ∧
      testVector.expectedSharedSecret.length = MAX_PUB_KEY_BYTES ∧
      sizeof_sharedSecret = MAX_CURVE_LENGTH_BYTES) ∧
    (testVector.curveBits = 256 ∧ privateKeyLength = 32 ∧ expectedSharedSecretLength = 32 ∧
      peerKeyLength = 65) := by
  have hb : BITS_TO_BYTES bits = (bits + 7) / 8 := by
    unfold BITS_TO_BYTES
    rw [Nat.mod_eq_of_lt h]
  refine ⟨?_, ?_, by decide, by decide⟩
  · rw [hb]; omega
  · intro h521
    unfold PSA_KEY_EXPORT_ECC_PUBLIC_KEY_MAX_SIZE PSA_BITS_TO_BYTES MAX_PUB_KEY_BYTES
      MAX_CURVE_LENGTH_BYTES
    rw [hb]; omega

end psaRawKeyAgreement

/-- C30: the largest curve the arrays are sized for, 521 bits, satisfies the
condition; its lengths are 66 bytes for the private key and the shared secret and
133 bytes for the peer public key. -/
theorem BITS_TO_BYTES_is_ceiling_witness :
    521 + 7 < 2 ^ 32 ∧
    psaRawKeyAgreement.BITS_TO_BYTES 521 ≤ psaRawKeyAgreement.MAX_CURVE_LENGTH_BYTES ∧
    PSA_KEY_EXPORT_ECC_PUBLIC_KEY_MAX_SIZE 521 = 2 * psaRawKeyAgreement.BITS_TO_BYTES 521 + 1 ∧
    2 * psaRawKeyAgreement.BITS_TO_BYTES 521 + 1 ≤ psaRawKeyAgreement.MAX_PUB_KEY_BYTES :=
  ⟨by decide, (psaRawKeyAgreement.BITS_TO_BYTES_is_ceiling 521 (by decide)).2.1 (by decide)⟩

end Psa

namespace Psa

set_option maxRecDepth 100000 in
/-- C26: `encryptThread` passes `sizeof(ciphertext) = 49` as the size of the output
buffer that starts at `ciphertext + 1`, so the region it describes ends one byte
behind the array: with a provider that fills the buffer it was given, the answer
has 49 bytes, of which the array holds the first 48.  The indices of the two
comparison loops and of the diagnostic they print are inside `ciphertext`,
`expectedCiphertext` and `expectedMac`. -/
theorem aead_output_region_exceeds_ciphertext :
    (psaAeadEncrypt.sizeof_ciphertext = 49 ∧
      psaAeadEncrypt.sizeof_ciphertext < 1 + psaAeadEncrypt.sizeof_ciphertext) ∧
    (psaAeadEncrypt.imported sampleHsm fillingProvider KeyStore.empty 0).1.1 = PSA_SUCCESS ∧
    (psaAeadEncrypt.encrypted sampleHsm fillingProvider KeyStore.empty 0).2.calls.getLast?
      = some (Call.aead_encrypt 0x7fff0100 psaAeadEncrypt.testVector.alg
          (readBytes psaAeadEncrypt.testVector.nonce 0 7)
          (readBytes psaAeadEncrypt.testVector.aad 0 32)
          (readBytes psaAeadEncrypt.testVector.plaintext 0 24)
          psaAeadEncrypt.sizeof_ciphertext
          { status := PSA_SUCCESS, out := List.replicate 49 0xAA, length := 49 }) ∧
    (psaAeadEncrypt.encrypted sampleHsm fillingProvider KeyStore.empty 0).1.2
      = 0 :: List.replicate 48 0xAA ∧
    (∀ index, 1 ≤ index → index < psaAeadEncrypt.testVector.plaintextLength + 1 →
      index < psaAeadEncrypt.sizeof_ciphertext ∧
      index < psaAeadEncrypt.testVector.expectedCiphertext.length) ∧
    (∀ index, index < psaAeadEncrypt.testVector.macLength + 1 →
      psaAeadEncrypt.testVector.plaintextLength + index + 1 < psaAeadEncrypt.sizeof_ciphertext ∧
      psaAeadEncrypt.testVector.plaintextLength + index < psaAeadEncrypt.sizeof_ciphertext ∧
      index < psaAeadEncrypt.testVector.expectedMac.length) := by
  refine ⟨by decide, by decide, by decide, by decide, ?_, ?_⟩
  · intro index h1 h2
    have e1 : psaAeadEncrypt.testVector.plaintextLength = 24 := rfl
    have e2 : psaAeadEncrypt.sizeof_ciphertext = 49 := rfl
    have e3 : psaAeadEncrypt.testVector.expectedCiphertext.length = 33 := by decide
    rw [e1] at h2
    rw [e2, e3]
    omega
  · intro index h1
    have e1 : psaAeadEncrypt.testVector.plaintextLength = 24 := rfl
    have e2 : psaAeadEncrypt.sizeof_ciphertext = 49 := rfl
    have e3 : psaAeadEncrypt.testVector.expectedMac.length = 16 := by decide
    have e4 : psaAeadEncrypt.testVector.macLength = 4 := rfl
    rw [e4] at h1
    rw [e1, e2, e3]
    omega

set_option maxRecDepth 100000 in
/-- C27: `printByteArray` stores `strlen(desc) + 2 * len + 1` bytes into `msgBuf`.
With an output length of at most the size of the output buffer, the dumps of the
ciphertext in `psaAeadEncrypt.c`, of both round-trip buffers in
`psaKeyDerivation.c` and of the shared secret in `psaRawKeyAgreement.c` fit
`msgBuf`.  In `psaSignVerify.c` the dump of `sign_output` fits only for lengths
up to 127 of the 133 bytes a provider may report: with a provider that fills the
signature buffer, `signMessage` prints 133 bytes, which takes 284 bytes of the
272-byte `msgBuf`. -/
theorem signed_output_dump_exceeds_msgBuf :
    (∀ (desc : String) (len : Nat), printByteArray_written desc len = desc.length + 2 * len + 1) ∧
    (∀ len, len ≤ psaAeadEncrypt.sizeof_ciphertext →
      printByteArray_written "Ciphertext: 0x" len ≤ psaAeadEncrypt.MSG_BUFFER_SIZE) ∧
    (∀ len, len ≤ psaKeyDerivation.PLAINTEXT_LENGTH →
      printByteArray_written "Ciphertext: 0x" len ≤ psaKeyDerivation.MSG_BUFFER_SIZE ∧
      printByteArray_written "Decrypted Plaintext: 0x" len ≤ psaKeyDerivation.MSG_BUFFER_SIZE) ∧
    (∀ len, len ≤ psaRawKeyAgreement.sizeof_sharedSecret →
      printByteArray_written "Shared Secret: 0x" len ≤ psaRawKeyAgreement.MSG_BUFFER_SIZE) ∧
    (∀ len, len ≤ psaSignVerify.SIGNATURE_SIZE →
      (printByteArray_written "Signed Output: 0x" len ≤ psaSignVerify.MSG_BUFFER_SIZE ↔
        len ≤ 127)) ∧
    (Line.mk (hexLine "Signed Output: 0x" (List.replicate 133 0xAB)) []) ∈
      (psaSignVerify.beforeHash sampleHsm longSignatureProvider psaSignVerify.signTestVectors
        KeyStore.empty 0 0).display ∧
    printByteArray_written "Signed Output: 0x" 133 = 284 ∧
    psaSignVerify.MSG_BUFFER_SIZE = 272 := by
  have s1 : ("Ciphertext: 0x" : String).length = 14 := by decide
  have s2 : ("Decrypted Plaintext: 0x" : String).length = 23 := by decide
  have s3 : ("Shared Secret: 0x" : String).length = 17 := by decide
  have s4 : ("Signed Output: 0x" : String).length = 17 := by decide
  refine ⟨printByteArray_written_eq, ?_, ?_, ?_, ?_, by decide, by decide, rfl⟩
  · intro len h
    have e : psaAeadEncrypt.sizeof_ciphertext = 49 := rfl
    have m : psaAeadEncrypt.MSG_BUFFER_SIZE = 128 := rfl
    rw [printByteArray_written_eq, s1, m]
    omega
  · intro len h
    have e : psaKeyDerivation.PLAINTEXT_LENGTH = 16 := rfl
    have m : psaKeyDerivation.MSG_BUFFER_SIZE = 128 := rfl
    rw [printByteArray_written_eq, printByteArray_written_eq, s1, s2, m]
    omega
  · intro len h
    have e : psaRawKeyAgreement.sizeof_sharedSecret = 66 := rfl
    have m : psaRawKeyAgreement.MSG_BUFFER_SIZE = 256 := rfl
    rw [printByteArray_written_eq, s3, m]
    omega
  · intro len _
    have m : psaSignVerify.MSG_BUFFER_SIZE = 272 := rfl
    rw [printByteArray_written_eq, s4, m]
    omega

set_option maxRecDepth 100000 in
/-- C28: the line `encryptThread` prints under "Plaintext" shows the 24 bytes from
`testVector.plaintext + 1` on (the plaintext without its first byte `0xA2`,
followed by a `00` from behind it), while `psa_aead_encrypt` is given the 24
bytes from `testVector.plaintext` on.  The line under "Ciphertext" shows
`outputLength` bytes from `ciphertext` on, while the output was written from
`ciphertext + 1` on: with the reference provider it shows a `00` and the first 27
of the 28 bytes written, without the last MAC byte `0xFA`. -/
theorem aead_dumps_show_shifted_bytes :
    (psaAeadEncrypt.encryptThread_begin KeyStore.empty).display.getD 2 (Line.mk "" [])
      = Line.mk "Plaintext: 0x65480CA88D5F536DB0DC6ABC40FAF0D05BE7A96697776800" [] ∧
    (psaAeadEncrypt.encrypted sampleHsm referenceProvider KeyStore.empty 0).2.calls.getLast?
      = some (Call.aead_encrypt 0x7fff0100 psaAeadEncrypt.testVector.alg
          (readBytes psaAeadEncrypt.testVector.nonce 0 7)
          (readBytes psaAeadEncrypt.testVector.aad 0 32)
          (readBytes psaAeadEncrypt.testVector.plaintext 0 24)
          psaAeadEncrypt.sizeof_ciphertext
          (psaAeadEncrypt.encrypted sampleHsm referenceProvider KeyStore.empty 0).1.1) ∧
    hexLine "Plaintext: 0x" (readBytes psaAeadEncrypt.testVector.plaintext 0 24)
      = "Plaintext: 0xA265480CA88D5F536DB0DC6ABC40FAF0D05BE7A966977768" ∧
    (psaAeadEncrypt.encrypted sampleHsm referenceProvider KeyStore.empty 0).1.1
      = { status := PSA_SUCCESS,
          out := [0x6b, 0xe3, 0x18, 0x60, 0xca, 0x27, 0x1e, 0xf4, 0x48, 0xde, 0x8f, 0x8d,
                  0x8b, 0x39, 0x34, 0x6d, 0xaf, 0x4b, 0x81, 0xd7, 0xe9, 0x2d, 0x65, 0xb3,
                  0x38, 0xf1, 0x25, 0xfa],
          length := 28 } ∧
    hexLine "Ciphertext: 0x"
        (psaAeadEncrypt.encrypted sampleHsm referenceProvider KeyStore.empty 0).1.1.out
      = "Ciphertext: 0x6BE31860CA271EF448DE8F8D8B39346DAF4B81D7E92D65B338F125FA" ∧
    (psaAeadEncrypt.verified sampleHsm referenceProvider KeyStore.empty 0).display.getLast?
      = some (Line.mk "PASSED!\n" []) ∧
    (psaAeadEncrypt.verified sampleHsm referenceProvider KeyStore.empty 0).display.dropLast.getLast?
      = some
          (Line.mk "Ciphertext: 0x006BE31860CA271EF448DE8F8D8B39346DAF4B81D7E92D65B338F125" []) := by
  decide

end Psa

namespace Psa
namespace psaSignVerify
variable {σ : Type}

theorem verifyMessage_passCnt_le (P : Provider σ) (j : Nat) (vecs : List ecdsaTestCase)
    (sig : List Nat) (len : Nat) (lt : psa_key_lifetime_t) (w : World σ) :
    (verifyMessage P j vecs sig len lt w).passCnt ≤ w.passCnt ∧
    w.passCnt - 2 ≤ (verifyMessage P j vecs sig len lt w).passCnt := by
  have hi := verifyMessage_import_passCnt P j vecs lt w
  unfold verifyMessage
  simp only [psa_verify_message, psa_destroy_key]
  split_ifs <;> simp only [Display_printf_passCnt, hi] <;> omega

theorem verifyHash_passCnt_le (P : Provider σ) (j : Nat) (vecs : List ecdsaTestCase)
    (sig : List Nat) (len : Nat) (lt : psa_key_lifetime_t) (w : World σ) :
    (verifyHash P j vecs sig len lt w).passCnt ≤ w.passCnt ∧
    w.passCnt - 2 ≤ (verifyHash P j vecs sig len lt w).passCnt := by
  have hi := verifyHash_import_passCnt P j vecs lt w
  unfold verifyHash
  simp only [psa_verify_hash, psa_destroy_key]
  split_ifs <;> simp only [Display_printf_passCnt, hi] <;> omega

theorem verifyMessage_counted (P : Provider σ) (j : Nat) (vecs : List ecdsaTestCase)
    (sig : List Nat) (len : Nat) (lt : psa_key_lifetime_t) (w : World σ)
    (h : (verifyMessage P j vecs sig len lt w).passCnt = w.passCnt) :
    (verifyMessage P j vecs sig len lt w).calls = (verifyMessage_import P j vecs lt w).2.calls ++
      (if (verifyMessage_import P j vecs lt w).1.1 = PSA_SUCCESS then
        [Call.verify_message (verifyMessage_import P j vecs lt w).1.2 (vecs.getD j default).alg
           (readBytes (vecs.getD j default).message 0 (vecs.getD j default).messageLength)
           (readBytes sig 0 len) PSA_SUCCESS,
         Call.destroy_key (verifyMessage_import P j vecs lt w).1.2 PSA_SUCCESS]
       else []) := by
  have hi := verifyMessage_import_passCnt P j vecs lt w
  unfold verifyMessage at h ⊢
  simp only [psa_verify_message, psa_destroy_key] at h ⊢
  split_ifs at h ⊢ <;> simp only [Display_printf_passCnt, hi] at h <;>
    first
    | omega
    | simp_all

theorem verifyHash_counted (P : Provider σ) (j : Nat) (vecs : List ecdsaTestCase)
    (sig : List Nat) (len : Nat) (lt : psa_key_lifetime_t) (w : World σ)
    (h : (verifyHash P j vecs sig len lt w).passCnt = w.passCnt) :
    (verifyHash P j vecs sig len lt w).calls = (verifyHash_import P j vecs lt w).2.calls ++
      (if (verifyHash_import P j vecs lt w).1.1 = PSA_SUCCESS then
        [Call.verify_hash (verifyHash_import P j vecs lt w).1.2 (vecs.getD j default).alg
           (readBytes (vecs.getD j default).hash 0
             (PSA_HASH_LENGTH (PSA_ALG_SIGN_GET_HASH (vecs.getD j default).alg)))
           (readBytes sig 0 len) PSA_SUCCESS,
         Call.destroy_key (verifyHash_import P j vecs lt w).1.2 PSA_SUCCESS]
       else []) := by
  have hi := verifyHash_import_passCnt P j vecs lt w
  unfold verifyHash at h ⊢
  simp only [psa_verify_hash, psa_destroy_key] at h ⊢
  split_ifs at h ⊢ <;> simp only [Display_printf_passCnt, hi] at h <;>
    first
    | omega
    | simp_all

end psaSignVerify
end Psa

namespace Psa
namespace psaSignVerify
variable {σ : Type}

theorem signMessage_passCnt_le (P : Provider σ) (vecs : List ecdsaTestCase) (p l j : Nat)
    (w : World σ) :
    (signMessage P vecs p l j w).passCnt ≤ w.passCnt + 1 ∧
    w.passCnt - 2 ≤ (signMessage P vecs p l j w).passCnt := by
  have hi := signMessage_import_passCnt P vecs p l j w
  unfold signMessage
  simp only [psa_export_public_key, psa_sign_message, psa_destroy_key, printByteArray]
  split_ifs <;>
    first
    | contradiction
    | (simp only [Display_printf_passCnt, hi]; omega)
    | (refine ⟨le_trans (verifyMessage_passCnt_le P _ _ _ _ _ _).1 ?_,
        le_trans ?_ (verifyMessage_passCnt_le P _ _ _ _ _ _).2⟩ <;>
       simp only [Display_printf_passCnt, hi] <;> omega)

theorem signHash_passCnt_le (P : Provider σ) (vecs : List ecdsaTestCase) (p l j : Nat)
    (w : World σ) :
    (signHash P vecs p l j w).passCnt ≤ w.passCnt + 1 ∧
    w.passCnt - 2 ≤ (signHash P vecs p l j w).passCnt := by
  have hi := signHash_import_passCnt P vecs p l j w
  unfold signHash
  simp only [psa_sign_hash, psa_destroy_key, printByteArray]
  split_ifs <;>
    first
    | contradiction
    | omega
    | (simp only [Display_printf_passCnt, hi]; omega)
    | (refine ⟨le_trans (verifyHash_passCnt_le P _ _ _ _ _ _).1 ?_,
        le_trans ?_ (verifyHash_passCnt_le P _ _ _ _ _ _).2⟩ <;>
       simp only [Display_printf_passCnt, hi] <;> omega)

end psaSignVerify
end Psa

namespace Psa

theorem append_three {α : Type} (a : List α) (x y z : α) :
    a ++ [x] ++ [y] ++ [z] = a ++ [x, y, z] := by simp

theorem append_two {α : Type} (a : List α) (x y : α) :
    a ++ [x] ++ [y] = a ++ [x, y] := by simp

namespace psaSignVerify
variable {σ : Type}

theorem signMessage_counted_aux (P : Provider σ) (vecs : List ecdsaTestCase) (p l j : Nat)
    (w : World σ) (h : (signMessage P vecs p l j w).passCnt = w.passCnt + 1) :
    (signMessage_import P vecs p l j w).1.1 = PSA_SUCCESS ∧
    ∃ (x sg : Output) (ds : psa_status_t) (w2 : World σ),
      (signMessage P vecs p l j w).calls =
        (verifyMessage_import P j vecs (PSA_KEY_LIFETIME_FROM_PERSISTENCE_AND_LOCATION p l) w2).2.calls ++
        (if (verifyMessage_import P j vecs (PSA_KEY_LIFETIME_FROM_PERSISTENCE_AND_LOCATION p l)
              w2).1.1 = PSA_SUCCESS then
          [Call.verify_message
             (verifyMessage_import P j vecs (PSA_KEY_LIFETIME_FROM_PERSISTENCE_AND_LOCATION p l)
               w2).1.2 (vecs.getD j default).alg
             (readBytes (vecs.getD j default).message 0 (vecs.getD j default).messageLength)
             (readBytes w2.sign_output 0 sg.length) PSA_SUCCESS,
           Call.destroy_key
             (verifyMessage_import P j vecs (PSA_KEY_LIFETIME_FROM_PERSISTENCE_AND_LOCATION p l)
               w2).1.2 PSA_SUCCESS]
         else []) ∧
      w2.calls = (signMessage_import P vecs p l j w).2.calls ++
        [Call.export_public_key (signMessage_import P vecs p l j w).1.2 SIGNATURE_SIZE x,
         Call.sign_message (signMessage_import P vecs p l j w).1.2 (vecs.getD j default).alg
           (readBytes (vecs.getD j default).message 0 (vecs.getD j default).messageLength)
           SIGNATURE_SIZE sg,
         Call.destroy_key (signMessage_import P vecs p l j w).1.2 ds] ∧
      x.status = PSA_SUCCESS ∧ sg.status = PSA_SUCCESS ∧ ds = PSA_SUCCESS := by
  have hi := signMessage_import_passCnt P vecs p l j w
  unfold signMessage at h ⊢
  simp only [psa_export_public_key, psa_sign_message, psa_destroy_key, printByteArray] at h ⊢
  split_ifs at h ⊢ <;>
    first
    | contradiction
    | (simp only [Display_printf_passCnt, hi] at h; omega)
    | (have hv := le_trans (le_of_eq h.symm) (verifyMessage_passCnt_le P _ _ _ _ _ _).1
       simp only [Display_printf_passCnt, hi] at hv
       omega)
    | (simp only [ne_eq, Decidable.not_not] at *
       refine ⟨by assumption, ?x, ?sg, ?ds, ?w2, ?hv, ?hc, ?hx, ?hs, ?hd⟩
       case hv =>
         refine verifyMessage_counted P j vecs _ _ _ _ ?_
         rw [h]
         simp only [Display_printf_passCnt, hi]
       case hc => exact append_three _ _ _ _
       case hx => assumption
       case hs => assumption
       case hd => assumption)

end psaSignVerify
end Psa

namespace Psa
namespace psaSignVerify
variable {σ : Type}

theorem beforeHash_succ (c : HsmValues) (P : Provider σ) (vecs : List ecdsaTestCase) (s : σ)
    (j i : Nat) :
    signVerifyThread_inner_for c P vecs j (i + 1) (beforeVector c P vecs s j) =
      signHash P vecs (PSA_KEY_LIFETIME_GET_PERSISTENCE ((lifetimes c).getD i 0))
        (PSA_KEY_LIFETIME_GET_LOCATION ((lifetimes c).getD i 0)) j (beforeHash c P vecs s j i) := rfl

theorem before_passCnt (c : HsmValues) (P : Provider σ) (vecs : List ecdsaTestCase) (s : σ)
    (j i : Nat) :
    (before c P vecs s j i).passCnt =
      (signVerifyThread_inner_for c P vecs j i (beforeVector c P vecs s j)).passCnt := rfl

theorem beforeVector_passCnt (c : HsmValues) (P : Provider σ) (vecs : List ecdsaTestCase) (s : σ)
    (j : Nat) :
    (beforeVector c P vecs s j).passCnt = (signVerifyThread_for c P vecs j (World.start s)).passCnt :=
  rfl

theorem beforeVector_succ (c : HsmValues) (P : Provider σ) (vecs : List ecdsaTestCase) (s : σ)
    (j : Nat) :
    signVerifyThread_for c P vecs (j + 1) (World.start s) =
      signVerifyThread_inner_for c P vecs j lifetimeCnt (beforeVector c P vecs s j) := rfl

/-- Steps of the counter inside one vector: each sub-case adds at most one and
takes away at most two. -/
theorem subcase_steps (c : HsmValues) (P : Provider σ) (vecs : List ecdsaTestCase) (s : σ)
    (j i : Nat) :
    ((beforeHash c P vecs s j i).passCnt ≤ (before c P vecs s j i).passCnt + 1 ∧
      (before c P vecs s j i).passCnt - 2 ≤ (beforeHash c P vecs s j i).passCnt) ∧
    ((before c P vecs s j (i + 1)).passCnt ≤ (beforeHash c P vecs s j i).passCnt + 1 ∧
      (beforeHash c P vecs s j i).passCnt - 2 ≤ (before c P vecs s j (i + 1)).passCnt) := by
  refine ⟨signMessage_passCnt_le P vecs _ _ j _, ?_⟩
  rw [before_passCnt c P vecs s j (i + 1), beforeHash_succ]
  exact signHash_passCnt_le P vecs _ _ j _

theorem before_passCnt_bounds (c : HsmValues) (P : Provider σ) (vecs : List ecdsaTestCase) (s : σ)
    (j i k : Nat) :
    (before c P vecs s j (i + k)).passCnt ≤ (before c P vecs s j i).passCnt + 2 * k ∧
    (before c P vecs s j i).passCnt - 4 * k ≤ (before c P vecs s j (i + k)).passCnt := by
  induction k with
  | zero => simp
  | succ k ih =>
    have h := subcase_steps c P vecs s j (i + k)
    rw [← Nat.add_assoc]
    push_cast
    omega

theorem beforeVector_passCnt_step (c : HsmValues) (P : Provider σ) (vecs : List ecdsaTestCase)
    (s : σ) (j : Nat) :
    (beforeVector c P vecs s (j + 1)).passCnt = (before c P vecs s j lifetimeCnt).passCnt ∧
    (before c P vecs s j 0).passCnt = (beforeVector c P vecs s j).passCnt :=
  ⟨rfl, rfl⟩

theorem beforeVector_passCnt_bounds (c : HsmValues) (P : Provider σ) (vecs : List ecdsaTestCase)
    (s : σ) (j k : Nat) :
    (beforeVector c P vecs s (j + k)).passCnt ≤ (beforeVector c P vecs s j).passCnt + 10 * k ∧
    (beforeVector c P vecs s j).passCnt - 20 * k ≤ (beforeVector c P vecs s (j + k)).passCnt := by
  induction k with
  | zero => simp
  | succ k ih =>
    have h := before_passCnt_bounds c P vecs s (j + k) 0 lifetimeCnt
    have h1 := beforeVector_passCnt_step c P vecs s (j + k)
    rw [Nat.zero_add] at h
    have h5 : ((lifetimeCnt : Nat) : Int) = 5 := rfl
    rw [← Nat.add_assoc]
    push_cast at h ⊢
    omega

theorem beforeVector_zero (c : HsmValues) (P : Provider σ) (vecs : List ecdsaTestCase) (s : σ) :
    (beforeVector c P vecs s 0).passCnt = 0 := rfl

theorem signVerifyThread_passCnt (c : HsmValues) (P : Provider σ) (vecs : List ecdsaTestCase)
    (s : σ) :
    (signVerifyThread c P vecs s).passCnt =
      (beforeVector c P vecs s (signTestVectorCount vecs)).passCnt := by
  unfold signVerifyThread
  simp only []
  split_ifs <;> rfl

/-- If the counter ends at ten times the number of vectors, it was at `10 * j + 2 * i`
before every `signMessage` and one higher before every `signHash`. -/
theorem passCnt_exact (c : HsmValues) (P : Provider σ) (vecs : List ecdsaTestCase) (s : σ)
    (h : (beforeVector c P vecs s (signTestVectorCount vecs)).passCnt
      = 10 * (signTestVectorCount vecs : Int))
    (j i : Nat) (hj : j < signTestVectorCount vecs) (hi : i < lifetimeCnt) :
    (before c P vecs s j i).passCnt = 10 * j + 2 * i ∧
    (beforeHash c P vecs s j i).passCnt = 10 * j + 2 * i + 1 ∧
    (before c P vecs s j (i + 1)).passCnt = 10 * j + 2 * i + 2 := by
  have h5 : lifetimeCnt = 5 := rfl
  rw [h5] at hi
  have a1 := beforeVector_passCnt_bounds c P vecs s 0 j
  have a2 := beforeVector_passCnt_bounds c P vecs s 0 (j + 1)
  have a3 := beforeVector_passCnt_bounds c P vecs s (j + 1) (signTestVectorCount vecs - (j + 1))
  have e1 : j + 1 + (signTestVectorCount vecs - (j + 1)) = signTestVectorCount vecs := by omega
  rw [e1] at a3
  rw [Nat.zero_add] at a1 a2
  have z := beforeVector_zero c P vecs s
  have b0 := before_passCnt_bounds c P vecs s j 0 i
  have b1 := before_passCnt_bounds c P vecs s j (i + 1) (5 - (i + 1))
  have e2 : i + 1 + (5 - (i + 1)) = 5 := by omega
  rw [e2] at b1
  rw [Nat.zero_add] at b0
  have s1 := subcase_steps c P vecs s j i
  have v1 := (beforeVector_passCnt_step c P vecs s j).1
  have v0 := (beforeVector_passCnt_step c P vecs s j).2
  rw [h5] at v1
  have hc : ((signTestVectorCount vecs - (j + 1) : Nat) : Int)
      = (signTestVectorCount vecs : Int) - (j + 1) := by
    rw [Nat.cast_sub (by omega)]; push_cast; rfl
  have hi5 : ((5 - (i + 1) : Nat) : Int) = 5 - ((i : Int) + 1) := by
    rw [Nat.cast_sub (by omega)]; push_cast; rfl
  rw [hc] at a3
  rw [hi5] at b1
  push_cast at a1 a2 a3 b0 b1
  omega

end psaSignVerify
end Psa

namespace Psa
namespace psaSignVerify
variable {σ : Type}

theorem preDestroy_ite (b : Prop) [Decidable b] (st : psa_status_t) :
    PreDestroy (if b then [Call.destroy_key PSA_KEY_ID_USER_MIN st] else []) := by
  unfold PreDestroy
  split_ifs
  · exact Or.inr ⟨st, rfl⟩
  · exact Or.inl rfl

theorem signMessage_counted (P : Provider σ) (vecs : List ecdsaTestCase) (p l j : Nat)
    (w : World σ) (h : (signMessage P vecs p l j w).passCnt = w.passCnt + 1) :
    CleanSignMessage vecs j w.calls (signMessage P vecs p l j w).calls := by
  obtain ⟨h1, x, sg, ds, w2, hv, hc, hx, hs, hd⟩ := signMessage_counted_aux P vecs p l j w h
  obtain ⟨a, d, himp, -⟩ := signMessage_import_shape P vecs p l j w
  obtain ⟨a2, d2, hvimp, -⟩ := verifyMessage_import_shape P j vecs
    (PSA_KEY_LIFETIME_FROM_PERSISTENCE_AND_LOCATION p l) w2
  refine ⟨_, a, d, (signMessage_import P vecs p l j w).1.2, x, sg, _, a2, d2,
    (verifyMessage_import P j vecs (PSA_KEY_LIFETIME_FROM_PERSISTENCE_AND_LOCATION p l) w2).1.1,
    (verifyMessage_import P j vecs (PSA_KEY_LIFETIME_FROM_PERSISTENCE_AND_LOCATION p l) w2).1.2,
    readBytes w2.sign_output 0 sg.length,
    preDestroy_ite
      (PSA_KEY_LIFETIME_GET_PERSISTENCE (PSA_KEY_LIFETIME_FROM_PERSISTENCE_AND_LOCATION p l)
        ≠ PSA_KEY_PERSISTENCE_VOLATILE) (P.psa_destroy_key PSA_KEY_ID_USER_MIN w.prov).1,
    preDestroy_ite
      (PSA_KEY_LIFETIME_GET_PERSISTENCE (PSA_KEY_LIFETIME_FROM_PERSISTENCE_AND_LOCATION p l)
        ≠ PSA_KEY_PERSISTENCE_VOLATILE) (P.psa_destroy_key PSA_KEY_ID_USER_MIN w2.prov).1,
    hx, hs, ?_⟩
  rw [hv, hvimp, hc, himp, h1, hd]
  simp only [List.append_assoc, List.cons_append, List.nil_append, List.singleton_append]

theorem signHash_counted_aux (P : Provider σ) (vecs : List ecdsaTestCase) (p l j : Nat)
    (w : World σ) (h : (signHash P vecs p l j w).passCnt = w.passCnt + 1) :
    (vecs.getD j default).alg ≠ PSA_ALG_PURE_EDDSA ∧
    (signHash_import P vecs p l j w).1.1 = PSA_SUCCESS ∧
    ∃ (sg : Output) (ds : psa_status_t) (w2 : World σ),
      (signHash P vecs p l j w).calls =
        (verifyHash_import P j vecs (PSA_KEY_LIFETIME_FROM_PERSISTENCE_AND_LOCATION p l) w2).2.calls ++
        (if (verifyHash_import P j vecs (PSA_KEY_LIFETIME_FROM_PERSISTENCE_AND_LOCATION p l)
              w2).1.1 = PSA_SUCCESS then
          [Call.verify_hash
             (verifyHash_import P j vecs (PSA_KEY_LIFETIME_FROM_PERSISTENCE_AND_LOCATION p l)
               w2).1.2 (vecs.getD j default).alg
             (readBytes (vecs.getD j default).hash 0
               (PSA_HASH_LENGTH (PSA_ALG_SIGN_GET_HASH (vecs.getD j default).alg)))
             (readBytes w2.sign_output 0 sg.length) PSA_SUCCESS,
           Call.destroy_key
             (verifyHash_import P j vecs (PSA_KEY_LIFETIME_FROM_PERSISTENCE_AND_LOCATION p l)
               w2).1.2 PSA_SUCCESS]
         else []) ∧
      w2.calls = (signHash_import P vecs p l j w).2.calls ++
        [Call.sign_hash (signHash_import P vecs p l j w).1.2 (vecs.getD j default).alg
           (readBytes (vecs.getD j default).hash 0
             (PSA_HASH_LENGTH (PSA_ALG_SIGN_GET_HASH (vecs.getD j default).alg)))
           SIGNATURE_SIZE sg,
         Call.destroy_key (signHash_import P vecs p l j w).1.2 ds] ∧
      sg.status = PSA_SUCCESS ∧ ds = PSA_SUCCESS := by
  have hi := signHash_import_passCnt P vecs p l j w
  unfold signHash at h ⊢
  simp only [psa_sign_hash, psa_destroy_key, printByteArray] at h ⊢
  split_ifs at h ⊢ <;>
    first
    | contradiction
    | omega
    | (simp only [Display_printf_passCnt, hi] at h; omega)
    | (have hv := le_trans (le_of_eq h.symm) (verifyHash_passCnt_le P _ _ _ _ _ _).1
       simp only [Display_printf_passCnt, hi] at hv
       omega)
    | (simp only [ne_eq, Decidable.not_not] at *
       refine ⟨by assumption, by assumption, ?sg, ?ds, ?w2, ?hv, ?hc, ?hs, ?hd⟩
       case hv =>
         refine verifyHash_counted P j vecs _ _ _ _ ?_
         rw [h]
         simp only [Display_printf_passCnt, hi]
       case hc => exact append_two _ _ _
       case hs => assumption
       case hd => assumption)

theorem signHash_counted (P : Provider σ) (vecs : List ecdsaTestCase) (p l j : Nat)
    (w : World σ) (h : (signHash P vecs p l j w).passCnt = w.passCnt + 1) :
    (vecs.getD j default).alg ≠ PSA_ALG_PURE_EDDSA ∧
    CleanSignHash vecs j w.calls (signHash P vecs p l j w).calls := by
  obtain ⟨halg, h1, sg, ds, w2, hv, hc, hs, hd⟩ := signHash_counted_aux P vecs p l j w h
  obtain ⟨a, d, himp, -⟩ := signHash_import_shape P vecs p l j w
  obtain ⟨a2, d2, hvimp, -⟩ := verifyHash_import_shape P j vecs
    (PSA_KEY_LIFETIME_FROM_PERSISTENCE_AND_LOCATION p l) w2
  refine ⟨halg, _, a, d, (signHash_import P vecs p l j w).1.2, sg, _, a2, d2,
    (verifyHash_import P j vecs (PSA_KEY_LIFETIME_FROM_PERSISTENCE_AND_LOCATION p l) w2).1.1,
    (verifyHash_import P j vecs (PSA_KEY_LIFETIME_FROM_PERSISTENCE_AND_LOCATION p l) w2).1.2,
    readBytes w2.sign_output 0 sg.length,
    preDestroy_ite
      (PSA_KEY_LIFETIME_GET_PERSISTENCE (PSA_KEY_LIFETIME_FROM_PERSISTENCE_AND_LOCATION p l)
        ≠ PSA_KEY_PERSISTENCE_VOLATILE) (P.psa_destroy_key PSA_KEY_ID_USER_MIN w.prov).1,
    preDestroy_ite
      (PSA_KEY_LIFETIME_GET_PERSISTENCE (PSA_KEY_LIFETIME_FROM_PERSISTENCE_AND_LOCATION p l)
        ≠ PSA_KEY_PERSISTENCE_VOLATILE) (P.psa_destroy_key PSA_KEY_ID_USER_MIN w2.prov).1,
    hs, ?_⟩
  rw [hv, hvimp, hc, himp, h1, hd]
  simp only [List.append_assoc, List.cons_append, List.nil_append, List.singleton_append]

end psaSignVerify
end Psa

namespace Psa

theorem toSizeT_eq_iff_of_lt (x : Int) (n : Nat) (hlo : -(2 ^ 31 : Int) ≤ x) (hhi : x < 2 ^ 31)
    (hn : n < 2 ^ 31) : toSizeT x = n ↔ x = n := by
  unfold toSizeT
  omega

namespace psaSignVerify
variable {σ : Type}

theorem setupKeyID_led1 (P : Provider σ) (a : psa_key_attributes_t) (p : Nat) (w : World σ) :
    (setupKeyID P a p w).2.led1 = w.led1 := by
  unfold setupKeyID
  simp only [psa_destroy_key]
  split_ifs <;> rfl

theorem verifyMessage_led1 (P : Provider σ) (j : Nat) (vecs : List ecdsaTestCase)
    (sig : List Nat) (len : Nat) (lt : psa_key_lifetime_t) (w : World σ) :
    (verifyMessage P j vecs sig len lt w).led1 = w.led1 := by
  unfold verifyMessage verifyMessage_import
  simp only [psa_verify_message, psa_destroy_key, psa_import_key]
  split_ifs <;> simp only [Display_printf_led1, setupKeyID_led1]

theorem verifyHash_led1 (P : Provider σ) (j : Nat) (vecs : List ecdsaTestCase)
    (sig : List Nat) (len : Nat) (lt : psa_key_lifetime_t) (w : World σ) :
    (verifyHash P j vecs sig len lt w).led1 = w.led1 := by
  unfold verifyHash verifyHash_import
  simp only [psa_verify_hash, psa_destroy_key, psa_import_key]
  split_ifs <;> simp only [Display_printf_led1, setupKeyID_led1]

theorem signMessage_led1 (P : Provider σ) (vecs : List ecdsaTestCase) (p l j : Nat)
    (w : World σ) : (signMessage P vecs p l j w).led1 = w.led1 := by
  unfold signMessage signMessage_import
  simp only [psa_export_public_key, psa_sign_message, psa_destroy_key, psa_import_key,
    printByteArray]
  split_ifs <;> simp only [Display_printf_led1, setupKeyID_led1, verifyMessage_led1]

theorem signHash_led1 (P : Provider σ) (vecs : List ecdsaTestCase) (p l j : Nat)
    (w : World σ) : (signHash P vecs p l j w).led1 = w.led1 := by
  unfold signHash signHash_import
  simp only [psa_sign_hash, psa_destroy_key, psa_import_key, printByteArray]
  split_ifs <;> simp only [Display_printf_led1, setupKeyID_led1, verifyHash_led1]

theorem signVerifyThread_inner_for_led1 (c : HsmValues) (P : Provider σ)
    (vecs : List ecdsaTestCase) (j n : Nat) (w : World σ) :
    (signVerifyThread_inner_for c P vecs j n w).led1 = w.led1 := by
  induction n with
  | zero => rfl
  | succ n ih =>
    show (signVerifyThread_inner c P vecs j n (signVerifyThread_inner_for c P vecs j n w)).led1 = _
    unfold signVerifyThread_inner
    simp only [signHash_led1, signMessage_led1]
    exact ih

theorem signVerifyThread_for_led1 (c : HsmValues) (P : Provider σ) (vecs : List ecdsaTestCase)
    (n : Nat) (w : World σ) : (signVerifyThread_for c P vecs n w).led1 = w.led1 := by
  induction n with
  | zero => rfl
  | succ n ih =>
    show (signVerifyThread_loop c P vecs n (signVerifyThread_for c P vecs n w)).led1 = _
    unfold signVerifyThread_loop
    simp only [signVerifyThread_inner_for_led1]
    exact ih

theorem signVerifyThread_led1 (c : HsmValues) (P : Provider σ) (vecs : List ecdsaTestCase)
    (s : σ) :
    (signVerifyThread c P vecs s).led1 = true ↔
      toSizeT (beforeVector c P vecs s (signTestVectorCount vecs)).passCnt
        = EXPECTED_PASS_CNT vecs := by
  have hl := signVerifyThread_for_led1 c P vecs (signTestVectorCount vecs) (World.start s)
  have hs : (World.start s).led1 = false := rfl
  rw [hs] at hl
  unfold signVerifyThread
  simp only [beforeVector_passCnt]
  split_ifs with h
  · simp [h]
  · simp [h, hl]

theorem signTestVectorCount_lt (vecs : List ecdsaTestCase) : signTestVectorCount vecs < 256 := by
  unfold signTestVectorCount
  omega

theorem EXPECTED_PASS_CNT_eq (vecs : List ecdsaTestCase) :
    EXPECTED_PASS_CNT vecs = 10 * signTestVectorCount vecs := by
  have h := signTestVectorCount_lt vecs
  unfold EXPECTED_PASS_CNT lifetimeCnt
  omega

theorem signVerifyThread_led1_iff (c : HsmValues) (P : Provider σ) (vecs : List ecdsaTestCase)
    (s : σ) :
    (signVerifyThread c P vecs s).led1 = true ↔
      (beforeVector c P vecs s (signTestVectorCount vecs)).passCnt
        = 10 * (signTestVectorCount vecs : Int) := by
  rw [signVerifyThread_led1, EXPECTED_PASS_CNT_eq]
  have h := signTestVectorCount_lt vecs
  have b := beforeVector_passCnt_bounds c P vecs s 0 (signTestVectorCount vecs)
  rw [Nat.zero_add, beforeVector_zero] at b
  rw [toSizeT_eq_iff_of_lt _ _ (by omega) (by omega) (by omega)]
  push_cast
  rfl

end psaSignVerify

/-- C24: in a run of `signVerifyThread`, when `signMessage` is entered for vector
`j` and lifetime index `i`, `passCnt` is at most the number `2 * (lifetimeCnt * j + i)`
of sign sub-cases started before, when the `signHash` of the same lifetime is
entered at most one more, and at the end at most
`2 * lifetimeCnt * signTestVectorCount` (and at least `-20 * signTestVectorCount`).
LED1 is on exactly when `passCnt` ends equal to
`2 * lifetimeCnt * signTestVectorCount`.  If LED1 is on, the log of every
`signMessage` and of every `signHash` has the shape `CleanSignMessage` /
`CleanSignHash`: the private key was imported, `psa_export_public_key` and the
signing call returned `PSA_SUCCESS`, the private key was destroyed with
`PSA_SUCCESS`, and if the public key was imported, the verify call and the
destroy of the public key returned `PSA_SUCCESS`. -/
theorem led1_on_iff_every_sign_subcase_counted {σ : Type} (c : HsmValues) (P : Provider σ)
    (vecs : List psaSignVerify.ecdsaTestCase) (s : σ) :
    (∀ j i, j < psaSignVerify.signTestVectorCount vecs → i < psaSignVerify.lifetimeCnt →
      (psaSignVerify.before c P vecs s j i).passCnt
        ≤ 2 * ((psaSignVerify.lifetimeCnt * j + i : Nat) : Int) ∧
      (psaSignVerify.beforeHash c P vecs s j i).passCnt
        ≤ 2 * ((psaSignVerify.lifetimeCnt * j + i : Nat) : Int) + 1) ∧
    (psaSignVerify.signVerifyThread c P vecs s).passCnt
      ≤ ((2 * psaSignVerify.lifetimeCnt * psaSignVerify.signTestVectorCount vecs : Nat) : Int) ∧
    -20 * (psaSignVerify.signTestVectorCount vecs : Int)
      ≤ (psaSignVerify.signVerifyThread c P vecs s).passCnt ∧
    ((psaSignVerify.signVerifyThread c P vecs s).led1 = true ↔
      (psaSignVerify.signVerifyThread c P vecs s).passCnt
        = ((2 * psaSignVerify.lifetimeCnt * psaSignVerify.signTestVectorCount vecs : Nat) : Int)) ∧
    ((psaSignVerify.signVerifyThread c P vecs s).led1 = true →
      ∀ j i, j < psaSignVerify.signTestVectorCount vecs → i < psaSignVerify.lifetimeCnt →
        psaSignVerify.CleanSignMessage vecs j (psaSignVerify.before c P vecs s j i).calls
          (psaSignVerify.beforeHash c P vecs s j i).calls ∧
        psaSignVerify.CleanSignHash vecs j (psaSignVerify.beforeHash c P vecs s j i).calls
          (psaSignVerify.signVerifyThread_inner_for c P vecs j (i + 1)
            (psaSignVerify.beforeVector c P vecs s j)).calls) := by
  have h5 : psaSignVerify.lifetimeCnt = 5 := rfl
  have hp := psaSignVerify.signVerifyThread_passCnt c P vecs s
  have hb := psaSignVerify.beforeVector_passCnt_bounds c P vecs s 0
    (psaSignVerify.signTestVectorCount vecs)
  rw [Nat.zero_add, psaSignVerify.beforeVector_zero] at hb
  refine ⟨?_, ?_, ?_, ?_, ?_⟩
  · intro j i hj hi
    have a1 := psaSignVerify.beforeVector_passCnt_bounds c P vecs s 0 j
    rw [Nat.zero_add, psaSignVerify.beforeVector_zero] at a1
    have b0 := psaSignVerify.before_passCnt_bounds c P vecs s j 0 i
    rw [Nat.zero_add] at b0
    have v0 := (psaSignVerify.beforeVector_passCnt_step c P vecs s j).2
    have s1 := psaSignVerify.subcase_steps c P vecs s j i
    rw [h5]
    push_cast
    omega
  · rw [hp, h5]; push_cast; omega
  · rw [hp]; omega
  · rw [psaSignVerify.signVerifyThread_led1_iff, hp, h5]
    push_cast
    constructor <;> intro h <;> omega
  · intro hled j i hj hi
    have hall := psaSignVerify.passCnt_exact c P vecs s
      ((psaSignVerify.signVerifyThread_led1_iff c P vecs s).mp hled) j i hj hi
    refine ⟨psaSignVerify.signMessage_counted P vecs _ _ j _ ?_, ?_⟩
    · show (psaSignVerify.beforeHash c P vecs s j i).passCnt = _
      omega
    · rw [psaSignVerify.beforeHash_succ]
      refine (psaSignVerify.signHash_counted P vecs _ _ j _ ?_).2
      have e := psaSignVerify.before_passCnt c P vecs s j (i + 1)
      rw [psaSignVerify.beforeHash_succ] at e
      rw [← e]
      omega

set_option maxRecDepth 100000 in
/-- C24: with the reference provider and the shipped vector table the run ends
with `passCnt = 10` and LED1 on, and the log of the first `signMessage` has the
shape of a counted sub-case. -/
theorem led1_on_iff_every_sign_subcase_counted_witness :
    (psaSignVerify.signVerifyThread sampleHsm referenceProvider psaSignVerify.signTestVectors
      KeyStore.empty).led1 = true ∧
    (psaSignVerify.signVerifyThread sampleHsm referenceProvider psaSignVerify.signTestVectors
      KeyStore.empty).passCnt = 10 ∧
    psaSignVerify.CleanSignMessage psaSignVerify.signTestVectors 0
      (psaSignVerify.before sampleHsm referenceProvider psaSignVerify.signTestVectors
        KeyStore.empty 0 0).calls
      (psaSignVerify.beforeHash sampleHsm referenceProvider psaSignVerify.signTestVectors
        KeyStore.empty 0 0).calls :=
  ⟨by decide, by decide,
    ((led1_on_iff_every_sign_subcase_counted sampleHsm referenceProvider
      psaSignVerify.signTestVectors KeyStore.empty).2.2.2.2 (by decide) 0 0 (by decide)
      (by decide)).1⟩

end Psa

namespace Psa

theorem lifetime_roundTrip (lt : Nat) :
    PSA_KEY_LIFETIME_FROM_PERSISTENCE_AND_LOCATION (PSA_KEY_LIFETIME_GET_PERSISTENCE lt)
      (PSA_KEY_LIFETIME_GET_LOCATION lt) = lt := by
  unfold PSA_KEY_LIFETIME_FROM_PERSISTENCE_AND_LOCATION PSA_KEY_LIFETIME_GET_PERSISTENCE
    PSA_KEY_LIFETIME_GET_LOCATION
  apply Nat.eq_of_testBit_eq
  intro i
  have h255 : (0x000000ff : Nat) = 2 ^ 8 - 1 := by norm_num
  rw [h255]
  simp only [Nat.testBit_or, Nat.testBit_shiftLeft, Nat.testBit_shiftRight, Nat.testBit_and,
    Nat.testBit_two_pow_sub_one]
  by_cases h : i < 8
  · simp [h, Nat.not_le.mpr h]
  · have h8 : 8 ≤ i := Nat.le_of_not_lt h
    simp [h, h8, Nat.add_sub_cancel' h8]

theorem lifetime_decode (p l : Nat) (hp : p < 256) :
    PSA_KEY_LIFETIME_GET_PERSISTENCE (PSA_KEY_LIFETIME_FROM_PERSISTENCE_AND_LOCATION p l) = p ∧
    PSA_KEY_LIFETIME_GET_LOCATION (PSA_KEY_LIFETIME_FROM_PERSISTENCE_AND_LOCATION p l) = l := by
  unfold PSA_KEY_LIFETIME_FROM_PERSISTENCE_AND_LOCATION PSA_KEY_LIFETIME_GET_PERSISTENCE
    PSA_KEY_LIFETIME_GET_LOCATION
  have h255 : (0x000000ff : Nat) = 2 ^ 8 - 1 := by norm_num
  have hor : l <<< 8 ||| p = 2 ^ 8 * l + p := by
    rw [Nat.shiftLeft_eq, Nat.mul_comm]
    exact (Nat.mul_add_lt_is_or (by simpa using hp) l).symm
  rw [hor, h255, Nat.and_pow_two_sub_one_eq_mod, Nat.shiftRight_eq_div_pow]
  constructor <;> omega

theorem lifetime_lt (p l : Nat) (hp : p < 256) (hl : l < 2 ^ 24) :
    PSA_KEY_LIFETIME_FROM_PERSISTENCE_AND_LOCATION p l < 2 ^ 32 := by
  unfold PSA_KEY_LIFETIME_FROM_PERSISTENCE_AND_LOCATION
  have hor : l <<< 8 ||| p = 2 ^ 8 * l + p := by
    rw [Nat.shiftLeft_eq, Nat.mul_comm]
    exact (Nat.mul_add_lt_is_or (by simpa using hp) l).symm
  show (l <<< 8 ||| p : Nat) < 2 ^ 32
  rw [hor]
  omega

end Psa

namespace Psa

theorem importedLifetimes_append (a b : List Call) :
    importedLifetimes (a ++ b) = importedLifetimes a ++ importedLifetimes b := by
  unfold importedLifetimes
  exact List.filterMap_append _ _ _

theorem signMessageLifetimes_append (a b : List Call) :
    signMessageLifetimes (a ++ b) = signMessageLifetimes a ++ signMessageLifetimes b := by
  unfold signMessageLifetimes
  exact List.filterMap_append _ _ _

theorem importedLifetimes_nil : importedLifetimes [] = [] := rfl

theorem importedLifetimes_cons (x : Call) (l : List Call) :
    importedLifetimes (x :: l) =
      (match x with
        | Call.import_key attributes _ _ _ => [attributes.lifetime]
        | _ => []) ++ importedLifetimes l := by
  cases x <;> rfl

theorem signMessageLifetimes_nil : signMessageLifetimes [] = [] := rfl

theorem signMessageLifetimes_cons (x : Call) (l : List Call) :
    signMessageLifetimes (x :: l) =
      (match x with
        | Call.import_key attributes _ _ _ =>
          if attributes.usage &&& PSA_KEY_USAGE_SIGN_MESSAGE ≠ 0 then [attributes.lifetime] else []
        | _ => []) ++ signMessageLifetimes l := by
  cases x with
  | import_key a d st k =>
    show (signMessageLifetimes ([Call.import_key a d st k] ++ l)) = _
    rw [signMessageLifetimes_append]
    by_cases h : a.usage &&& PSA_KEY_USAGE_SIGN_MESSAGE = 0 <;> simp [signMessageLifetimes, h]
  | _ => rfl

theorem range_map_lifetimes (l : List Nat) (k : Nat) (hk : k ≤ l.length) :
    (List.range k).map (fun i => l.getD i 0) = l.take k := by
  induction k with
  | zero => simp
  | succ k ih =>
    have hk2 : k < l.length := hk
    rw [List.range_succ, List.map_append, ih (Nat.le_of_lt hk2), List.take_succ]
    simp [List.getD_eq_getElem?_getD, List.getElem?_eq_getElem hk2]

namespace psaAeadEncrypt
variable {σ : Type}

theorem encryptThread_loop_importedLifetimes (c : HsmValues) (P : Provider σ) (i : Nat)
    (w : World σ) :
    importedLifetimes (encryptThread_loop c P i w).calls =
      importedLifetimes w.calls ++ [(lifetimes c).getD i 0] := by
  obtain ⟨a, d, himp, hlt, -⟩ := encryptThread_import_shape c P i w
  have hi : importedLifetimes (encryptThread_import c P i w).2.calls =
      importedLifetimes w.calls ++ [(lifetimes c).getD i 0] := by
    rw [himp]
    simp only [importedLifetimes_append]
    split_ifs <;> simp [importedLifetimes_cons, importedLifetimes_nil, hlt]
  by_cases h : (encryptThread_import c P i w).1.1 = PSA_SUCCESS
  · obtain ⟨gs, ds, hl⟩ := encryptThread_loop_calls_ok c P i w h
    rw [hl, importedLifetimes_append, hi]
    simp [importedLifetimes_cons, importedLifetimes_nil]
  · rw [(encryptThread_loop_import_failed c P i w h).1, importedLifetimes_append, hi]
    split_ifs <;> simp [importedLifetimes_cons, importedLifetimes_nil]

theorem aead_before_importedLifetimes (c : HsmValues) (P : Provider σ) (s : σ) (n : Nat) :
    importedLifetimes (before c P s n).calls = (List.range n).map (fun i => (lifetimes c).getD i 0) := by
  induction n with
  | zero => rfl
  | succ n ih =>
    have h1 : before c P s (n + 1) = encryptThread_loop c P n (before c P s n) := rfl
    rw [h1, encryptThread_loop_importedLifetimes, ih, List.range_succ, List.map_append]
    rfl

theorem encryptThread_importedLifetimes (c : HsmValues) (P : Provider σ) (s : σ) :
    importedLifetimes (encryptThread c P s).calls = lifetimes c := by
  rw [encryptThread_calls, aead_before_importedLifetimes]
  rfl

end psaAeadEncrypt

namespace psaRawKeyAgreement
variable {σ : Type}

theorem keyAgreementThread_loop_importedLifetimes (c : HsmValues) (P : Provider σ) (i : Nat)
    (w : World σ) :
    importedLifetimes (keyAgreementThread_loop c P i w).calls =
      importedLifetimes w.calls ++ [(lifetimes c).getD i 0] := by
  obtain ⟨a, d, himp, hlt, -⟩ := keyAgreementThread_import_shape c P i w
  have hi : importedLifetimes (keyAgreementThread_import c P i w).2.calls =
      importedLifetimes w.calls ++ [(lifetimes c).getD i 0] := by
    rw [himp]
    simp only [importedLifetimes_append]
    split_ifs <;> simp [importedLifetimes_cons, importedLifetimes_nil, hlt]
  by_cases h : (keyAgreementThread_import c P i w).1.1 = PSA_SUCCESS
  · obtain ⟨gs, ds, hl⟩ := keyAgreementThread_loop_calls_ok c P i w h
    rw [hl, importedLifetimes_append, hi]
    simp [importedLifetimes_cons, importedLifetimes_nil]
  · rw [(keyAgreementThread_loop_import_failed c P i w h).1, importedLifetimes_append, hi]
    split_ifs <;> simp [importedLifetimes_cons, importedLifetimes_nil]

theorem ka_before_importedLifetimes (c : HsmValues) (P : Provider σ) (s : σ) (n : Nat) :
    importedLifetimes (before c P s n).calls = (List.range n).map (fun i => (lifetimes c).getD i 0) := by
  induction n with
  | zero => rfl
  | succ n ih =>
    have h1 : before c P s (n + 1) = keyAgreementThread_loop c P n (before c P s n) := rfl
    rw [h1, keyAgreementThread_loop_importedLifetimes, ih, List.range_succ, List.map_append]
    rfl

theorem keyAgreementThread_importedLifetimes (c : HsmValues) (P : Provider σ) (s : σ) :
    importedLifetimes (keyAgreementThread c P s).calls = lifetimes c := by
  rw [keyAgreementThread_calls, ka_before_importedLifetimes]
  rfl

end psaRawKeyAgreement

namespace psaKeyDerivation
variable {σ : Type}

theorem setupKeyDerivation_importedLifetimes (c : HsmValues) (P : Provider σ) (alg k : Nat)
    (w : World σ) :
    importedLifetimes (setupKeyDerivation c P alg k w).2.calls = importedLifetimes w.calls := by
  unfold setupKeyDerivation
  simp only [psa_key_derivation_setup, psa_key_derivation_input_key,
    psa_key_derivation_input_bytes, psa_key_derivation_get_capacity]
  split_ifs <;> simp [importedLifetimes_append, importedLifetimes_cons, importedLifetimes_nil]

theorem derivationThread_setup_importedLifetimes (c : HsmValues) (P : Provider σ) (k : Nat)
    (w : World σ) :
    importedLifetimes (derivationThread_setup c P k w).2.calls = importedLifetimes w.calls := by
  unfold derivationThread_setup
  rw [setupKeyDerivation_importedLifetimes]
  simp only [psa_get_key_attributes]
  split_ifs <;> simp [importedLifetimes_append, importedLifetimes_cons, importedLifetimes_nil]

theorem derivationThread_capacity_importedLifetimes (P : Provider σ) (w : World σ) :
    importedLifetimes (derivationThread_capacity P w).2.calls = importedLifetimes w.calls := by
  obtain ⟨s1, h⟩ := derivationThread_capacity_calls P w
  rw [h]
  simp [importedLifetimes_append, importedLifetimes_cons, importedLifetimes_nil]

theorem derivationThread_roundTrip_importedLifetimes (P : Provider σ) (k : Nat) (w : World σ) :
    importedLifetimes (derivationThread_roundTrip P k w).1.calls = importedLifetimes w.calls := by
  unfold derivationThread_roundTrip
  simp only [psa_cipher_encrypt, psa_cipher_decrypt]
  split_ifs <;>
    simp [kd_printByteArray_calls, derivationThread_compare_calls, importedLifetimes_append,
      importedLifetimes]

theorem remainingCapacity_importedLifetimes (P : Provider σ) (i j : Nat) (st : State σ) :
    importedLifetimes (derived P i j st).2.calls = importedLifetimes st.w.calls ∧
    importedLifetimes (derivedAttributes P i j st).2.calls = importedLifetimes st.w.calls ∧
    importedLifetimes (remainingCapacity P i j st).2.calls = importedLifetimes st.w.calls := by
  refine ⟨?_, ?_, ?_⟩ <;>
    simp [remainingCapacity, derivedAttributes, derived, psa_key_derivation_get_capacity,
      psa_get_key_attributes, psa_key_derivation_output_key, importedLifetimes_append,
      importedLifetimes_cons, importedLifetimes_nil]

theorem derivationThread_inner_importedLifetimes (P : Provider σ) (i j : Nat) (st : State σ) :
    importedLifetimes (derivationThread_inner P i j st).w.calls = importedLifetimes st.w.calls := by
  have h := remainingCapacity_importedLifetimes P i j st
  unfold derivationThread_inner
  simp only []
  split_ifs <;>
    simp [psa_destroy_key, derivationThread_roundTrip_importedLifetimes, importedLifetimes_append,
      importedLifetimes_cons, importedLifetimes_nil, h]

theorem derivationThread_inner_for_importedLifetimes (P : Provider σ) (i n : Nat) (st : State σ) :
    importedLifetimes (derivationThread_inner_for P i n st).w.calls = importedLifetimes st.w.calls := by
  induction n with
  | zero => rfl
  | succ n ih =>
    simp only [derivationThread_inner_for]
    split_ifs
    · exact ih
    · rw [derivationThread_inner_importedLifetimes, ih]

theorem derivationThread_import_importedLifetimes (c : HsmValues) (P : Provider σ) (i : Nat)
    (w : World σ) :
    importedLifetimes (derivationThread_import c P i w).2.calls =
      importedLifetimes w.calls ++ [(lifetimes c).getD i 0] := by
  obtain ⟨a, d, himp, hlt, -⟩ := derivationThread_import_shape c P i w
  rw [himp]
  simp only [importedLifetimes_append]
  split_ifs <;> simp [importedLifetimes_cons, importedLifetimes_nil, hlt]

theorem derivationThread_prepare_importedLifetimes (c : HsmValues) (P : Provider σ) (i : Nat)
    (st : State σ) :
    importedLifetimes (derivationThread_prepare c P i st).state.w.calls =
      importedLifetimes st.w.calls ++ [(lifetimes c).getD i 0] := by
  have hi := derivationThread_import_importedLifetimes c P i st.w
  unfold derivationThread_prepare
  simp only []
  split_ifs <;>
    simp [Prepared.state, derivationThread_setup_importedLifetimes,
      derivationThread_capacity_importedLifetimes, hi]

theorem derivationThread_loop_importedLifetimes (c : HsmValues) (P : Provider σ) (i : Nat)
    (st : State σ) :
    importedLifetimes (derivationThread_loop c P i st).w.calls =
      importedLifetimes st.w.calls ++ [(lifetimes c).getD i 0] := by
  have hp := derivationThread_prepare_importedLifetimes c P i st
  unfold derivationThread_loop
  cases hprep : derivationThread_prepare c P i st with
  | skipped st2 => rw [hprep] at hp; exact hp
  | returned st2 => rw [hprep] at hp; exact hp
  | ready k st2 =>
    rw [hprep] at hp
    simp only [Prepared.state] at hp
    simp only []
    have hi := derivationThread_inner_for_importedLifetimes P i KEY_DERIVATION_LOOP_CNT st2
    split_ifs <;>
      simp [psa_destroy_key, importedLifetimes_append, importedLifetimes_cons,
        importedLifetimes_nil, hi, hp]

theorem kd_before_importedLifetimes (c : HsmValues) (P : Provider σ) (s : σ) (n : Nat) :
    ∃ k, k ≤ n ∧
      importedLifetimes (before c P s n).w.calls =
        (List.range k).map (fun i => (lifetimes c).getD i 0) ∧
      ((before c P s n).returned = false → k = n) := by
  induction n with
  | zero => exact ⟨0, Nat.le_refl 0, rfl, fun _ => rfl⟩
  | succ n ih =>
    obtain ⟨k, hk, hl, hr⟩ := ih
    have h1 : before c P s (n + 1) =
        if (before c P s n).returned then before c P s n
        else derivationThread_loop c P n (before c P s n) := rfl
    rw [h1]
    by_cases hret : (before c P s n).returned = true
    · simp only [hret, if_true]
      exact ⟨k, Nat.le_succ_of_le hk, hl, fun h => absurd h (by decide)⟩
    · simp only [hret, if_false, Bool.false_eq_true]
      have hkn : k = n := hr (by simpa using hret)
      refine ⟨n + 1, Nat.le_refl _, ?_, fun _ => rfl⟩
      rw [derivationThread_loop_importedLifetimes, hl, hkn, List.range_succ, List.map_append]
      rfl

end psaKeyDerivation

namespace psaSignVerify
variable {σ : Type}

theorem setupKeyID_signMessageLifetimes (P : Provider σ) (a : psa_key_attributes_t) (p : Nat)
    (w : World σ) :
    signMessageLifetimes (setupKeyID P a p w).2.calls = signMessageLifetimes w.calls ∧
    (setupKeyID P a p w).1.usage = a.usage ∧ (setupKeyID P a p w).1.lifetime = a.lifetime := by
  unfold setupKeyID
  simp only [psa_destroy_key]
  split_ifs <;> simp [signMessageLifetimes_append, signMessageLifetimes_cons, signMessageLifetimes_nil]

theorem verifyMessage_signMessageLifetimes (P : Provider σ) (j : Nat) (vecs : List ecdsaTestCase)
    (sig : List Nat) (len : Nat) (lt : psa_key_lifetime_t) (w : World σ) :
    signMessageLifetimes (verifyMessage P j vecs sig len lt w).calls = signMessageLifetimes w.calls := by
  have hk := fun a p => setupKeyID_signMessageLifetimes P a p w
  unfold verifyMessage verifyMessage_import
  simp only [psa_verify_message, psa_destroy_key, psa_import_key]
  split_ifs <;>
    simp [signMessageLifetimes_append, hk] <;>
    simp [signMessageLifetimes_cons, signMessageLifetimes_nil, hk, setKeyAttributes, PSA_KEY_USAGE_VERIFY_MESSAGE,
      PSA_KEY_USAGE_SIGN_MESSAGE, (by decide : (2048 &&& 1024 : Nat) = 0),
      (by decide : (8192 &&& 1024 : Nat) = 0)]

theorem verifyHash_signMessageLifetimes (P : Provider σ) (j : Nat) (vecs : List ecdsaTestCase)
    (sig : List Nat) (len : Nat) (lt : psa_key_lifetime_t) (w : World σ) :
    signMessageLifetimes (verifyHash P j vecs sig len lt w).calls = signMessageLifetimes w.calls := by
  have hk := fun a p => setupKeyID_signMessageLifetimes P a p w
  unfold verifyHash verifyHash_import
  simp only [psa_verify_hash, psa_destroy_key, psa_import_key]
  split_ifs <;>
    simp [signMessageLifetimes_append, hk] <;>
    simp [signMessageLifetimes_cons, signMessageLifetimes_nil, hk, setKeyAttributes, PSA_KEY_USAGE_VERIFY_HASH,
      PSA_KEY_USAGE_SIGN_MESSAGE, (by decide : (2048 &&& 1024 : Nat) = 0),
      (by decide : (8192 &&& 1024 : Nat) = 0)]

theorem signMessage_import_signMessageLifetimes (P : Provider σ) (vecs : List ecdsaTestCase)
    (p l j : Nat) (w : World σ) :
    signMessageLifetimes (signMessage_import P vecs p l j w).2.calls =
      signMessageLifetimes w.calls ++ [PSA_KEY_LIFETIME_FROM_PERSISTENCE_AND_LOCATION p l] := by
  have hk := fun a p => setupKeyID_signMessageLifetimes P a p w
  unfold signMessage_import
  simp only [psa_import_key]
  simp only [signMessageLifetimes_append, hk]
  have h1 : (0x400 ||| 0x4000) &&& 0x400 = 0x400 := by decide
  split_ifs <;>
    simp [signMessageLifetimes_cons, signMessageLifetimes_nil, hk, setKeyAttributes, PSA_KEY_USAGE_SIGN_MESSAGE,
      PSA_KEY_USAGE_DERIVE, h1]

theorem signHash_import_signMessageLifetimes (P : Provider σ) (vecs : List ecdsaTestCase)
    (p l j : Nat) (w : World σ) :
    signMessageLifetimes (signHash_import P vecs p l j w).2.calls = signMessageLifetimes w.calls := by
  have hk := fun a p => setupKeyID_signMessageLifetimes P a p w
  unfold signHash_import
  simp only [psa_import_key]
  simp only [signMessageLifetimes_append, hk]
  simp [signMessageLifetimes_cons, signMessageLifetimes_nil, hk, setKeyAttributes, PSA_KEY_USAGE_SIGN_MESSAGE,
      PSA_KEY_USAGE_SIGN_HASH, (by decide : (4096 &&& 1024 : Nat) = 0)]

theorem signMessage_signMessageLifetimes (P : Provider σ) (vecs : List ecdsaTestCase)
    (p l j : Nat) (w : World σ) :
    signMessageLifetimes (signMessage P vecs p l j w).calls =
      signMessageLifetimes w.calls ++ [PSA_KEY_LIFETIME_FROM_PERSISTENCE_AND_LOCATION p l] := by
  have hi := signMessage_import_signMessageLifetimes P vecs p l j w
  unfold signMessage
  simp only [psa_export_public_key, psa_sign_message, psa_destroy_key, printByteArray]
  split_ifs <;>
    simp [verifyMessage_signMessageLifetimes, signMessageLifetimes_append, hi] <;>
    simp [signMessageLifetimes_cons, signMessageLifetimes_nil]

theorem signHash_signMessageLifetimes (P : Provider σ) (vecs : List ecdsaTestCase)
    (p l j : Nat) (w : World σ) :
    signMessageLifetimes (signHash P vecs p l j w).calls = signMessageLifetimes w.calls := by
  have hi := signHash_import_signMessageLifetimes P vecs p l j w
  unfold signHash
  simp only [psa_sign_hash, psa_destroy_key, printByteArray]
  split_ifs <;>
    simp [verifyHash_signMessageLifetimes, signMessageLifetimes_append, hi] <;>
    simp [signMessageLifetimes_cons, signMessageLifetimes_nil]

theorem signVerifyThread_inner_for_signMessageLifetimes (c : HsmValues) (P : Provider σ)
    (vecs : List ecdsaTestCase) (j n : Nat) (w : World σ) :
    signMessageLifetimes (signVerifyThread_inner_for c P vecs j n w).calls =
      signMessageLifetimes w.calls ++ (List.range n).map (fun i => (lifetimes c).getD i 0) := by
  induction n with
  | zero => simp [signVerifyThread_inner_for]
  | succ n ih =>
    show signMessageLifetimes
      (signVerifyThread_inner c P vecs j n (signVerifyThread_inner_for c P vecs j n w)).calls = _
    unfold signVerifyThread_inner
    simp only [signHash_signMessageLifetimes, signMessage_signMessageLifetimes,
      lifetime_roundTrip, sv_printKeyLifetime_calls, ih, List.range_succ, List.map_append,
      List.append_assoc]
    rfl

theorem signVerifyThread_loop_signMessageLifetimes (c : HsmValues) (P : Provider σ)
    (vecs : List ecdsaTestCase) (j : Nat) (w : World σ) :
    signMessageLifetimes (signVerifyThread_loop c P vecs j w).calls =
      signMessageLifetimes w.calls ++ lifetimes c := by
  unfold signVerifyThread_loop
  simp only [signVerifyThread_inner_for_signMessageLifetimes]
  rfl

end psaSignVerify
end Psa

namespace Psa

namespace psaSignVerify
variable {σ : Type}

theorem signVerifyThread_for_signMessageLifetimes (c : HsmValues) (P : Provider σ)
    (vecs : List ecdsaTestCase) (s : σ) (m : Nat) :
    signMessageLifetimes (signVerifyThread_for c P vecs m (World.start s)).calls =
      (List.replicate m (lifetimes c)).flatten := by
  induction m with
  | zero => rfl
  | succ m ih =>
    show signMessageLifetimes
      (signVerifyThread_loop c P vecs m (signVerifyThread_for c P vecs m (World.start s))).calls = _
    rw [signVerifyThread_loop_signMessageLifetimes, ih, List.replicate_succ', List.flatten_append]
    simp

end psaSignVerify

/-- C23 (amended): with an HSM persistence below 256 that is neither volatile nor
default and an HSM location below `2 ^ 24` that is not local storage, the four
examples have the same array `lifetimes` of five entries, which fit 32 bits and
decode with `PSA_KEY_LIFETIME_GET_PERSISTENCE` / `PSA_KEY_LIFETIME_GET_LOCATION`
to the five different pairs (volatile, local), (default, local), (volatile, HSM),
(default, HSM), (HSM, HSM); the pair (HSM persistence, local storage) is not among
them.  The lifetimes of the `psa_import_key` calls of `encryptThread` and of
`keyAgreementThread` are the array, in order; in `signVerifyThread` the lifetimes
of the private keys that `signMessage` imports are the array, in order, once for
every vector.  The lifetimes of the imports of `derivationThread` are the first
`k` entries of the array, in order, with `k = lifetimeCnt` if the thread did not
execute `return (NULL)`. -/
theorem lifetimes_whitelist_visited_in_order (c : HsmValues)
    (hp : c.PSA_KEY_PERSISTENCE_HSM_ASSET_STORE < 256)
    (hl24 : c.PSA_KEY_LOCATION_HSM_ASSET_STORE < 2 ^ 24)
    (hpv : c.PSA_KEY_PERSISTENCE_HSM_ASSET_STORE ≠ PSA_KEY_PERSISTENCE_VOLATILE)
    (hpd : c.PSA_KEY_PERSISTENCE_HSM_ASSET_STORE ≠ PSA_KEY_PERSISTENCE_DEFAULT)
    (hl : c.PSA_KEY_LOCATION_HSM_ASSET_STORE ≠ PSA_KEY_LOCATION_LOCAL_STORAGE) :
    (psaRawKeyAgreement.lifetimes c = psaAeadEncrypt.lifetimes c ∧
      psaKeyDerivation.lifetimes c = psaAeadEncrypt.lifetimes c ∧
      psaSignVerify.lifetimes c = psaAeadEncrypt.lifetimes c) ∧
    (psaAeadEncrypt.lifetimes c).length = 5 ∧
    (∀ lt ∈ psaAeadEncrypt.lifetimes c, lt < 2 ^ 32) ∧
    (psaAeadEncrypt.lifetimes c).map
        (fun lt => (PSA_KEY_LIFETIME_GET_PERSISTENCE lt, PSA_KEY_LIFETIME_GET_LOCATION lt))
      = [(PSA_KEY_PERSISTENCE_VOLATILE, PSA_KEY_LOCATION_LOCAL_STORAGE),
         (PSA_KEY_PERSISTENCE_DEFAULT, PSA_KEY_LOCATION_LOCAL_STORAGE),
         (PSA_KEY_PERSISTENCE_VOLATILE, c.PSA_KEY_LOCATION_HSM_ASSET_STORE),
         (PSA_KEY_PERSISTENCE_DEFAULT, c.PSA_KEY_LOCATION_HSM_ASSET_STORE),
         (c.PSA_KEY_PERSISTENCE_HSM_ASSET_STORE, c.PSA_KEY_LOCATION_HSM_ASSET_STORE)] ∧
    ((psaAeadEncrypt.lifetimes c).map
        (fun lt => (PSA_KEY_LIFETIME_GET_PERSISTENCE lt, PSA_KEY_LIFETIME_GET_LOCATION lt))).Nodup ∧
    (psaAeadEncrypt.lifetimes c).Nodup ∧
    (c.PSA_KEY_PERSISTENCE_HSM_ASSET_STORE, PSA_KEY_LOCATION_LOCAL_STORAGE) ∉
      (psaAeadEncrypt.lifetimes c).map
        (fun lt => (PSA_KEY_LIFETIME_GET_PERSISTENCE lt, PSA_KEY_LIFETIME_GET_LOCATION lt)) ∧
    (∀ {σ : Type} (P : Provider σ) (s : σ),
      importedLifetimes (psaAeadEncrypt.encryptThread c P s).calls = psaAeadEncrypt.lifetimes c ∧
      importedLifetimes (psaRawKeyAgreement.keyAgreementThread c P s).calls
        = psaRawKeyAgreement.lifetimes c) ∧
    (∀ {σ : Type} (P : Provider σ) (vecs : List psaSignVerify.ecdsaTestCase) (s : σ),
      signMessageLifetimes (psaSignVerify.signVerifyThread c P vecs s).calls
        = (List.replicate (psaSignVerify.signTestVectorCount vecs)
            (psaSignVerify.lifetimes c)).flatten) ∧
    (∀ {σ : Type} (P : Provider σ) (s : σ),
      ∃ k, k ≤ psaKeyDerivation.lifetimeCnt ∧
        importedLifetimes (psaKeyDerivation.derivationThread c P s).calls
          = (psaKeyDerivation.lifetimes c).take k ∧
        ((psaKeyDerivation.before c P s psaKeyDerivation.lifetimeCnt).returned = false →
          k = psaKeyDerivation.lifetimeCnt)) := by
  have dV := fun l => lifetime_decode PSA_KEY_PERSISTENCE_VOLATILE l (by decide)
  have dD := fun l => lifetime_decode PSA_KEY_PERSISTENCE_DEFAULT l (by decide)
  have dH := fun l => lifetime_decode c.PSA_KEY_PERSISTENCE_HSM_ASSET_STORE l hp
  have hmap : (psaAeadEncrypt.lifetimes c).map
        (fun lt => (PSA_KEY_LIFETIME_GET_PERSISTENCE lt, PSA_KEY_LIFETIME_GET_LOCATION lt))
      = [(PSA_KEY_PERSISTENCE_VOLATILE, PSA_KEY_LOCATION_LOCAL_STORAGE),
         (PSA_KEY_PERSISTENCE_DEFAULT, PSA_KEY_LOCATION_LOCAL_STORAGE),
         (PSA_KEY_PERSISTENCE_VOLATILE, c.PSA_KEY_LOCATION_HSM_ASSET_STORE),
         (PSA_KEY_PERSISTENCE_DEFAULT, c.PSA_KEY_LOCATION_HSM_ASSET_STORE),
         (c.PSA_KEY_PERSISTENCE_HSM_ASSET_STORE, c.PSA_KEY_LOCATION_HSM_ASSET_STORE)] := by
    simp only [psaAeadEncrypt.lifetimes, List.map_cons, List.map_nil, (dV _).1, (dV _).2,
      (dD _).1, (dD _).2, (dH _).1, (dH _).2]
  have hvd : PSA_KEY_PERSISTENCE_VOLATILE ≠ PSA_KEY_PERSISTENCE_DEFAULT := by decide
  have hnodup : ([(PSA_KEY_PERSISTENCE_VOLATILE, PSA_KEY_LOCATION_LOCAL_STORAGE),
         (PSA_KEY_PERSISTENCE_DEFAULT, PSA_KEY_LOCATION_LOCAL_STORAGE),
         (PSA_KEY_PERSISTENCE_VOLATILE, c.PSA_KEY_LOCATION_HSM_ASSET_STORE),
         (PSA_KEY_PERSISTENCE_DEFAULT, c.PSA_KEY_LOCATION_HSM_ASSET_STORE),
         (c.PSA_KEY_PERSISTENCE_HSM_ASSET_STORE, c.PSA_KEY_LOCATION_HSM_ASSET_STORE)] :
          List (Nat × Nat)).Nodup := by
    simp only [List.nodup_cons, List.mem_cons, List.mem_singleton, Prod.mk.injEq, List.not_mem_nil,
      List.nodup_nil, not_or, not_and, not_false_eq_true, and_true]
    refine ⟨⟨?_, ?_, ?_, ?_⟩, ⟨?_, ?_, ?_⟩, ⟨?_, ?_⟩, ?_⟩ <;> intro h <;>
      first
      | exact absurd h hvd
      | exact absurd h.symm hvd
      | exact absurd h hpv
      | exact absurd h.symm hpv
      | exact absurd h hpd
      | exact absurd h.symm hpd
      | exact Ne.symm hl
  refine ⟨⟨rfl, rfl, rfl⟩, rfl, ?_, hmap, ?_, ?_, ?_, ?_, ?_, ?_⟩
  · intro lt hlt
    have h0 : (PSA_KEY_LOCATION_LOCAL_STORAGE : Nat) < 2 ^ 24 := by decide
    simp only [psaAeadEncrypt.lifetimes, List.mem_cons, List.mem_singleton, List.not_mem_nil,
      or_false] at hlt
    rcases hlt with h | h | h | h | h <;> rw [h]
    · exact lifetime_lt _ _ (by decide) h0
    · exact lifetime_lt _ _ (by decide) h0
    · exact lifetime_lt _ _ (by decide) hl24
    · exact lifetime_lt _ _ (by decide) hl24
    · exact lifetime_lt _ _ hp hl24
  · rw [hmap]; exact hnodup
  · have h2 := hnodup
    rw [← hmap] at h2
    exact List.Nodup.of_map _ h2
  · rw [hmap]
    simp only [List.mem_cons, List.mem_singleton, Prod.mk.injEq, List.not_mem_nil, or_false, not_or,
      not_and]
    refine ⟨?_, ?_, ?_, ?_, ?_⟩ <;> intro h <;>
      first
      | exact absurd h hpv
      | exact absurd h hpd
      | exact Ne.symm hl
  · intro σ P s
    exact ⟨psaAeadEncrypt.encryptThread_importedLifetimes c P s,
      psaRawKeyAgreement.keyAgreementThread_importedLifetimes c P s⟩
  · intro σ P vecs s
    rw [psaSignVerify.signVerifyThread_calls]
    exact psaSignVerify.signVerifyThread_for_signMessageLifetimes c P vecs s _
  · intro σ P s
    obtain ⟨k, hk, hl2, hr⟩ := psaKeyDerivation.kd_before_importedLifetimes c P s
      psaKeyDerivation.lifetimeCnt
    refine ⟨k, hk, ?_, hr⟩
    rw [psaKeyDerivation.derivationThread_calls, hl2]
    exact range_map_lifetimes _ k hk

set_option maxRecDepth 100000 in
/-- C23: the sample vendor values (persistence `0x80`, location `1`) satisfy the
conditions; the decoded pairs are as listed, and with the reference provider
`encryptThread` and the `signMessage` calls of `signVerifyThread` import keys with
the five lifetimes in order. -/
theorem lifetimes_whitelist_visited_in_order_witness :
    sampleHsm.PSA_KEY_PERSISTENCE_HSM_ASSET_STORE < 256 ∧
    (psaAeadEncrypt.lifetimes sampleHsm).map
        (fun lt => (PSA_KEY_LIFETIME_GET_PERSISTENCE lt, PSA_KEY_LIFETIME_GET_LOCATION lt))
      = [(0, 0), (1, 0), (0, 1), (1, 1), (0x80, 1)] ∧
    importedLifetimes (psaAeadEncrypt.encryptThread sampleHsm referenceProvider KeyStore.empty).calls
      = psaAeadEncrypt.lifetimes sampleHsm ∧
    signMessageLifetimes
        (psaSignVerify.signVerifyThread sampleHsm referenceProvider psaSignVerify.signTestVectors
          KeyStore.empty).calls
      = psaSignVerify.lifetimes sampleHsm := by
  have h := lifetimes_whitelist_visited_in_order sampleHsm (by decide) (by decide) (by decide)
    (by decide) (by decide)
  exact ⟨by decide, h.2.2.2.1, (h.2.2.2.2.2.2.2.1 referenceProvider KeyStore.empty).1,
    h.2.2.2.2.2.2.2.2.1 referenceProvider psaSignVerify.signTestVectors KeyStore.empty⟩

set_option maxRecDepth 100000 in
/-- C23 (as stated, refuted): with a provider whose key derivation does not lower
its capacity, `derivationThread` executes `return (NULL)` in its first outer
iteration; the only `psa_import_key` of the run is the one for the first of the
five lifetimes. -/
theorem derivationThread_stops_after_first_lifetime :
    (psaKeyDerivation.before sampleHsm fixedCapacityProvider KeyStore.empty 1).returned = true ∧
    importedLifetimes
        (psaKeyDerivation.derivationThread sampleHsm fixedCapacityProvider KeyStore.empty).calls
      = [PSA_KEY_LIFETIME_FROM_PERSISTENCE_AND_LOCATION PSA_KEY_PERSISTENCE_VOLATILE
          PSA_KEY_LOCATION_LOCAL_STORAGE] ∧
    (psaKeyDerivation.lifetimes sampleHsm).length = 5 := by
  decide

end Psa

namespace Psa

/-- Byte `k` of a cleared `n`-byte buffer after a provider wrote `out` from its
start on: the byte written, or the zero the buffer held. -/
theorem writeAt_zeroed_getD (n : Nat) (out : List Nat) (k : Nat) (hk : k < n) :
    (writeAt (zeroed n) 0 (out.take n)).getD k 0 = out.getD k 0 := by
  unfold writeAt zeroed
  simp only [List.length_replicate, List.getD_eq_getElem?_getD, List.getElem?_map,
    List.getElem?_range hk, Option.map_some', Option.getD_some, Nat.zero_le, true_and,
    Nat.sub_zero, List.length_take]
  by_cases h : k < out.length
  · have h2 : k < min n out.length := Nat.lt_min.mpr ⟨hk, h⟩
    simp [h2, List.getElem?_take, hk, List.getElem?_eq_getElem h]
  · have h2 : ¬ k < min n out.length := fun h3 => h ((Nat.lt_min.mp h3).2)
    have h3 : out.length ≤ k := Nat.le_of_not_lt h
    simp [h2, List.getElem?_eq_none h3, hk]

namespace psaRawKeyAgreement
variable {σ : Type}

/-- The answer `keyAgreementThread` works with is the one `psa_raw_key_agreement`
of the provider gave on the state left by `psa_get_key_attributes`, and
`sharedSecret` is the zeroed array overwritten from its start with the bytes of
that answer. -/
theorem keyAgreementThread_agree_answer (P : Provider σ) (k : psa_key_id_t) (w : World σ) :
    (keyAgreementThread_agree P k w).1.1 =
      (P.psa_raw_key_agreement PSA_ALG_ECDH k (readBytes testVector.peerPublicKey 0 peerKeyLength)
        sizeof_sharedSecret (P.psa_get_key_attributes k w.prov).2).1 ∧
    (keyAgreementThread_agree P k w).1.2 =
      writeAt (zeroed sizeof_sharedSecret) 0
        ((P.psa_raw_key_agreement PSA_ALG_ECDH k
          (readBytes testVector.peerPublicKey 0 peerKeyLength)
          sizeof_sharedSecret (P.psa_get_key_attributes k w.prov).2).1.out.take
          sizeof_sharedSecret) := by
  unfold keyAgreementThread_agree
  simp only [psa_raw_key_agreement, psa_get_key_attributes]
  split_ifs <;> exact ⟨rfl, rfl⟩

/-- The status and key ID of the import step of `keyAgreementThread` are those
`psa_import_key` of the provider answered for the private key of the test
vector, on the state left by the `psa_destroy_key` of the persistent ID when the
lifetime is not volatile. -/
theorem keyAgreementThread_import_answer (c : HsmValues) (P : Provider σ) (i : Nat)
    (w : World σ) :
    ∃ attributes,
      (keyAgreementThread_import c P i w).1 =
        (P.psa_import_key attributes (readBytes testVector.privateKey 0 privateKeyLength)
          (if PSA_KEY_LIFETIME_GET_PERSISTENCE ((lifetimes c).getD i 0) ≠
              PSA_KEY_PERSISTENCE_VOLATILE
           then (P.psa_destroy_key (PSA_KEY_ID_USER_MIN + i) w.prov).2 else w.prov)).1 ∧
      attributes.lifetime = (lifetimes c).getD i 0 ∧
      attributes.key_type = PSA_KEY_TYPE_ECC_KEY_PAIR testVector.curveFamily ∧
      attributes.bits = testVector.curveBits := by
  unfold keyAgreementThread_import
  by_cases hv : PSA_KEY_LIFETIME_GET_PERSISTENCE ((lifetimes c).getD i 0)
      = PSA_KEY_PERSISTENCE_VOLATILE
  · have hb : (PSA_KEY_LIFETIME_GET_PERSISTENCE ((lifetimes c).getD i 0)
        != PSA_KEY_PERSISTENCE_VOLATILE) = false := by rw [hv]; exact bne_self_eq_false _
    simp only [hb, hv, ne_eq, not_true_eq_false, if_false, Bool.false_eq_true]
    exact ⟨_, rfl, rfl, rfl, rfl⟩
  · have hb : (PSA_KEY_LIFETIME_GET_PERSISTENCE ((lifetimes c).getD i 0)
        != PSA_KEY_PERSISTENCE_VOLATILE) = true := bne_iff_ne.mpr hv
    simp only [hb, hv, ne_eq, not_false_eq_true, if_true]
    simp only [psa_destroy_key, psa_import_key]
    split_ifs <;> exact ⟨_, rfl, rfl, rfl, rfl⟩

/-- C2: in `keyAgreementThread`, for a lifetime whose private-key import
succeeded (the status is the one `psa_import_key` of the provider answered) and
for any provider, the iteration logs after the import `psa_get_key_attributes`,
the `psa_raw_key_agreement` call with the provider's answer and
`psa_destroy_key`, and it raises `passCnt` by one exactly when the provider's
`psa_raw_key_agreement` returned `PSA_SUCCESS`, reported the output length 32
and wrote 32 bytes equal to those of `expectedSharedSecret`; otherwise
`passCnt` is left as it was. -/
theorem keyAgreement_counted_iff (c : HsmValues) (P : Provider σ) (s : σ) (i : Nat)
    (himp : (imported c P s i).1.1 = PSA_SUCCESS) :
    (∃ attributes,
      (imported c P s i).1 =
        (P.psa_import_key attributes (readBytes testVector.privateKey 0 privateKeyLength)
          (if PSA_KEY_LIFETIME_GET_PERSISTENCE ((lifetimes c).getD i 0) ≠
              PSA_KEY_PERSISTENCE_VOLATILE
           then (P.psa_destroy_key (PSA_KEY_ID_USER_MIN + i) (before c P s i).prov).2
           else (before c P s i).prov)).1 ∧
      attributes.lifetime = (lifetimes c).getD i 0) ∧
    (∃ gs ds,
      (before c P s (i + 1)).calls = (imported c P s i).2.calls ++
        [Call.get_key_attributes (imported c P s i).1.2 gs,
         Call.raw_key_agreement PSA_ALG_ECDH (imported c P s i).1.2
           (readBytes testVector.peerPublicKey 0 peerKeyLength) sizeof_sharedSecret
           (P.psa_raw_key_agreement PSA_ALG_ECDH (imported c P s i).1.2
             (readBytes testVector.peerPublicKey 0 peerKeyLength) sizeof_sharedSecret
             (P.psa_get_key_attributes (imported c P s i).1.2 (imported c P s i).2.prov).2).1,
         Call.destroy_key (imported c P s i).1.2 ds]) ∧
    ((before c P s (i + 1)).passCnt = (before c P s i).passCnt + 1 ↔
      ((P.psa_raw_key_agreement PSA_ALG_ECDH (imported c P s i).1.2
          (readBytes testVector.peerPublicKey 0 peerKeyLength) sizeof_sharedSecret
          (P.psa_get_key_attributes (imported c P s i).1.2 (imported c P s i).2.prov).2).1.status
          = PSA_SUCCESS ∧
        (P.psa_raw_key_agreement PSA_ALG_ECDH (imported c P s i).1.2
          (readBytes testVector.peerPublicKey 0 peerKeyLength) sizeof_sharedSecret
          (P.psa_get_key_attributes (imported c P s i).1.2 (imported c P s i).2.prov).2).1.length
          = 32 ∧
        ∀ k, k < 32 →
          (P.psa_raw_key_agreement PSA_ALG_ECDH (imported c P s i).1.2
            (readBytes testVector.peerPublicKey 0 peerKeyLength) sizeof_sharedSecret
            (P.psa_get_key_attributes (imported c P s i).1.2 (imported c P s i).2.prov).2).1.out.getD
              k 0 = testVector.expectedSharedSecret.getD k 0)) ∧
    ((before c P s (i + 1)).passCnt = (before c P s i).passCnt + 1 ∨
      (before c P s (i + 1)).passCnt = (before c P s i).passCnt) := by
  obtain ⟨ha1, ha2⟩ := keyAgreementThread_agree_answer P (imported c P s i).1.2 (imported c P s i).2
  have hagreed : agreed c P s i =
      keyAgreementThread_agree P (imported c P s i).1.2 (imported c P s i).2 := rfl
  obtain ⟨-, hiff, hor⟩ := keyAgreement_counted_of_agreed c P s i himp
  refine ⟨?_, ?_, ?_, hor⟩
  · obtain ⟨a, h1, h2, -⟩ := keyAgreementThread_import_answer c P i (before c P s i)
    exact ⟨a, h1, h2⟩
  · obtain ⟨gs, ds, h⟩ := keyAgreementThread_loop_calls_ok c P i (before c P s i) himp
    refine ⟨gs, ds, ?_⟩
    rw [← ha1]
    exact h
  · rw [hiff, hagreed, ha1]
    have hb : ∀ k, k < 32 →
        (keyAgreementThread_agree P (imported c P s i).1.2 (imported c P s i).2).1.2.getD k 0 =
        (P.psa_raw_key_agreement PSA_ALG_ECDH (imported c P s i).1.2
            (readBytes testVector.peerPublicKey 0 peerKeyLength) sizeof_sharedSecret
            (P.psa_get_key_attributes (imported c P s i).1.2 (imported c P s i).2.prov).2).1.out.getD
              k 0 := by
      intro k hk
      rw [ha2]
      exact writeAt_zeroed_getD _ _ k (by have : sizeof_sharedSecret = 66 := rfl; omega)
    constructor
    · rintro ⟨h1, h2, h3⟩
      exact ⟨h1, h2, fun k hk => by rw [← hb k hk]; exact h3 k hk⟩
    · rintro ⟨h1, h2, h3⟩
      exact ⟨h1, h2, fun k hk => by rw [hb k hk]; exact h3 k hk⟩

end psaRawKeyAgreement

set_option maxRecDepth 100000 in
/-- C2: for the reference provider and the first lifetime of
`keyAgreementThread`, the import succeeds, and since the provider's
`psa_raw_key_agreement` answers `PSA_SUCCESS`, the length 32 and the expected
shared secret, the iteration raises `passCnt` by one. -/
theorem keyAgreement_counted_iff_witness :
    (psaRawKeyAgreement.imported sampleHsm referenceProvider KeyStore.empty 0).1.1 = PSA_SUCCESS ∧
    (psaRawKeyAgreement.before sampleHsm referenceProvider KeyStore.empty (0 + 1)).passCnt =
      (psaRawKeyAgreement.before sampleHsm referenceProvider KeyStore.empty 0).passCnt + 1 :=
  ⟨by decide,
   (psaRawKeyAgreement.keyAgreement_counted_iff sampleHsm referenceProvider KeyStore.empty 0
     (by decide)).2.2.1.mpr (by decide)⟩

end Psa

namespace Psa

/-- Number of `psa_destroy_key` calls on `key` in the calls an iteration logs after
its import followed by the destroy the next iteration may issue before its own
import. -/
theorem destroys_between_imports (key next : psa_key_id_t) (gs ds st : psa_status_t)
    (op : Call) (hop : op.isOperation = true) (persistent : Prop) [Decidable persistent] :
    (destroyedKeys
        ([Call.get_key_attributes key gs, op, Call.destroy_key key ds] ++
          (if persistent then [Call.destroy_key next st] else []))).count key =
      (if persistent ∧ next = key then 2 else 1) := by
  cases op <;> simp [Call.isOperation] at hop <;>
    by_cases hp : persistent <;> by_cases hn : next = key <;>
    simp [destroyedKeys, hp, hn, List.count_cons]

/-- C9 (amended): in `encryptThread` and `keyAgreementThread`, for any provider, an
iteration whose `psa_import_key` returned `PSA_SUCCESS` logs, after the import,
exactly `psa_get_key_attributes`, the cryptographic operation and one
`psa_destroy_key` on the returned key ID, whatever the operation answered;
the import itself is preceded within the iteration by at most one
`psa_destroy_key` of the persistent ID about to be used, and every call of a
later lifetime comes after the iteration's destroy. Between that import and the
`psa_import_key` of the next lifetime the log holds these three calls and, when
the next lifetime is not volatile, the `psa_destroy_key` of the next persistent
ID `PSA_KEY_ID_USER_MIN + (i + 1)`; no key is imported in between, and the
returned ID is destroyed once, or twice when the next persistent ID is the
returned ID. After the last lifetime the thread calls the provider no more. -/
theorem imported_key_destroyed_once {σ : Type} (c : HsmValues) (P : Provider σ) (s : σ) :
    (∀ i, i < psaAeadEncrypt.lifetimeCnt →
      (psaAeadEncrypt.imported c P s i).1.1 = PSA_SUCCESS →
      (∃ pre attributes data,
        (psaAeadEncrypt.imported c P s i).2.calls =
          (psaAeadEncrypt.before c P s i).calls ++ pre ++
            [Call.import_key attributes data PSA_SUCCESS (psaAeadEncrypt.imported c P s i).1.2] ∧
        (pre = [] ∨ ∃ st, pre = [Call.destroy_key (PSA_KEY_ID_USER_MIN + i) st])) ∧
      (∃ gs ds,
        (psaAeadEncrypt.before c P s (i + 1)).calls =
          (psaAeadEncrypt.imported c P s i).2.calls ++
            [Call.get_key_attributes (psaAeadEncrypt.imported c P s i).1.2 gs,
             Call.aead_encrypt (psaAeadEncrypt.imported c P s i).1.2 psaAeadEncrypt.testVector.alg
               (readBytes psaAeadEncrypt.testVector.nonce 0 psaAeadEncrypt.testVector.nonceLength)
               (readBytes psaAeadEncrypt.testVector.aad 0 psaAeadEncrypt.testVector.aadLength)
               (readBytes psaAeadEncrypt.testVector.plaintext 0
                 psaAeadEncrypt.testVector.plaintextLength)
               psaAeadEncrypt.sizeof_ciphertext (psaAeadEncrypt.encrypted c P s i).1.1,
             Call.destroy_key (psaAeadEncrypt.imported c P s i).1.2 ds]) ∧
      (∃ later, (psaAeadEncrypt.encryptThread c P s).calls =
          (psaAeadEncrypt.before c P s (i + 1)).calls ++ later)) ∧
    (∀ i, i < psaRawKeyAgreement.lifetimeCnt →
      (psaRawKeyAgreement.imported c P s i).1.1 = PSA_SUCCESS →
      (∃ pre attributes data,
        (psaRawKeyAgreement.imported c P s i).2.calls =
          (psaRawKeyAgreement.before c P s i).calls ++ pre ++
            [Call.import_key attributes data PSA_SUCCESS (psaRawKeyAgreement.imported c P s i).1.2] ∧
        (pre = [] ∨ ∃ st, pre = [Call.destroy_key (PSA_KEY_ID_USER_MIN + i) st])) ∧
      (∃ gs ds,
        (psaRawKeyAgreement.before c P s (i + 1)).calls =
          (psaRawKeyAgreement.imported c P s i).2.calls ++
            [Call.get_key_attributes (psaRawKeyAgreement.imported c P s i).1.2 gs,
             Call.raw_key_agreement PSA_ALG_ECDH (psaRawKeyAgreement.imported c P s i).1.2
               (readBytes psaRawKeyAgreement.testVector.peerPublicKey 0
                 psaRawKeyAgreement.peerKeyLength)
               psaRawKeyAgreement.sizeof_sharedSecret (psaRawKeyAgreement.agreed c P s i).1.1,
             Call.destroy_key (psaRawKeyAgreement.imported c P s i).1.2 ds]) ∧
      (∃ later, (psaRawKeyAgreement.keyAgreementThread c P s).calls =
          (psaRawKeyAgreement.before c P s (i + 1)).calls ++ later)) ∧
    (∀ i, i + 1 < psaAeadEncrypt.lifetimeCnt →
      (psaAeadEncrypt.imported c P s i).1.1 = PSA_SUCCESS →
      ∃ gs ds attributes data,
        (psaAeadEncrypt.imported c P s (i + 1)).2.calls =
          (psaAeadEncrypt.imported c P s i).2.calls ++
            ([Call.get_key_attributes (psaAeadEncrypt.imported c P s i).1.2 gs,
              Call.aead_encrypt (psaAeadEncrypt.imported c P s i).1.2 psaAeadEncrypt.testVector.alg
                (readBytes psaAeadEncrypt.testVector.nonce 0 psaAeadEncrypt.testVector.nonceLength)
                (readBytes psaAeadEncrypt.testVector.aad 0 psaAeadEncrypt.testVector.aadLength)
                (readBytes psaAeadEncrypt.testVector.plaintext 0
                  psaAeadEncrypt.testVector.plaintextLength)
                psaAeadEncrypt.sizeof_ciphertext (psaAeadEncrypt.encrypted c P s i).1.1,
              Call.destroy_key (psaAeadEncrypt.imported c P s i).1.2 ds] ++
             (if PSA_KEY_LIFETIME_GET_PERSISTENCE ((psaAeadEncrypt.lifetimes c).getD (i + 1) 0)
                  ≠ PSA_KEY_PERSISTENCE_VOLATILE
              then [Call.destroy_key (PSA_KEY_ID_USER_MIN + (i + 1))
                     (P.psa_destroy_key (PSA_KEY_ID_USER_MIN + (i + 1))
                       (psaAeadEncrypt.before c P s (i + 1)).prov).1]
              else [])) ++
            [Call.import_key attributes data (psaAeadEncrypt.imported c P s (i + 1)).1.1
              (psaAeadEncrypt.imported c P s (i + 1)).1.2] ∧
        attributes.lifetime = (psaAeadEncrypt.lifetimes c).getD (i + 1) 0 ∧
        (destroyedKeys
            ([Call.get_key_attributes (psaAeadEncrypt.imported c P s i).1.2 gs,
              Call.aead_encrypt (psaAeadEncrypt.imported c P s i).1.2 psaAeadEncrypt.testVector.alg
                (readBytes psaAeadEncrypt.testVector.nonce 0 psaAeadEncrypt.testVector.nonceLength)
                (readBytes psaAeadEncrypt.testVector.aad 0 psaAeadEncrypt.testVector.aadLength)
                (readBytes psaAeadEncrypt.testVector.plaintext 0
                  psaAeadEncrypt.testVector.plaintextLength)
                psaAeadEncrypt.sizeof_ciphertext (psaAeadEncrypt.encrypted c P s i).1.1,
              Call.destroy_key (psaAeadEncrypt.imported c P s i).1.2 ds] ++
             (if PSA_KEY_LIFETIME_GET_PERSISTENCE ((psaAeadEncrypt.lifetimes c).getD (i + 1) 0)
                  ≠ PSA_KEY_PERSISTENCE_VOLATILE
              then [Call.destroy_key (PSA_KEY_ID_USER_MIN + (i + 1))
                     (P.psa_destroy_key (PSA_KEY_ID_USER_MIN + (i + 1))
                       (psaAeadEncrypt.before c P s (i + 1)).prov).1]
              else []))).count (psaAeadEncrypt.imported c P s i).1.2 =
          (if PSA_KEY_LIFETIME_GET_PERSISTENCE ((psaAeadEncrypt.lifetimes c).getD (i + 1) 0)
                ≠ PSA_KEY_PERSISTENCE_VOLATILE ∧
              PSA_KEY_ID_USER_MIN + (i + 1) = (psaAeadEncrypt.imported c P s i).1.2
           then 2 else 1)) ∧
    (∀ i, i + 1 < psaRawKeyAgreement.lifetimeCnt →
      (psaRawKeyAgreement.imported c P s i).1.1 = PSA_SUCCESS →
      ∃ gs ds attributes data,
        (psaRawKeyAgreement.imported c P s (i + 1)).2.calls =
          (psaRawKeyAgreement.imported c P s i).2.calls ++
            ([Call.get_key_attributes (psaRawKeyAgreement.imported c P s i).1.2 gs,
              Call.raw_key_agreement PSA_ALG_ECDH (psaRawKeyAgreement.imported c P s i).1.2
                (readBytes psaRawKeyAgreement.testVector.peerPublicKey 0
                  psaRawKeyAgreement.peerKeyLength)
                psaRawKeyAgreement.sizeof_sharedSecret (psaRawKeyAgreement.agreed c P s i).1.1,
              Call.destroy_key (psaRawKeyAgreement.imported c P s i).1.2 ds] ++
             (if PSA_KEY_LIFETIME_GET_PERSISTENCE ((psaRawKeyAgreement.lifetimes c).getD (i + 1) 0)
                  ≠ PSA_KEY_PERSISTENCE_VOLATILE
              then [Call.destroy_key (PSA_KEY_ID_USER_MIN + (i + 1))
                     (P.psa_destroy_key (PSA_KEY_ID_USER_MIN + (i + 1))
                       (psaRawKeyAgreement.before c P s (i + 1)).prov).1]
              else [])) ++
            [Call.import_key attributes data (psaRawKeyAgreement.imported c P s (i + 1)).1.1
              (psaRawKeyAgreement.imported c P s (i + 1)).1.2] ∧
        attributes.lifetime = (psaRawKeyAgreement.lifetimes c).getD (i + 1) 0 ∧
        (destroyedKeys
            ([Call.get_key_attributes (psaRawKeyAgreement.imported c P s i).1.2 gs,
              Call.raw_key_agreement PSA_ALG_ECDH (psaRawKeyAgreement.imported c P s i).1.2
                (readBytes psaRawKeyAgreement.testVector.peerPublicKey 0
                  psaRawKeyAgreement.peerKeyLength)
                psaRawKeyAgreement.sizeof_sharedSecret (psaRawKeyAgreement.agreed c P s i).1.1,
              Call.destroy_key (psaRawKeyAgreement.imported c P s i).1.2 ds] ++
             (if PSA_KEY_LIFETIME_GET_PERSISTENCE ((psaRawKeyAgreement.lifetimes c).getD (i + 1) 0)
                  ≠ PSA_KEY_PERSISTENCE_VOLATILE
              then [Call.destroy_key (PSA_KEY_ID_USER_MIN + (i + 1))
                     (P.psa_destroy_key (PSA_KEY_ID_USER_MIN + (i + 1))
                       (psaRawKeyAgreement.before c P s (i + 1)).prov).1]
              else []))).count (psaRawKeyAgreement.imported c P s i).1.2 =
          (if PSA_KEY_LIFETIME_GET_PERSISTENCE ((psaRawKeyAgreement.lifetimes c).getD (i + 1) 0)
                ≠ PSA_KEY_PERSISTENCE_VOLATILE ∧
              PSA_KEY_ID_USER_MIN + (i + 1) = (psaRawKeyAgreement.imported c P s i).1.2
           then 2 else 1)) ∧
    (psaAeadEncrypt.encryptThread c P s).calls =
      (psaAeadEncrypt.before c P s psaAeadEncrypt.lifetimeCnt).calls ∧
    (psaRawKeyAgreement.keyAgreementThread c P s).calls =
      (psaRawKeyAgreement.before c P s psaRawKeyAgreement.lifetimeCnt).calls := by
  refine ⟨?_, ?_, ?_, ?_, psaAeadEncrypt.encryptThread_calls c P s,
    psaRawKeyAgreement.keyAgreementThread_calls c P s⟩
  · intro i hi himp
    refine ⟨?_, ?_, ?_⟩
    · obtain ⟨pre, a, d, h, hp⟩ :=
        psaAeadEncrypt.encryptThread_import_calls c P i (psaAeadEncrypt.before c P s i)
      unfold psaAeadEncrypt.imported at himp ⊢
      rw [himp] at h
      exact ⟨pre, a, d, h, hp⟩
    · exact psaAeadEncrypt.encryptThread_loop_calls_ok c P i (psaAeadEncrypt.before c P s i) himp
    · obtain ⟨l, hl⟩ := psaAeadEncrypt.aead_before_calls_extends c P s (i + 1)
        (psaAeadEncrypt.lifetimeCnt - (i + 1))
      have hsum : i + 1 + (psaAeadEncrypt.lifetimeCnt - (i + 1)) = psaAeadEncrypt.lifetimeCnt := by
        omega
      rw [hsum] at hl
      exact ⟨l, by rw [psaAeadEncrypt.encryptThread_calls, hl]⟩
  · intro i hi himp
    refine ⟨?_, ?_, ?_⟩
    · obtain ⟨pre, a, d, h, hp⟩ :=
        psaRawKeyAgreement.keyAgreementThread_import_calls c P i (psaRawKeyAgreement.before c P s i)
      unfold psaRawKeyAgreement.imported at himp ⊢
      rw [himp] at h
      exact ⟨pre, a, d, h, hp⟩
    · exact psaRawKeyAgreement.keyAgreementThread_loop_calls_ok c P i
        (psaRawKeyAgreement.before c P s i) himp
    · obtain ⟨l, hl⟩ := psaRawKeyAgreement.ka_before_calls_extends c P s (i + 1)
        (psaRawKeyAgreement.lifetimeCnt - (i + 1))
      have hsum : i + 1 + (psaRawKeyAgreement.lifetimeCnt - (i + 1)) =
          psaRawKeyAgreement.lifetimeCnt := by omega
      rw [hsum] at hl
      exact ⟨l, by rw [psaRawKeyAgreement.keyAgreementThread_calls, hl]⟩
  · intro i _ himp
    obtain ⟨gs, ds, h2⟩ := psaAeadEncrypt.encryptThread_loop_calls_ok c P i
      (psaAeadEncrypt.before c P s i) himp
    obtain ⟨a, d, h, hl, -⟩ := psaAeadEncrypt.encryptThread_import_shape c P (i + 1)
      (psaAeadEncrypt.before c P s (i + 1))
    refine ⟨gs, ds, a, d, ?_, hl, destroys_between_imports _ _ _ _ _ _ (by rfl) _⟩
    have h3 : (psaAeadEncrypt.imported c P s (i + 1)).2.calls = _ := h
    have h4 : (psaAeadEncrypt.before c P s (i + 1)).calls = _ := h2
    rw [h3, h4]
    simp only [List.append_assoc]
    rfl
  · intro i _ himp
    obtain ⟨gs, ds, h2⟩ := psaRawKeyAgreement.keyAgreementThread_loop_calls_ok c P i
      (psaRawKeyAgreement.before c P s i) himp
    obtain ⟨a, d, h, hl, -⟩ := psaRawKeyAgreement.keyAgreementThread_import_shape c P (i + 1)
      (psaRawKeyAgreement.before c P s (i + 1))
    refine ⟨gs, ds, a, d, ?_, hl, destroys_between_imports _ _ _ _ _ _ (by rfl) _⟩
    have h3 : (psaRawKeyAgreement.imported c P s (i + 1)).2.calls = _ := h
    have h4 : (psaRawKeyAgreement.before c P s (i + 1)).calls = _ := h2
    rw [h3, h4]
    simp only [List.append_assoc]
    rfl

set_option maxRecDepth 100000 in
/-- C9 (as stated, refuted): with a provider that answers the ID
`PSA_KEY_ID_USER_MIN + 1` for the volatile key of the first lifetime, the first
iteration destroys it once, and the second iteration destroys the same ID again
before its own `psa_import_key`: the log up to the import of the second
lifetime shows two `psa_destroy_key` calls on the returned ID. -/
theorem returned_id_destroyed_twice_before_next_import :
    (psaAeadEncrypt.imported sampleHsm collidingProvider KeyStore.empty 0).1
      = (PSA_SUCCESS, PSA_KEY_ID_USER_MIN + 1) ∧
    destroyedKeys (psaAeadEncrypt.imported sampleHsm collidingProvider KeyStore.empty 0).2.calls
      = [] ∧
    destroyedKeys (psaAeadEncrypt.before sampleHsm collidingProvider KeyStore.empty 1).calls
      = [PSA_KEY_ID_USER_MIN + 1] ∧
    destroyedKeys (psaAeadEncrypt.imported sampleHsm collidingProvider KeyStore.empty 1).2.calls
      = [PSA_KEY_ID_USER_MIN + 1, PSA_KEY_ID_USER_MIN + 1] ∧
    importedLifetimes
        (psaAeadEncrypt.imported sampleHsm collidingProvider KeyStore.empty 1).2.calls
      = (psaAeadEncrypt.lifetimes sampleHsm).take 2 ∧
    ((psaAeadEncrypt.imported sampleHsm collidingProvider KeyStore.empty 1).2.calls.getLast?).map
        Call.isOperation = some false ∧
    (psaRawKeyAgreement.imported sampleHsm collidingProvider KeyStore.empty 0).1
      = (PSA_SUCCESS, PSA_KEY_ID_USER_MIN + 1) ∧
    destroyedKeys (psaRawKeyAgreement.imported sampleHsm collidingProvider KeyStore.empty 1).2.calls
      = [PSA_KEY_ID_USER_MIN + 1, PSA_KEY_ID_USER_MIN + 1] ∧
    importedLifetimes
        (psaRawKeyAgreement.imported sampleHsm collidingProvider KeyStore.empty 1).2.calls
      = (psaRawKeyAgreement.lifetimes sampleHsm).take 2 := by
  decide

end Psa

namespace Psa

/-- C13 (amended): in the four worker threads a failed `psa_import_key` of the
case's key ends the case: the iteration (in `psaSignVerify.c`, the call of
`signMessage` or `signHash`) adds to the log only the import, preceded by the
destroy of the persistent ID and followed in `encryptThread` and
`keyAgreementThread` by one destroy when the status is
`PSA_ERROR_ALREADY_EXISTS`, so no cryptographic operation; `passCnt` stays as it
was; and the failed import does not end the run: in `encryptThread`,
`keyAgreementThread` and `signVerifyThread` the import of every later lifetime
is in the final log; in `derivationThread` the next lifetime is entered, and a
later lifetime is processed unless an iteration before it executes
`return (NULL)`, in which case the thread ends in the world of that return. -/
theorem failed_import_skips_only_that_case {σ : Type} (c : HsmValues) (P : Provider σ) (s : σ)
    (i : Nat) :
    ((psaAeadEncrypt.imported c P s i).1.1 ≠ PSA_SUCCESS →
      (∃ l, (psaAeadEncrypt.before c P s (i + 1)).calls =
          (psaAeadEncrypt.before c P s i).calls ++ l ∧ ∀ x ∈ l, x.isOperation = false) ∧
      (psaAeadEncrypt.before c P s (i + 1)).passCnt = (psaAeadEncrypt.before c P s i).passCnt ∧
      ∀ k, i < k → k < psaAeadEncrypt.lifetimeCnt →
        Continues (psaAeadEncrypt.imported c P s k).2.calls
          (psaAeadEncrypt.encryptThread c P s).calls) ∧
    ((psaRawKeyAgreement.imported c P s i).1.1 ≠ PSA_SUCCESS →
      (∃ l, (psaRawKeyAgreement.before c P s (i + 1)).calls =
          (psaRawKeyAgreement.before c P s i).calls ++ l ∧ ∀ x ∈ l, x.isOperation = false) ∧
      (psaRawKeyAgreement.before c P s (i + 1)).passCnt =
        (psaRawKeyAgreement.before c P s i).passCnt ∧
      ∀ k, i < k → k < psaRawKeyAgreement.lifetimeCnt →
        Continues (psaRawKeyAgreement.imported c P s k).2.calls
          (psaRawKeyAgreement.keyAgreementThread c P s).calls) ∧
    ((psaKeyDerivation.before c P s i).returned = false →
      (psaKeyDerivation.derivationThread_import c P i (psaKeyDerivation.before c P s i).w).1.1
        ≠ PSA_SUCCESS →
      (∃ l, (psaKeyDerivation.before c P s (i + 1)).w.calls =
          (psaKeyDerivation.before c P s i).w.calls ++ l ∧ ∀ x ∈ l, x.isOperation = false) ∧
      (psaKeyDerivation.before c P s (i + 1)).w.passCnt =
        (psaKeyDerivation.before c P s i).w.passCnt ∧
      (psaKeyDerivation.before c P s (i + 1)).returned = false ∧
      ∀ k, i < k → k < psaKeyDerivation.lifetimeCnt →
        (psaKeyDerivation.before c P s k).returned = false →
        Continues
          (psaKeyDerivation.derivationThread_import c P k (psaKeyDerivation.before c P s k).w).2.calls
          (psaKeyDerivation.derivationThread c P s).calls) ∧
    (∀ (vecs : List psaSignVerify.ecdsaTestCase) (j : Nat),
      j < psaSignVerify.signTestVectorCount vecs → i < psaSignVerify.lifetimeCnt →
      ((psaSignVerify.signMessage_import P vecs
          (PSA_KEY_LIFETIME_GET_PERSISTENCE ((psaSignVerify.lifetimes c).getD i 0))
          (PSA_KEY_LIFETIME_GET_LOCATION ((psaSignVerify.lifetimes c).getD i 0)) j
          (psaSignVerify.before c P vecs s j i)).1.1 ≠ PSA_SUCCESS →
        (∃ l, (psaSignVerify.beforeHash c P vecs s j i).calls =
            (psaSignVerify.before c P vecs s j i).calls ++ l ∧ ∀ x ∈ l, x.isOperation = false) ∧
        (psaSignVerify.beforeHash c P vecs s j i).passCnt =
          (psaSignVerify.before c P vecs s j i).passCnt) ∧
      ((vecs.getD j default).alg ≠ PSA_ALG_PURE_EDDSA →
        (psaSignVerify.signHash_import P vecs
          (PSA_KEY_LIFETIME_GET_PERSISTENCE ((psaSignVerify.lifetimes c).getD i 0))
          (PSA_KEY_LIFETIME_GET_LOCATION ((psaSignVerify.lifetimes c).getD i 0)) j
          (psaSignVerify.beforeHash c P vecs s j i)).1.1 ≠ PSA_SUCCESS →
        (∃ l, (psaSignVerify.before c P vecs s j (i + 1)).calls =
            (psaSignVerify.beforeHash c P vecs s j i).calls ++ l ∧
            ∀ x ∈ l, x.isOperation = false) ∧
        (psaSignVerify.before c P vecs s j (i + 1)).passCnt =
          (psaSignVerify.beforeHash c P vecs s j i).passCnt) ∧
      (∀ k, k < psaSignVerify.lifetimeCnt →
        Continues
          (psaSignVerify.signMessage_import P vecs
            (PSA_KEY_LIFETIME_GET_PERSISTENCE ((psaSignVerify.lifetimes c).getD k 0))
            (PSA_KEY_LIFETIME_GET_LOCATION ((psaSignVerify.lifetimes c).getD k 0)) j
            (psaSignVerify.before c P vecs s j k)).2.calls
          (psaSignVerify.signVerifyThread c P vecs s).calls ∧
        ((vecs.getD j default).alg ≠ PSA_ALG_PURE_EDDSA →
          Continues
            (psaSignVerify.signHash_import P vecs
              (PSA_KEY_LIFETIME_GET_PERSISTENCE ((psaSignVerify.lifetimes c).getD k 0))
              (PSA_KEY_LIFETIME_GET_LOCATION ((psaSignVerify.lifetimes c).getD k 0)) j
              (psaSignVerify.beforeHash c P vecs s j k)).2.calls
            (psaSignVerify.signVerifyThread c P vecs s).calls))) ∧
    (∀ k, k ≤ psaKeyDerivation.lifetimeCnt →
      (psaKeyDerivation.before c P s k).returned = true →
      psaKeyDerivation.derivationThread c P s = (psaKeyDerivation.before c P s k).w) := by
  refine ⟨?_, ?_, ?_, ?_,
    fun k hk h => psaKeyDerivation.derivationThread_returned c P s k hk h⟩
  · intro h
    obtain ⟨hc, hp⟩ := psaAeadEncrypt.encryptThread_loop_import_failed c P i _ h
    obtain ⟨a, d, hs, -⟩ := psaAeadEncrypt.encryptThread_import_shape c P i
      (psaAeadEncrypt.before c P s i)
    refine ⟨?_, hp, fun k _ hk => psaAeadEncrypt.encryptThread_reaches_import c P s k hk⟩
    exact no_operation_of_import_shape _ _ _ _ _ _ _ _ (destroy_step_no_operation _ _ _)
      (hc.trans (by rw [hs]))
  · intro h
    obtain ⟨hc, hp⟩ := psaRawKeyAgreement.keyAgreementThread_loop_import_failed c P i _ h
    obtain ⟨a, d, hs, -⟩ := psaRawKeyAgreement.keyAgreementThread_import_shape c P i
      (psaRawKeyAgreement.before c P s i)
    refine ⟨?_, hp, fun k _ hk => psaRawKeyAgreement.keyAgreementThread_reaches_import c P s k hk⟩
    exact no_operation_of_import_shape _ _ _ _ _ _ _ _ (destroy_step_no_operation _ _ _)
      (hc.trans (by rw [hs]))
  · intro hrun h
    have h1 : psaKeyDerivation.before c P s (i + 1) =
        psaKeyDerivation.derivationThread_loop c P i (psaKeyDerivation.before c P s i) := by
      unfold psaKeyDerivation.before at hrun ⊢
      simp only [psaKeyDerivation.derivationThread_for, hrun, Bool.false_eq_true, if_false]
    obtain ⟨hc, hp, hr⟩ := psaKeyDerivation.derivationThread_loop_import_failed c P i _ h
    obtain ⟨a, d, hs, -⟩ := psaKeyDerivation.derivationThread_import_shape c P i
      (psaKeyDerivation.before c P s i).w
    rw [h1]
    refine ⟨?_, hp, hr.trans hrun,
      fun k _ hk hrk => psaKeyDerivation.derivationThread_reaches_import c P s k hk hrk⟩
    exact no_operation_of_import_shape _ _ _ _ _ _ _ []
      (fun x hx => absurd hx (List.not_mem_nil x))
      (hc.trans (by rw [hs, List.append_nil]))
  · intro vecs j hj hi
    refine ⟨?_, ?_, ?_⟩
    · intro h
      obtain ⟨hc, hp⟩ := psaSignVerify.signMessage_import_failed P vecs _ _ j _ h
      obtain ⟨a, d, hs, -⟩ := psaSignVerify.signMessage_import_shape P vecs
        (PSA_KEY_LIFETIME_GET_PERSISTENCE ((psaSignVerify.lifetimes c).getD i 0))
        (PSA_KEY_LIFETIME_GET_LOCATION ((psaSignVerify.lifetimes c).getD i 0)) j
        (psaSignVerify.before c P vecs s j i)
      refine ⟨?_, hp⟩
      exact no_operation_of_import_shape _ _ _ _ _ _ _ []
        (fun x hx => absurd hx (List.not_mem_nil x))
        (hc.trans (by rw [hs, List.append_nil]))
    · intro halg h
      obtain ⟨hc, hp⟩ := psaSignVerify.signHash_import_failed P vecs _ _ j _ halg h
      obtain ⟨a, d, hs, -⟩ := psaSignVerify.signHash_import_shape P vecs
        (PSA_KEY_LIFETIME_GET_PERSISTENCE ((psaSignVerify.lifetimes c).getD i 0))
        (PSA_KEY_LIFETIME_GET_LOCATION ((psaSignVerify.lifetimes c).getD i 0)) j
        (psaSignVerify.beforeHash c P vecs s j i)
      refine ⟨?_, hp⟩
      exact no_operation_of_import_shape _ _ _ _ _ _ _ []
        (fun x hx => absurd hx (List.not_mem_nil x))
        (hc.trans (by rw [hs, List.append_nil]))
    · intro k hk
      obtain ⟨h1, h2, h4⟩ := psaSignVerify.signVerifyThread_reaches c P vecs s j k hj hk
      refine ⟨(psaSignVerify.signMessage_continues_import P vecs _ _ j _).trans h2, ?_⟩
      intro halg
      have h3 : Continues (psaSignVerify.signHash_import P vecs
            (PSA_KEY_LIFETIME_GET_PERSISTENCE ((psaSignVerify.lifetimes c).getD k 0))
            (PSA_KEY_LIFETIME_GET_LOCATION ((psaSignVerify.lifetimes c).getD k 0)) j
            (psaSignVerify.beforeHash c P vecs s j k)).2.calls
          (psaSignVerify.before c P vecs s j (k + 1)).calls :=
        psaSignVerify.signHash_continues_import P vecs _ _ j _ halg
      exact h3.trans h4

set_option maxRecDepth 100000 in
/-- C13: with the persistent ID of the second lifetime occupied and a provider
whose `psa_destroy_key` frees nothing, the second import of `encryptThread`,
`keyAgreementThread` and `derivationThread` fails; the iteration counts nothing
and the import of the third lifetime is in the final log of each thread. -/
theorem failed_import_skips_only_that_case_witness :
    (psaAeadEncrypt.imported sampleHsm destroyErrorProvider occupiedStore 1).1.1
      = PSA_ERROR_ALREADY_EXISTS ∧
    (psaAeadEncrypt.before sampleHsm destroyErrorProvider occupiedStore (1 + 1)).passCnt =
      (psaAeadEncrypt.before sampleHsm destroyErrorProvider occupiedStore 1).passCnt ∧
    Continues (psaAeadEncrypt.imported sampleHsm destroyErrorProvider occupiedStore 2).2.calls
      (psaAeadEncrypt.encryptThread sampleHsm destroyErrorProvider occupiedStore).calls ∧
    (psaRawKeyAgreement.before sampleHsm destroyErrorProvider occupiedStore (1 + 1)).passCnt =
      (psaRawKeyAgreement.before sampleHsm destroyErrorProvider occupiedStore 1).passCnt ∧
    (psaKeyDerivation.before sampleHsm destroyErrorProvider occupiedStore (1 + 1)).w.passCnt =
      (psaKeyDerivation.before sampleHsm destroyErrorProvider occupiedStore 1).w.passCnt ∧
    Continues
      (psaKeyDerivation.derivationThread_import sampleHsm destroyErrorProvider 2
        (psaKeyDerivation.before sampleHsm destroyErrorProvider occupiedStore 2).w).2.calls
      (psaKeyDerivation.derivationThread sampleHsm destroyErrorProvider occupiedStore).calls := by
  have h := failed_import_skips_only_that_case sampleHsm destroyErrorProvider occupiedStore 1
  have ha := h.1 (by decide)
  have hk := h.2.1 (by decide)
  have hd := h.2.2.1 (by decide) (by decide)
  exact ⟨by decide, ha.2.1, ha.2.2 2 (by decide) (by decide), hk.2.1, hd.2.1,
    hd.2.2.2 2 (by decide) (by decide) hd.2.2.1⟩

set_option maxRecDepth 100000 in
/-- C13 (as stated, refuted): with a provider that rejects the import for the
first lifetime and whose key derivation does not lower its capacity when a key
is output, `derivationThread` fails the import of the first lifetime, enters
the second lifetime, imports its key and executes `return (NULL)` inside it:
the final log holds the imports of the first two of the five lifetimes only, so
the three later lifetimes are not processed. -/
theorem later_lifetimes_not_reached_after_failed_import :
    (psaKeyDerivation.derivationThread_import sampleHsm firstLifetimeRejectedProvider 0
      (psaKeyDerivation.before sampleHsm firstLifetimeRejectedProvider KeyStore.empty 0).w).1.1
      = PSA_ERROR_NOT_SUPPORTED ∧
    (psaKeyDerivation.before sampleHsm firstLifetimeRejectedProvider KeyStore.empty 1).returned
      = false ∧
    (psaKeyDerivation.derivationThread_import sampleHsm firstLifetimeRejectedProvider 1
      (psaKeyDerivation.before sampleHsm firstLifetimeRejectedProvider KeyStore.empty 1).w).1.1
      = PSA_SUCCESS ∧
    (psaKeyDerivation.before sampleHsm firstLifetimeRejectedProvider KeyStore.empty 2).returned
      = true ∧
    importedLifetimes
        (psaKeyDerivation.derivationThread sampleHsm firstLifetimeRejectedProvider
          KeyStore.empty).calls
      = (psaKeyDerivation.lifetimes sampleHsm).take 2 ∧
    (psaKeyDerivation.lifetimes sampleHsm).length = 5 := by
  decide

end Psa

namespace Psa

namespace psaAeadEncrypt
variable {σ : Type}

/-- The answer `encryptThread` works with is the one `psa_aead_encrypt` of the
provider gave on the state left by `psa_get_key_attributes`, and `ciphertext`
is the zeroed array overwritten from offset 1 with the bytes of that answer. -/
theorem encryptThread_encrypt_answer (P : Provider σ) (k : psa_key_id_t) (w : World σ) :
    (encryptThread_encrypt P k w).1.1 =
      (P.psa_aead_encrypt k testVector.alg
        (readBytes testVector.nonce 0 testVector.nonceLength)
        (readBytes testVector.aad 0 testVector.aadLength)
        (readBytes testVector.plaintext 0 testVector.plaintextLength)
        sizeof_ciphertext (P.psa_get_key_attributes k w.prov).2).1 ∧
    (encryptThread_encrypt P k w).1.2 =
      writeAt (zeroed sizeof_ciphertext) 1
        ((P.psa_aead_encrypt k testVector.alg
          (readBytes testVector.nonce 0 testVector.nonceLength)
          (readBytes testVector.aad 0 testVector.aadLength)
          (readBytes testVector.plaintext 0 testVector.plaintextLength)
          sizeof_ciphertext (P.psa_get_key_attributes k w.prov).2).1.out.take
          sizeof_ciphertext) := by
  unfold encryptThread_encrypt
  simp only [psa_aead_encrypt, psa_get_key_attributes]
  split_ifs <;> exact ⟨rfl, rfl⟩

end psaAeadEncrypt

namespace psaKeyDerivation
variable {σ : Type}

/-- What the comparison loop of `derivationThread` leaves in `passCnt`: one more
when every byte from `idx` on equals the plaintext byte, the same otherwise. -/
theorem derivationThread_compare_passCnt (dp : List Nat) :
    ∀ (n idx : Nat) (w : World σ), idx + n = PLAINTEXT_LENGTH →
      (derivationThread_compare dp idx n w).passCnt =
        if 0 < n ∧ ∀ k, k < n → dp.getD (idx + k) 0 = plaintext.getD (idx + k) 0
        then w.passCnt + 1 else w.passCnt := by
  intro n
  induction n with
  | zero => intro idx w _; simp [derivationThread_compare]
  | succ n ih =>
    intro idx w hsum
    have hP : PLAINTEXT_LENGTH = 16 := rfl
    simp only [derivationThread_compare]
    by_cases hne : dp.getD idx 0 = plaintext.getD idx 0
    · simp only [hne, ne_eq, not_true_eq_false, if_false]
      rw [ih (idx + 1) _ (by omega)]
      by_cases hn : n = 0
      · subst hn
        have hidx : idx = PLAINTEXT_LENGTH - 1 := by omega
        have hc : (0 < 0 + 1 ∧ ∀ k, k < 0 + 1 →
            dp.getD (idx + k) 0 = plaintext.getD (idx + k) 0) := by
          refine ⟨Nat.succ_pos 0, fun k hk => ?_⟩
          have hk0 : k = 0 := by omega
          subst hk0
          exact hne
        rw [if_pos hidx, if_neg (fun h => Nat.lt_irrefl 0 h.1), if_pos hc]
      · have hidx : ¬ idx = PLAINTEXT_LENGTH - 1 := by omega
        simp only [hidx, if_false]
        have hiff : (0 < n ∧ ∀ k, k < n →
              dp.getD (idx + 1 + k) 0 = plaintext.getD (idx + 1 + k) 0) ↔
            (0 < n + 1 ∧ ∀ k, k < n + 1 →
              dp.getD (idx + k) 0 = plaintext.getD (idx + k) 0) := by
          constructor
          · rintro ⟨_, h⟩
            refine ⟨Nat.succ_pos n, fun k hk => ?_⟩
            cases k with
            | zero => exact hne
            | succ k =>
              have := h k (by omega)
              have e : idx + 1 + k = idx + (k + 1) := by omega
              rw [e] at this
              exact this
          · rintro ⟨_, h⟩
            refine ⟨by omega, fun k hk => ?_⟩
            have := h (k + 1) (by omega)
            have e : idx + 1 + k = idx + (k + 1) := by omega
            rw [e]
            exact this
        by_cases hc : (0 < n ∧ ∀ k, k < n →
              dp.getD (idx + 1 + k) 0 = plaintext.getD (idx + 1 + k) 0)
        · rw [if_pos hc, if_pos (hiff.mp hc)]
        · rw [if_neg hc, if_neg (fun h => hc (hiff.mpr h))]
    · have hc : ¬ (0 < n + 1 ∧ ∀ k, k < n + 1 →
          dp.getD (idx + k) 0 = plaintext.getD (idx + k) 0) := fun h => hne (h.2 0 (Nat.succ_pos n))
      simp only [hne, ne_eq, not_false_eq_true, if_true, Display_printf_passCnt, if_neg hc]

/-- What `derivationThread` counts in the round trip: the length `psa_cipher_encrypt`
reported, the status of `psa_cipher_decrypt` and the bytes it wrote. -/
theorem derivationThread_roundTrip_counted_iff (P : Provider σ) (key : psa_key_id_t)
    (w : World σ) :
    ((derivationThread_roundTrip P key w).1.passCnt = w.passCnt + 1 ↔
      ((P.psa_cipher_encrypt key PSA_ALG_ECB_NO_PADDING
          (readBytes plaintext 0 PLAINTEXT_LENGTH) PLAINTEXT_LENGTH w.prov).1.length
          = PLAINTEXT_LENGTH ∧
        (P.psa_cipher_decrypt key PSA_ALG_ECB_NO_PADDING
          (readBytes
            (writeAt (zeroed PLAINTEXT_LENGTH) 0
              ((P.psa_cipher_encrypt key PSA_ALG_ECB_NO_PADDING
                (readBytes plaintext 0 PLAINTEXT_LENGTH) PLAINTEXT_LENGTH w.prov).1.out.take
                PLAINTEXT_LENGTH))
            0
            (P.psa_cipher_encrypt key PSA_ALG_ECB_NO_PADDING
              (readBytes plaintext 0 PLAINTEXT_LENGTH) PLAINTEXT_LENGTH w.prov).1.length)
          PLAINTEXT_LENGTH
          (P.psa_cipher_encrypt key PSA_ALG_ECB_NO_PADDING
            (readBytes plaintext 0 PLAINTEXT_LENGTH) PLAINTEXT_LENGTH w.prov).2).1.status
          = PSA_SUCCESS ∧
        ∀ k, k < PLAINTEXT_LENGTH →
          (P.psa_cipher_decrypt key PSA_ALG_ECB_NO_PADDING
            (readBytes
              (writeAt (zeroed PLAINTEXT_LENGTH) 0
                ((P.psa_cipher_encrypt key PSA_ALG_ECB_NO_PADDING
                  (readBytes plaintext 0 PLAINTEXT_LENGTH) PLAINTEXT_LENGTH w.prov).1.out.take
                  PLAINTEXT_LENGTH))
              0
              (P.psa_cipher_encrypt key PSA_ALG_ECB_NO_PADDING
                (readBytes plaintext 0 PLAINTEXT_LENGTH) PLAINTEXT_LENGTH w.prov).1.length)
            PLAINTEXT_LENGTH
            (P.psa_cipher_encrypt key PSA_ALG_ECB_NO_PADDING
              (readBytes plaintext 0 PLAINTEXT_LENGTH) PLAINTEXT_LENGTH w.prov).2).1.out.getD k 0
            = plaintext.getD k 0)) ∧
    ((derivationThread_roundTrip P key w).1.passCnt = w.passCnt + 1 ∨
      (derivationThread_roundTrip P key w).1.passCnt = w.passCnt) := by
  have hP : PLAINTEXT_LENGTH = 16 := rfl
  have hcmp := fun dp (w2 : World σ) =>
    derivationThread_compare_passCnt dp PLAINTEXT_LENGTH 0 w2 (Nat.zero_add _)
  have hbytes : ∀ (out : List Nat),
      ((0 < PLAINTEXT_LENGTH ∧ ∀ k, k < PLAINTEXT_LENGTH →
        (writeAt (zeroed PLAINTEXT_LENGTH) 0 (out.take PLAINTEXT_LENGTH)).getD (0 + k) 0 =
          plaintext.getD (0 + k) 0) ↔
      ∀ k, k < PLAINTEXT_LENGTH → out.getD k 0 = plaintext.getD k 0) := by
    intro out
    constructor
    · rintro ⟨_, h⟩ k hk
      have := h k hk
      rw [Nat.zero_add, writeAt_zeroed_getD _ _ k hk] at this
      exact this
    · intro h
      refine ⟨by decide, fun k hk => ?_⟩
      rw [Nat.zero_add, writeAt_zeroed_getD _ _ k hk]
      exact h k hk
  clear hP
  unfold derivationThread_roundTrip
  simp only [psa_cipher_encrypt, psa_cipher_decrypt, Display_printf_prov]
  generalize P.psa_cipher_encrypt key PSA_ALG_ECB_NO_PADDING
    (readBytes plaintext 0 PLAINTEXT_LENGTH) PLAINTEXT_LENGTH w.prov = e
  by_cases h3 : e.1.status = PSA_SUCCESS <;>
    simp only [h3, if_true, if_false, Display_printf_prov, kd_printByteArray_prov] <;>
    generalize P.psa_cipher_decrypt key PSA_ALG_ECB_NO_PADDING
      (readBytes (writeAt (zeroed PLAINTEXT_LENGTH) 0 (e.1.out.take PLAINTEXT_LENGTH)) 0
        e.1.length)
      PLAINTEXT_LENGTH e.2 = d <;>
    by_cases hall : ∀ k, k < PLAINTEXT_LENGTH → d.1.out.getD k 0 = plaintext.getD k 0 <;>
    split_ifs with h1 h4 <;>
    simp only [Display_printf_passCnt, Display_printf_prov, kd_printByteArray_passCnt,
      kd_printByteArray_prov, hcmp, hbytes, ne_eq, Decidable.not_not] at h1 ⊢ <;>
    first
    | exact ⟨⟨fun h => absurd h (by omega), fun h => absurd h.1 h1⟩, Or.inr trivial⟩
    | exact ⟨⟨fun h => absurd h (by omega), fun h => absurd h.2.1 h4⟩, Or.inr trivial⟩
    | (rw [if_pos hall]; exact ⟨⟨fun _ => ⟨h1, h4, hall⟩, fun _ => rfl⟩, Or.inl rfl⟩)
    | (rw [if_neg hall]
       exact ⟨⟨fun h => absurd h (by omega), fun h => absurd h.2.2 hall⟩, Or.inr rfl⟩)

end psaKeyDerivation

/-- C20 (amended): the arrays `ciphertext` and `sharedSecret` are, after the call,
the zeroed array overwritten with the bytes the provider wrote; when
`psa_aead_encrypt` or `psa_raw_key_agreement` writes no byte, the array is
still all zero and the case is not counted, whatever status and length were
reported. In `derivationThread` the decrypt input is read from the zeroed
`ciphertext` overwritten by the encrypt output, and a `psa_cipher_decrypt` that
writes no byte leaves `decryptedPlaintext` all zero: the derived key is not
counted, and with a provider whose decrypt never writes output `passCnt` stays
0 and LED1 off. The answers are those of the provider's `psa_aead_encrypt` and
`psa_raw_key_agreement`. The bytes `psa_cipher_encrypt` wrote are compared with
nothing: the round trip counts the derived key exactly when `psa_cipher_encrypt`
reported the length 16, `psa_cipher_decrypt` returned `PSA_SUCCESS`, and the 16
bytes `psa_cipher_decrypt` wrote are the plaintext, so a `psa_cipher_encrypt`
that writes no byte is counted whenever the decrypt then answers the plaintext. -/
theorem silent_output_is_not_counted {σ : Type} (c : HsmValues) (P : Provider σ) (s : σ)
    (i : Nat) (key : psa_key_id_t) (w : World σ) :
    ((psaAeadEncrypt.encrypted c P s i).1.2 =
        writeAt (zeroed psaAeadEncrypt.sizeof_ciphertext) 1
          ((psaAeadEncrypt.encrypted c P s i).1.1.out.take psaAeadEncrypt.sizeof_ciphertext) ∧
      ((psaAeadEncrypt.encrypted c P s i).1.1.out = [] →
        (psaAeadEncrypt.encrypted c P s i).1.2 = zeroed psaAeadEncrypt.sizeof_ciphertext ∧
        ¬ psaAeadEncrypt.countedAsPassed c P s i ∧
        (psaAeadEncrypt.before c P s (i + 1)).passCnt ≤ (psaAeadEncrypt.before c P s i).passCnt ∧
        (i < psaAeadEncrypt.lifetimeCnt → (psaAeadEncrypt.encryptThread c P s).led1 = false))) ∧
    ((psaRawKeyAgreement.agreed c P s i).1.2 =
        writeAt (zeroed psaRawKeyAgreement.sizeof_sharedSecret) 0
          ((psaRawKeyAgreement.agreed c P s i).1.1.out.take
            psaRawKeyAgreement.sizeof_sharedSecret) ∧
      ((psaRawKeyAgreement.agreed c P s i).1.1.out = [] →
        (psaRawKeyAgreement.agreed c P s i).1.2 = zeroed psaRawKeyAgreement.sizeof_sharedSecret ∧
        (psaRawKeyAgreement.before c P s (i + 1)).passCnt =
          (psaRawKeyAgreement.before c P s i).passCnt ∧
        (i < psaRawKeyAgreement.lifetimeCnt →
          (psaRawKeyAgreement.keyAgreementThread c P s).led1 = false))) ∧
    ((P.psa_cipher_decrypt key PSA_ALG_ECB_NO_PADDING
        (readBytes
          (writeAt (zeroed psaKeyDerivation.PLAINTEXT_LENGTH) 0
            ((P.psa_cipher_encrypt key PSA_ALG_ECB_NO_PADDING
              (readBytes psaKeyDerivation.plaintext 0 psaKeyDerivation.PLAINTEXT_LENGTH)
              psaKeyDerivation.PLAINTEXT_LENGTH w.prov).1.out.take
              psaKeyDerivation.PLAINTEXT_LENGTH))
          0
          (P.psa_cipher_encrypt key PSA_ALG_ECB_NO_PADDING
            (readBytes psaKeyDerivation.plaintext 0 psaKeyDerivation.PLAINTEXT_LENGTH)
            psaKeyDerivation.PLAINTEXT_LENGTH w.prov).1.length)
        psaKeyDerivation.PLAINTEXT_LENGTH
        (P.psa_cipher_encrypt key PSA_ALG_ECB_NO_PADDING
          (readBytes psaKeyDerivation.plaintext 0 psaKeyDerivation.PLAINTEXT_LENGTH)
          psaKeyDerivation.PLAINTEXT_LENGTH w.prov).2).1.out = [] →
      (psaKeyDerivation.derivationThread_roundTrip P key w).1.passCnt = w.passCnt) ∧
    ((∀ k a inp sz st, (P.psa_cipher_decrypt k a inp sz st).1.out = []) →
      (psaKeyDerivation.derivationThread c P s).passCnt = 0 ∧
      (psaKeyDerivation.derivationThread c P s).led1 = false) ∧
    ((psaAeadEncrypt.encrypted c P s i).1.1 =
        (P.psa_aead_encrypt (psaAeadEncrypt.imported c P s i).1.2 psaAeadEncrypt.testVector.alg
          (readBytes psaAeadEncrypt.testVector.nonce 0 psaAeadEncrypt.testVector.nonceLength)
          (readBytes psaAeadEncrypt.testVector.aad 0 psaAeadEncrypt.testVector.aadLength)
          (readBytes psaAeadEncrypt.testVector.plaintext 0
            psaAeadEncrypt.testVector.plaintextLength)
          psaAeadEncrypt.sizeof_ciphertext
          (P.psa_get_key_attributes (psaAeadEncrypt.imported c P s i).1.2
            (psaAeadEncrypt.imported c P s i).2.prov).2).1 ∧
      (psaRawKeyAgreement.agreed c P s i).1.1 =
        (P.psa_raw_key_agreement PSA_ALG_ECDH (psaRawKeyAgreement.imported c P s i).1.2
          (readBytes psaRawKeyAgreement.testVector.peerPublicKey 0
            psaRawKeyAgreement.peerKeyLength)
          psaRawKeyAgreement.sizeof_sharedSecret
          (P.psa_get_key_attributes (psaRawKeyAgreement.imported c P s i).1.2
            (psaRawKeyAgreement.imported c P s i).2.prov).2).1) ∧
    ((psaKeyDerivation.derivationThread_roundTrip P key w).1.passCnt = w.passCnt + 1 ↔
      ((P.psa_cipher_encrypt key PSA_ALG_ECB_NO_PADDING
          (readBytes psaKeyDerivation.plaintext 0 psaKeyDerivation.PLAINTEXT_LENGTH) psaKeyDerivation.PLAINTEXT_LENGTH w.prov).1.length
          = psaKeyDerivation.PLAINTEXT_LENGTH ∧
        (P.psa_cipher_decrypt key PSA_ALG_ECB_NO_PADDING
          (readBytes
            (writeAt (zeroed psaKeyDerivation.PLAINTEXT_LENGTH) 0
              ((P.psa_cipher_encrypt key PSA_ALG_ECB_NO_PADDING
                (readBytes psaKeyDerivation.plaintext 0 psaKeyDerivation.PLAINTEXT_LENGTH) psaKeyDerivation.PLAINTEXT_LENGTH w.prov).1.out.take
                psaKeyDerivation.PLAINTEXT_LENGTH))
            0
            (P.psa_cipher_encrypt key PSA_ALG_ECB_NO_PADDING
              (readBytes psaKeyDerivation.plaintext 0 psaKeyDerivation.PLAINTEXT_LENGTH) psaKeyDerivation.PLAINTEXT_LENGTH w.prov).1.length)
          psaKeyDerivation.PLAINTEXT_LENGTH
          (P.psa_cipher_encrypt key PSA_ALG_ECB_NO_PADDING
            (readBytes psaKeyDerivation.plaintext 0 psaKeyDerivation.PLAINTEXT_LENGTH) psaKeyDerivation.PLAINTEXT_LENGTH w.prov).2).1.status
          = PSA_SUCCESS ∧
        ∀ k, k < psaKeyDerivation.PLAINTEXT_LENGTH →
          (P.psa_cipher_decrypt key PSA_ALG_ECB_NO_PADDING
            (readBytes
              (writeAt (zeroed psaKeyDerivation.PLAINTEXT_LENGTH) 0
                ((P.psa_cipher_encrypt key PSA_ALG_ECB_NO_PADDING
                  (readBytes psaKeyDerivation.plaintext 0 psaKeyDerivation.PLAINTEXT_LENGTH) psaKeyDerivation.PLAINTEXT_LENGTH w.prov).1.out.take
                  psaKeyDerivation.PLAINTEXT_LENGTH))
              0
              (P.psa_cipher_encrypt key PSA_ALG_ECB_NO_PADDING
                (readBytes psaKeyDerivation.plaintext 0 psaKeyDerivation.PLAINTEXT_LENGTH) psaKeyDerivation.PLAINTEXT_LENGTH w.prov).1.length)
            psaKeyDerivation.PLAINTEXT_LENGTH
            (P.psa_cipher_encrypt key PSA_ALG_ECB_NO_PADDING
              (readBytes psaKeyDerivation.plaintext 0 psaKeyDerivation.PLAINTEXT_LENGTH) psaKeyDerivation.PLAINTEXT_LENGTH w.prov).2).1.out.getD k 0
            = psaKeyDerivation.plaintext.getD k 0)) := by
  refine ⟨⟨rfl, fun h => ?_⟩, ⟨rfl, fun h => ?_⟩,
    fun h => psaKeyDerivation.derivationThread_roundTrip_silent P key w h,
    fun hD => psaKeyDerivation.derivationThread_of_silent c P s hD,
    ⟨(psaAeadEncrypt.encryptThread_encrypt_answer P _ _).1,
      (psaRawKeyAgreement.keyAgreementThread_agree_answer P _ _).1⟩,
    (psaKeyDerivation.derivationThread_roundTrip_counted_iff P key w).1⟩
  · obtain ⟨h1, h2, h3⟩ := psaAeadEncrypt.encrypted_silent c P s i h
    refine ⟨h1, h2, h3, fun hi => ?_⟩
    cases hled : (psaAeadEncrypt.encryptThread c P s).led1 with
    | false => rfl
    | true =>
      have hall := ((psaAeadEncrypt.aead_before_passCnt c P s _).2.mp
        ((psaAeadEncrypt.encryptThread_led1 c P s).mp hled)) i hi
      have hz : psaAeadEncrypt.ciphertextMismatch (psaAeadEncrypt.encrypted c P s i).1.2 ≠ none := by
        rw [h1]; decide
      exact absurd hall.2.1.2.1 hz
  · obtain ⟨h1, h2⟩ := psaRawKeyAgreement.agreed_silent c P s i h
    refine ⟨h1, h2, fun hi => ?_⟩
    cases hled : (psaRawKeyAgreement.keyAgreementThread c P s).led1 with
    | false => rfl
    | true =>
      have hall := ((psaRawKeyAgreement.ka_before_passCnt c P s _).2.mp
        ((psaRawKeyAgreement.keyAgreementThread_led1 c P s).mp hled)) i hi
      have hz : psaRawKeyAgreement.sharedSecretMismatch
          (psaRawKeyAgreement.agreed c P s i).1.2 ≠ none := by
        rw [h1]; decide
      exact absurd hall.2.2.2 hz

set_option maxRecDepth 100000 in
/-- C20: the provider that reports `PSA_SUCCESS` and the expected lengths but
writes no output byte satisfies the conditions above; with it no case of the
three threads is counted and LED1 stays off. -/
theorem silent_output_is_not_counted_witness :
    (psaAeadEncrypt.encrypted sampleHsm silentProvider KeyStore.empty 0).1.1
      = { status := PSA_SUCCESS, out := [], length := 28 } ∧
    (psaRawKeyAgreement.agreed sampleHsm silentProvider KeyStore.empty 0).1.1
      = { status := PSA_SUCCESS, out := [], length := 32 } ∧
    (psaAeadEncrypt.encryptThread sampleHsm silentProvider KeyStore.empty).led1 = false ∧
    (psaRawKeyAgreement.keyAgreementThread sampleHsm silentProvider KeyStore.empty).led1 = false ∧
    (psaKeyDerivation.derivationThread sampleHsm silentProvider KeyStore.empty).passCnt = 0 ∧
    (psaKeyDerivation.derivationThread sampleHsm silentProvider KeyStore.empty).led1 = false ∧
    cipherEncryptStatuses
      (psaKeyDerivation.derivationThread sampleHsm silentProvider KeyStore.empty).calls
      = List.replicate 15 PSA_SUCCESS := by
  have h := silent_output_is_not_counted sampleHsm silentProvider KeyStore.empty 0 0
    (World.start KeyStore.empty)
  exact ⟨by decide, by decide, (h.1.2 (by decide)).2.2.2 (by decide),
    (h.2.1.2 (by decide)).2.2 (by decide), (h.2.2.2.1 (fun _ _ _ _ _ => rfl)).1,
    (h.2.2.2.1 (fun _ _ _ _ _ => rfl)).2, by decide⟩

set_option maxRecDepth 100000 in
/-- C20 (as stated, refuted): with a provider whose `psa_cipher_encrypt` returns
`PSA_SUCCESS` and the expected length 16 but writes no byte, and whose
`psa_cipher_decrypt` answers the plaintext, every one of the 15 derived keys of
`derivationThread` is counted as a pass and LED1 is turned on. -/
theorem silent_cipher_encrypt_is_counted :
    cipherEncryptAnswers
        (psaKeyDerivation.derivationThread sampleHsm silentEncryptProvider KeyStore.empty).calls
      = List.replicate 15 { status := PSA_SUCCESS, out := [], length := 16 } ∧
    psaKeyDerivation.lifetimeCnt * psaKeyDerivation.KEY_DERIVATION_LOOP_CNT = 15 ∧
    (psaKeyDerivation.derivationThread sampleHsm silentEncryptProvider KeyStore.empty).passCnt
      = 15 ∧
    (psaKeyDerivation.derivationThread sampleHsm silentEncryptProvider KeyStore.empty).led1
      = true := by
  decide

end Psa

namespace Psa

namespace psaSignVerify
variable {σ : Type}

/-- Replacing the exported bytes does not change the import step of `signMessage`. -/
theorem signMessage_import_withExportedBytes (P : Provider σ) (bytes : List Nat) (length : Nat)
    (vecs : List ecdsaTestCase) (p l j : Nat) (w : World σ) :
    signMessage_import (withExportedBytes P bytes length) vecs p l j w =
      signMessage_import P vecs p l j w := rfl

/-- Replacing the exported bytes does not change `verifyMessage`. -/
theorem verifyMessage_withExportedBytes (P : Provider σ) (bytes : List Nat) (length : Nat)
    (j : Nat) (vecs : List ecdsaTestCase) (sig : List Nat) (len : Nat)
    (lt : psa_key_lifetime_t) (w : World σ) :
    verifyMessage (withExportedBytes P bytes length) j vecs sig len lt w =
      verifyMessage P j vecs sig len lt w := rfl

/-- The function `verifyMessage` does not read the log: blanking the exported bytes
in the log before or after it gives the same world. -/
theorem verifyMessage_exportBlanked (P : Provider σ) (j : Nat) (vecs : List ecdsaTestCase)
    (sig : List Nat) (len : Nat) (lt : psa_key_lifetime_t) (w : World σ) :
    (verifyMessage P j vecs sig len lt w).exportBlanked =
      verifyMessage P j vecs sig len lt w.exportBlanked := by
  unfold verifyMessage verifyMessage_import setupKeyID
  simp only [psa_import_key, psa_destroy_key, psa_verify_message, Display_printf,
    World.exportBlanked]
  split_ifs <;> simp [Call.exportBlanked]

/-- The function `signMessage` does not use the bytes nor the length that
`psa_export_public_key` answered: with a provider that answers other bytes and
another length there (same status, same next state), `signMessage` ends in the
same world, up to the export answer recorded in the log. -/
theorem signMessage_exportBlanked (P : Provider σ) (bytes : List Nat) (length : Nat)
    (vecs : List ecdsaTestCase) (p l j : Nat) (w : World σ) :
    (signMessage (withExportedBytes P bytes length) vecs p l j w).exportBlanked =
      (signMessage P vecs p l j w).exportBlanked := by
  unfold signMessage
  simp only [signMessage_import_withExportedBytes, verifyMessage_withExportedBytes]
  simp only [psa_export_public_key, psa_sign_message, psa_destroy_key, withExportedBytes,
    Display_printf, printByteArray]
  split_ifs <;>
    first
    | contradiction
    | rfl
    | (simp only [verifyMessage_exportBlanked]
       simp [World.exportBlanked, Call.exportBlanked])
    | simp [World.exportBlanked, Call.exportBlanked]

/-- After a successful import `signMessage` calls `psa_export_public_key` on the
imported private key with the size `SIGNATURE_SIZE`; the answer logged is the
provider's, and every later call of `signMessage` comes after it. -/
theorem signMessage_export_logged (P : Provider σ) (vecs : List ecdsaTestCase) (p l j : Nat)
    (w : World σ) (h : (signMessage_import P vecs p l j w).1.1 = PSA_SUCCESS) :
    Continues
      ((signMessage_import P vecs p l j w).2.calls ++
        [Call.export_public_key (signMessage_import P vecs p l j w).1.2 SIGNATURE_SIZE
          (P.psa_export_public_key (signMessage_import P vecs p l j w).1.2 SIGNATURE_SIZE
            (signMessage_import P vecs p l j w).2.prov).1])
      (signMessage P vecs p l j w).calls := by
  have hx : Continues
      ((signMessage_import P vecs p l j w).2.calls ++
        [Call.export_public_key (signMessage_import P vecs p l j w).1.2 SIGNATURE_SIZE
          (P.psa_export_public_key (signMessage_import P vecs p l j w).1.2 SIGNATURE_SIZE
            (signMessage_import P vecs p l j w).2.prov).1])
      (psa_export_public_key P (signMessage_import P vecs p l j w).1.2 SIGNATURE_SIZE
        (signMessage_import P vecs p l j w).2).2.calls := ⟨[], by simp [psa_export_public_key]⟩
  refine hx.trans ?_
  unfold signMessage
  simp only [h, ne_eq, not_true_eq_false, if_false]
  split_ifs <;>
    first
    | exact Continues.refl _
    | (refine Continues.trans ?_ (verifyMessage_continues P _ _ _ _ _ _)
       simp only [psa_destroy_key, psa_sign_message, Display_printf_calls,
         sv_printByteArray_calls, List.append_assoc]
       exact ⟨_, rfl⟩)
    | (simp only [psa_destroy_key, psa_sign_message, Display_printf_calls,
         sv_printByteArray_calls, List.append_assoc]
       exact ⟨_, rfl⟩)

/-- When the `psa_export_public_key` call of `signMessage` does not return
`PSA_SUCCESS`, `signMessage` returns after it: no signing, verification or
destroy call follows, and nothing is counted. -/
theorem signMessage_stops_at_failed_export (P : Provider σ) (vecs : List ecdsaTestCase)
    (p l j : Nat) (w : World σ) (h : (signMessage_import P vecs p l j w).1.1 = PSA_SUCCESS)
    (hx : (P.psa_export_public_key (signMessage_import P vecs p l j w).1.2 SIGNATURE_SIZE
      (signMessage_import P vecs p l j w).2.prov).1.status ≠ PSA_SUCCESS) :
    (signMessage P vecs p l j w).calls =
      (signMessage_import P vecs p l j w).2.calls ++
        [Call.export_public_key (signMessage_import P vecs p l j w).1.2 SIGNATURE_SIZE
          (P.psa_export_public_key (signMessage_import P vecs p l j w).1.2 SIGNATURE_SIZE
            (signMessage_import P vecs p l j w).2.prov).1] ∧
    (signMessage P vecs p l j w).passCnt = w.passCnt := by
  unfold signMessage
  simp only [h, ne_eq, not_true_eq_false, if_false]
  have hx2 : (psa_export_public_key P (signMessage_import P vecs p l j w).1.2 SIGNATURE_SIZE
      (signMessage_import P vecs p l j w).2).1.status ≠ PSA_SUCCESS := hx
  simp only [hx2, ne_eq, not_false_eq_true, if_true]
  exact ⟨rfl, signMessage_import_passCnt P vecs p l j w⟩

/-- Blanking the exported bytes in a log does not change the public keys the log
shows as imported. -/
theorem importedPublicKeys_exportBlanked (log : List Call) :
    importedPublicKeys (log.map Call.exportBlanked) = importedPublicKeys log := by
  induction log with
  | nil => rfl
  | cons x xs ih =>
    have hc : ∀ (y : Call) (ys : List Call),
        importedPublicKeys (y :: ys) = importedPublicKeys [y] ++ importedPublicKeys ys := by
      intro y ys
      unfold importedPublicKeys
      rw [← List.filterMap_append]
      rfl
    rw [List.map_cons, hc, ih, hc x xs]
    cases x <;> rfl

end psaSignVerify

/-- C6 (amended): in both modes the public key that `verifyMessage` and
`verifyHash` import is read from the test vector: the first
`PSA_EXPORT_KEY_OUTPUT_SIZE` bytes (65 for the shipped vector) of
`testVectors[i].publicKey`, for any provider and whatever
`psa_export_public_key` answered. The verify call, when made, uses the key ID
returned by that import, and `signHash` adds no `psa_export_public_key` call.
In `signMessage` a successful import is followed by the `psa_export_public_key`
call on the imported private key; when its status is not `PSA_SUCCESS`,
`signMessage` returns there, with nothing signed, verified or counted; and the
bytes and the length it answered are not used: with a provider answering any
other bytes and length there, `signMessage` ends in the same world up to the
export answer recorded in the log, with the same pass count, display lines and
imported public keys. -/
theorem verify_imports_test_vector_public_key {σ : Type} (P : Provider σ)
    (vecs : List psaSignVerify.ecdsaTestCase) (i : Nat) (sig : List Nat) (len : Nat)
    (lt : psa_key_lifetime_t) (w : World σ) :
    (∃ pre attributes rest,
      (psaSignVerify.verifyMessage P i vecs sig len lt w).calls =
        w.calls ++ pre ++
          [Call.import_key attributes
            (readBytes (vecs.getD i default).publicKey 0
              (PSA_EXPORT_KEY_OUTPUT_SIZE
                (PSA_KEY_TYPE_ECC_PUBLIC_KEY (vecs.getD i default).curveFamily)
                (vecs.getD i default).keyBits))
            (psaSignVerify.verifyMessage_import P i vecs lt w).1.1
            (psaSignVerify.verifyMessage_import P i vecs lt w).1.2] ++ rest ∧
      attributes.usage = PSA_KEY_USAGE_VERIFY_MESSAGE ∧
      (pre = [] ∨ ∃ d, pre = [Call.destroy_key PSA_KEY_ID_USER_MIN d]) ∧
      (rest = [] ∨ ((psaSignVerify.verifyMessage_import P i vecs lt w).1.1 = PSA_SUCCESS ∧
        ∃ vs ds, rest =
          [Call.verify_message (psaSignVerify.verifyMessage_import P i vecs lt w).1.2
             (vecs.getD i default).alg
             (readBytes (vecs.getD i default).message 0 (vecs.getD i default).messageLength)
             (readBytes sig 0 len) vs,
           Call.destroy_key (psaSignVerify.verifyMessage_import P i vecs lt w).1.2 ds]))) ∧
    (∃ pre attributes rest,
      (psaSignVerify.verifyHash P i vecs sig len lt w).calls =
        w.calls ++ pre ++
          [Call.import_key attributes
            (readBytes (vecs.getD i default).publicKey 0
              (PSA_EXPORT_KEY_OUTPUT_SIZE
                (PSA_KEY_TYPE_ECC_PUBLIC_KEY (vecs.getD i default).curveFamily)
                (vecs.getD i default).keyBits))
            (psaSignVerify.verifyHash_import P i vecs lt w).1.1
            (psaSignVerify.verifyHash_import P i vecs lt w).1.2] ++ rest ∧
      attributes.usage = PSA_KEY_USAGE_VERIFY_HASH ∧
      (pre = [] ∨ ∃ d, pre = [Call.destroy_key PSA_KEY_ID_USER_MIN d]) ∧
      (rest = [] ∨ ((psaSignVerify.verifyHash_import P i vecs lt w).1.1 = PSA_SUCCESS ∧
        ∃ vs ds, rest =
          [Call.verify_hash (psaSignVerify.verifyHash_import P i vecs lt w).1.2
             (vecs.getD i default).alg
             (readBytes (vecs.getD i default).hash 0
               (PSA_HASH_LENGTH (PSA_ALG_SIGN_GET_HASH (vecs.getD i default).alg)))
             (readBytes sig 0 len) vs,
           Call.destroy_key (psaSignVerify.verifyHash_import P i vecs lt w).1.2 ds]))) ∧
    (∀ p l, exportedPublicKeys (psaSignVerify.signHash P vecs p l i w).calls =
      exportedPublicKeys w.calls) ∧
    PSA_EXPORT_KEY_OUTPUT_SIZE
      (PSA_KEY_TYPE_ECC_PUBLIC_KEY (psaSignVerify.signTestVectors.getD 0 default).curveFamily)
      (psaSignVerify.signTestVectors.getD 0 default).keyBits = 65 ∧
    (∀ p l, (psaSignVerify.signMessage_import P vecs p l i w).1.1 = PSA_SUCCESS →
      Continues
        ((psaSignVerify.signMessage_import P vecs p l i w).2.calls ++
          [Call.export_public_key (psaSignVerify.signMessage_import P vecs p l i w).1.2
            psaSignVerify.SIGNATURE_SIZE
            (P.psa_export_public_key (psaSignVerify.signMessage_import P vecs p l i w).1.2 psaSignVerify.SIGNATURE_SIZE
              (psaSignVerify.signMessage_import P vecs p l i w).2.prov).1])
        (psaSignVerify.signMessage P vecs p l i w).calls ∧
      ((P.psa_export_public_key (psaSignVerify.signMessage_import P vecs p l i w).1.2 psaSignVerify.SIGNATURE_SIZE
              (psaSignVerify.signMessage_import P vecs p l i w).2.prov).1.status ≠ PSA_SUCCESS →
        (psaSignVerify.signMessage P vecs p l i w).calls =
          (psaSignVerify.signMessage_import P vecs p l i w).2.calls ++
            [Call.export_public_key (psaSignVerify.signMessage_import P vecs p l i w).1.2
              psaSignVerify.SIGNATURE_SIZE
              (P.psa_export_public_key (psaSignVerify.signMessage_import P vecs p l i w).1.2 psaSignVerify.SIGNATURE_SIZE
              (psaSignVerify.signMessage_import P vecs p l i w).2.prov).1] ∧
        (psaSignVerify.signMessage P vecs p l i w).passCnt = w.passCnt)) ∧
    (∀ p l bytes length,
      (psaSignVerify.signMessage (withExportedBytes P bytes length) vecs p l i w).exportBlanked =
        (psaSignVerify.signMessage P vecs p l i w).exportBlanked ∧
      (psaSignVerify.signMessage (withExportedBytes P bytes length) vecs p l i w).prov =
        (psaSignVerify.signMessage P vecs p l i w).prov ∧
      (psaSignVerify.signMessage (withExportedBytes P bytes length) vecs p l i w).passCnt =
        (psaSignVerify.signMessage P vecs p l i w).passCnt ∧
      (psaSignVerify.signMessage (withExportedBytes P bytes length) vecs p l i w).display =
        (psaSignVerify.signMessage P vecs p l i w).display ∧
      (psaSignVerify.signMessage (withExportedBytes P bytes length) vecs p l i w).sign_output =
        (psaSignVerify.signMessage P vecs p l i w).sign_output ∧
      importedPublicKeys
          (psaSignVerify.signMessage (withExportedBytes P bytes length) vecs p l i w).calls =
        importedPublicKeys (psaSignVerify.signMessage P vecs p l i w).calls) := by
  refine ⟨?_, ?_, fun p l => psaSignVerify.signHash_no_export P vecs p l i w, by decide,
    fun p l h => ⟨psaSignVerify.signMessage_export_logged P vecs p l i w h,
      fun hx => psaSignVerify.signMessage_stops_at_failed_export P vecs p l i w h hx⟩,
    fun p l bytes length => ?_⟩
  rotate_left 2
  · have hb := psaSignVerify.signMessage_exportBlanked P bytes length vecs p l i w
    have h1 := congrArg World.prov hb
    have h2 := congrArg World.passCnt hb
    have h3 := congrArg World.display hb
    have h4 := congrArg World.sign_output hb
    refine ⟨hb, h1, h2, h3, h4, ?_⟩
    have hcalls := congrArg World.calls hb
    have hm : ∀ (x : World σ), x.exportBlanked.calls = x.calls.map Call.exportBlanked :=
      fun _ => rfl
    rw [hm, hm] at hcalls
    rw [← psaSignVerify.importedPublicKeys_exportBlanked, hcalls,
      psaSignVerify.importedPublicKeys_exportBlanked]
  · obtain ⟨rest, hc, hrest⟩ := psaSignVerify.verifyMessage_calls P i vecs sig len lt w
    obtain ⟨pre, a, hi, hu, hpre⟩ := psaSignVerify.verifyMessage_import_calls P i vecs lt w
    exact ⟨pre, a, rest, by rw [hc, hi], hu, hpre, hrest⟩
  · obtain ⟨rest, hc, hrest⟩ := psaSignVerify.verifyHash_calls P i vecs sig len lt w
    obtain ⟨pre, a, hi, hu, hpre⟩ := psaSignVerify.verifyHash_import_calls P i vecs lt w
    exact ⟨pre, a, rest, by rw [hc, hi], hu, hpre, hrest⟩

end Psa
